import Mathlib

/-!
# media-ctl: the topology graph, the link configurator and the descriptors

A shallow embedding of `src/src/media.c` (with the structures of
`src/src/media.h`), of the descriptor parsers and the links and formats setup of
`src/src/main.c`, and of the sub-device calls of `src/src/subdev.c`.

Conventions of the embedding.

* A C pointer into one of the graph's arrays is the pair of the position of the
  owning entity in `media->entities` and the position inside that entity's
  array: `PadRef` for `struct media_pad *`, `LinkRef` for `struct media_link *`.
  A `struct media_entity *` is the position of the entity in `media->entities`.
* `entity->links` is the list of the `num_links` slots in use; `max_links` is
  kept as a field.  `media->entities_count` is the length of `entities`.
* The block that `entity->links` points to has an identity, `links_block`; a
  `LinkRef` carries the identity of the block it points into, so that a pointer
  into a block that `realloc` has released designates no stored object.
* Reading through a reference that designates no stored object yields the zero
  object and a write through it is dropped; statements that depend on such a
  reference carry the hypothesis that it designates a stored object.
* `__u32` values are natural numbers; the only place where the width matters is
  `~MEDIA_LNK_FL_ENABLED`, which is the 32-bit word `0xFFFFFFFE`.
* The kernel is an explicit parameter: `Device` answers `MEDIA_IOC_SETUP_LINK`
  as a function of the requests issued before and of the current request, with
  the return value of `ioctl`, the flags it confirms and the `errno` of a
  failure, and the requests issued are recorded in the `trace` of the `World`.  `Env` holds
  what enumeration receives from outside: the answers to `open`,
  `MEDIA_IOC_ENUM_ENTITIES` and `MEDIA_IOC_ENUM_LINKS`, the identity of the
  blocks `realloc` returns and the content of fresh storage.  `malloc` always
  succeeds, and `realloc` is that of glibc: called with the size 0 it releases
  the block and returns NULL, called with any other size it succeeds.  The NULL
  pointer designates no stored object: `media_enum_links` does not test the
  pointer that `media_entity_add_link` returns, and a store through NULL, like
  a store into a released block, has no defined behaviour in C and is dropped
  here.  The device-node name lookup of
  `media_enum_entities`, which does not touch the graph, is left out.  An entry of `links.pads` or
  `links.links` that the device did not fill in reads as the zero descriptor.
* A C string is the list of its characters before the terminating NUL, and a
  pointer into a string is the rest of the string from that position on; `cur`
  reads the character pointed at, the NUL at the end.  `isspace`, `isalnum`,
  `strncmp` and `strtoul` (base 10, 64-bit `unsigned long`) are those of the C
  library in the C locale.  A function that stores an end position through
  `endp` returns it along with its result.
* The loops of `setup_links` and `setup_formats` run on a bound derived from
  the length of the text and give `none` when they reach it; the theorems about
  them state the result `some`.
* The device nodes of the sub-devices are an explicit parameter, `SubDevice`,
  which answers `open` and the format, crop and frame interval ioctls; the
  calls made are recorded in the `calls` of the `FWorld`.
* `main` takes what it receives from outside as parameters: the return value
  of `parse_cmdline` with the options it has filled in, the enumeration data,
  the devices and the lines of the standard input.
* Output on the terminal (`printf`) is not part of the state.
-/

namespace MediaCtl

/-! ## Constants of `<linux/media.h>` and `<errno.h>` -/

/-- Modelled from the spec: the ENABLED bit of a link flags word; the header
`<linux/media.h>` that defines `MEDIA_LNK_FL_ENABLED` is not part of the
sources, the value `1 << 0` is the one of that header. -/
def MEDIA_LNK_FL_ENABLED : Nat := 1

/-- Modelled from the spec: the IMMUTABLE bit of a link flags word; the header
`<linux/media.h>` that defines `MEDIA_LNK_FL_IMMUTABLE` is not part of the
sources, the value `1 << 1` is the one of that header. -/
def MEDIA_LNK_FL_IMMUTABLE : Nat := 2

/-- Modelled from the spec: the sink-capable bit of a pad flags word
(`MEDIA_PAD_FL_SINK` of `<linux/media.h>`, `1 << 0`). -/
def MEDIA_PAD_FL_SINK : Nat := 1

/-- Modelled from the spec: the source-capable bit of a pad flags word
(`MEDIA_PAD_FL_SOURCE` of `<linux/media.h>`, `1 << 1`). -/
def MEDIA_PAD_FL_SOURCE : Nat := 2

/-- Modelled from the spec: the "next greater id" request bit of entity
enumeration (`MEDIA_ENT_ID_FLAG_NEXT` of `<linux/media.h>`, `1 << 31`). -/
def MEDIA_ENT_ID_FLAG_NEXT : Nat := 2147483648

/-- Modelled from the spec: the errno value `EINVAL` of `<errno.h>`. -/
def EINVAL : Int := 22

/-- The 32-bit complement `~MEDIA_LNK_FL_ENABLED` as it is used on a `__u32`. -/
def NOT_MEDIA_LNK_FL_ENABLED : Nat := 4294967295 - MEDIA_LNK_FL_ENABLED

/-! ## Data model (`media.h`) -/

/-- A `struct media_pad *`: entity position and position in `entity->pads`. -/
structure PadRef where
  ent : Nat := 0
  pos : Nat := 0
deriving DecidableEq, Repr, Inhabited

/-- A `struct media_link *`: entity position, identity of the block of links it
points into and position in that block. -/
structure LinkRef where
  ent : Nat := 0
  block : Nat := 0
  pos : Nat := 0
deriving DecidableEq, Repr, Inhabited

/-- The `struct media_pad` of `media.h`; `entity` is the back pointer. -/
structure media_pad where
  entity : Nat := 0
  index : Nat := 0
  flags : Nat := 0
deriving DecidableEq, Repr, Inhabited

/-- The `struct media_link` of `media.h`. -/
structure media_link where
  source : PadRef := {}
  sink : PadRef := {}
  twin : LinkRef := {}
  flags : Nat := 0
deriving DecidableEq, Repr, Inhabited

/-- The `struct media_pad_desc` of the kernel interface: `entity` is an id. -/
structure media_pad_desc where
  entity : Nat := 0
  index : Nat := 0
  flags : Nat := 0
deriving DecidableEq, Repr, Inhabited

/-- The `struct media_link_desc` of the kernel interface. -/
structure media_link_desc where
  source : media_pad_desc := {}
  sink : media_pad_desc := {}
  flags : Nat := 0
deriving DecidableEq, Repr, Inhabited

/-- The fields of `struct media_entity_desc` that the program reads. -/
structure media_entity_desc where
  id : Nat := 0
  name : List Char := []
  type : Nat := 0
  pads : Nat := 0
  links : Nat := 0
deriving DecidableEq, Repr, Inhabited

/-- The `struct media_entity` of `media.h`; `num_links` is `links.length` and
`links_block` is the identity of the block `links` points to. -/
structure media_entity where
  info : media_entity_desc := {}
  pads : List media_pad := []
  links : List media_link := []
  links_block : Nat := 0
  max_links : Nat := 0
  fd : Int := -1
deriving DecidableEq, Repr, Inhabited

/-- The `struct media_device` of `media.h`; `entities_count` is
`entities.length`. -/
structure media_device where
  fd : Int := 0
  entities : List media_entity := []
deriving DecidableEq, Repr, Inhabited

/-- The value of `entity->num_links`. -/
def media_entity.num_links (e : media_entity) : Nat := e.links.length

/-- The value of `media->entities_count`. -/
def media_device.entities_count (m : media_device) : Nat := m.entities.length

/-- The entity `media->entities[e]`. -/
def entityAt (m : media_device) (e : Nat) : media_entity :=
  (m.entities[e]?).getD default

/-- The pad `*r`. -/
def padAt (m : media_device) (r : PadRef) : media_pad :=
  ((entityAt m r.ent).pads[r.pos]?).getD default

/-- The link `*r`. -/
def linkAt (m : media_device) (r : LinkRef) : media_link :=
  if r.block = (entityAt m r.ent).links_block then
    ((entityAt m r.ent).links[r.pos]?).getD default
  else default

/-- The pointer `&media->entities[e].links[j]`. -/
def linkRef (m : media_device) (e j : Nat) : LinkRef :=
  { ent := e, block := (entityAt m e).links_block, pos := j }

/-- A store into the link `*r`: the link becomes `g` of what it was. -/
def modifyLink (m : media_device) (r : LinkRef) (g : media_link → media_link) :
    media_device :=
  let e := entityAt m r.ent
  if r.block = e.links_block then
    { m with entities :=
        m.entities.set r.ent { e with links := e.links.set r.pos (g (linkAt m r)) } }
  else m

/-- The assignment `r->flags = f`. -/
def setLinkFlags (m : media_device) (r : LinkRef) (f : Nat) : media_device :=
  modifyLink m r (fun l => { l with flags := f })

/-- The reference `r` designates a link stored in the graph. -/
def ValidLink (m : media_device) (r : LinkRef) : Prop :=
  r.ent < m.entities.length ∧ r.block = (entityAt m r.ent).links_block ∧
    r.pos < (entityAt m r.ent).links.length

/-- The reference `r` designates a pad stored in the graph. -/
def ValidPad (m : media_device) (r : PadRef) : Prop :=
  r.ent < m.entities.length ∧ r.pos < (entityAt m r.ent).pads.length

instance (m : media_device) (r : LinkRef) : Decidable (ValidLink m r) := by
  unfold ValidLink; infer_instance

instance (m : media_device) (r : PadRef) : Decidable (ValidPad m r) := by
  unfold ValidPad; infer_instance

/-- The graphs `m` and `m'` differ at most in the flags of their links. -/
def SameShape (m m' : media_device) : Prop :=
  m'.fd = m.fd ∧
  m'.entities.length = m.entities.length ∧
  (∀ e, (entityAt m' e).info = (entityAt m e).info ∧
        (entityAt m' e).pads = (entityAt m e).pads ∧
        (entityAt m' e).max_links = (entityAt m e).max_links ∧
        (entityAt m' e).fd = (entityAt m e).fd ∧
        (entityAt m' e).links_block = (entityAt m e).links_block ∧
        (entityAt m' e).links.length = (entityAt m e).links.length) ∧
  (∀ r, (linkAt m' r).source = (linkAt m r).source ∧
        (linkAt m' r).sink = (linkAt m r).sink ∧
        (linkAt m' r).twin = (linkAt m r).twin)

/-- Twin symmetry: the twin of every stored link `L` is a stored link whose
twin is `L` and whose flags are those of `L`. -/
def TwinSymmetric (m : media_device) : Prop :=
  ∀ L, ValidLink m L →
    ValidLink m (linkAt m L).twin ∧ (linkAt m (linkAt m L).twin).twin = L ∧
      (linkAt m L).flags = (linkAt m (linkAt m L).twin).flags

/-- All references to the links stored in the graph. -/
def allLinkRefs (m : media_device) : List LinkRef :=
  (List.range m.entities.length).flatMap
    (fun e => (List.range (entityAt m e).links.length).map (fun j => linkRef m e j))

/-- The check of twin symmetry over the stored links. -/
def twinSymmetricB (m : media_device) : Bool :=
  (allLinkRefs m).all (fun L =>
    decide (ValidLink m (linkAt m L).twin) && decide ((linkAt m (linkAt m L).twin).twin = L) &&
      decide ((linkAt m L).flags = (linkAt m (linkAt m L).twin).flags))

/-! ## The device and the world -/

/-- What `ioctl(fd, MEDIA_IOC_SETUP_LINK, &ulink)` gives back: the return value,
the content of `ulink.flags` after the call, and the value that `errno` has
after a call that has failed. -/
structure ioctl_result where
  ret : Int := 0
  flags : Nat := 0
  errno : Nat := 0
deriving DecidableEq, Repr, Inhabited

/-- The link-update behaviour of a device: the answer to a request, given the
requests issued before it. -/
abbrev Device := List media_link_desc → media_link_desc → ioctl_result

/-- The graph together with the link-update requests issued so far. -/
structure World where
  media : media_device := {}
  trace : List media_link_desc := []
deriving DecidableEq, Repr, Inhabited

/-! ## `media_setup_link` -/

/-- The loop condition of `media_setup_link`: the link `l` joins the pads
`source` and `sink` (same entity and same index on both ends). -/
def link_matches (m : media_device) (source sink : PadRef) (l : media_link) : Bool :=
  decide ((padAt m l.source).entity = (padAt m source).entity) &&
  decide ((padAt m l.source).index = (padAt m source).index) &&
  decide ((padAt m l.sink).entity = (padAt m sink).entity) &&
  decide ((padAt m l.sink).index = (padAt m sink).index)

/-- The value of `i` when the search loop of `media_setup_link` ends: the
position of the first matching link of `source->entity`, or `num_links`. -/
def find_link_index (m : media_device) (source sink : PadRef) : Nat :=
  (entityAt m (padAt m source).entity).links.findIdx (link_matches m source sink)

/-- The link `&source->entity->links[i]` that the search loop ends on. -/
def found_link (m : media_device) (source sink : PadRef) : LinkRef :=
  linkRef m (padAt m source).entity (find_link_index m source sink)

/-- The request `ulink` that `media_setup_link` hands to the device. -/
def setup_link_request (m : media_device) (source sink : PadRef) (flags : Nat) :
    media_link_desc :=
  { source := { entity := (entityAt m (padAt m source).entity).info.id,
                index := (padAt m source).index,
                flags := MEDIA_PAD_FL_SOURCE },
    sink := { entity := (entityAt m (padAt m sink).entity).info.id,
              index := (padAt m sink).index,
              flags := MEDIA_PAD_FL_SINK },
    flags := flags ||| ((linkAt m (found_link m source sink)).flags &&& MEDIA_LNK_FL_IMMUTABLE) }

/-- The function `media_setup_link` of `media.c`: the return value and the
world after the call. -/
def media_setup_link (dev : Device) (w : World) (source sink : PadRef) (flags : Nat) :
    Int × World :=
  let m := w.media
  let i := find_link_index m source sink
  if i = (entityAt m (padAt m source).entity).num_links then
    (-EINVAL, w)
  else
    let link := found_link m source sink
    let ulink := setup_link_request m source sink flags
    let ans := dev w.trace ulink
    if ans.ret < 0 then
      (ans.ret, { w with trace := w.trace ++ [ulink] })
    else
      let m1 := setLinkFlags m link ans.flags
      let m2 := setLinkFlags m1 (linkAt m1 link).twin ans.flags
      (0, { media := m2, trace := w.trace ++ [ulink] })

/-- A sequence of `media_setup_link` calls on the pads `source` and `sink`, one
for each requested flags word of the list, in order. -/
def setup_link_calls (dev : Device) (source sink : PadRef) : List Nat → World → World
  | [], w => w
  | f :: fs, w => setup_link_calls dev source sink fs (media_setup_link dev w source sink f).2

/-- The entity and the index of a pad identify it: two stored pads with the same
`entity` and `index` fields are the same pad. -/
def PadsIdentified (m : media_device) : Prop :=
  ∀ p q, ValidPad m p → ValidPad m q → (padAt m p).entity = (padAt m q).entity →
    (padAt m p).index = (padAt m q).index → p = q

/-- All references to the pads stored in the graph. -/
def allPadRefs (m : media_device) : List PadRef :=
  (List.range m.entities.length).flatMap
    (fun e => (List.range (entityAt m e).pads.length).map (fun j => { ent := e, pos := j }))

/-- The check that entity and index identify the stored pads. -/
def padsIdentifiedB (m : media_device) : Bool :=
  (allPadRefs m).all (fun p => (allPadRefs m).all (fun q =>
    !(decide ((padAt m p).entity = (padAt m q).entity) &&
      decide ((padAt m p).index = (padAt m q).index)) || decide (p = q)))

/-! ## `media_reset_links` -/

/-- The body of the inner loop of `media_reset_links` for the link at position
`j` of the entity at position `i`: the world is unchanged (and the value 0 stands
for `continue`) when the link is immutable or its source pad belongs to another
entity, otherwise the result of `media_setup_link` with ENABLED cleared. -/
def reset_visit (dev : Device) (i j : Nat) (w : World) : Int × World :=
  let link := linkAt w.media (linkRef w.media i j)
  if link.flags &&& MEDIA_LNK_FL_IMMUTABLE ≠ 0 ∨ (padAt w.media link.source).entity ≠ i then
    (0, w)
  else
    media_setup_link dev w link.source link.sink (link.flags &&& NOT_MEDIA_LNK_FL_ENABLED)

/-- The inner loop of `media_reset_links` for the entity at position `i`, over
the link positions `js`: the return value is negative when a call of
`media_setup_link` failed and the loop was left with `return ret`. -/
def reset_links_inner (dev : Device) (i : Nat) : List Nat → World → Int × World
  | [], w => (0, w)
  | j :: js, w =>
    let r := reset_visit dev i j w
    if r.1 < 0 then r else reset_links_inner dev i js r.2

/-- The outer loop of `media_reset_links` over the entity positions `is`; the
bound `entity->num_links` of the inner loop is the same at every iteration,
because `media_setup_link` stores flags only. -/
def reset_links_outer (dev : Device) : List Nat → World → Int × World
  | [], w => (0, w)
  | i :: is, w =>
    let r := reset_links_inner dev i (List.range (entityAt w.media i).num_links) w
    if r.1 < 0 then r else reset_links_outer dev is r.2

/-- The function `media_reset_links` of `media.c`. -/
def media_reset_links (dev : Device) (w : World) : Int × World :=
  reset_links_outer dev (List.range w.media.entities_count) w

/-- The links that the two loops of `media_reset_links` go through, in order:
the pairs of the position `i` of an entity and the position `j` of a link of
its list. -/
def reset_visits (m : media_device) : List (Nat × Nat) :=
  (List.range m.entities_count).flatMap
    (fun i => (List.range (entityAt m i).num_links).map (fun j => (i, j)))

/-- The body of the inner loop of `media_reset_links` run for the links `vs`,
one after the other, until a call of `media_setup_link` fails. -/
def reset_steps (dev : Device) : List (Nat × Nat) → World → Int × World
  | [], w => (0, w)
  | v :: vs, w =>
    let r := reset_visit dev v.1 v.2 w
    if r.1 < 0 then r else reset_steps dev vs r.2

/-- The link that `media_setup_link` looks up when it is called for the link at
position `v.2` of the entity at position `v.1`. -/
def reset_link (m : media_device) (v : Nat × Nat) : LinkRef :=
  found_link m (linkAt m (linkRef m v.1 v.2)).source (linkAt m (linkRef m v.1 v.2)).sink

/-- The request that `media_reset_links` issues for the link at position `v.2`
of the entity at position `v.1`. -/
def reset_request (m : media_device) (v : Nat × Nat) : media_link_desc :=
  setup_link_request m (linkAt m (linkRef m v.1 v.2)).source
    (linkAt m (linkRef m v.1 v.2)).sink
    ((linkAt m (linkRef m v.1 v.2)).flags &&& NOT_MEDIA_LNK_FL_ENABLED)

/-- The loop body does not skip the link at position `v.2` of the entity at
position `v.1`: the link is not immutable and its source pad is a pad of that
entity. -/
def reset_calls (m : media_device) (v : Nat × Nat) : Prop :=
  (linkAt m (linkRef m v.1 v.2)).flags &&& MEDIA_LNK_FL_IMMUTABLE = 0 ∧
  (padAt m (linkAt m (linkRef m v.1 v.2)).source).entity = v.1

instance (m : media_device) (v : Nat × Nat) : Decidable (reset_calls m v) := by
  unfold reset_calls; infer_instance

/-- The call of `media_setup_link` made for the link at position `v.2` of the
entity at position `v.1` stores to the link `X`: `X` is the link that the call
looks up, or its twin. -/
def ResetWrites (m : media_device) (v : Nat × Nat) (X : LinkRef) : Prop :=
  X = reset_link m v ∨ X = (linkAt m (reset_link m v)).twin

instance (m : media_device) (v : Nat × Nat) (X : LinkRef) : Decidable (ResetWrites m v X) := by
  unfold ResetWrites; infer_instance

/-- Some step of the loop body run for the links `vs` from the world `w` on
makes a call of `media_setup_link` that stores to the link `X`. -/
def reset_stores (dev : Device) : List (Nat × Nat) → World → LinkRef → Bool
  | [], _, _ => false
  | v :: vs, w, X =>
    (decide (reset_calls w.media v) && decide (ResetWrites w.media v X)) ||
      reset_stores dev vs (reset_visit dev v.1 v.2 w).2 X

/-! ## Enumeration: `media_get_entity_by_id`, `media_entity_add_link`,
`media_enum_links`, `media_enum_entities`, `media_open` -/

/-- The arrays that `MEDIA_IOC_ENUM_LINKS` fills in. -/
structure media_links_enum where
  pads : List media_pad_desc := []
  links : List media_link_desc := []
deriving DecidableEq, Repr, Inhabited

/-- What enumeration receives from outside the program. An ioctl answers with
`Except.error errno` when it fails. -/
structure Env where
  /-- The result of `open(name, O_RDWR)`. -/
  open_fd : Int := 3
  /-- The answer to `MEDIA_IOC_ENUM_ENTITIES` for the content of `info.id`. -/
  enum_entities : Nat → Except Nat media_entity_desc := fun _ => Except.error 22
  /-- The answer to `MEDIA_IOC_ENUM_LINKS` for the content of `links.entity`. -/
  enum_links : Nat → Except Nat media_links_enum := fun _ => Except.ok {}
  /-- The identity of the block `realloc` returns for the links of the entity at
  a position, given the identity of the block it releases. -/
  realloc_block : Nat → Nat → Nat := fun _ b => b + 1
  /-- The content of a link slot that has not been written yet. -/
  fresh_link : media_link := {}
  /-- The content of a pad slot that has not been written yet. -/
  fresh_pad : media_pad := {}

/-- The function `media_get_entity_by_id` of `media.c`: the position of the
first entity whose id is `id`, `none` for `NULL`. -/
def media_get_entity_by_id (m : media_device) (id : Nat) : Option Nat :=
  let i := m.entities.findIdx (fun e => decide (e.info.id = id))
  if i < m.entities_count then some i else none

/-- A store into the entity at position `e`. -/
def modifyEntity (m : media_device) (e : Nat) (g : media_entity → media_entity) :
    media_device :=
  { m with entities := m.entities.set e (g (entityAt m e)) }

/-- The loop `links[i].twin->twin = &links[i]` of `media_entity_add_link`, over
the positions `is` of the entity at position `e`. -/
def repoint_twins (e : Nat) : List Nat → media_device → media_device
  | [], m => m
  | i :: is, m =>
    repoint_twins e is
      (modifyLink m (linkAt m (linkRef m e i)).twin (fun l => { l with twin := linkRef m e i }))

/-- The call `realloc(links, max_links * sizeof *links)` of
`media_entity_add_link` for the links of the entity at position `e`, whose
block is `block`: the identity of the block returned, `none` for NULL. With
`max_links` 0 the size is 0, for which `realloc` releases the block and returns
NULL; with any other size the block is the one that the environment gives. -/
def realloc_links (env : Env) (e block max_links : Nat) : Option Nat :=
  if max_links = 0 then none else some (env.realloc_block e block)

/-- The function `media_entity_add_link` of `media.c` for the entity at
position `e`: the graph after the call and the pointer returned, `none` for
NULL. When `realloc` returns NULL the function returns before it has written
anything. -/
def media_entity_add_link (env : Env) (m : media_device) (e : Nat) :
    media_device × Option LinkRef :=
  let entity := entityAt m e
  if entity.num_links ≥ entity.max_links then
    let max_links := entity.max_links * 2
    match realloc_links env e entity.links_block max_links with
    | none => (m, none)
    | some links =>
      let m0 := modifyEntity m e (fun x => { x with links_block := links })
      let m0 := repoint_twins e (List.range entity.num_links) m0
      let m1 := modifyEntity m0 e (fun x => { x with max_links := max_links })
      (modifyEntity m1 e (fun x => { x with links := x.links ++ [env.fresh_link] }),
       some (linkRef m1 e (entityAt m1 e).num_links))
  else
    (modifyEntity m e (fun x => { x with links := x.links ++ [env.fresh_link] }),
     some (linkRef m e entity.num_links))

/-- The NULL pointer as a `struct media_link *` of the graph `m`: a reference
to the position `entities_count`, at which no entity is, so that it designates
no stored link. -/
def null_link (m : media_device) : LinkRef :=
  { ent := m.entities_count, block := 0, pos := 0 }

/-- The body of the link loop of `media_enum_links` for one reported link. The
pointers `fwdlink` and `backlink` are used as `media_entity_add_link` returns
them, without a test: a NULL among them is the reference `null_link`, through
which nothing is stored. -/
def enum_one_link (env : Env) (link : media_link_desc) (st : Int × media_device) :
    Int × media_device :=
  let m := st.2
  match media_get_entity_by_id m link.source.entity,
        media_get_entity_by_id m link.sink.entity with
  | some source, some sink =>
    let a := media_entity_add_link env m source
    let fwdlink := a.2.getD (null_link m)
    let m := modifyLink a.1 fwdlink (fun l =>
      { l with source := { ent := source, pos := link.source.index },
               sink := { ent := sink, pos := link.sink.index },
               flags := link.flags })
    let b := media_entity_add_link env m sink
    let backlink := b.2.getD (null_link m)
    let m := modifyLink b.1 backlink (fun l =>
      { l with source := { ent := source, pos := link.source.index },
               sink := { ent := sink, pos := link.sink.index },
               flags := link.flags })
    let m := modifyLink m fwdlink (fun l => { l with twin := backlink })
    let m := modifyLink m backlink (fun l => { l with twin := fwdlink })
    (st.1, m)
  | _, _ => (-EINVAL, m)

/-- The pad loop of `media_enum_links` for the entity at position `e`. -/
def enum_pads (e : Nat) (pads : List media_pad_desc) (m : media_device) : media_device :=
  modifyEntity m e (fun x =>
    let filled := List.foldl
      (fun ps i => ps.set i
        { entity := e, index := ((pads[i]?).getD default).index,
          flags := ((pads[i]?).getD default).flags })
      x.pads (List.range x.info.pads)
    { x with pads := filled })

/-- The loop of `media_enum_links` over the entity positions `es` (`id - 1` in
the source), with the value of `ret` so far. -/
def enum_links_loop (env : Env) : List Nat → Int × media_device → Int × media_device
  | [], st => st
  | e :: es, st =>
    let entity := entityAt st.2 e
    match env.enum_links entity.info.id with
    | Except.error errno => (-(errno : Int), st.2)
    | Except.ok links =>
      let m := enum_pads e links.pads st.2
      let st1 := (List.range entity.info.links).foldl
        (fun acc i => enum_one_link env ((links.links[i]?).getD default) acc) (st.1, m)
      enum_links_loop env es st1

/-- The function `media_enum_links` of `media.c`. -/
def media_enum_links (env : Env) (m : media_device) : Int × media_device :=
  enum_links_loop env (List.range m.entities_count) (0, m)

/-- The function `media_enum_entities` of `media.c`, from the value `id` of the
loop variable on; `none` when `fuel` iterations did not reach the end of the
loop. -/
def media_enum_entities (env : Env) : Nat → Nat → media_device → Option (Int × media_device)
  | 0, _, _ => none
  | fuel + 1, id, m =>
    match env.enum_entities (id ||| MEDIA_ENT_ID_FLAG_NEXT) with
    | Except.error errno =>
      some ((if (errno : Int) ≠ EINVAL then -(errno : Int) else 0), m)
    | Except.ok info =>
      let entity : media_entity :=
        { info := info, fd := -1, max_links := info.pads + info.links,
          pads := List.replicate info.pads env.fresh_pad, links := [] }
      media_enum_entities env fuel info.id { m with entities := m.entities ++ [entity] }

/-- The function `media_open` of `media.c`: `some none` is the return value
`NULL`, `some (some media)` a device, `none` means that `fuel` iterations did not
end the enumeration of entities. -/
def media_open (env : Env) (fuel : Nat) : Option (Option media_device) :=
  let media : media_device := { fd := env.open_fd, entities := [] }
  if media.fd < 0 then some none
  else
    match media_enum_entities env fuel 0 media with
    | none => none
    | some (ret, media) =>
      if ret < 0 then some none
      else
        let r := media_enum_links env media
        if r.1 < 0 then some none else some (some r.2)

/-! ## Graphs built by enumeration -/

/-- The properties of a graph that enumeration has built from a device whose
links are pairwise distinct: twin symmetry; the two copies of a link have the
same ends; the ends of a link are stored pads; entity and index identify a pad;
two links with the same source pad and the same sink pad are the same link or
twins; one of the two copies of a link is in the list of the entity of its
source pad; flags words fit 32 bits. -/
structure EnumeratedGraph (m : media_device) : Prop where
  twins : TwinSymmetric m
  twin_ends : ∀ L, ValidLink m L →
    (linkAt m (linkAt m L).twin).source = (linkAt m L).source ∧
    (linkAt m (linkAt m L).twin).sink = (linkAt m L).sink
  pads_valid : ∀ L, ValidLink m L →
    ValidPad m (linkAt m L).source ∧ ValidPad m (linkAt m L).sink
  pads_identified : PadsIdentified m
  unique : ∀ L1 L2, ValidLink m L1 → ValidLink m L2 →
    (linkAt m L2).source = (linkAt m L1).source → (linkAt m L2).sink = (linkAt m L1).sink →
    L2 = L1 ∨ L2 = (linkAt m L1).twin
  source_side : ∀ L, ValidLink m L →
    (padAt m (linkAt m L).source).entity = L.ent ∨
    (padAt m (linkAt m L).source).entity = (linkAt m L).twin.ent
  u32 : ∀ L, ValidLink m L → (linkAt m L).flags < 4294967296

/-- The check of `EnumeratedGraph` over the stored links and pads. -/
def enumeratedGraphB (m : media_device) : Bool :=
  twinSymmetricB m && padsIdentifiedB m &&
  (allLinkRefs m).all (fun L =>
    decide ((linkAt m (linkAt m L).twin).source = (linkAt m L).source) &&
    decide ((linkAt m (linkAt m L).twin).sink = (linkAt m L).sink) &&
    decide (ValidPad m (linkAt m L).source) && decide (ValidPad m (linkAt m L).sink) &&
    (decide ((padAt m (linkAt m L).source).entity = L.ent) ||
      decide ((padAt m (linkAt m L).source).entity = (linkAt m L).twin.ent)) &&
    decide ((linkAt m L).flags < 4294967296) &&
    (allLinkRefs m).all (fun L2 =>
      !(decide ((linkAt m L2).source = (linkAt m L).source) &&
        decide ((linkAt m L2).sink = (linkAt m L).sink)) ||
      decide (L2 = L) || decide (L2 = (linkAt m L).twin)))

/-- The flags word that `media_reset_links` aims at for a link whose flags word
is `f`: `f` itself for an immutable link, `f & ~MEDIA_LNK_FL_ENABLED` otherwise. -/
def reset_target (f : Nat) : Nat :=
  if f &&& MEDIA_LNK_FL_IMMUTABLE = 0 then f &&& NOT_MEDIA_LNK_FL_ENABLED else f

/-- The state of a run of `media_reset_links` on the graph `m0`: the graph has
the shape of `m0` and each stored link has the flags it had in `m0` or its reset
target. -/
def ResetInv (m0 m : media_device) : Prop :=
  SameShape m0 m ∧
  ∀ X, ValidLink m0 X →
    (linkAt m X).flags = (linkAt m0 X).flags ∨
    (linkAt m X).flags = reset_target (linkAt m0 X).flags

/-- The link `X` has reached its reset target. -/
def ResetDone (m0 m : media_device) (X : LinkRef) : Prop :=
  (linkAt m X).flags = reset_target (linkAt m0 X).flags

/-- The request `u` names the ends of the link `L`: the ids of the entities of
its source and sink pads and the indices of these pads. -/
def request_names (m : media_device) (u : media_link_desc) (L : LinkRef) : Prop :=
  u.source.entity = (entityAt m (padAt m (linkAt m L).source).entity).info.id ∧
  u.source.index = (padAt m (linkAt m L).source).index ∧
  u.sink.entity = (entityAt m (padAt m (linkAt m L).sink).entity).info.id ∧
  u.sink.index = (padAt m (linkAt m L).sink).index

/-- The world `w` is reached from `w0` by link updates that the device has all
accepted: the requests `cs` were issued, in this order, after those of `w0`;
the graph has kept its shape; and every link has the flags it had in `w0`, or
the flags confirmed for one of these requests, which names the link or its
twin. -/
def ResetAccepted (dev : Device) (w0 w : World) (cs : List media_link_desc) : Prop :=
  w.trace = w0.trace ++ cs ∧ SameShape w0.media w.media ∧
  (∀ pre u post, cs = pre ++ u :: post → 0 ≤ (dev (w0.trace ++ pre) u).ret) ∧
  ∀ X, (linkAt w.media X).flags = (linkAt w0.media X).flags ∨
    ∃ pre u post L, cs = pre ++ u :: post ∧ request_names w0.media u L ∧
      (X = L ∨ X = (linkAt w0.media L).twin) ∧
      (linkAt w.media X).flags = (dev (w0.trace ++ pre) u).flags

/-- What a loop of `media_reset_links` started in a world reached from `w0` ends
with: the value 0 in a world reached by accepted updates, or the negative value
of a refused update, with the graph as it was when that request was issued and
the request as the last of the trace. -/
def ResetOutcome (dev : Device) (w0 : World) (r : Int × World) : Prop :=
  (r.1 = 0 ∧ ∃ cs, ResetAccepted dev w0 r.2 cs) ∨
  (r.1 < 0 ∧ ∃ w1 cs u, ResetAccepted dev w0 w1 cs ∧ r.2.media = w1.media ∧
    r.2.trace = w1.trace ++ [u] ∧ (dev w1.trace u).ret = r.1)

/-- The graph that enumeration builds for a sensor (id 1, one source pad)
linked to pad 0 of a processor (id 2, a sink pad 0 and a source pad 1); `f` is
the flags word of the link. -/
def sensor_graph (f : Nat) : media_device :=
  { fd := 3,
    entities :=
      [ { info := { id := 1, pads := 1, links := 1 },
          pads := [{ entity := 0, index := 0, flags := MEDIA_PAD_FL_SOURCE }],
          links := [{ source := { ent := 0, pos := 0 }, sink := { ent := 1, pos := 0 },
                      twin := { ent := 1, block := 0, pos := 0 }, flags := f }],
          max_links := 2 },
        { info := { id := 2, pads := 2, links := 0 },
          pads := [{ entity := 1, index := 0, flags := MEDIA_PAD_FL_SINK },
                   { entity := 1, index := 1, flags := MEDIA_PAD_FL_SOURCE }],
          links := [{ source := { ent := 0, pos := 0 }, sink := { ent := 1, pos := 0 },
                      twin := { ent := 0, block := 0, pos := 0 }, flags := f }],
          max_links := 2 } ] }

/-- The enumeration data of the device of `sensor_graph`: the sensor reports
its link to pad 0 of the processor with the flags word `f`. -/
def sensor_env (f : Nat) : Env :=
  { enum_entities := fun q =>
      if q = (0 ||| MEDIA_ENT_ID_FLAG_NEXT) then Except.ok { id := 1, pads := 1, links := 1 }
      else if q = (1 ||| MEDIA_ENT_ID_FLAG_NEXT) then
        Except.ok { id := 2, pads := 2, links := 0 }
      else Except.error 22,
    enum_links := fun id =>
      if id = 1 then
        Except.ok
          { pads := [{ entity := 1, index := 0, flags := MEDIA_PAD_FL_SOURCE }],
            links := [{ source := { entity := 1, index := 0, flags := MEDIA_PAD_FL_SOURCE },
                        sink := { entity := 2, index := 0, flags := MEDIA_PAD_FL_SINK },
                        flags := f }] }
      else
        Except.ok
          { pads := [{ entity := 2, index := 0, flags := MEDIA_PAD_FL_SINK },
                     { entity := 2, index := 1, flags := MEDIA_PAD_FL_SOURCE }],
            links := [] } }

/-- The graph that enumeration builds for one entity (id 1, a sink pad 0 and a
source pad 1) with a link from its pad 1 to its pad 0; `f` is the flags word of
the link. -/
def self_link_graph (f : Nat) : media_device :=
  { fd := 3,
    entities :=
      [ { info := { id := 1, pads := 2, links := 1 },
          pads := [{ entity := 0, index := 0, flags := MEDIA_PAD_FL_SINK },
                   { entity := 0, index := 1, flags := MEDIA_PAD_FL_SOURCE }],
          links := [{ source := { ent := 0, pos := 1 }, sink := { ent := 0, pos := 0 },
                      twin := { ent := 0, block := 0, pos := 1 }, flags := f },
                    { source := { ent := 0, pos := 1 }, sink := { ent := 0, pos := 0 },
                      twin := { ent := 0, block := 0, pos := 0 }, flags := f }],
          max_links := 3 } ] }

/-- The enumeration data of a device with one entity (id 1, two pads) that
reports a link from its pad 1 to its pad 0 with the flags word `f`. -/
def self_link_env (f : Nat) : Env :=
  { enum_entities := fun q =>
      if q = (0 ||| MEDIA_ENT_ID_FLAG_NEXT) then Except.ok { id := 1, pads := 2, links := 1 }
      else Except.error 22,
    enum_links := fun _ =>
      Except.ok
        { pads := [{ entity := 1, index := 0, flags := MEDIA_PAD_FL_SINK },
                   { entity := 1, index := 1, flags := MEDIA_PAD_FL_SOURCE }],
          links := [{ source := { entity := 1, index := 1, flags := MEDIA_PAD_FL_SOURCE },
                      sink := { entity := 1, index := 0, flags := MEDIA_PAD_FL_SINK },
                      flags := f }] } }

/-- A device that accepts every request and confirms the flags it was sent. -/
def echo_device : Device := fun _ u => { ret := 0, flags := u.flags }

/-- A device that holds an immutable link with the flags word `stored`: it
accepts the request that leaves the flags as they are and refuses any other. -/
def strict_device (stored : Nat) : Device :=
  fun _ u => if u.flags = stored then { ret := 0, flags := stored }
    else { ret := -1, flags := u.flags }

/-- A device that refuses every request. -/
def failing_device : Device := fun _ _ => { ret := -1, flags := 0 }

/-- A device that accepts the first request it is sent, confirming its flags,
and refuses every later one with `EBUSY`. -/
def once_device : Device :=
  fun hist u => if hist.length = 0 then { ret := 0, flags := u.flags }
    else { ret := -1, flags := u.flags, errno := 16 }

/-! ## C strings -/

/-- The double quote character. -/
def DQUOTE : Char := Char.ofNat 34

/-- The NUL character that ends a string. -/
def NUL : Char := Char.ofNat 0

/-- The character that a pointer into a string points at: the first character of
the rest of the string, the terminating NUL when nothing is left. A string is
the list of its characters before the NUL. -/
def cur (p : List Char) : Char := p.headD NUL

/-- The function `isspace` of `<ctype.h>` in the C locale: space, `\t`, `\n`,
`\v`, `\f` and `\r`. -/
def isspace (c : Char) : Bool :=
  c.toNat == 32 || (9 ≤ c.toNat && c.toNat ≤ 13)

/-- The decimal digits, as `strtoul` with base 10 reads them. -/
def isdigit (c : Char) : Bool := 48 ≤ c.toNat && c.toNat ≤ 57

/-- The function `isalnum` of `<ctype.h>` in the C locale. -/
def isalnum (c : Char) : Bool :=
  isdigit c || (65 ≤ c.toNat && c.toNat ≤ 90) || (97 ≤ c.toNat && c.toNat ≤ 122)

/-- The loop `for (; isspace(*p); ++p);`. -/
def skip_spaces (p : List Char) : List Char := p.dropWhile isspace

/-- The number that a sequence of decimal digits denotes. -/
def decimal_value (ds : List Char) : Nat :=
  ds.foldl (fun v c => 10 * v + (c.toNat - 48)) 0

/-- Modelled from the spec: the value `ULONG_MAX` of `<limits.h>`, which is not
part of the sources; the value is that of a 64-bit `unsigned long`. -/
def ULONG_MAX : Nat := 18446744073709551615

/-- The function `strtoul(p, &end, 10)` of `<stdlib.h>`: the value and `end`.
White space is skipped, a sign is accepted, the digits are read; without a digit
the value is 0 and `end` is `p`; a value above `ULONG_MAX` gives `ULONG_MAX`; a
minus sign negates the value as an `unsigned long`. -/
def strtoul (p : List Char) : Nat × List Char :=
  let t := skip_spaces p
  let neg := decide (cur t = '-')
  let u := if cur t = '-' ∨ cur t = '+' then t.tail else t
  let ds := u.takeWhile isdigit
  if ds = [] then (0, p)
  else
    let v := decimal_value ds
    let r := if ULONG_MAX < v then ULONG_MAX
      else if neg then (ULONG_MAX + 1 - v) % (ULONG_MAX + 1) else v
    (r, u.dropWhile isdigit)

/-- The conversion of an `unsigned long` to `unsigned int` or `__u32`. -/
def to_u32 (v : Nat) : Nat := v % 4294967296

/-- The conversion of an `unsigned long` to `__s32`. -/
def to_s32 (v : Nat) : Int :=
  if v % 4294967296 < 2147483648 then (v % 4294967296 : Nat)
  else ((v % 4294967296 : Nat) : Int) - 4294967296

/-- The function `strncmp` of `<string.h>` on two strings given by the
characters before their NUL: zero, or the difference of the first two
characters that differ, among the first `n`. -/
def strncmp : List Char → List Char → Nat → Int
  | _, _, 0 => 0
  | a, b, n + 1 =>
    if cur a ≠ cur b then ((cur a).toNat : Int) - ((cur b).toNat : Int)
    else if cur a = NUL then 0
    else strncmp a.tail b.tail n

/-! ## Lookups of `media.c` -/

/-- The function `media_get_entity_by_name` of `media.c`: the position of the
first entity for which `strncmp(entity->info.name, name, length)` is 0, `none`
for `NULL`. -/
def media_get_entity_by_name (m : media_device) (name : List Char) (length : Nat) :
    Option Nat :=
  let i := m.entities.findIdx (fun e => decide (strncmp e.info.name name length = 0))
  if i < m.entities_count then some i else none

/-- The function `media_entity_remote_source` of `media.c`: `none` for `NULL`. -/
def media_entity_remote_source (m : media_device) (pad : PadRef) : Option PadRef :=
  if (padAt m pad).flags &&& MEDIA_PAD_FL_SINK = 0 then none
  else
    ((entityAt m (padAt m pad).entity).links.find?
      (fun link => decide (link.flags &&& MEDIA_LNK_FL_ENABLED ≠ 0) &&
        decide (link.sink = pad))).map (fun link => link.source)

/-! ## The link descriptors of `main.c` -/

/-- The function `parse_pad` of `main.c`: the pad and the value stored in
`*endp`, `none` for `NULL`. -/
def parse_pad (m : media_device) (p : List Char) : Option (PadRef × List Char) :=
  let p := skip_spaces p
  let found : Option (Nat × List Char) :=
    if cur p = DQUOTE then
      let end_ := p.tail.dropWhile (fun c => decide (c ≠ NUL) && decide (c ≠ DQUOTE))
      if cur end_ ≠ DQUOTE then none
      else
        (media_get_entity_by_name m p.tail (p.tail.length - end_.length)).map
          (fun entity => (entity, end_.tail))
    else
      let r := strtoul p
      (media_get_entity_by_id m (to_u32 r.1)).map (fun entity => (entity, r.2))
  match found with
  | none => none
  | some (entity, end_) =>
    let end_ := skip_spaces end_
    if cur end_ ≠ ':' then none
    else
      let p := skip_spaces end_.tail
      let r := strtoul p
      let pad := to_u32 r.1
      if pad ≥ (entityAt m entity).info.pads then none
      else some ({ ent := entity, pos := pad }, skip_spaces r.2)

/-- The function `parse_link` of `main.c`: the link and the value stored in
`*endp`, `none` for `NULL`. -/
def parse_link (m : media_device) (p : List Char) : Option (LinkRef × List Char) :=
  match parse_pad m p with
  | none => none
  | some (source, end_) =>
    if cur end_ ≠ '-' ∨ cur end_.tail ≠ '>' then none
    else
      match parse_pad m end_.tail.tail with
      | none => none
      | some (sink, end_) =>
        let links := (entityAt m (padAt m source).entity).links
        let i := links.findIdx (fun link => decide (link.source = source ∧ link.sink = sink))
        if i < links.length then some (linkRef m (padAt m source).entity i, end_) else none

/-- The function `setup_link` of `main.c`: the return value, the world after the
call and the value stored in `*endp` (the text itself when the function returns
before it stores one). -/
def setup_link (dev : Device) (w : World) (p : List Char) : Int × World × List Char :=
  match parse_link w.media p with
  | none => (-EINVAL, w, p)
  | some (link, end_) =>
    if cur end_ ≠ '[' then (-EINVAL, w, p)
    else
      let r := strtoul end_.tail
      let flags := to_u32 r.1
      let q := skip_spaces r.2
      if cur q ≠ ']' then (-EINVAL, w, p)
      else
        let endp := skip_spaces q.tail
        let s := media_setup_link dev w (linkAt w.media link).source
          (linkAt w.media link).sink flags
        (s.1, s.2, endp)

/-- The loop of `setup_links` with a bound on the number of iterations: `none`
when the bound is reached. -/
def setup_links_loop (dev : Device) : Nat → World → List Char → Option (Int × World)
  | 0, _, _ => none
  | fuel + 1, w, p =>
    let r := setup_link dev w p
    if r.1 < 0 then some (r.1, r.2.1)
    else if cur r.2.2 = ',' then setup_links_loop dev fuel r.2.1 r.2.2.tail
    else some ((if cur r.2.2 ≠ NUL then -EINVAL else 0), r.2.1)

/-- The function `setup_links` of `main.c`; every iteration consumes at least
one character, so that the length of the text bounds their number. -/
def setup_links (dev : Device) (w : World) (p : List Char) : Option (Int × World) :=
  setup_links_loop dev (p.length + 1) w p

/-! ## The format descriptors of `main.c` -/

/-- The fields of `struct v4l2_mbus_framefmt` that the program uses. -/
structure v4l2_mbus_framefmt where
  width : Nat := 0
  height : Nat := 0
  code : Int := 0
deriving DecidableEq, Repr, Inhabited

/-- The `struct v4l2_rect` of `<linux/videodev2.h>`; the fields are `__s32`. -/
structure v4l2_rect where
  left : Int := 0
  top : Int := 0
  width : Int := 0
  height : Int := 0
deriving DecidableEq, Repr, Inhabited

/-- The `struct v4l2_fract` of `<linux/videodev2.h>`. -/
structure v4l2_fract where
  numerator : Nat := 0
  denominator : Nat := 0
deriving DecidableEq, Repr, Inhabited

/-- The table `mbus_formats` of `main.c`. The codes are modelled from the spec:
`<linux/v4l2-mediabus.h>`, which defines the `V4L2_MBUS_FMT_*` values, is not
part of the sources; the numbers are those of that header. -/
def mbus_formats : List (List Char × Int) :=
  [ ("Y8".toList, 0x2001), ("Y10".toList, 0x200a), ("Y12".toList, 0x2013),
    ("YUYV".toList, 0x2011), ("UYVY".toList, 0x200f),
    ("SBGGR8".toList, 0x3001), ("SGBRG8".toList, 0x3013),
    ("SGRBG8".toList, 0x3002), ("SRGGB8".toList, 0x3014),
    ("SBGGR10".toList, 0x3007), ("SGBRG10".toList, 0x300e),
    ("SGRBG10".toList, 0x300a), ("SRGGB10".toList, 0x300f),
    ("SBGGR10_DPCM8".toList, 0x300b), ("SGBRG10_DPCM8".toList, 0x300c),
    ("SGRBG10_DPCM8".toList, 0x3009), ("SRGGB10_DPCM8".toList, 0x300d),
    ("SBGGR12".toList, 0x3008), ("SGBRG12".toList, 0x3010),
    ("SGRBG12".toList, 0x3011), ("SRGGB12".toList, 0x3012) ]

/-- The function `pixelcode_to_string` of `main.c`. -/
def pixelcode_to_string (code : Int) : List Char :=
  match mbus_formats.find? (fun e => decide (e.2 = code)) with
  | some e => e.1
  | none => "unknown".toList

/-- The function `string_to_pixelcode` of `main.c`: the code of the first entry
of the table for which `strncmp(name, string, length)` is 0, and -1 when there is
none. -/
def string_to_pixelcode (string : List Char) (length : Nat) : Int :=
  match mbus_formats.find? (fun e => decide (strncmp e.1 string length = 0)) with
  | some e => e.2
  | none => -1

/-- The function `parse_format` of `main.c`: the format and the value stored in
`*endp` when it returns 0, `none` when it returns `-EINVAL`. -/
def parse_format (p : List Char) : Option (v4l2_mbus_framefmt × List Char) :=
  let p := skip_spaces p
  let end_ := p.dropWhile (fun c => !isspace c && decide (c ≠ NUL))
  let code := string_to_pixelcode p (p.length - end_.length)
  if code = -1 then none
  else
    let w := strtoul (skip_spaces end_)
    if cur w.2 ≠ 'x' then none
    else
      let h := strtoul w.2.tail
      some ({ width := to_u32 w.1, height := to_u32 h.1, code := code }, h.2)

/-- The function `parse_crop` of `main.c`: the rectangle and the value stored in
`*endp` when it returns 0, `none` when it returns `-EINVAL`. -/
def parse_crop (p : List Char) : Option (v4l2_rect × List Char) :=
  if cur p ≠ '(' then none
  else
    let l := strtoul p.tail
    if cur l.2 ≠ ',' then none
    else
      let t := strtoul l.2.tail
      if cur t.2 ≠ ')' then none
      else if cur t.2.tail ≠ '/' then none
      else
        let w := strtoul t.2.tail.tail
        if cur w.2 ≠ 'x' then none
        else
          let h := strtoul w.2.tail
          some ({ left := to_s32 l.1, top := to_s32 t.1, width := to_s32 w.1,
                  height := to_s32 h.1 }, h.2)

/-- The function `parse_frame_interval` of `main.c`: the interval and the value
stored in `*endp` when it returns 0, `none` when it returns `-EINVAL`. -/
def parse_frame_interval (p : List Char) : Option (v4l2_fract × List Char) :=
  let n := strtoul (skip_spaces p)
  let q := skip_spaces n.2
  if cur q ≠ '/' then none
  else
    let d := strtoul (skip_spaces q.tail)
    some ({ numerator := to_u32 n.1, denominator := to_u32 d.1 }, d.2)

/-- What `parse_pad_format` gives back when it finds a pad: the pad, the three
structures it has filled in and the value stored in `*endp`. -/
structure pad_format where
  pad : PadRef := {}
  format : v4l2_mbus_framefmt := {}
  crop : v4l2_rect := {}
  interval : v4l2_fract := {}
  endp : List Char := []
deriving DecidableEq, Repr, Inhabited

/-- The function `parse_pad_format` of `main.c`, called with the structures
`format`, `crop` and `interval` as `setup_format` has initialised them; `none`
for `NULL`. -/
def parse_pad_format (m : media_device) (format : v4l2_mbus_framefmt) (crop : v4l2_rect)
    (interval : v4l2_fract) (p : List Char) : Option pad_format :=
  match parse_pad m (skip_spaces p) with
  | none => none
  | some (pad, end_) =>
    let p := skip_spaces end_
    if cur p ≠ '[' then none
    else
      let p := skip_spaces p.tail
      let fmt : Option (v4l2_mbus_framefmt × List Char) :=
        if isalnum (cur p) then (parse_format p).map (fun r => (r.1, skip_spaces r.2))
        else some (format, p)
      match fmt with
      | none => none
      | some (format, p) =>
        let crp : Option (v4l2_rect × List Char) :=
          if cur p = '(' then (parse_crop p).map (fun r => (r.1, skip_spaces r.2))
          else some (crop, p)
        match crp with
        | none => none
        | some (crop, p) =>
          let ivl : Option (v4l2_fract × List Char) :=
            if cur p = '@' then
              (parse_frame_interval p.tail).map (fun r => (r.1, skip_spaces r.2))
            else some (interval, p)
          match ivl with
          | none => none
          | some (interval, p) =>
            if cur p ≠ ']' then none
            else some { pad := pad, format := format, crop := crop, interval := interval,
                        endp := p.tail }

/-! ## The sub-device calls of `subdev.c` -/

/-- Modelled from the spec: the entity type of a processing sub-device
(`MEDIA_ENT_T_V4L2_SUBDEV` of `<linux/media.h>`, `2 << 16`). -/
def MEDIA_ENT_T_V4L2_SUBDEV : Nat := 131072

/-- The calls that reach the device nodes of the entities; entities are given by
their position in `media->entities`. -/
inductive subdev_request where
  | open_node (entity : Nat)
  | s_fmt (entity : Nat) (pad : Nat) (format : v4l2_mbus_framefmt)
  | s_crop (entity : Nat) (pad : Nat) (rect : v4l2_rect)
  | s_frame_interval (entity : Nat) (interval : v4l2_fract)
  | g_fmt (entity : Nat) (pad : Nat)
  | g_crop (entity : Nat) (pad : Nat)
deriving DecidableEq, Repr, Inhabited

/-- The behaviour of the device nodes: the answer to `open` (a file descriptor)
and to the three ioctls that set (the structure as the driver has adjusted it)
and the two that get a format or a crop rectangle, given the calls made before;
`Except.error errno` is a failed call. -/
structure SubDevice where
  open_node : List subdev_request → Nat → Except Nat Int
  s_fmt : List subdev_request → Nat → Nat → v4l2_mbus_framefmt →
    Except Nat v4l2_mbus_framefmt
  s_crop : List subdev_request → Nat → Nat → v4l2_rect → Except Nat v4l2_rect
  s_frame_interval : List subdev_request → Nat → v4l2_fract → Except Nat v4l2_fract
  g_fmt : List subdev_request → Nat → Nat → Except Nat v4l2_mbus_framefmt :=
    fun _ _ _ => Except.error 22
  g_crop : List subdev_request → Nat → Nat → Except Nat v4l2_rect :=
    fun _ _ _ => Except.error 22

/-- The graph together with the calls made to the device nodes so far. -/
structure FWorld where
  media : media_device := {}
  calls : List subdev_request := []
deriving DecidableEq, Repr, Inhabited

/-- The function `v4l2_subdev_open` of `subdev.c`. -/
def v4l2_subdev_open (sd : SubDevice) (w : FWorld) (entity : Nat) : Int × FWorld :=
  if (entityAt w.media entity).fd ≠ -1 then (0, w)
  else
    match sd.open_node w.calls entity with
    | Except.error errno =>
      (-(errno : Int), { w with calls := w.calls ++ [subdev_request.open_node entity] })
    | Except.ok fd =>
      (0, { media := modifyEntity w.media entity (fun x => { x with fd := fd }),
            calls := w.calls ++ [subdev_request.open_node entity] })

/-- The function `v4l2_subdev_set_format` of `subdev.c` (always called with
`V4L2_SUBDEV_FORMAT_ACTIVE`): the return value, the world and `*format`. -/
def v4l2_subdev_set_format (sd : SubDevice) (w : FWorld) (entity : Nat)
    (format : v4l2_mbus_framefmt) (pad : Nat) : Int × FWorld × v4l2_mbus_framefmt :=
  let o := v4l2_subdev_open sd w entity
  if o.1 < 0 then (o.1, o.2, format)
  else
    let w1 : FWorld :=
      { o.2 with calls := o.2.calls ++ [subdev_request.s_fmt entity pad format] }
    match sd.s_fmt o.2.calls entity pad format with
    | Except.error errno => (-(errno : Int), w1, format)
    | Except.ok f => (0, w1, f)

/-- The function `v4l2_subdev_set_crop` of `subdev.c`. -/
def v4l2_subdev_set_crop (sd : SubDevice) (w : FWorld) (entity : Nat)
    (rect : v4l2_rect) (pad : Nat) : Int × FWorld × v4l2_rect :=
  let o := v4l2_subdev_open sd w entity
  if o.1 < 0 then (o.1, o.2, rect)
  else
    let w1 : FWorld :=
      { o.2 with calls := o.2.calls ++ [subdev_request.s_crop entity pad rect] }
    match sd.s_crop o.2.calls entity pad rect with
    | Except.error errno => (-(errno : Int), w1, rect)
    | Except.ok r => (0, w1, r)

/-- The function `v4l2_subdev_set_frame_interval` of `subdev.c`. -/
def v4l2_subdev_set_frame_interval (sd : SubDevice) (w : FWorld) (entity : Nat)
    (interval : v4l2_fract) : Int × FWorld × v4l2_fract :=
  let o := v4l2_subdev_open sd w entity
  if o.1 < 0 then (o.1, o.2, interval)
  else
    let w1 : FWorld :=
      { o.2 with calls := o.2.calls ++ [subdev_request.s_frame_interval entity interval] }
    match sd.s_frame_interval o.2.calls entity interval with
    | Except.error errno => (-(errno : Int), w1, interval)
    | Except.ok i => (0, w1, i)

/-! ## Formats setup (`main.c`) -/

/-- The function `set_format` of `main.c`: the return value, the world and
`*format`. -/
def set_format (sd : SubDevice) (w : FWorld) (pad : PadRef) (format : v4l2_mbus_framefmt) :
    Int × FWorld × v4l2_mbus_framefmt :=
  if format.width = 0 ∨ format.height = 0 then (0, w, format)
  else
    let r := v4l2_subdev_set_format sd w (padAt w.media pad).entity format
      (padAt w.media pad).index
    if r.1 < 0 then r else (0, r.2)

/-- The function `set_crop` of `main.c`. -/
def set_crop (sd : SubDevice) (w : FWorld) (pad : PadRef) (crop : v4l2_rect) :
    Int × FWorld × v4l2_rect :=
  if crop.left = -1 ∨ crop.top = -1 then (0, w, crop)
  else
    let r := v4l2_subdev_set_crop sd w (padAt w.media pad).entity crop
      (padAt w.media pad).index
    if r.1 < 0 then r else (0, r.2)

/-- The function `set_frame_interval` of `main.c`. -/
def set_frame_interval (sd : SubDevice) (w : FWorld) (entity : Nat) (interval : v4l2_fract) :
    Int × FWorld × v4l2_fract :=
  if interval.numerator = 0 then (0, w, interval)
  else
    let r := v4l2_subdev_set_frame_interval sd w entity interval
    if r.1 < 0 then r else (0, r.2)

/-- The body of the propagation loop of `setup_format` for one link of the
entity of `pad`. -/
def propagate_format (sd : SubDevice) (pad : PadRef) (format : v4l2_mbus_framefmt)
    (w : FWorld) (link : media_link) : FWorld :=
  if link.flags &&& MEDIA_LNK_FL_ENABLED = 0 then w
  else if link.source = pad ∧
      (entityAt w.media (padAt w.media link.sink).entity).info.type =
        MEDIA_ENT_T_V4L2_SUBDEV then
    (set_format sd w link.sink format).2.1
  else w

/-- The function `setup_format` of `main.c`: the return value, the world after
the call and the value stored in `*endp` (the text itself when the function
returns before it stores one). -/
def setup_format (sd : SubDevice) (w : FWorld) (p : List Char) : Int × FWorld × List Char :=
  match parse_pad_format w.media { width := 0, height := 0, code := 0 }
      { left := -1, top := -1, width := -1, height := -1 }
      { numerator := 0, denominator := 0 } p with
  | none => (-EINVAL, w, p)
  | some pf =>
    let pad := pf.pad
    let c1 : Int × FWorld × v4l2_rect :=
      if (padAt w.media pad).flags &&& MEDIA_PAD_FL_SOURCE ≠ 0 then set_crop sd w pad pf.crop
      else (0, w, pf.crop)
    if c1.1 < 0 then (c1.1, c1.2.1, p)
    else
      let f := set_format sd c1.2.1 pad pf.format
      if f.1 < 0 then (f.1, f.2.1, p)
      else
        let c2 : Int × FWorld × v4l2_rect :=
          if (padAt w.media pad).flags &&& MEDIA_PAD_FL_SINK ≠ 0 then
            set_crop sd f.2.1 pad c1.2.2
          else (0, f.2.1, c1.2.2)
        if c2.1 < 0 then (c2.1, c2.2.1, p)
        else
          let i := set_frame_interval sd c2.2.1 (padAt w.media pad).entity pf.interval
          if i.1 < 0 then (i.1, i.2.1, p)
          else
            let w1 :=
              if (padAt w.media pad).flags &&& MEDIA_PAD_FL_SOURCE ≠ 0 then
                (entityAt w.media (padAt w.media pad).entity).links.foldl
                  (propagate_format sd pad f.2.2) i.2.1
              else i.2.1
            (0, w1, pf.endp)

/-- The loop of `setup_formats` with a bound on the number of iterations: `none`
when the bound is reached. -/
def setup_formats_loop (sd : SubDevice) : Nat → FWorld → List Char → Option (Int × FWorld)
  | 0, _, _ => none
  | fuel + 1, w, p =>
    let r := setup_format sd w p
    if r.1 < 0 then some (r.1, r.2.1)
    else if cur r.2.2 = ',' then setup_formats_loop sd fuel r.2.1 r.2.2.tail
    else some ((if cur r.2.2 ≠ NUL then -EINVAL else 0), r.2.1)

/-- The function `setup_formats` of `main.c`; every iteration consumes at least
one character, so that the length of the text bounds their number. -/
def setup_formats (sd : SubDevice) (w : FWorld) (p : List Char) : Option (Int × FWorld) :=
  setup_formats_loop sd (p.length + 1) w p

/-! ## Concrete graphs and devices for the descriptors -/

/-- A quoted entity name as it is written in a descriptor. -/
def quoted (s : String) : List Char := DQUOTE :: s.toList ++ [DQUOTE]

/-- The sensor graph with named sub-device entities: "Sensor" (id 1, a source
pad 0) linked to pad 0 of "Processor" (id 2, a sink pad 0 and a source pad 1);
`f` is the flags word of the link. -/
def named_graph (f : Nat) : media_device :=
  { fd := 3,
    entities :=
      [ { info := { id := 1, name := "Sensor".toList, type := MEDIA_ENT_T_V4L2_SUBDEV,
                    pads := 1, links := 1 },
          pads := [{ entity := 0, index := 0, flags := MEDIA_PAD_FL_SOURCE }],
          links := [{ source := { ent := 0, pos := 0 }, sink := { ent := 1, pos := 0 },
                      twin := { ent := 1, block := 0, pos := 0 }, flags := f }],
          max_links := 2 },
        { info := { id := 2, name := "Processor".toList, type := MEDIA_ENT_T_V4L2_SUBDEV,
                    pads := 2, links := 0 },
          pads := [{ entity := 1, index := 0, flags := MEDIA_PAD_FL_SINK },
                   { entity := 1, index := 1, flags := MEDIA_PAD_FL_SOURCE }],
          links := [{ source := { ent := 0, pos := 0 }, sink := { ent := 1, pos := 0 },
                      twin := { ent := 0, block := 0, pos := 0 }, flags := f }],
          max_links := 2 } ] }

/-- Device nodes that open and accept every setting as it is requested. -/
def accepting_subdev : SubDevice :=
  { open_node := fun _ e => Except.ok (10 + (e : Int)),
    s_fmt := fun _ _ _ f => Except.ok f,
    s_crop := fun _ _ _ r => Except.ok r,
    s_frame_interval := fun _ _ i => Except.ok i }

/-- The enumeration data of a device with three entities: entity 1 (a sink pad 0
and a source pad 1) reports a link from its pad 1 to its pad 0, and the entities
2 and 3 (one source pad each) report a link to pad 0 of entity 1. Every link end
resolves and every pad index is in range; the link list of entity 1, sized for
3 links, has to grow for the fourth. -/
def growing_env : Env :=
  { enum_entities := fun q =>
      if q = (0 ||| MEDIA_ENT_ID_FLAG_NEXT) then Except.ok { id := 1, pads := 2, links := 1 }
      else if q = (1 ||| MEDIA_ENT_ID_FLAG_NEXT) then
        Except.ok { id := 2, pads := 1, links := 1 }
      else if q = (2 ||| MEDIA_ENT_ID_FLAG_NEXT) then
        Except.ok { id := 3, pads := 1, links := 1 }
      else Except.error 22,
    enum_links := fun id =>
      if id = 1 then
        Except.ok
          { pads := [{ entity := 1, index := 0, flags := MEDIA_PAD_FL_SINK },
                     { entity := 1, index := 1, flags := MEDIA_PAD_FL_SOURCE }],
            links := [{ source := { entity := 1, index := 1, flags := MEDIA_PAD_FL_SOURCE },
                        sink := { entity := 1, index := 0, flags := MEDIA_PAD_FL_SINK },
                        flags := 0 }] }
      else
        Except.ok
          { pads := [{ entity := id, index := 0, flags := MEDIA_PAD_FL_SOURCE }],
            links := [{ source := { entity := id, index := 0, flags := MEDIA_PAD_FL_SOURCE },
                        sink := { entity := 1, index := 0, flags := MEDIA_PAD_FL_SINK },
                        flags := 0 }] } }

/-- The graph that `media_open` builds from `growing_env` when `realloc` moves
the link list of entity 1 (block 0 to block 1). -/
def growing_graph : media_device :=
  { fd := 3,
    entities :=
      [ { info := { id := 1, pads := 2, links := 1 },
          pads := [{ entity := 0, index := 0, flags := MEDIA_PAD_FL_SINK },
                   { entity := 0, index := 1, flags := MEDIA_PAD_FL_SOURCE }],
          links := [{ source := { ent := 0, pos := 1 }, sink := { ent := 0, pos := 0 },
                      twin := { ent := 0, block := 0, pos := 1 }, flags := 0 },
                    { source := { ent := 0, pos := 1 }, sink := { ent := 0, pos := 0 },
                      twin := { ent := 0, block := 0, pos := 0 }, flags := 0 },
                    { source := { ent := 1, pos := 0 }, sink := { ent := 0, pos := 0 },
                      twin := { ent := 1, block := 0, pos := 0 }, flags := 0 },
                    { source := { ent := 2, pos := 0 }, sink := { ent := 0, pos := 0 },
                      twin := { ent := 2, block := 0, pos := 0 }, flags := 0 }],
          links_block := 1, max_links := 6 },
        { info := { id := 2, pads := 1, links := 1 },
          pads := [{ entity := 1, index := 0, flags := MEDIA_PAD_FL_SOURCE }],
          links := [{ source := { ent := 1, pos := 0 }, sink := { ent := 0, pos := 0 },
                      twin := { ent := 0, block := 1, pos := 2 }, flags := 0 }],
          max_links := 2 },
        { info := { id := 3, pads := 1, links := 1 },
          pads := [{ entity := 2, index := 0, flags := MEDIA_PAD_FL_SOURCE }],
          links := [{ source := { ent := 2, pos := 0 }, sink := { ent := 0, pos := 0 },
                      twin := { ent := 0, block := 1, pos := 3 }, flags := 0 }],
          max_links := 2 } ] }

/-- A graph of three entities with the ids 0, 2 and 5. -/
def ids_graph : media_device :=
  { fd := 3,
    entities := [ { info := { id := 0 } }, { info := { id := 2 } }, { info := { id := 5 } } ] }

/-- At most one enabled link ends at a pad: two enabled entries of a link list
with the same sink pad have the same source pad. -/
def AtMostOneEnabled (m : media_device) : Prop :=
  ∀ e, ∀ l1 ∈ (entityAt m e).links, ∀ l2 ∈ (entityAt m e).links,
    l1.flags &&& MEDIA_LNK_FL_ENABLED ≠ 0 → l2.flags &&& MEDIA_LNK_FL_ENABLED ≠ 0 →
    l1.sink = l2.sink → l1.source = l2.source

/-- The check of `AtMostOneEnabled` over the link lists of the graph. -/
def atMostOneEnabledB (m : media_device) : Bool :=
  m.entities.all (fun x => x.links.all (fun l1 => x.links.all (fun l2 =>
    !(decide (l1.flags &&& MEDIA_LNK_FL_ENABLED ≠ 0) &&
      decide (l2.flags &&& MEDIA_LNK_FL_ENABLED ≠ 0) && decide (l1.sink = l2.sink)) ||
    decide (l1.source = l2.source))))

/-! ## The tokens of the descriptors and their texts -/

/-- The two ways in which a descriptor names an entity (`parse_pad`): a name
between double quotes, or the decimal digits of an id. -/
inductive entity_ref where
  | by_name (name : List Char)
  | by_id (digits : List Char)
deriving DecidableEq, Repr, Inhabited

/-- A non-empty sequence of decimal digits. -/
def Digits (ds : List Char) : Prop := ds ≠ [] ∧ ∀ c ∈ ds, isdigit c = true
/-- White space between two tokens: characters that `isspace` accepts, among
them space, tab and newline. -/
def Blank (g : List Char) : Prop := ∀ c ∈ g, isspace c = true
/-- The value that `strtoul` gives for a sequence of decimal digits. -/
def strtoul_value (ds : List Char) : Nat :=
  if ULONG_MAX < decimal_value ds then ULONG_MAX else decimal_value ds

/-- The text of an entity reference, followed by the text `t`. -/
def entity_text : entity_ref → List Char → List Char
  | entity_ref.by_name name, t => DQUOTE :: (name ++ DQUOTE :: t)
  | entity_ref.by_id digits, t => digits ++ t

/-- The text of a pad: entity reference, `:` and pad index, with the white space
`g0` before the entity reference, `g1` before the colon, `g2` before the index
and `g3` after it, followed by the text `t`. -/
def pad_text (g0 g1 g2 g3 : List Char) (r : entity_ref) (ds : List Char) (t : List Char) :
    List Char :=
  g0 ++ entity_text r (g1 ++ ':' :: (g2 ++ (ds ++ (g3 ++ t))))

/-- A quoted name holds neither a double quote nor a NUL; an id is a sequence
of digits. -/
def WellFormedRef : entity_ref → Prop
  | entity_ref.by_name name => ∀ c ∈ name, c ≠ DQUOTE ∧ c ≠ NUL
  | entity_ref.by_id digits => Digits digits

/-- The entity that `parse_pad` looks up for an entity reference. -/
def entity_sem (m : media_device) : entity_ref → Option Nat
  | entity_ref.by_name name => media_get_entity_by_name m name name.length
  | entity_ref.by_id digits => media_get_entity_by_id m (to_u32 (strtoul_value digits))

/-- The pad that `parse_pad` returns for an entity reference and the digits of
a pad index. -/
def pad_sem (m : media_device) (r : entity_ref) (ds : List Char) : Option PadRef :=
  match entity_sem m r with
  | none => none
  | some entity =>
    if to_u32 (strtoul_value ds) ≥ (entityAt m entity).info.pads then none
    else some { ent := entity, pos := to_u32 (strtoul_value ds) }

/-- The tokens of one link descriptor: the two pads and the digits of the
flags. -/
structure link_cfg where
  source : entity_ref := default
  source_pad : List Char := []
  sink : entity_ref := default
  sink_pad : List Char := []
  flags : List Char := []
deriving DecidableEq, Repr, Inhabited

/-- The white space around the tokens of one link descriptor, in order: before
the source entity, the colon, the pad index and the arrow; before the sink
entity, the colon, the pad index and the opening bracket; before the flags and
the closing bracket; and after the closing bracket. -/
structure link_gaps where
  g0 : List Char := []
  g1 : List Char := []
  g2 : List Char := []
  g3 : List Char := []
  g4 : List Char := []
  g5 : List Char := []
  g6 : List Char := []
  g7 : List Char := []
  g8 : List Char := []
  g9 : List Char := []
  g10 : List Char := []
deriving DecidableEq, Repr, Inhabited

/-- The text of one link descriptor with the white space `g`, followed by the
text `t`. -/
def link_cfg_text (g : link_gaps) (d : link_cfg) (t : List Char) : List Char :=
  pad_text g.g0 g.g1 g.g2 g.g3 d.source d.source_pad
    ('-' :: '>' :: pad_text g.g4 g.g5 g.g6 g.g7 d.sink d.sink_pad
      ('[' :: (g.g8 ++ (d.flags ++ (g.g9 ++ ']' :: (g.g10 ++ t))))))

/-- The text of a list of link descriptors separated by commas. -/
def link_list_text : List (link_gaps × link_cfg) → List Char
  | [] => []
  | [x] => link_cfg_text x.1 x.2 []
  | x :: y :: xs => link_cfg_text x.1 x.2 (',' :: link_list_text (y :: xs))

/-- The tokens of a link descriptor are well formed. -/
def WellFormedCfg (d : link_cfg) : Prop :=
  WellFormedRef d.source ∧ Digits d.source_pad ∧ WellFormedRef d.sink ∧ Digits d.sink_pad ∧
    Digits d.flags

/-- Every gap of `g` is white space. -/
def BlankGaps (g : link_gaps) : Prop :=
  Blank g.g0 ∧ Blank g.g1 ∧ Blank g.g2 ∧ Blank g.g3 ∧ Blank g.g4 ∧ Blank g.g5 ∧ Blank g.g6 ∧
    Blank g.g7 ∧ Blank g.g8 ∧ Blank g.g9 ∧ Blank g.g10

/-- The link that `parse_link` returns for the tokens of a descriptor. -/
def link_sem (m : media_device) (d : link_cfg) : Option LinkRef :=
  match pad_sem m d.source d.source_pad with
  | none => none
  | some source =>
    match pad_sem m d.sink d.sink_pad with
    | none => none
    | some sink =>
      let links := (entityAt m (padAt m source).entity).links
      let i := links.findIdx (fun link => decide (link.source = source ∧ link.sink = sink))
      if i < links.length then some (linkRef m (padAt m source).entity i) else none

/-- The return value of `setup_link` and the world it leaves for the tokens of a
descriptor. -/
def setup_link_sem (dev : Device) (w : World) (d : link_cfg) : Int × World :=
  match link_sem w.media d with
  | none => (-EINVAL, w)
  | some link =>
    media_setup_link dev w (linkAt w.media link).source (linkAt w.media link).sink
      (to_u32 (strtoul_value d.flags))

/-- The return value of `setup_links` and the world it leaves for the tokens of
a list of descriptors. -/
def setup_links_sem (dev : Device) : World → List link_cfg → Int × World
  | w, [] => (0, w)
  | w, d :: ds =>
    let r := setup_link_sem dev w d
    if r.1 < 0 then r else setup_links_sem dev r.2 ds

instance instDecidableDigits (ds : List Char) : Decidable (Digits ds) :=
  inferInstanceAs (Decidable (ds ≠ [] ∧ ∀ c ∈ ds, isdigit c = true))

instance instDecidableBlank (g : List Char) : Decidable (Blank g) :=
  inferInstanceAs (Decidable (∀ c ∈ g, isspace c = true))

instance instDecidableWellFormedRef : (r : entity_ref) → Decidable (WellFormedRef r)
  | entity_ref.by_name name =>
    inferInstanceAs (Decidable (∀ c ∈ name, c ≠ DQUOTE ∧ c ≠ NUL))
  | entity_ref.by_id digits => inferInstanceAs (Decidable (Digits digits))

instance instDecidableWellFormedCfg (d : link_cfg) : Decidable (WellFormedCfg d) :=
  inferInstanceAs (Decidable (WellFormedRef d.source ∧ Digits d.source_pad ∧
    WellFormedRef d.sink ∧ Digits d.sink_pad ∧ Digits d.flags))

instance instDecidableBlankGaps (g : link_gaps) : Decidable (BlankGaps g) :=
  inferInstanceAs (Decidable (Blank g.g0 ∧ Blank g.g1 ∧ Blank g.g2 ∧ Blank g.g3 ∧ Blank g.g4 ∧
    Blank g.g5 ∧ Blank g.g6 ∧ Blank g.g7 ∧ Blank g.g8 ∧ Blank g.g9 ∧ Blank g.g10))

/-- The tab character. -/
def TAB : Char := Char.ofNat 9
/-- The newline character. -/
def NEWLINE : Char := Char.ofNat 10

/-- The tokens of the descriptor "Sensor":0->2:0[flags]. -/
def sensor_link_cfg (flags : String) : link_cfg :=
  { source := entity_ref.by_name "Sensor".toList, source_pad := "0".toList,
    sink := entity_ref.by_id "2".toList, sink_pad := "0".toList, flags := flags.toList }

/-- Spaces, tabs and newlines in every gap of a link descriptor. -/
def wide_gaps : link_gaps :=
  { g0 := [' '], g1 := [TAB], g2 := [NEWLINE], g3 := [' ', ' '], g4 := [TAB, ' '],
    g5 := [' '], g6 := [NEWLINE, TAB], g7 := [' '], g8 := [' '], g9 := [TAB], g10 := [' ', NEWLINE] }

/-- The entity `e` has the name `name` and no entity enumerated before it has a
name that begins with `name`. -/
def NameFinds (m : media_device) (name : List Char) (e : Nat) : Prop :=
  e < m.entities.length ∧ (entityAt m e).info.name = name ∧
    ∀ k, k < e → ¬ name <+: (entityAt m k).info.name

/-- A name without a double quote and without a NUL. -/
def PlainName (name : List Char) : Prop := ∀ c ∈ name, c ≠ DQUOTE ∧ c ≠ NUL

/-- No entity has a name that begins with `name`. -/
def NoNameBegins (m : media_device) (name : List Char) : Prop :=
  ∀ e ∈ m.entities, ¬ name <+: e.info.name

instance instDecidablePlainName (name : List Char) : Decidable (PlainName name) :=
  inferInstanceAs (Decidable (∀ c ∈ name, c ≠ DQUOTE ∧ c ≠ NUL))

instance instDecidableNoNameBegins (m : media_device) (name : List Char) :
    Decidable (NoNameBegins m name) :=
  inferInstanceAs (Decidable (∀ e ∈ m.entities, ¬ name <+: e.info.name))

instance instDecidableNameFinds (m : media_device) (name : List Char) (e : Nat) :
    Decidable (NameFinds m name e) :=
  inferInstanceAs (Decidable (e < m.entities.length ∧ (entityAt m e).info.name = name ∧
    ∀ k, k < e → ¬ name <+: (entityAt m k).info.name))

/-- The text `"A":i->"B":j[F]` for names `A`, `B` and digits `is`, `js`, `fs`. -/
def link_descriptor (A is B js fs : List Char) : List Char :=
  DQUOTE :: (A ++ DQUOTE :: ':' :: (is ++ '-' :: '>' :: DQUOTE ::
    (B ++ DQUOTE :: ':' :: (js ++ '[' :: (fs ++ [']'])))))

/-- The tokens of `link_descriptor`. -/
def named_link_cfg (A is B js fs : List Char) : link_cfg :=
  { source := entity_ref.by_name A, source_pad := is, sink := entity_ref.by_name B,
    sink_pad := js, flags := fs }

/-- A name that ends in a double quote: Panel 7 and the inch mark. -/
def panel_name : List Char := "Panel 7".toList ++ [DQUOTE]

/-- The sensor graph with the sink entity named `panel_name`. -/
def panel_graph : media_device :=
  { fd := 3,
    entities :=
      [ { info := { id := 1, name := "Sensor".toList, type := MEDIA_ENT_T_V4L2_SUBDEV,
                    pads := 1, links := 1 },
          pads := [{ entity := 0, index := 0, flags := MEDIA_PAD_FL_SOURCE }],
          links := [{ source := { ent := 0, pos := 0 }, sink := { ent := 1, pos := 0 },
                      twin := { ent := 1, block := 0, pos := 0 }, flags := 0 }],
          max_links := 2 },
        { info := { id := 2, name := panel_name, type := MEDIA_ENT_T_V4L2_SUBDEV,
                    pads := 1, links := 0 },
          pads := [{ entity := 1, index := 0, flags := MEDIA_PAD_FL_SINK }],
          links := [{ source := { ent := 0, pos := 0 }, sink := { ent := 1, pos := 0 },
                      twin := { ent := 0, block := 0, pos := 0 }, flags := 0 }],
          max_links := 1 } ] }

/-- The text `"E":i[C WxH]`. -/
def format_descriptor (E is C W H : List Char) : List Char :=
  DQUOTE :: (E ++ DQUOTE :: ':' :: (is ++ '[' :: (C ++ ' ' :: (W ++ 'x' :: (H ++ [']'])))))

/-- The text `"E":i[(l,t)/wxh@n/d]`. -/
def crop_descriptor (E is L T W H N D : List Char) : List Char :=
  DQUOTE :: (E ++ DQUOTE :: ':' :: (is ++ '[' :: '(' :: (L ++ ',' :: (T ++ ')' :: '/' ::
    (W ++ 'x' :: (H ++ '@' :: (N ++ '/' :: (D ++ [']']))))))))

/-- A graph with two entities named "Sensor": the first has one pad, the second
two. -/
def twin_name_graph : media_device :=
  { fd := 3,
    entities :=
      [ { info := { id := 1, name := "Sensor".toList, type := MEDIA_ENT_T_V4L2_SUBDEV,
                    pads := 1, links := 0 },
          pads := [{ entity := 0, index := 0, flags := MEDIA_PAD_FL_SOURCE }],
          max_links := 1 },
        { info := { id := 2, name := "Sensor".toList, type := MEDIA_ENT_T_V4L2_SUBDEV,
                    pads := 2, links := 0 },
          pads := [{ entity := 1, index := 0, flags := MEDIA_PAD_FL_SINK },
                   { entity := 1, index := 1, flags := MEDIA_PAD_FL_SOURCE }],
          max_links := 2 } ] }

/-! ## The lists of descriptors, the format setup and `main` -/

/-- The loop `do ... while (*end == ',')` of `setup_links` and `setup_formats`
for a function `step` in the place of `setup_link` or `setup_format`, with a
bound on the number of iterations. -/
def list_loop {W : Type} (step : W → List Char → Int × W × List Char) :
    Nat → W → List Char → Option (Int × W)
  | 0, _, _ => none
  | fuel + 1, w, p =>
    let r := step w p
    if r.1 < 0 then some (r.1, r.2.1)
    else if cur r.2.2 = ',' then list_loop step fuel r.2.1 r.2.2.tail
    else some ((if cur r.2.2 ≠ NUL then -EINVAL else 0), r.2.1)

/-- The elements of a list that have been applied: from the world `w` and the
text `p`, `step` has returned 0 on each element in turn and has stopped on a
comma each time; `w1` is the world it has left and `p1` the text
after the last of these commas. -/
inductive Applied {W : Type} (step : W → List Char → Int × W × List Char) :
    W → List Char → W → List Char → Prop where
  | none (w : W) (p : List Char) : Applied step w p w p
  | next (w : W) (p : List Char) (w1 : W) (p1 : List Char) :
      (step w p).1 = 0 → cur (step w p).2.2 = ',' →
      Applied step (step w p).2.1 (step w p).2.2.tail w1 p1 → Applied step w p w1 p1

/-- The statements of `setup_format` between `parse_pad_format` and the
propagation loop, for the result `pf` of `parse_pad_format`: the return value of
the first of the four steps that fails (0 when none does), the world, and the
content of `format` at that point. -/
def format_steps (sd : SubDevice) (w : FWorld) (pf : pad_format) :
    Int × FWorld × v4l2_mbus_framefmt :=
  let pad := pf.pad
  let c1 : Int × FWorld × v4l2_rect :=
    if (padAt w.media pad).flags &&& MEDIA_PAD_FL_SOURCE ≠ 0 then set_crop sd w pad pf.crop
    else (0, w, pf.crop)
  if c1.1 < 0 then (c1.1, c1.2.1, pf.format)
  else
    let f := set_format sd c1.2.1 pad pf.format
    if f.1 < 0 then (f.1, f.2.1, f.2.2)
    else
      let c2 : Int × FWorld × v4l2_rect :=
        if (padAt w.media pad).flags &&& MEDIA_PAD_FL_SINK ≠ 0 then
          set_crop sd f.2.1 pad c1.2.2
        else (0, f.2.1, c1.2.2)
      if c2.1 < 0 then (c2.1, c2.2.1, f.2.2)
      else
        let i := set_frame_interval sd c2.2.1 (padAt w.media pad).entity pf.interval
        if i.1 < 0 then (i.1, i.2.1, f.2.2) else (0, i.2.1, f.2.2)

/-- The propagation loop of `setup_format` for the pad `pad` of the graph of
`w0` and the content `format` of the variable `format`, run from the world
`w`. -/
def propagate_formats (sd : SubDevice) (w0 : FWorld) (pad : PadRef)
    (format : v4l2_mbus_framefmt) (w : FWorld) : FWorld :=
  if (padAt w0.media pad).flags &&& MEDIA_PAD_FL_SOURCE ≠ 0 then
    (entityAt w0.media (padAt w0.media pad).entity).links.foldl
      (propagate_format sd pad format) w
  else w

/-- The calls of `cs` that are ioctls: all but the calls of `open`. -/
def ioctl_calls (cs : List subdev_request) : List subdev_request :=
  cs.filter (fun c => match c with
    | subdev_request.open_node _ => false
    | _ => true)

/-- The world `w1` holds the calls of `w` followed by calls that satisfy `P`. -/
def CallsExtend (w w1 : FWorld) (P : subdev_request → Prop) : Prop :=
  ∃ cs, w1.calls = w.calls ++ cs ∧ ∀ c ∈ cs, P c

/-- An entity without the file descriptor of its device node. -/
def without_fd (x : media_entity) : media_entity := { x with fd := 0 }

/-- The graphs `m` and `m1` differ at most in the file descriptors of the
device nodes of their entities. -/
def SameButFd (m m1 : media_device) : Prop :=
  m1.entities.map without_fd = m.entities.map without_fd

/-- The calls that the four steps of `setup_format` may make for the result `pf`
of `parse_pad_format`: `open`, set-crop on the pad when the crop is set,
set-format on the pad with the parsed format when the format is set, and
set-frame-interval on the entity of the pad when the interval is set. -/
def StepCall (w : FWorld) (pf : pad_format) (c : subdev_request) : Prop :=
  (∃ e, c = subdev_request.open_node e) ∨
  ((pf.crop.left ≠ -1 ∧ pf.crop.top ≠ -1) ∧
    ∃ r, c = subdev_request.s_crop (padAt w.media pf.pad).entity
      (padAt w.media pf.pad).index r) ∨
  ((pf.format.width ≠ 0 ∧ pf.format.height ≠ 0) ∧
    c = subdev_request.s_fmt (padAt w.media pf.pad).entity
      (padAt w.media pf.pad).index pf.format) ∨
  (pf.interval.numerator ≠ 0 ∧
    c = subdev_request.s_frame_interval (padAt w.media pf.pad).entity pf.interval)

/-- The link `l` of the graph of `w0` takes part in the propagation from the
pad `pad`: it is enabled, its source is `pad` and the type of the entity of its
sink is `MEDIA_ENT_T_V4L2_SUBDEV`. -/
def Eligible (w0 : FWorld) (pad : PadRef) (l : media_link) : Prop :=
  l.flags &&& MEDIA_LNK_FL_ENABLED ≠ 0 ∧ l.source = pad ∧
    (entityAt w0.media (padAt w0.media l.sink).entity).info.type = MEDIA_ENT_T_V4L2_SUBDEV

instance instDecidableEligible (w0 : FWorld) (pad : PadRef) (l : media_link) :
    Decidable (Eligible w0 pad l) :=
  inferInstanceAs (Decidable (l.flags &&& MEDIA_LNK_FL_ENABLED ≠ 0 ∧ l.source = pad ∧
    (entityAt w0.media (padAt w0.media l.sink).entity).info.type = MEDIA_ENT_T_V4L2_SUBDEV))

/-- The calls that the propagation loop of `setup_format` may make: none when
`format` has a zero width or height, else `open` and set-format with `format`
on the sink pad of an eligible link of the entity of `pad`. -/
def PropagatedCall (w0 : FWorld) (pad : PadRef) (format : v4l2_mbus_framefmt)
    (c : subdev_request) : Prop :=
  (format.width ≠ 0 ∧ format.height ≠ 0) ∧
  ((∃ e, c = subdev_request.open_node e) ∨
    ∃ l ∈ (entityAt w0.media (padAt w0.media pad).entity).links, Eligible w0 pad l ∧
      c = subdev_request.s_fmt (padAt w0.media l.sink).entity (padAt w0.media l.sink).index
        format)

/-- Modelled from the spec: the mask `MEDIA_ENT_TYPE_MASK` of `<linux/media.h>`,
which is not part of the sources (`0x00ff0000`). -/
def MEDIA_ENT_TYPE_MASK : Nat := 16711680

/-- The function `media_entity_type` of `media.h`, for the entity at position
`e`. -/
def media_entity_type (m : media_device) (e : Nat) : Nat :=
  (entityAt m e).info.type &&& MEDIA_ENT_TYPE_MASK

/-- The graph of the propagation scenario: "Sensor" (id 1, a source pad 0)
linked to pad 0 of "ISP" (id 2, a sink pad 0 and a source pad 1); `f` is the
flags word of the link and `type` the type of "ISP". -/
def isp_graph (f type : Nat) : media_device :=
  { fd := 3,
    entities :=
      [ { info := { id := 1, name := "Sensor".toList, type := MEDIA_ENT_T_V4L2_SUBDEV + 1,
                    pads := 1, links := 1 },
          pads := [{ entity := 0, index := 0, flags := MEDIA_PAD_FL_SOURCE }],
          links := [{ source := { ent := 0, pos := 0 }, sink := { ent := 1, pos := 0 },
                      twin := { ent := 1, block := 0, pos := 0 }, flags := f }],
          max_links := 2 },
        { info := { id := 2, name := "ISP".toList, type := type, pads := 2, links := 0 },
          pads := [{ entity := 1, index := 0, flags := MEDIA_PAD_FL_SINK },
                   { entity := 1, index := 1, flags := MEDIA_PAD_FL_SOURCE }],
          links := [{ source := { ent := 0, pos := 0 }, sink := { ent := 1, pos := 0 },
                      twin := { ent := 0, block := 0, pos := 0 }, flags := f }],
          max_links := 2 } ] }

/-- A graph in which the source pad of "Sensor" has enabled links to the sink
pads of two sub-devices, "Resizer A" and "Resizer B". -/
def fanout_graph : media_device :=
  { fd := 3,
    entities :=
      [ { info := { id := 1, name := "Sensor".toList, type := MEDIA_ENT_T_V4L2_SUBDEV,
                    pads := 1, links := 2 },
          pads := [{ entity := 0, index := 0, flags := MEDIA_PAD_FL_SOURCE }],
          links := [{ source := { ent := 0, pos := 0 }, sink := { ent := 1, pos := 0 },
                      twin := { ent := 1, block := 0, pos := 0 }, flags := 1 },
                    { source := { ent := 0, pos := 0 }, sink := { ent := 2, pos := 0 },
                      twin := { ent := 2, block := 0, pos := 0 }, flags := 1 }],
          max_links := 3 },
        { info := { id := 2, name := "Resizer A".toList, type := MEDIA_ENT_T_V4L2_SUBDEV,
                    pads := 1, links := 0 },
          pads := [{ entity := 1, index := 0, flags := MEDIA_PAD_FL_SINK }],
          links := [{ source := { ent := 0, pos := 0 }, sink := { ent := 1, pos := 0 },
                      twin := { ent := 0, block := 0, pos := 0 }, flags := 1 }],
          max_links := 1 },
        { info := { id := 3, name := "Resizer B".toList, type := MEDIA_ENT_T_V4L2_SUBDEV,
                    pads := 1, links := 0 },
          pads := [{ entity := 2, index := 0, flags := MEDIA_PAD_FL_SINK }],
          links := [{ source := { ent := 0, pos := 0 }, sink := { ent := 2, pos := 0 },
                      twin := { ent := 0, block := 0, pos := 1 }, flags := 1 }],
          max_links := 1 } ] }

/-- Device nodes that open and accept every setting, but for the set-format
call on the entity at position `e`, which fails with `EINVAL`. -/
def refusing_subdev (e : Nat) : SubDevice :=
  { open_node := fun _ x => Except.ok (10 + (x : Int)),
    s_fmt := fun _ x _ f => if x = e then Except.error 22 else Except.ok f,
    s_crop := fun _ _ _ r => Except.ok r,
    s_frame_interval := fun _ _ i => Except.ok i }

/-- Device nodes that open and accept every setting, and answer every
set-format call with the size 640x480 and the code that was asked for. -/
def adjusting_subdev : SubDevice :=
  { open_node := fun _ x => Except.ok (10 + (x : Int)),
    s_fmt := fun _ _ _ f => Except.ok { f with width := 640, height := 480 },
    s_crop := fun _ _ _ r => Except.ok r,
    s_frame_interval := fun _ _ i => Except.ok i }

/-- The world of the witnesses: the graph of "Sensor" and "ISP" with an enabled
link and no call made. -/
def isp_world : FWorld := { media := isp_graph 1 MEDIA_ENT_T_V4L2_SUBDEV }

/-- The result of `parse_pad_format` on a descriptor of pad 0 of "Sensor" with
the format UYVY of the given size and nothing else. -/
def uyvy_pad_format (width height : Nat) : pad_format :=
  { pad := { ent := 0, pos := 0 },
    format := { width := width, height := height, code := 0x200f },
    crop := { left := -1, top := -1, width := -1, height := -1 },
    interval := { numerator := 0, denominator := 0 },
    endp := [] }

/-- Modelled from the spec: the value `EXIT_SUCCESS` of `<stdlib.h>`, which is
not part of the sources. -/
def EXIT_SUCCESS : Int := 0

/-- Modelled from the spec: the value `EXIT_FAILURE` of `<stdlib.h>`, which is
not part of the sources. -/
def EXIT_FAILURE : Int := 1

/-- Modelled from the spec: the `struct media_options` of `options.h`, which is
not part of the sources, with the fields that `main` reads. A string that the
command line does not give is `none` (a NULL pointer); the flags are `int`s that
`main` only tests against 0. -/
structure media_options where
  devname : List Char := "/dev/media0".toList
  entity : Option (List Char) := none
  formats : Option (List Char) := none
  interactive : Bool := false
  links : Option (List Char) := none
  pad : Option (List Char) := none
  print : Bool := false
  print_dot : Bool := false
  reset : Bool := false
  verbose : Bool := false
deriving DecidableEq, Repr, Inhabited

/-- The function `v4l2_subdev_get_format` of `subdev.c` (always called with
`V4L2_SUBDEV_FORMAT_ACTIVE`): the return value, the world and `*format`, which
is written only when the function returns 0. -/
def v4l2_subdev_get_format (sd : SubDevice) (w : FWorld) (entity : Nat) (pad : Nat) :
    Int × FWorld × v4l2_mbus_framefmt :=
  let o := v4l2_subdev_open sd w entity
  if o.1 < 0 then (o.1, o.2, {})
  else
    let w1 : FWorld := { o.2 with calls := o.2.calls ++ [subdev_request.g_fmt entity pad] }
    match sd.g_fmt o.2.calls entity pad with
    | Except.error errno => (-(errno : Int), w1, {})
    | Except.ok f => (0, w1, f)

/-- The function `v4l2_subdev_get_crop` of `subdev.c`: the return value, the
world and `*rect`, which is written only when the function returns 0. -/
def v4l2_subdev_get_crop (sd : SubDevice) (w : FWorld) (entity : Nat) (pad : Nat) :
    Int × FWorld × v4l2_rect :=
  let o := v4l2_subdev_open sd w entity
  if o.1 < 0 then (o.1, o.2, {})
  else
    let w1 : FWorld := { o.2 with calls := o.2.calls ++ [subdev_request.g_crop entity pad] }
    match sd.g_crop o.2.calls entity pad with
    | Except.error errno => (-(errno : Int), w1, {})
    | Except.ok r => (0, w1, r)

/-- The function `v4l2_subdev_print_format` of `main.c`: the world after its
calls (what it prints is not part of the state). -/
def v4l2_subdev_print_format (sd : SubDevice) (w : FWorld) (entity : Nat) (pad : Nat) :
    FWorld :=
  let g := v4l2_subdev_get_format sd w entity pad
  if g.1 ≠ 0 then g.2.1 else (v4l2_subdev_get_crop sd g.2.1 entity pad).2.1

/-- The function `media_print_topology_text` of `main.c`: the world after the
calls of `v4l2_subdev_print_format`, made for every pad position of every
entity whose masked type is `MEDIA_ENT_T_V4L2_SUBDEV`. -/
def media_print_topology_text (sd : SubDevice) (w : FWorld) : FWorld :=
  (List.range w.media.entities_count).foldl
    (fun w i =>
      (List.range (entityAt w.media i).info.pads).foldl
        (fun w j =>
          if media_entity_type w.media i = MEDIA_ENT_T_V4L2_SUBDEV then
            v4l2_subdev_print_format sd w i j
          else w) w) w

/-- The function `media_print_topology` of `main.c`; `media_print_topology_dot`
makes no call. -/
def media_print_topology (sd : SubDevice) (w : FWorld) (dot : Bool) : FWorld :=
  if dot then w else media_print_topology_text sd w

/-- The loop of `main` for the option `--interactive`, over the lines that
`fgets` returns: it ends when there is no line left or at a line made of a
newline, and hands every other line to `setup_link`, whose return value it does
not read. -/
def interactive_loop (dev : Device) : List (List Char) → World → World
  | [], w => w
  | buffer :: rest, w =>
    if cur buffer = NEWLINE then w else interactive_loop dev rest (setup_link dev w buffer).2.1

/-- The function `main` of `main.c`: the completion status, the graph with the
requests sent to the media device, and the calls made to the device nodes.
`parse_cmdline` is the return value of `parse_cmdline`, which fills in
`media_opts`; `stdin` holds the lines that `fgets` returns. The result is `none`
when `fuel` iterations do not end the enumeration of entities. -/
def main (parse_cmdline : Int) (media_opts : media_options) (env : Env) (fuel : Nat)
    (dev : Device) (sd : SubDevice) (stdin : List (List Char)) :
    Option (Int × World × List subdev_request) :=
  if parse_cmdline ≠ 0 then some (EXIT_FAILURE, {}, [])
  else
    match media_open env fuel with
    | none => none
    | some none => some (EXIT_FAILURE, {}, [])
    | some (some media) =>
      let found : Bool :=
        match media_opts.entity with
        | none => true
        | some name => (media_get_entity_by_name media name name.length).isSome
      if found = false then some (EXIT_FAILURE, { media := media }, [])
      else
        let printed : Option FWorld :=
          match media_opts.pad with
          | none => some { media := media }
          | some text =>
            match parse_pad media text with
            | none => none
            | some (pad, _) =>
              some (v4l2_subdev_print_format sd { media := media } (padAt media pad).entity
                (padAt media pad).index)
        match printed with
        | none => some (EXIT_FAILURE, { media := media }, [])
        | some fw =>
          let fw1 :=
            if media_opts.print ∨ media_opts.print_dot then
              media_print_topology sd fw media_opts.print_dot
            else fw
          let w1 : World :=
            if media_opts.reset then (media_reset_links dev { media := fw1.media }).2
            else { media := fw1.media }
          let linked : Option World :=
            match media_opts.links with
            | none => some w1
            | some text => (setup_links dev w1 text).map (fun r => r.2)
          match linked with
          | none => none
          | some w2 =>
            let formatted : Option FWorld :=
              match media_opts.formats with
              | none => some { media := w2.media, calls := fw1.calls }
              | some text =>
                (setup_formats sd { media := w2.media, calls := fw1.calls } text).map
                  (fun r => r.2)
            match formatted with
            | none => none
            | some fw2 =>
              let w3 : World :=
                if media_opts.interactive then
                  interactive_loop dev stdin { media := fw2.media, trace := w2.trace }
                else { media := fw2.media, trace := w2.trace }
              some (EXIT_SUCCESS, w3, fw2.calls)

/-! ## Numbers left out of a descriptor, failing calls and reported links -/

/-- The text `t` does not begin with a number as `strtoul` reads one: its first
character is no white space and no digit, and when it is a sign the character
after it is no digit. The empty text is such a text. -/
def NoNumber (t : List Char) : Prop :=
  isspace (cur t) = false ∧ isdigit (cur t) = false ∧
    (cur t = '-' ∨ cur t = '+' → isdigit (cur t.tail) = false)

instance instDecidableNoNumber (t : List Char) : Decidable (NoNumber t) :=
  inferInstanceAs (Decidable (isspace (cur t) = false ∧ isdigit (cur t) = false ∧
    (cur t = '-' ∨ cur t = '+' → isdigit (cur t.tail) = false)))

/-- Every stored pad is in its place: its back pointer `entity` is the entity
that stores it and its `index` is its position in `entity->pads`. -/
def PadsInPlace (m : media_device) : Prop :=
  ∀ r ∈ allPadRefs m, (padAt m r).entity = r.ent ∧ (padAt m r).index = r.pos

instance instDecidablePadsInPlace (m : media_device) : Decidable (PadsInPlace m) :=
  inferInstanceAs (Decidable (∀ r ∈ allPadRefs m,
    (padAt m r).entity = r.ent ∧ (padAt m r).index = r.pos))

/-- The source and the sink of every stored link are stored pads. -/
def LinkEndsStored (m : media_device) : Prop :=
  ∀ x ∈ m.entities, ∀ l ∈ x.links, ValidPad m l.source ∧ ValidPad m l.sink

instance instDecidableLinkEndsStored (m : media_device) : Decidable (LinkEndsStored m) :=
  inferInstanceAs (Decidable (∀ x ∈ m.entities, ∀ l ∈ x.links,
    ValidPad m l.source ∧ ValidPad m l.sink))

/-- Modelled from the spec: the errno value `EBUSY` of `<errno.h>`. -/
def EBUSY : Nat := 16

/-- A device whose `MEDIA_IOC_SETUP_LINK` fails with `EBUSY`: `ioctl` returns -1
and `errno` is `EBUSY`. -/
def busy_device : Device := fun _ u => { ret := -1, flags := u.flags, errno := EBUSY }

/-- The device node refuses the call `c`, made after the calls `cs`, and `e` is
the negated `errno` of the refusal. -/
def Refused (sd : SubDevice) (cs : List subdev_request) (c : subdev_request) (e : Int) :
    Prop :=
  match c with
  | subdev_request.open_node x =>
    ∃ errno, sd.open_node cs x = Except.error errno ∧ e = -(errno : Int)
  | subdev_request.s_fmt x i f =>
    ∃ errno, sd.s_fmt cs x i f = Except.error errno ∧ e = -(errno : Int)
  | subdev_request.s_crop x i r =>
    ∃ errno, sd.s_crop cs x i r = Except.error errno ∧ e = -(errno : Int)
  | subdev_request.s_frame_interval x i =>
    ∃ errno, sd.s_frame_interval cs x i = Except.error errno ∧ e = -(errno : Int)
  | subdev_request.g_fmt x i =>
    ∃ errno, sd.g_fmt cs x i = Except.error errno ∧ e = -(errno : Int)
  | subdev_request.g_crop x i =>
    ∃ errno, sd.g_crop cs x i = Except.error errno ∧ e = -(errno : Int)

/-- The calls of `w1` are those of `w0` followed by calls of which the last is
one that the device node has refused, with the negated `errno` `e`. -/
def FailedOn (sd : SubDevice) (w0 w1 : FWorld) (e : Int) : Prop :=
  ∃ cs c, w1.calls = w0.calls ++ cs ++ [c] ∧ Refused sd (w0.calls ++ cs) c e

/-- The first step of `setup_format` after `parse_pad_format` has given `pf`:
`set_crop` when the pad has the SOURCE flag. -/
def crop_on_source (sd : SubDevice) (w : FWorld) (pf : pad_format) : Int × FWorld × v4l2_rect :=
  if (padAt w.media pf.pad).flags &&& MEDIA_PAD_FL_SOURCE ≠ 0 then set_crop sd w pf.pad pf.crop
  else (0, w, pf.crop)

/-- The second step of `setup_format`: `set_format` on the pad. -/
def format_on_pad (sd : SubDevice) (w : FWorld) (pf : pad_format) :
    Int × FWorld × v4l2_mbus_framefmt :=
  set_format sd (crop_on_source sd w pf).2.1 pf.pad pf.format

/-- The third step of `setup_format`: `set_crop` when the pad has the SINK
flag, on the rectangle as the first step has left it. -/
def crop_on_sink (sd : SubDevice) (w : FWorld) (pf : pad_format) : Int × FWorld × v4l2_rect :=
  if (padAt w.media pf.pad).flags &&& MEDIA_PAD_FL_SINK ≠ 0 then
    set_crop sd (format_on_pad sd w pf).2.1 pf.pad (crop_on_source sd w pf).2.2
  else (0, (format_on_pad sd w pf).2.1, (crop_on_source sd w pf).2.2)

/-- The fourth step of `setup_format`: `set_frame_interval` on the entity of
the pad. -/
def interval_on_entity (sd : SubDevice) (w : FWorld) (pf : pad_format) :
    Int × FWorld × v4l2_fract :=
  set_frame_interval sd (crop_on_sink sd w pf).2.1 (padAt w.media pf.pad).entity pf.interval

/-- The result of `parse_pad_format` on the descriptor
"Sensor":0[UYVY 640x480 (0,0)/640x480@30/1]. -/
def vga_pad_format : pad_format :=
  { pad := { ent := 0, pos := 0 },
    format := { width := 640, height := 480, code := 0x200f },
    crop := { left := 0, top := 0, width := 640, height := 480 },
    interval := { numerator := 30, denominator := 1 },
    endp := [] }

/-- The enumeration data of a device whose sensor (id 1, one pad) reports a
link to pad 7 of the processor (id 2), which has the pads 0 and 1. -/
def stray_pad_env : Env :=
  { enum_entities := fun q =>
      if q = (0 ||| MEDIA_ENT_ID_FLAG_NEXT) then Except.ok { id := 1, pads := 1, links := 1 }
      else if q = (1 ||| MEDIA_ENT_ID_FLAG_NEXT) then
        Except.ok { id := 2, pads := 2, links := 0 }
      else Except.error 22,
    enum_links := fun id =>
      if id = 1 then
        Except.ok
          { pads := [{ entity := 1, index := 0, flags := MEDIA_PAD_FL_SOURCE }],
            links := [{ source := { entity := 1, index := 0, flags := MEDIA_PAD_FL_SOURCE },
                        sink := { entity := 2, index := 7, flags := MEDIA_PAD_FL_SINK },
                        flags := 1 }] }
      else
        Except.ok
          { pads := [{ entity := 2, index := 0, flags := MEDIA_PAD_FL_SINK },
                     { entity := 2, index := 1, flags := MEDIA_PAD_FL_SOURCE }],
            links := [] } }

/-- The graph that `media_open` builds from `stray_pad_env`: both copies of the
link have the sink `&sink->pads[7]`. -/
def stray_pad_graph : media_device :=
  { fd := 3,
    entities :=
      [ { info := { id := 1, pads := 1, links := 1 },
          pads := [{ entity := 0, index := 0, flags := MEDIA_PAD_FL_SOURCE }],
          links := [{ source := { ent := 0, pos := 0 }, sink := { ent := 1, pos := 7 },
                      twin := { ent := 1, block := 0, pos := 0 }, flags := 1 }],
          max_links := 2 },
        { info := { id := 2, pads := 2, links := 0 },
          pads := [{ entity := 1, index := 0, flags := MEDIA_PAD_FL_SINK },
                   { entity := 1, index := 1, flags := MEDIA_PAD_FL_SOURCE }],
          links := [{ source := { ent := 0, pos := 0 }, sink := { ent := 1, pos := 7 },
                      twin := { ent := 0, block := 0, pos := 0 }, flags := 1 }],
          max_links := 2 } ] }

/-- A graph of one entity that has reported 0 pads and 0 links: `max_links` is
0 and the list of links is empty. -/
def padless_graph : media_device :=
  { fd := 3,
    entities := [ { info := { id := 1, pads := 0, links := 0 }, pads := [], links := [],
                    max_links := 0 } ] }

/-! # Theorems -/

/-! ## Stores into links -/

theorem entityAt_default_of_le (m : media_device) (e : Nat) (h : m.entities.length ≤ e) :
    entityAt m e = default := by
  unfold entityAt
  rw [List.getElem?_eq_none h]; rfl

theorem entityAt_modifyLink (m : media_device) (r : LinkRef) (g : media_link → media_link)
    (e : Nat) :
    entityAt (modifyLink m r g) e =
      if e = r.ent ∧ r.block = (entityAt m r.ent).links_block then
        { entityAt m e with links := (entityAt m e).links.set r.pos (g (linkAt m r)) }
      else entityAt m e := by
  unfold modifyLink
  by_cases hb : r.block = (entityAt m r.ent).links_block
  · simp only [hb, if_true, and_true]
    by_cases he : e = r.ent
    · subst he
      simp only [if_true]
      by_cases hv : r.ent < m.entities.length
      · simp [entityAt, List.getElem?_set, hv]
      · have h1 : entityAt m r.ent = default :=
          entityAt_default_of_le m _ (Nat.le_of_not_lt hv)
        rw [entityAt_default_of_le _ _ (by simp; omega), h1]; rfl
    · simp only [if_neg he]
      simp [entityAt, List.getElem?_set, Ne.symm he]
  · simp [hb]

theorem padAt_modifyLink (m : media_device) (r : LinkRef) (g : media_link → media_link)
    (p : PadRef) : padAt (modifyLink m r g) p = padAt m p := by
  unfold padAt
  rw [entityAt_modifyLink]
  split <;> rfl

theorem length_modifyLink (m : media_device) (r : LinkRef) (g : media_link → media_link) :
    (modifyLink m r g).entities.length = m.entities.length := by
  simp only [modifyLink]
  split <;> simp

theorem linkAt_eq (m : media_device) (r : LinkRef) :
    linkAt m r =
      if r.block = (entityAt m r.ent).links_block then
        ((entityAt m r.ent).links[r.pos]?).getD default
      else default := rfl

theorem default_links_length : (default : media_entity).links.length = 0 := rfl

theorem linkAt_modifyLink (m : media_device) (r : LinkRef) (g : media_link → media_link)
    (r' : LinkRef) :
    linkAt (modifyLink m r g) r' =
      if r' = r ∧ ValidLink m r then g (linkAt m r) else linkAt m r' := by
  rw [linkAt_eq (modifyLink m r g) r', entityAt_modifyLink]
  by_cases hc : r'.ent = r.ent ∧ r.block = (entityAt m r.ent).links_block
  · rw [if_pos hc]
    obtain ⟨he, hb⟩ := hc
    dsimp only
    by_cases hrr : r' = r
    · subst hrr
      rw [if_pos hb]
      by_cases hv : ValidLink m r'
      · have hR : (if r' = r' ∧ ValidLink m r' then g (linkAt m r') else linkAt m r') =
            g (linkAt m r') := if_pos ⟨rfl, hv⟩
        rw [hR, List.getElem?_set_self hv.2.2]; rfl
      · have hR : (if r' = r' ∧ ValidLink m r' then g (linkAt m r') else linkAt m r') =
            linkAt m r' := if_neg (fun h => hv h.2)
        have hl : ¬ r'.pos < (entityAt m r'.ent).links.length := by
          intro hl
          by_cases hlen : r'.ent < m.entities.length
          · exact hv ⟨hlen, hb, hl⟩
          · rw [entityAt_default_of_le m _ (Nat.le_of_not_lt hlen), default_links_length] at hl
            omega
        rw [hR, List.getElem?_eq_none (by simp; omega), linkAt_eq m r', if_pos hb,
          List.getElem?_eq_none (by omega)]
    · have hR : (if r' = r ∧ ValidLink m r then g (linkAt m r) else linkAt m r') =
          linkAt m r' := if_neg (fun h => hrr h.1)
      rw [hR, linkAt_eq m r']
      by_cases hbl : r'.block = (entityAt m r'.ent).links_block
      · rw [if_pos hbl, if_pos hbl]
        have hp : r.pos ≠ r'.pos := by
          intro hp
          apply hrr
          cases r; cases r'
          simp only [LinkRef.mk.injEq]
          simp only at he hb hbl hp
          refine ⟨he, ?_, hp.symm⟩
          rw [hbl, hb, he]
        rw [List.getElem?_set_ne hp]
      · rw [if_neg hbl, if_neg hbl]
  · rw [if_neg hc]
    have hR : (if r' = r ∧ ValidLink m r then g (linkAt m r) else linkAt m r') =
        linkAt m r' := by
      apply if_neg
      rintro ⟨h1, h2⟩
      subst h1
      exact hc ⟨rfl, h2.2.1⟩
    rw [hR]; rfl

theorem validLink_modifyLink (m : media_device) (r : LinkRef) (g : media_link → media_link)
    (r' : LinkRef) : ValidLink (modifyLink m r g) r' ↔ ValidLink m r' := by
  unfold ValidLink
  rw [length_modifyLink, entityAt_modifyLink]
  split <;> simp

theorem sameShape_refl (m : media_device) : SameShape m m :=
  ⟨rfl, rfl, fun _ => ⟨rfl, rfl, rfl, rfl, rfl, rfl⟩, fun _ => ⟨rfl, rfl, rfl⟩⟩

theorem sameShape_trans {a b c : media_device} (h1 : SameShape a b) (h2 : SameShape b c) :
    SameShape a c := by
  obtain ⟨f1, l1, e1, k1⟩ := h1
  obtain ⟨f2, l2, e2, k2⟩ := h2
  refine ⟨f2.trans f1, l2.trans l1, fun e => ?_, fun r => ?_⟩
  · obtain ⟨a1, a2, a3, a4, a5, a6⟩ := e1 e
    obtain ⟨b1, b2, b3, b4, b5, b6⟩ := e2 e
    exact ⟨b1.trans a1, b2.trans a2, b3.trans a3, b4.trans a4, b5.trans a5, b6.trans a6⟩
  · obtain ⟨a1, a2, a3⟩ := k1 r
    obtain ⟨b1, b2, b3⟩ := k2 r
    exact ⟨b1.trans a1, b2.trans a2, b3.trans a3⟩

theorem sameShape_setLinkFlags (m : media_device) (r : LinkRef) (f : Nat) :
    SameShape m (setLinkFlags m r f) := by
  unfold setLinkFlags
  refine ⟨?_, length_modifyLink _ _ _, fun e => ?_, fun r' => ?_⟩
  · simp only [modifyLink]; split <;> rfl
  · rw [entityAt_modifyLink]
    split <;> simp
  · rw [linkAt_modifyLink]
    split
    · rename_i h; rw [h.1]; exact ⟨rfl, rfl, rfl⟩
    · exact ⟨rfl, rfl, rfl⟩

theorem flags_setLinkFlags (m : media_device) (r r' : LinkRef) (f : Nat) :
    (linkAt (setLinkFlags m r f) r').flags =
      if r' = r ∧ ValidLink m r then f else (linkAt m r').flags := by
  unfold setLinkFlags
  rw [linkAt_modifyLink]
  split <;> rfl

/-! ## Graphs of the same shape -/

theorem findIdx_congr_getD {α : Type} (d : α) (p q : α → Bool) :
    ∀ (l l' : List α), l.length = l'.length →
      (∀ j : Nat, p ((l[j]?).getD d) = q ((l'[j]?).getD d)) → l.findIdx p = l'.findIdx q := by
  intro l
  induction l with
  | nil =>
    intro l' hl _
    cases l' with
    | nil => rfl
    | cons b t => simp at hl
  | cons a t ih =>
    intro l' hl h
    cases l' with
    | nil => simp at hl
    | cons b t' =>
      have h0 : p a = q b := by simpa using h 0
      have ht : t.findIdx p = t'.findIdx q := by
        apply ih t' (by simpa using hl)
        intro j
        simpa using h (j + 1)
      rw [List.findIdx_cons, List.findIdx_cons, h0, ht]

theorem SameShape.padAt_eq {m m' : media_device} (h : SameShape m m') (p : PadRef) :
    padAt m' p = padAt m p := by
  unfold padAt
  rw [(h.2.2.1 p.ent).2.1]

theorem SameShape.linkRef_eq {m m' : media_device} (h : SameShape m m') (e j : Nat) :
    linkRef m' e j = linkRef m e j := by
  unfold linkRef
  rw [(h.2.2.1 e).2.2.2.2.1]

theorem SameShape.validLink_iff {m m' : media_device} (h : SameShape m m') (r : LinkRef) :
    ValidLink m' r ↔ ValidLink m r := by
  unfold ValidLink
  rw [h.2.1, (h.2.2.1 r.ent).2.2.2.2.1, (h.2.2.1 r.ent).2.2.2.2.2]

theorem SameShape.validPad_iff {m m' : media_device} (h : SameShape m m') (r : PadRef) :
    ValidPad m' r ↔ ValidPad m r := by
  unfold ValidPad
  rw [h.2.1, (h.2.2.1 r.ent).2.1]

theorem SameShape.num_links_eq {m m' : media_device} (h : SameShape m m') (e : Nat) :
    (entityAt m' e).num_links = (entityAt m e).num_links :=
  (h.2.2.1 e).2.2.2.2.2

theorem linkAt_linkRef (m : media_device) (e j : Nat) :
    linkAt m (linkRef m e j) = ((entityAt m e).links[j]?).getD default := by
  simp [linkAt, linkRef]

theorem SameShape.link_matches_eq {m m' : media_device} (h : SameShape m m')
    (source sink : PadRef) (l l' : media_link) (hs : l'.source = l.source)
    (hk : l'.sink = l.sink) :
    link_matches m' source sink l' = link_matches m source sink l := by
  unfold link_matches
  rw [h.padAt_eq, h.padAt_eq, h.padAt_eq, h.padAt_eq, hs, hk]

theorem SameShape.find_link_index_eq {m m' : media_device} (h : SameShape m m')
    (source sink : PadRef) :
    find_link_index m' source sink = find_link_index m source sink := by
  unfold find_link_index
  rw [h.padAt_eq]
  apply findIdx_congr_getD default
  · exact (h.2.2.1 _).2.2.2.2.2
  · intro j
    have := h.2.2.2 (linkRef m (padAt m source).entity j)
    rw [linkAt_linkRef] at this
    rw [← h.linkRef_eq, linkAt_linkRef] at this
    exact h.link_matches_eq source sink _ _ this.1 this.2.1

theorem SameShape.found_link_eq {m m' : media_device} (h : SameShape m m')
    (source sink : PadRef) : found_link m' source sink = found_link m source sink := by
  unfold found_link
  rw [h.padAt_eq, h.find_link_index_eq, h.linkRef_eq]

theorem SameShape.twin_eq {m m' : media_device} (h : SameShape m m') (r : LinkRef) :
    (linkAt m' r).twin = (linkAt m r).twin := (h.2.2.2 r).2.2

/-! ## What `media_setup_link` does -/

theorem media_setup_link_not_found (dev : Device) (w : World) (source sink : PadRef)
    (flags : Nat)
    (h : find_link_index w.media source sink =
      (entityAt w.media (padAt w.media source).entity).num_links) :
    media_setup_link dev w source sink flags = (-EINVAL, w) := by
  simp [media_setup_link, h]

theorem media_setup_link_failure (dev : Device) (w : World) (source sink : PadRef)
    (flags : Nat)
    (h : find_link_index w.media source sink ≠
      (entityAt w.media (padAt w.media source).entity).num_links)
    (hd : (dev w.trace (setup_link_request w.media source sink flags)).ret < 0) :
    media_setup_link dev w source sink flags =
      ((dev w.trace (setup_link_request w.media source sink flags)).ret,
       { w with trace := w.trace ++ [setup_link_request w.media source sink flags] }) := by
  simp [media_setup_link, h, hd]

theorem media_setup_link_success (dev : Device) (w : World) (source sink : PadRef)
    (flags : Nat)
    (h : find_link_index w.media source sink ≠
      (entityAt w.media (padAt w.media source).entity).num_links)
    (hd : ¬ (dev w.trace (setup_link_request w.media source sink flags)).ret < 0) :
    media_setup_link dev w source sink flags =
      (0, { media :=
              setLinkFlags
                (setLinkFlags w.media (found_link w.media source sink)
                  (dev w.trace (setup_link_request w.media source sink flags)).flags)
                (linkAt w.media (found_link w.media source sink)).twin
                (dev w.trace (setup_link_request w.media source sink flags)).flags,
            trace := w.trace ++ [setup_link_request w.media source sink flags] }) := by
  have ht : (linkAt (setLinkFlags w.media (found_link w.media source sink)
      (dev w.trace (setup_link_request w.media source sink flags)).flags)
      (found_link w.media source sink)).twin =
      (linkAt w.media (found_link w.media source sink)).twin :=
    (sameShape_setLinkFlags _ _ _).twin_eq _
  simp only [media_setup_link, h, hd, if_false, ht]

theorem media_setup_link_sameShape (dev : Device) (w : World) (source sink : PadRef)
    (flags : Nat) : SameShape w.media (media_setup_link dev w source sink flags).2.media := by
  by_cases h : find_link_index w.media source sink =
      (entityAt w.media (padAt w.media source).entity).num_links
  · rw [media_setup_link_not_found dev w source sink flags h]
    exact sameShape_refl _
  · by_cases hd : (dev w.trace (setup_link_request w.media source sink flags)).ret < 0
    · rw [media_setup_link_failure dev w source sink flags h hd]
      exact sameShape_refl _
    · rw [media_setup_link_success dev w source sink flags h hd]
      exact sameShape_trans (sameShape_setLinkFlags _ _ _) (sameShape_setLinkFlags _ _ _)

theorem found_link_valid (m : media_device) (source sink : PadRef)
    (h : find_link_index m source sink ≠ (entityAt m (padAt m source).entity).num_links) :
    ValidLink m (found_link m source sink) := by
  have hle : find_link_index m source sink ≤ (entityAt m (padAt m source).entity).links.length :=
    List.findIdx_le_length _
  have hlt : find_link_index m source sink < (entityAt m (padAt m source).entity).links.length :=
    Nat.lt_of_le_of_ne hle h
  refine ⟨?_, rfl, hlt⟩
  by_contra hc
  rw [show (found_link m source sink).ent = (padAt m source).entity from rfl] at hc
  rw [entityAt_default_of_le m _ (Nat.le_of_not_lt hc), default_links_length] at hlt
  omega

theorem mem_allLinkRefs (m : media_device) (L : LinkRef) :
    L ∈ allLinkRefs m ↔ ValidLink m L := by
  unfold allLinkRefs ValidLink
  simp only [List.mem_flatMap, List.mem_range, List.mem_map]
  constructor
  · rintro ⟨e, he, j, hj, rfl⟩
    exact ⟨he, rfl, hj⟩
  · rintro ⟨he, hb, hj⟩
    refine ⟨L.ent, he, L.pos, hj, ?_⟩
    cases L
    simp only [linkRef, LinkRef.mk.injEq, true_and, and_true]
    exact hb.symm

theorem twinSymmetric_of_check (m : media_device) (h : twinSymmetricB m = true) :
    TwinSymmetric m := by
  intro L hL
  unfold twinSymmetricB at h
  rw [List.all_eq_true] at h
  have := h L ((mem_allLinkRefs m L).2 hL)
  simp only [Bool.and_eq_true, decide_eq_true_eq] at this
  exact ⟨this.1.1, this.1.2, this.2⟩

theorem flags_after_setup (m : media_device) (L T X : LinkRef) (c : Nat)
    (hL : ValidLink m L) :
    (linkAt (setLinkFlags (setLinkFlags m L c) T c) X).flags =
      if X = L ∨ (X = T ∧ ValidLink m T) then c else (linkAt m X).flags := by
  have hv := (sameShape_setLinkFlags m L c).validLink_iff T
  rw [flags_setLinkFlags, flags_setLinkFlags]
  by_cases h1 : X = T ∧ ValidLink m T
  · rw [if_pos (show X = T ∧ ValidLink (setLinkFlags m L c) T from ⟨h1.1, hv.2 h1.2⟩),
      if_pos (Or.inr h1)]
  · rw [if_neg (show ¬ (X = T ∧ ValidLink (setLinkFlags m L c) T) from
      fun h => h1 ⟨h.1, hv.1 h.2⟩)]
    by_cases h2 : X = L
    · rw [if_pos ⟨h2, hL⟩, if_pos (Or.inl h2)]
    · rw [if_neg (fun h => h2 h.1), if_neg (fun h => h.elim h2 h1)]

theorem twinSymmetric_setup (m : media_device) (L : LinkRef) (c : Nat)
    (hL : ValidLink m L) (h : TwinSymmetric m) :
    TwinSymmetric (setLinkFlags (setLinkFlags m L c) (linkAt m L).twin c) := by
  have hS : SameShape m (setLinkFlags (setLinkFlags m L c) (linkAt m L).twin c) :=
    sameShape_trans (sameShape_setLinkFlags _ _ _) (sameShape_setLinkFlags _ _ _)
  obtain ⟨hTv, hTT, _⟩ := h L hL
  intro X hX
  rw [hS.validLink_iff] at hX
  obtain ⟨hXv, hXX, hXf⟩ := h X hX
  rw [hS.twin_eq X, hS.twin_eq, hS.validLink_iff]
  refine ⟨hXv, hXX, ?_⟩
  rw [flags_after_setup m L _ X c hL, flags_after_setup m L _ _ c hL]
  by_cases hc : X = L ∨ (X = (linkAt m L).twin ∧ ValidLink m (linkAt m L).twin)
  · rw [if_pos hc]
    rcases hc with hc | hc
    · rw [if_pos (Or.inr ⟨by rw [hc], hTv⟩)]
    · rw [if_pos (Or.inl (by rw [hc.1, hTT]))]
  · rw [if_neg hc]
    have hn : ¬ ((linkAt m X).twin = L ∨
        ((linkAt m X).twin = (linkAt m L).twin ∧ ValidLink m (linkAt m L).twin)) := by
      rintro (hn | hn)
      · apply hc
        right
        refine ⟨?_, hTv⟩
        rw [← hn, hXX]
      · apply hc
        left
        rw [← hXX, hn.1, hTT]
    rw [if_neg hn]
    exact hXf

/-! ## C1: twin symmetry is kept by a successful `media_setup_link` -/

/-- C1: in a graph in which every stored link `L` has a stored twin with
`L.twin.twin = L` and `L.flags = L.twin.flags`, for every source pad, sink pad,
requested flags word and device, if `media_setup_link` returns 0 then the graph
after the call has the same property. -/
theorem C1_setup_link_keeps_twin_symmetry (dev : Device) (w : World)
    (source sink : PadRef) (flags : Nat) (h : TwinSymmetric w.media)
    (_hr : (media_setup_link dev w source sink flags).1 = 0) :
    TwinSymmetric (media_setup_link dev w source sink flags).2.media := by
  by_cases hf : find_link_index w.media source sink =
      (entityAt w.media (padAt w.media source).entity).num_links
  · rw [media_setup_link_not_found dev w source sink flags hf]
    exact h
  · by_cases hd : (dev w.trace (setup_link_request w.media source sink flags)).ret < 0
    · rw [media_setup_link_failure dev w source sink flags hf hd]
      exact h
    · rw [media_setup_link_success dev w source sink flags hf hd]
      exact twinSymmetric_setup _ _ _ (found_link_valid _ _ _ hf) h

/-- The sensor graph is what `media_open` builds from `sensor_env`, and it has
the properties of an enumerated graph. -/
theorem sensor_graph_enumerated :
    media_open (sensor_env 1) 3 = some (some (sensor_graph 1)) ∧
    enumeratedGraphB (sensor_graph 1) = true := by
  decide

/-- Witness of C1 on the sensor graph, for the request to disable its link. -/
theorem C1_setup_link_keeps_twin_symmetry_witness :
    TwinSymmetric
      (media_setup_link echo_device { media := sensor_graph 1 } ⟨0, 0⟩ ⟨1, 0⟩ 0).2.media :=
  C1_setup_link_keeps_twin_symmetry echo_device { media := sensor_graph 1 } ⟨0, 0⟩ ⟨1, 0⟩ 0
    (twinSymmetric_of_check _ (by decide)) (by decide)

/-! ## C2: the IMMUTABLE bit of the request -/

theorem setup_link_request_flags (m : media_device) (source sink : PadRef) (flags : Nat) :
    (setup_link_request m source sink flags).flags =
      flags ||| ((linkAt m (found_link m source sink)).flags &&& MEDIA_LNK_FL_IMMUTABLE) := rfl

/-- C2: on the sensor graph with a link that is not immutable (flags 0), the
request `MEDIA_LNK_FL_IMMUTABLE` reaches the device with its IMMUTABLE bit set,
although the link's own IMMUTABLE bit is clear, and the echoing device makes the
stored links immutable. -/
theorem C2_requested_immutable_bit_reaches_device :
    (linkAt (sensor_graph 0) (found_link (sensor_graph 0) ⟨0, 0⟩ ⟨1, 0⟩)).flags
        &&& MEDIA_LNK_FL_IMMUTABLE = 0 ∧
    ((media_setup_link echo_device { media := sensor_graph 0 } ⟨0, 0⟩ ⟨1, 0⟩
        MEDIA_LNK_FL_IMMUTABLE).2.trace.map (fun u => u.flags &&& MEDIA_LNK_FL_IMMUTABLE))
      = [MEDIA_LNK_FL_IMMUTABLE] ∧
    (media_setup_link echo_device { media := sensor_graph 0 } ⟨0, 0⟩ ⟨1, 0⟩
        MEDIA_LNK_FL_IMMUTABLE).2.media = sensor_graph MEDIA_LNK_FL_IMMUTABLE := by
  decide

/-! ## C4, C5: what a call stores -/

/-- C4: when `media_setup_link` returns 0 and the twin of the matched link is a
stored link, the flags stored in the matched link and in its twin are both the
flags word that the device gave back, whatever the requested word was. -/
theorem C4_success_stores_confirmed_flags (dev : Device) (w : World)
    (source sink : PadRef) (flags : Nat)
    (hr : (media_setup_link dev w source sink flags).1 = 0)
    (htwin : ValidLink w.media (linkAt w.media (found_link w.media source sink)).twin) :
    (linkAt (media_setup_link dev w source sink flags).2.media
        (found_link w.media source sink)).flags =
      (dev w.trace (setup_link_request w.media source sink flags)).flags ∧
    (linkAt (media_setup_link dev w source sink flags).2.media
        (linkAt w.media (found_link w.media source sink)).twin).flags =
      (dev w.trace (setup_link_request w.media source sink flags)).flags := by
  by_cases hf : find_link_index w.media source sink =
      (entityAt w.media (padAt w.media source).entity).num_links
  · rw [media_setup_link_not_found dev w source sink flags hf] at hr
    simp [EINVAL] at hr
  · by_cases hd : (dev w.trace (setup_link_request w.media source sink flags)).ret < 0
    · rw [media_setup_link_failure dev w source sink flags hf hd] at hr
      simp only at hr
      omega
    · rw [media_setup_link_success dev w source sink flags hf hd]
      have hL := found_link_valid _ _ _ hf
      simp only
      rw [flags_after_setup _ _ _ _ _ hL, flags_after_setup _ _ _ _ _ hL]
      exact ⟨if_pos (Or.inl rfl), if_pos (Or.inr ⟨rfl, htwin⟩)⟩

/-- A device that confirms the flags word 1 whatever it was sent. -/
theorem C4_success_stores_confirmed_flags_witness :
    (linkAt (media_setup_link (fun _ _ => { ret := 0, flags := 1 })
        { media := sensor_graph 0 } ⟨0, 0⟩ ⟨1, 0⟩ 0).2.media
        (found_link (sensor_graph 0) ⟨0, 0⟩ ⟨1, 0⟩)).flags = 1 ∧
    (linkAt (media_setup_link (fun _ _ => { ret := 0, flags := 1 })
        { media := sensor_graph 0 } ⟨0, 0⟩ ⟨1, 0⟩ 0).2.media
        (linkAt (sensor_graph 0) (found_link (sensor_graph 0) ⟨0, 0⟩ ⟨1, 0⟩)).twin).flags = 1 :=
  C4_success_stores_confirmed_flags (fun _ _ => { ret := 0, flags := 1 })
    { media := sensor_graph 0 } ⟨0, 0⟩ ⟨1, 0⟩ 0 (by decide) (by decide)

/-- C5: when the link is found and the device refuses the link update, the call
returns the negative value of the device and the graph is the one before the
call. -/
theorem C5_device_failure_leaves_graph (dev : Device) (w : World)
    (source sink : PadRef) (flags : Nat)
    (hfound : find_link_index w.media source sink ≠
      (entityAt w.media (padAt w.media source).entity).num_links)
    (hfail : (dev w.trace (setup_link_request w.media source sink flags)).ret < 0) :
    (media_setup_link dev w source sink flags).1 < 0 ∧
    (media_setup_link dev w source sink flags).2.media = w.media := by
  rw [media_setup_link_failure dev w source sink flags hfound hfail]
  exact ⟨hfail, rfl⟩

/-- Witness of C5: the refusing device on the sensor graph. -/
theorem C5_device_failure_leaves_graph_witness :
    (media_setup_link failing_device { media := sensor_graph 1 } ⟨0, 0⟩ ⟨1, 0⟩ 0).1 < 0 ∧
    (media_setup_link failing_device { media := sensor_graph 1 } ⟨0, 0⟩ ⟨1, 0⟩ 0).2.media =
      sensor_graph 1 :=
  C5_device_failure_leaves_graph failing_device { media := sensor_graph 1 } ⟨0, 0⟩ ⟨1, 0⟩ 0
    (by decide) (by decide)

/-! ## C3: the ENABLED bit of an immutable link -/

theorem linkAt_default_of_not_valid (m : media_device) (r : LinkRef) (h : ¬ ValidLink m r) :
    linkAt m r = default := by
  rw [linkAt_eq]
  by_cases hb : r.block = (entityAt m r.ent).links_block
  · rw [if_pos hb]
    by_cases he : r.ent < m.entities.length
    · have hp : ¬ r.pos < (entityAt m r.ent).links.length := fun hp => h ⟨he, hb, hp⟩
      rw [List.getElem?_eq_none (by omega)]; rfl
    · rw [entityAt_default_of_le m _ (Nat.le_of_not_lt he)]; rfl
  · rw [if_neg hb]

theorem validLink_of_flags_ne_zero (m : media_device) (r : LinkRef)
    (h : (linkAt m r).flags ≠ 0) : ValidLink m r := by
  by_contra hc
  rw [linkAt_default_of_not_valid m r hc] at h
  exact h rfl

theorem or_and_ne_zero (a b c : Nat) (h : b &&& c ≠ 0) : (a ||| (b &&& c)) &&& c ≠ 0 := by
  rw [Nat.and_distrib_right, Nat.and_assoc, Nat.and_self]
  intro h0
  apply h
  apply Nat.eq_of_testBit_eq
  intro i
  have := congrArg (fun n => Nat.testBit n i) h0
  simp only [Nat.testBit_or, Nat.zero_testBit, Bool.or_eq_false_iff] at this
  rw [this.2, Nat.zero_testBit]

theorem found_link_index_ne (m : media_device) (source sink : PadRef)
    (h : ValidLink m (found_link m source sink)) :
    find_link_index m source sink ≠ (entityAt m (padAt m source).entity).num_links := by
  have := h.2.2
  simp only [found_link, linkRef] at this
  exact Nat.ne_of_lt this

theorem setup_link_keeps_enabled (dev : Device) (w : World) (source sink : PadRef)
    (f E : Nat) (L : LinkRef)
    (hdev : ∀ hist req, req.flags &&& MEDIA_LNK_FL_IMMUTABLE ≠ 0 →
      (dev hist req).ret < 0 ∨
        ((dev hist req).flags &&& MEDIA_LNK_FL_IMMUTABLE ≠ 0 ∧
         (dev hist req).flags &&& MEDIA_LNK_FL_ENABLED = E))
    (hL : found_link w.media source sink = L)
    (himm : (linkAt w.media L).flags &&& MEDIA_LNK_FL_IMMUTABLE ≠ 0)
    (hen : (linkAt w.media L).flags &&& MEDIA_LNK_FL_ENABLED = E) :
    found_link (media_setup_link dev w source sink f).2.media source sink = L ∧
    (linkAt (media_setup_link dev w source sink f).2.media L).flags
      &&& MEDIA_LNK_FL_IMMUTABLE ≠ 0 ∧
    (linkAt (media_setup_link dev w source sink f).2.media L).flags
      &&& MEDIA_LNK_FL_ENABLED = E := by
  refine ⟨by rw [(media_setup_link_sameShape dev w source sink f).found_link_eq, hL], ?_⟩
  have hv : ValidLink w.media L := by
    apply validLink_of_flags_ne_zero
    intro h0
    rw [h0, Nat.zero_and] at himm
    exact himm rfl
  have hf := found_link_index_ne w.media source sink (by rw [hL]; exact hv)
  by_cases hd : (dev w.trace (setup_link_request w.media source sink f)).ret < 0
  · rw [media_setup_link_failure dev w source sink f hf hd]
    exact ⟨himm, hen⟩
  · rw [media_setup_link_success dev w source sink f hf hd]
    simp only
    rw [hL, flags_after_setup _ _ _ _ _ hv, if_pos (Or.inl rfl)]
    have hreq : (setup_link_request w.media source sink f).flags
        &&& MEDIA_LNK_FL_IMMUTABLE ≠ 0 := by
      rw [setup_link_request_flags, hL]
      exact or_and_ne_zero _ _ _ himm
    rcases hdev w.trace _ hreq with h | h
    · exact absurd h hd
    · exact h

theorem setup_link_calls_keep_enabled (dev : Device) (source sink : PadRef) (E : Nat)
    (L : LinkRef)
    (hdev : ∀ hist req, req.flags &&& MEDIA_LNK_FL_IMMUTABLE ≠ 0 →
      (dev hist req).ret < 0 ∨
        ((dev hist req).flags &&& MEDIA_LNK_FL_IMMUTABLE ≠ 0 ∧
         (dev hist req).flags &&& MEDIA_LNK_FL_ENABLED = E)) :
    ∀ (fs : List Nat) (w : World), found_link w.media source sink = L →
      (linkAt w.media L).flags &&& MEDIA_LNK_FL_IMMUTABLE ≠ 0 →
      (linkAt w.media L).flags &&& MEDIA_LNK_FL_ENABLED = E →
      (linkAt (setup_link_calls dev source sink fs w).media L).flags
        &&& MEDIA_LNK_FL_ENABLED = E := by
  intro fs
  induction fs with
  | nil => intro w _ _ hen; exact hen
  | cons f fs ih =>
    intro w hL himm hen
    obtain ⟨h1, h2, h3⟩ := setup_link_keeps_enabled dev w source sink f E L hdev hL himm hen
    exact ih _ h1 h2 h3

/-- C3 (as stated) fails: on the sensor graph with an immutable disabled link
(flags 2), one `media_setup_link` call requesting ENABLED, answered by the device
that confirms what it is sent, leaves the link immutable and enabled. -/
theorem C3_immutable_link_enabled_changes :
    (linkAt (sensor_graph 2) (found_link (sensor_graph 2) ⟨0, 0⟩ ⟨1, 0⟩)).flags
        &&& MEDIA_LNK_FL_IMMUTABLE ≠ 0 ∧
    (linkAt (sensor_graph 2) (found_link (sensor_graph 2) ⟨0, 0⟩ ⟨1, 0⟩)).flags
        &&& MEDIA_LNK_FL_ENABLED = 0 ∧
    (linkAt (setup_link_calls echo_device ⟨0, 0⟩ ⟨1, 0⟩ [MEDIA_LNK_FL_ENABLED]
        { media := sensor_graph 2 }).media
        (found_link (sensor_graph 2) ⟨0, 0⟩ ⟨1, 0⟩)).flags &&& MEDIA_LNK_FL_ENABLED = 1 := by
  decide

/-- C3 (amended): for a link whose IMMUTABLE bit is set and a device that, for
every request carrying the IMMUTABLE bit, either fails or confirms a flags word
that keeps IMMUTABLE and has the ENABLED bit of the link at construction time,
the ENABLED bit of the link after each call of every sequence of
`media_setup_link` calls on that link, with arbitrary requested flags, is its
value at construction time. -/
theorem C3_immutable_enabled_kept (dev : Device) (w : World) (source sink : PadRef)
    (fs : List Nat) (k : Nat)
    (himm : (linkAt w.media (found_link w.media source sink)).flags
      &&& MEDIA_LNK_FL_IMMUTABLE ≠ 0)
    (hdev : ∀ hist req, req.flags &&& MEDIA_LNK_FL_IMMUTABLE ≠ 0 →
      (dev hist req).ret < 0 ∨
        ((dev hist req).flags &&& MEDIA_LNK_FL_IMMUTABLE ≠ 0 ∧
         (dev hist req).flags &&& MEDIA_LNK_FL_ENABLED =
          (linkAt w.media (found_link w.media source sink)).flags &&& MEDIA_LNK_FL_ENABLED)) :
    (linkAt (setup_link_calls dev source sink (fs.take k) w).media
        (found_link w.media source sink)).flags &&& MEDIA_LNK_FL_ENABLED =
      (linkAt w.media (found_link w.media source sink)).flags &&& MEDIA_LNK_FL_ENABLED :=
  setup_link_calls_keep_enabled dev source sink _ _ hdev (fs.take k) w rfl himm rfl

/-- Witness of C3 (amended): the device that holds the link as immutable with
flags 2, and three requests on the immutable link of the sensor graph, of which
the second is accepted. -/
theorem C3_immutable_enabled_kept_witness :
    (linkAt (setup_link_calls (strict_device 2) ⟨0, 0⟩ ⟨1, 0⟩ ([1, 0, 1].take 3)
        { media := sensor_graph 2 }).media
        (found_link (sensor_graph 2) ⟨0, 0⟩ ⟨1, 0⟩)).flags &&& MEDIA_LNK_FL_ENABLED =
      (linkAt (sensor_graph 2) (found_link (sensor_graph 2) ⟨0, 0⟩ ⟨1, 0⟩)).flags
        &&& MEDIA_LNK_FL_ENABLED :=
  C3_immutable_enabled_kept (strict_device 2) { media := sensor_graph 2 } ⟨0, 0⟩ ⟨1, 0⟩
    [1, 0, 1] 3 (by decide) (fun _ req _ => by
      by_cases h : req.flags = 2
      · right
        simp only [strict_device, if_pos h]
        decide
      · left
        simp only [strict_device, if_neg h]
        decide)

/-! ## C6: the link that is not found -/

theorem mem_allPadRefs (m : media_device) (p : PadRef) :
    p ∈ allPadRefs m ↔ ValidPad m p := by
  unfold allPadRefs ValidPad
  simp only [List.mem_flatMap, List.mem_range, List.mem_map]
  constructor
  · rintro ⟨e, he, j, hj, rfl⟩
    exact ⟨he, hj⟩
  · rintro ⟨he, hj⟩
    exact ⟨p.ent, he, p.pos, hj, rfl⟩

theorem padsIdentified_of_check (m : media_device) (h : padsIdentifiedB m = true) :
    PadsIdentified m := by
  intro p q hp hq he hi
  unfold padsIdentifiedB at h
  rw [List.all_eq_true] at h
  have h1 := h p ((mem_allPadRefs m p).2 hp)
  rw [List.all_eq_true] at h1
  have h2 := h1 q ((mem_allPadRefs m q).2 hq)
  simpa [he, hi] using h2

theorem link_matches_iff (m : media_device) (source sink : PadRef) (l : media_link) :
    link_matches m source sink l = true ↔
      (padAt m l.source).entity = (padAt m source).entity ∧
      (padAt m l.source).index = (padAt m source).index ∧
      (padAt m l.sink).entity = (padAt m sink).entity ∧
      (padAt m l.sink).index = (padAt m sink).index := by
  simp [link_matches, and_assoc]

theorem link_matches_iff_same_pads (m : media_device) (source sink : PadRef) (l : media_link)
    (hid : PadsIdentified m) (hs : ValidPad m source) (hk : ValidPad m sink)
    (hls : ValidPad m l.source) (hlk : ValidPad m l.sink) :
    link_matches m source sink l = true ↔ l.source = source ∧ l.sink = sink := by
  rw [link_matches_iff]
  constructor
  · rintro ⟨h1, h2, h3, h4⟩
    exact ⟨hid _ _ hls hs h1 h2, hid _ _ hlk hk h3 h4⟩
  · rintro ⟨h1, h2⟩
    rw [h1, h2]
    exact ⟨rfl, rfl, rfl, rfl⟩

/-- C6: in a graph whose pads are identified by entity and index, for stored
pads `source` and `sink`, `media_setup_link` returns `-EINVAL` with no device
request issued and the graph unchanged if and only if no link in the list of the
source pad's entity has `source` as its source pad and `sink` as its sink pad. -/
theorem C6_not_found_iff_no_link (dev : Device) (w : World) (source sink : PadRef)
    (flags : Nat) (hid : PadsIdentified w.media)
    (hs : ValidPad w.media source) (hk : ValidPad w.media sink)
    (hl : ∀ l ∈ (entityAt w.media (padAt w.media source).entity).links,
      ValidPad w.media l.source ∧ ValidPad w.media l.sink) :
    ((media_setup_link dev w source sink flags).1 = -EINVAL ∧
      (media_setup_link dev w source sink flags).2.trace = w.trace ∧
      (media_setup_link dev w source sink flags).2.media = w.media) ↔
    ¬ ∃ l ∈ (entityAt w.media (padAt w.media source).entity).links,
        l.source = source ∧ l.sink = sink := by
  have key : find_link_index w.media source sink =
      (entityAt w.media (padAt w.media source).entity).num_links ↔
      ¬ ∃ l ∈ (entityAt w.media (padAt w.media source).entity).links,
        l.source = source ∧ l.sink = sink := by
    unfold find_link_index media_entity.num_links
    rw [List.findIdx_eq_length]
    constructor
    · rintro h ⟨l, hmem, hsame⟩
      have := h l hmem
      rw [(link_matches_iff_same_pads w.media source sink l hid hs hk
        (hl l hmem).1 (hl l hmem).2).2 hsame] at this
      exact Bool.noConfusion this
    · intro h l hmem
      by_contra hc
      apply h
      refine ⟨l, hmem, ?_⟩
      exact (link_matches_iff_same_pads w.media source sink l hid hs hk
        (hl l hmem).1 (hl l hmem).2).1 (by simpa using hc)
  rw [← key]
  constructor
  · rintro ⟨_, htr, _⟩
    by_contra hf
    by_cases hd : (dev w.trace (setup_link_request w.media source sink flags)).ret < 0
    · rw [media_setup_link_failure dev w source sink flags hf hd] at htr
      simp at htr
    · rw [media_setup_link_success dev w source sink flags hf hd] at htr
      simp at htr
  · intro hf
    rw [media_setup_link_not_found dev w source sink flags hf]
    exact ⟨rfl, rfl, rfl⟩

/-- Witness of C6: on the sensor graph no link joins the sensor's pad to pad 1
of the processor. -/
theorem C6_not_found_iff_no_link_witness :
    ((media_setup_link echo_device { media := sensor_graph 1 } ⟨0, 0⟩ ⟨1, 1⟩ 1).1 = -EINVAL ∧
      (media_setup_link echo_device { media := sensor_graph 1 } ⟨0, 0⟩ ⟨1, 1⟩ 1).2.trace = [] ∧
      (media_setup_link echo_device { media := sensor_graph 1 } ⟨0, 0⟩ ⟨1, 1⟩ 1).2.media =
        sensor_graph 1) ↔
    ¬ ∃ l ∈ (entityAt (sensor_graph 1) (padAt (sensor_graph 1) ⟨0, 0⟩).entity).links,
        l.source = ⟨0, 0⟩ ∧ l.sink = ⟨1, 1⟩ :=
  C6_not_found_iff_no_link echo_device { media := sensor_graph 1 } ⟨0, 0⟩ ⟨1, 1⟩ 1
    (padsIdentified_of_check _ (by decide)) (by decide) (by decide) (by decide)

/-! ## C8: the number of device calls of `media_reset_links` -/

/-- The graph with a link inside one entity has the properties of an enumerated
graph. -/
theorem self_link_graph_enumerated : enumeratedGraphB (self_link_graph 1) = true := by
  decide

/-- C8: the device with one entity and one enabled link from its pad 1 to its
pad 0 is enumerated into a graph with two link slots that are each other's twin
(one physical link, not immutable), and `media_reset_links` issues two device
calls for it, both for that link. -/
theorem C8_self_link_is_reset_twice :
    media_open (self_link_env 1) 2 = some (some (self_link_graph 1)) ∧
    allLinkRefs (self_link_graph 1) = [⟨0, 0, 0⟩, ⟨0, 0, 1⟩] ∧
    (linkAt (self_link_graph 1) ⟨0, 0, 0⟩).twin = ⟨0, 0, 1⟩ ∧
    (linkAt (self_link_graph 1) ⟨0, 0, 1⟩).twin = ⟨0, 0, 0⟩ ∧
    (linkAt (self_link_graph 1) ⟨0, 0, 0⟩).flags &&& MEDIA_LNK_FL_IMMUTABLE = 0 ∧
    (media_reset_links echo_device { media := self_link_graph 1 }).1 = 0 ∧
    (media_reset_links echo_device { media := self_link_graph 1 }).2.trace =
      [ { source := { entity := 1, index := 1, flags := MEDIA_PAD_FL_SOURCE },
          sink := { entity := 1, index := 0, flags := MEDIA_PAD_FL_SINK }, flags := 0 },
        { source := { entity := 1, index := 1, flags := MEDIA_PAD_FL_SOURCE },
          sink := { entity := 1, index := 0, flags := MEDIA_PAD_FL_SINK }, flags := 0 } ] := by
  decide

/-! ## C7: what `media_reset_links` leaves in the links -/

theorem enumeratedGraph_of_check (m : media_device) (h : enumeratedGraphB m = true) :
    EnumeratedGraph m := by
  unfold enumeratedGraphB at h
  simp only [Bool.and_eq_true, List.all_eq_true, Bool.or_eq_true, decide_eq_true_eq,
    Bool.not_eq_true', Bool.and_eq_false_iff, decide_eq_false_iff_not, mem_allLinkRefs] at h
  obtain ⟨⟨h1, h2⟩, h3⟩ := h
  refine ⟨twinSymmetric_of_check m h1, ?_, ?_, padsIdentified_of_check m h2, ?_, ?_, ?_⟩
  · intro L hL
    exact ⟨(h3 L hL).1.1.1.1.1.1, (h3 L hL).1.1.1.1.1.2⟩
  · intro L hL
    exact ⟨(h3 L hL).1.1.1.1.2, (h3 L hL).1.1.1.2⟩
  · intro L1 L2 hL1 hL2 hs hk
    rcases (h3 L1 hL1).2 L2 hL2 with (h | h) | h
    · rcases h with h | h
      · exact absurd hs h
      · exact absurd hk h
    · exact Or.inl h
    · exact Or.inr h
  · intro L hL
    exact (h3 L hL).1.1.2
  · intro L hL
    exact (h3 L hL).1.2

theorem not_enabled_and_immutable (f : Nat) :
    (f &&& NOT_MEDIA_LNK_FL_ENABLED) &&& MEDIA_LNK_FL_IMMUTABLE = f &&& MEDIA_LNK_FL_IMMUTABLE := by
  rw [Nat.and_assoc]
  rfl

theorem not_enabled_idem (f : Nat) :
    (f &&& NOT_MEDIA_LNK_FL_ENABLED) &&& NOT_MEDIA_LNK_FL_ENABLED =
      f &&& NOT_MEDIA_LNK_FL_ENABLED := by
  rw [Nat.and_assoc, Nat.and_self]

theorem reset_target_immutable (f : Nat) :
    reset_target f &&& MEDIA_LNK_FL_IMMUTABLE = f &&& MEDIA_LNK_FL_IMMUTABLE := by
  unfold reset_target
  split
  · exact not_enabled_and_immutable f
  · rfl

theorem validLink_linkRef (m : media_device) (i j : Nat)
    (hj : j < (entityAt m i).links.length) : ValidLink m (linkRef m i j) := by
  refine ⟨?_, rfl, hj⟩
  by_contra hc
  rw [show (linkRef m i j).ent = i from rfl] at hc
  rw [entityAt_default_of_le m _ (Nat.le_of_not_lt hc), default_links_length] at hj
  omega

theorem linkAt_linkRef_mem (m : media_device) (i j : Nat)
    (hj : j < (entityAt m i).links.length) :
    linkAt m (linkRef m i j) ∈ (entityAt m i).links := by
  rw [linkAt_linkRef, List.getElem?_eq_getElem hj]
  exact List.getElem_mem hj

theorem link_matches_self (m : media_device) (l : media_link) :
    link_matches m l.source l.sink l = true := by
  rw [link_matches_iff]
  exact ⟨rfl, rfl, rfl, rfl⟩

theorem found_link_matches (m : media_device) (source sink : PadRef)
    (h : find_link_index m source sink < (entityAt m (padAt m source).entity).links.length) :
    link_matches m source sink (linkAt m (found_link m source sink)) = true := by
  unfold found_link
  rw [linkAt_linkRef, List.getElem?_eq_getElem h]
  exact List.findIdx_getElem

theorem resetInv_immutable {m0 m : media_device} (hI : ResetInv m0 m) (X : LinkRef)
    (hX : ValidLink m0 X) :
    (linkAt m X).flags &&& MEDIA_LNK_FL_IMMUTABLE =
      (linkAt m0 X).flags &&& MEDIA_LNK_FL_IMMUTABLE := by
  rcases hI.2 X hX with h | h
  · rw [h]
  · rw [h, reset_target_immutable]

theorem resetInv_cleared {m0 m : media_device} (hI : ResetInv m0 m) (X : LinkRef)
    (hX : ValidLink m0 X) (hn : (linkAt m0 X).flags &&& MEDIA_LNK_FL_IMMUTABLE = 0) :
    (linkAt m X).flags &&& NOT_MEDIA_LNK_FL_ENABLED = reset_target (linkAt m0 X).flags := by
  rcases hI.2 X hX with h | h
  · rw [h, reset_target, if_pos hn]
  · rw [h, reset_target, if_pos hn, not_enabled_idem]

/-- The link that `media_setup_link` finds for the ends of a stored link `L` of
the entity of its source pad is `L` or its twin. -/
theorem found_link_of_stored (m0 : media_device) (hG : EnumeratedGraph m0) (L : LinkRef)
    (hL : ValidLink m0 L) (hside : (padAt m0 (linkAt m0 L).source).entity = L.ent) :
    ValidLink m0 (found_link m0 (linkAt m0 L).source (linkAt m0 L).sink) ∧
    (found_link m0 (linkAt m0 L).source (linkAt m0 L).sink = L ∨
     found_link m0 (linkAt m0 L).source (linkAt m0 L).sink = (linkAt m0 L).twin) := by
  have hmem : linkAt m0 L ∈ (entityAt m0 L.ent).links := by
    have := linkAt_linkRef_mem m0 L.ent L.pos hL.2.2
    have hr : linkRef m0 L.ent L.pos = L := by
      cases L
      simp only [linkRef, LinkRef.mk.injEq, true_and, and_true]
      exact hL.2.1.symm
    rwa [hr] at this
  have hlt : find_link_index m0 (linkAt m0 L).source (linkAt m0 L).sink <
      (entityAt m0 (padAt m0 (linkAt m0 L).source).entity).links.length := by
    unfold find_link_index
    rw [List.findIdx_lt_length, hside]
    exact ⟨_, hmem, link_matches_self m0 _⟩
  have hv := found_link_valid m0 _ _ (Nat.ne_of_lt hlt)
  refine ⟨hv, ?_⟩
  have hm := found_link_matches m0 _ _ hlt
  rw [link_matches_iff_same_pads m0 _ _ _ hG.pads_identified (hG.pads_valid L hL).1
    (hG.pads_valid L hL).2 (hG.pads_valid _ hv).1 (hG.pads_valid _ hv).2] at hm
  exact hG.unique L _ hL hv hm.1 hm.2

theorem reset_visit_eq (dev : Device) (i j : Nat) (w : World) :
    reset_visit dev i j w =
      if (linkAt w.media (linkRef w.media i j)).flags &&& MEDIA_LNK_FL_IMMUTABLE ≠ 0 ∨
          (padAt w.media (linkAt w.media (linkRef w.media i j)).source).entity ≠ i then
        (0, w)
      else
        media_setup_link dev w (linkAt w.media (linkRef w.media i j)).source
          (linkAt w.media (linkRef w.media i j)).sink
          ((linkAt w.media (linkRef w.media i j)).flags &&& NOT_MEDIA_LNK_FL_ENABLED) := rfl

theorem reset_visit_spec (dev : Device) (m0 : media_device) (hG : EnumeratedGraph m0)
    (hdev : ∀ hist req, 0 ≤ (dev hist req).ret ∧ (dev hist req).flags = req.flags)
    (w : World) (hI : ResetInv m0 w.media) (i j : Nat)
    (hj : j < (entityAt m0 i).links.length) :
    (reset_visit dev i j w).1 = 0 ∧ ResetInv m0 (reset_visit dev i j w).2.media ∧
    (∀ X, ValidLink m0 X → ResetDone m0 w.media X →
      ResetDone m0 (reset_visit dev i j w).2.media X) ∧
    ((linkAt m0 (linkRef m0 i j)).flags &&& MEDIA_LNK_FL_IMMUTABLE = 0 →
      (padAt m0 (linkAt m0 (linkRef m0 i j)).source).entity = i →
      ResetDone m0 (reset_visit dev i j w).2.media (linkRef m0 i j) ∧
      ResetDone m0 (reset_visit dev i j w).2.media (linkAt m0 (linkRef m0 i j)).twin) := by
  have hL : ValidLink m0 (linkRef m0 i j) := validLink_linkRef m0 i j hj
  have hS := hI.1
  have hsrc : (linkAt w.media (linkRef m0 i j)).source = (linkAt m0 (linkRef m0 i j)).source :=
    (hS.2.2.2 _).1
  have hsnk : (linkAt w.media (linkRef m0 i j)).sink = (linkAt m0 (linkRef m0 i j)).sink :=
    (hS.2.2.2 _).2.1
  have himm := resetInv_immutable hI _ hL
  rw [reset_visit_eq]
  simp only [hS.linkRef_eq i j, hS.padAt_eq, hsrc, hsnk, himm]
  by_cases hg : (linkAt m0 (linkRef m0 i j)).flags &&& MEDIA_LNK_FL_IMMUTABLE ≠ 0 ∨
      (padAt m0 (linkAt m0 (linkRef m0 i j)).source).entity ≠ i
  · simp only [if_pos hg]
    refine ⟨trivial, hI, fun _ _ h => h, fun h1 h2 => ?_⟩
    rcases hg with hg | hg
    · exact absurd h1 hg
    · exact absurd h2 hg
  · simp only [if_neg hg]
    have hn : (linkAt m0 (linkRef m0 i j)).flags &&& MEDIA_LNK_FL_IMMUTABLE = 0 := by
      by_contra hc; exact hg (Or.inl hc)
    have hside : (padAt m0 (linkAt m0 (linkRef m0 i j)).source).entity = i := by
      by_contra hc; exact hg (Or.inr hc)
    obtain ⟨hv0, hcase⟩ := found_link_of_stored m0 hG _ hL hside
    obtain ⟨hTv, hTT, hTf⟩ := hG.twins _ hL
    generalize hLdef : linkRef m0 i j = L at *
    generalize hsdef : (linkAt m0 L).source = src at *
    generalize hkdef : (linkAt m0 L).sink = snk at *
    have hfl : found_link w.media src snk = found_link m0 src snk := hS.found_link_eq _ _
    have hvw : ValidLink w.media (found_link m0 src snk) := (hS.validLink_iff _).2 hv0
    have hf := found_link_index_ne w.media src snk (by rw [hfl]; exact hvw)
    have hd : ¬ (dev w.trace (setup_link_request w.media src snk
        ((linkAt w.media L).flags &&& NOT_MEDIA_LNK_FL_ENABLED))).ret < 0 :=
      Int.not_lt.2 (hdev _ _).1
    rw [media_setup_link_success dev w src snk _ hf hd]
    simp only
    rw [(hdev _ _).2, setup_link_request_flags, hfl, hS.twin_eq]
    have hF0 : (linkAt m0 (found_link m0 src snk)).flags = (linkAt m0 L).flags := by
      rcases hcase with h | h
      · rw [h]
      · rw [h]; exact hTf.symm
    have hc : (linkAt w.media L).flags &&& NOT_MEDIA_LNK_FL_ENABLED |||
        (linkAt w.media (found_link m0 src snk)).flags &&& MEDIA_LNK_FL_IMMUTABLE =
        reset_target (linkAt m0 L).flags := by
      rw [resetInv_immutable hI _ hv0, hF0, hn, Nat.or_zero]
      exact resetInv_cleared hI L hL hn
    rw [hc]
    obtain ⟨hT0v, hT0T, hT0f⟩ := hG.twins _ hv0
    have hT0w : ValidLink w.media (linkAt m0 (found_link m0 src snk)).twin :=
      (hS.validLink_iff _).2 hT0v
    have hwritten : ∀ X, X = found_link m0 src snk ∨
        (X = (linkAt m0 (found_link m0 src snk)).twin ∧
          ValidLink w.media (linkAt m0 (found_link m0 src snk)).twin) →
        (linkAt m0 X).flags = (linkAt m0 L).flags := by
      rintro X (h | ⟨h, _⟩)
      · rw [h, hF0]
      · rw [h, ← hT0f, hF0]
    have hflags : ∀ X, (linkAt (setLinkFlags (setLinkFlags w.media (found_link m0 src snk)
        (reset_target (linkAt m0 L).flags)) (linkAt m0 (found_link m0 src snk)).twin
        (reset_target (linkAt m0 L).flags)) X).flags =
        if X = found_link m0 src snk ∨ (X = (linkAt m0 (found_link m0 src snk)).twin ∧
          ValidLink w.media (linkAt m0 (found_link m0 src snk)).twin)
        then reset_target (linkAt m0 L).flags else (linkAt w.media X).flags :=
      fun X => flags_after_setup w.media _ _ X _ hvw
    have hLin : L = found_link m0 src snk ∨ (L = (linkAt m0 (found_link m0 src snk)).twin ∧
        ValidLink w.media (linkAt m0 (found_link m0 src snk)).twin) := by
      rcases hcase with h | h
      · exact Or.inl h.symm
      · right
        refine ⟨?_, hT0w⟩
        rw [h, hTT]
    have hTin : (linkAt m0 L).twin = found_link m0 src snk ∨
        ((linkAt m0 L).twin = (linkAt m0 (found_link m0 src snk)).twin ∧
        ValidLink w.media (linkAt m0 (found_link m0 src snk)).twin) := by
      rcases hcase with h | h
      · right
        refine ⟨?_, hT0w⟩
        rw [h]
      · exact Or.inl h.symm
    refine ⟨trivial, ⟨sameShape_trans hS (sameShape_trans (sameShape_setLinkFlags _ _ _)
      (sameShape_setLinkFlags _ _ _)), fun X hX => ?_⟩, fun X _ hD => ?_, fun _ _ => ⟨?_, ?_⟩⟩
    · rw [hflags X]
      by_cases hx : X = found_link m0 src snk ∨
          (X = (linkAt m0 (found_link m0 src snk)).twin ∧
            ValidLink w.media (linkAt m0 (found_link m0 src snk)).twin)
      · rw [if_pos hx, hwritten X hx]
        exact Or.inr rfl
      · rw [if_neg hx]
        exact hI.2 X hX
    · unfold ResetDone at hD ⊢
      rw [hflags X]
      by_cases hx : X = found_link m0 src snk ∨
          (X = (linkAt m0 (found_link m0 src snk)).twin ∧
            ValidLink w.media (linkAt m0 (found_link m0 src snk)).twin)
      · rw [if_pos hx, hwritten X hx]
      · rw [if_neg hx]
        exact hD
    · unfold ResetDone
      rw [hflags L, if_pos hLin]
    · unfold ResetDone
      rw [hflags _, if_pos hTin, ← hTf]

theorem reset_links_inner_spec (dev : Device) (m0 : media_device) (hG : EnumeratedGraph m0)
    (hdev : ∀ hist req, 0 ≤ (dev hist req).ret ∧ (dev hist req).flags = req.flags)
    (i : Nat) :
    ∀ (js : List Nat) (w : World), ResetInv m0 w.media →
      (∀ j ∈ js, j < (entityAt m0 i).links.length) →
      (reset_links_inner dev i js w).1 = 0 ∧
      ResetInv m0 (reset_links_inner dev i js w).2.media ∧
      (∀ X, ValidLink m0 X → ResetDone m0 w.media X →
        ResetDone m0 (reset_links_inner dev i js w).2.media X) ∧
      (∀ j ∈ js, (linkAt m0 (linkRef m0 i j)).flags &&& MEDIA_LNK_FL_IMMUTABLE = 0 →
        (padAt m0 (linkAt m0 (linkRef m0 i j)).source).entity = i →
        ResetDone m0 (reset_links_inner dev i js w).2.media (linkRef m0 i j) ∧
        ResetDone m0 (reset_links_inner dev i js w).2.media
          (linkAt m0 (linkRef m0 i j)).twin) := by
  intro js
  induction js with
  | nil =>
    intro w hI _
    exact ⟨rfl, hI, fun _ _ h => h, fun j hj => absurd hj (List.not_mem_nil j)⟩
  | cons j js ih =>
    intro w hI hjs
    obtain ⟨v1, v2, v3, v4⟩ :=
      reset_visit_spec dev m0 hG hdev w hI i j (hjs j (List.mem_cons_self j js))
    obtain ⟨r1, r2, r3, r4⟩ :=
      ih (reset_visit dev i j w).2 v2 (fun j' hj' => hjs j' (List.mem_cons_of_mem j hj'))
    have hstep : reset_links_inner dev i (j :: js) w =
        reset_links_inner dev i js (reset_visit dev i j w).2 := by
      simp only [reset_links_inner, v1]
      rfl
    rw [hstep]
    refine ⟨r1, r2, fun X hX hD => r3 X hX (v3 X hX hD), fun j' hj' hn hs => ?_⟩
    rcases List.mem_cons.1 hj' with h | h
    · subst h
      have hL := validLink_linkRef m0 i j' (hjs j' (List.mem_cons_self j' js))
      exact ⟨r3 _ hL (v4 hn hs).1, r3 _ (hG.twins _ hL).1 (v4 hn hs).2⟩
    · exact r4 j' h hn hs

theorem reset_links_outer_spec (dev : Device) (m0 : media_device) (hG : EnumeratedGraph m0)
    (hdev : ∀ hist req, 0 ≤ (dev hist req).ret ∧ (dev hist req).flags = req.flags) :
    ∀ (es : List Nat) (w : World), ResetInv m0 w.media →
      (reset_links_outer dev es w).1 = 0 ∧
      ResetInv m0 (reset_links_outer dev es w).2.media ∧
      (∀ X, ValidLink m0 X → ResetDone m0 w.media X →
        ResetDone m0 (reset_links_outer dev es w).2.media X) ∧
      (∀ i ∈ es, ∀ j, j < (entityAt m0 i).links.length →
        (linkAt m0 (linkRef m0 i j)).flags &&& MEDIA_LNK_FL_IMMUTABLE = 0 →
        (padAt m0 (linkAt m0 (linkRef m0 i j)).source).entity = i →
        ResetDone m0 (reset_links_outer dev es w).2.media (linkRef m0 i j) ∧
        ResetDone m0 (reset_links_outer dev es w).2.media
          (linkAt m0 (linkRef m0 i j)).twin) := by
  intro es
  induction es with
  | nil =>
    intro w hI
    exact ⟨rfl, hI, fun _ _ h => h, fun i hi => absurd hi (List.not_mem_nil i)⟩
  | cons i es ih =>
    intro w hI
    have hrange : ∀ j ∈ List.range (entityAt w.media i).num_links,
        j < (entityAt m0 i).links.length := by
      intro j hj
      rw [hI.1.num_links_eq] at hj
      exact List.mem_range.1 hj
    obtain ⟨v1, v2, v3, v4⟩ := reset_links_inner_spec dev m0 hG hdev i
      (List.range (entityAt w.media i).num_links) w hI hrange
    obtain ⟨r1, r2, r3, r4⟩ := ih _ v2
    have hstep : reset_links_outer dev (i :: es) w =
        reset_links_outer dev es
          (reset_links_inner dev i (List.range (entityAt w.media i).num_links) w).2 := by
      simp only [reset_links_outer, v1]
      rfl
    rw [hstep]
    refine ⟨r1, r2, fun X hX hD => r3 X hX (v3 X hX hD), fun i' hi' j hj hn hs => ?_⟩
    rcases List.mem_cons.1 hi' with h | h
    · subst h
      have hL := validLink_linkRef m0 i' j hj
      have hmem : j ∈ List.range (entityAt w.media i').num_links := by
        rw [hI.1.num_links_eq]
        exact List.mem_range.2 hj
      exact ⟨r3 _ hL (v4 j hmem hn hs).1, r3 _ (hG.twins _ hL).1 (v4 j hmem hn hs).2⟩
    · exact r4 i' h j hj hn hs

theorem resetInv_refl (m : media_device) : ResetInv m m :=
  ⟨sameShape_refl m, fun _ _ => Or.inl rfl⟩

theorem linkRef_of_valid (m : media_device) (L : LinkRef) (hL : ValidLink m L) :
    linkRef m L.ent L.pos = L := by
  cases L
  simp only [linkRef, LinkRef.mk.injEq, true_and, and_true]
  exact hL.2.1.symm

/-- With an accepting, echoing device `media_reset_links` on an enumerated graph
returns 0 and leaves every stored link at its reset target. -/
theorem media_reset_links_target (dev : Device) (w : World) (hG : EnumeratedGraph w.media)
    (hdev : ∀ hist req, 0 ≤ (dev hist req).ret ∧ (dev hist req).flags = req.flags) :
    (media_reset_links dev w).1 = 0 ∧
    SameShape w.media (media_reset_links dev w).2.media ∧
    ∀ L, ValidLink w.media L →
      (linkAt (media_reset_links dev w).2.media L).flags =
        reset_target (linkAt w.media L).flags := by
  obtain ⟨r1, r2, _, r4⟩ := reset_links_outer_spec dev w.media hG hdev
    (List.range w.media.entities_count) w (resetInv_refl _)
  refine ⟨r1, r2.1, fun L hL => ?_⟩
  by_cases hn : (linkAt w.media L).flags &&& MEDIA_LNK_FL_IMMUTABLE = 0
  · obtain ⟨hTv, hTT, hTf⟩ := hG.twins L hL
    rcases hG.source_side L hL with hs | hs
    · have := r4 L.ent (List.mem_range.2 hL.1) L.pos hL.2.2
        (by rw [linkRef_of_valid _ L hL]; exact hn)
        (by rw [linkRef_of_valid _ L hL]; exact hs)
      rw [linkRef_of_valid _ L hL] at this
      exact this.1
    · have := r4 (linkAt w.media L).twin.ent (List.mem_range.2 hTv.1)
        (linkAt w.media L).twin.pos hTv.2.2
        (by rw [linkRef_of_valid _ _ hTv, ← hTf]; exact hn)
        (by rw [linkRef_of_valid _ _ hTv, (hG.twin_ends L hL).1]; exact hs)
      rw [linkRef_of_valid _ _ hTv, hTT] at this
      exact this.2
  · rcases r2.2 L hL with h | h
    · show (linkAt (reset_links_outer dev (List.range w.media.entities_count) w).2.media
        L).flags = _
      rw [h, reset_target, if_neg hn]
    · exact h

theorem testBit_not_enabled (k : Nat) :
    Nat.testBit NOT_MEDIA_LNK_FL_ENABLED k =
      (decide (k < 32) && !Nat.testBit MEDIA_LNK_FL_ENABLED k) := by
  have h := Nat.testBit_two_pow_sub_succ (x := 1) (n := 32) (by norm_num) k
  exact h

theorem and_not_enabled_bits (f : Nat) (hf : f < 4294967296) :
    (f &&& NOT_MEDIA_LNK_FL_ENABLED) &&& MEDIA_LNK_FL_ENABLED = 0 ∧
    ∀ k, Nat.testBit MEDIA_LNK_FL_ENABLED k = false →
      Nat.testBit (f &&& NOT_MEDIA_LNK_FL_ENABLED) k = Nat.testBit f k := by
  constructor
  · rw [Nat.and_assoc]
    show f &&& 0 = 0
    exact Nat.and_zero f
  · intro k hk
    rw [Nat.testBit_and, testBit_not_enabled, hk]
    by_cases h32 : k < 32
    · simp [h32]
    · have h2 : (2 : Nat) ^ 32 ≤ 2 ^ k :=
        Nat.pow_le_pow_right (Nat.succ_pos 1) (Nat.le_of_not_lt h32)
      have h3 : (2 : Nat) ^ 32 = 4294967296 := by norm_num
      have hlt : f < 2 ^ k := by omega
      rw [Nat.testBit_lt_two_pow hlt]
      rfl

/-- C7: for a graph built by enumeration and a device that accepts every
request and confirms the flags it was sent, `media_reset_links` returns 0 and
afterwards every stored link (source-side and sink-side copies alike) whose
IMMUTABLE bit was clear has ENABLED clear and every other bit as before, and
every stored link whose IMMUTABLE bit was set has the flags it had before. -/
theorem C7_reset_links_clears_enabled (dev : Device) (w : World)
    (hG : EnumeratedGraph w.media)
    (hdev : ∀ hist req, 0 ≤ (dev hist req).ret ∧ (dev hist req).flags = req.flags) :
    (media_reset_links dev w).1 = 0 ∧
    ∀ L, ValidLink w.media L →
      ((linkAt w.media L).flags &&& MEDIA_LNK_FL_IMMUTABLE = 0 →
        (linkAt (media_reset_links dev w).2.media L).flags &&& MEDIA_LNK_FL_ENABLED = 0 ∧
        ∀ k, Nat.testBit MEDIA_LNK_FL_ENABLED k = false →
          Nat.testBit (linkAt (media_reset_links dev w).2.media L).flags k =
            Nat.testBit (linkAt w.media L).flags k) ∧
      ((linkAt w.media L).flags &&& MEDIA_LNK_FL_IMMUTABLE ≠ 0 →
        (linkAt (media_reset_links dev w).2.media L).flags = (linkAt w.media L).flags) := by
  obtain ⟨h0, _, hT⟩ := media_reset_links_target dev w hG hdev
  refine ⟨h0, fun L hL => ⟨fun hn => ?_, fun hi => ?_⟩⟩
  · rw [hT L hL, reset_target, if_pos hn]
    exact and_not_enabled_bits _ (hG.u32 L hL)
  · rw [hT L hL, reset_target, if_neg hi]

/-- Witness of C7: the sensor graph with an enabled link and the echoing
device. -/
theorem C7_reset_links_clears_enabled_witness :
    (media_reset_links echo_device { media := sensor_graph 1 }).1 = 0 ∧
    ∀ L, ValidLink (sensor_graph 1) L →
      ((linkAt (sensor_graph 1) L).flags &&& MEDIA_LNK_FL_IMMUTABLE = 0 →
        (linkAt (media_reset_links echo_device { media := sensor_graph 1 }).2.media L).flags
          &&& MEDIA_LNK_FL_ENABLED = 0 ∧
        ∀ k, Nat.testBit MEDIA_LNK_FL_ENABLED k = false →
          Nat.testBit
            (linkAt (media_reset_links echo_device { media := sensor_graph 1 }).2.media L).flags
            k = Nat.testBit (linkAt (sensor_graph 1) L).flags k) ∧
      ((linkAt (sensor_graph 1) L).flags &&& MEDIA_LNK_FL_IMMUTABLE ≠ 0 →
        (linkAt (media_reset_links echo_device { media := sensor_graph 1 }).2.media L).flags =
          (linkAt (sensor_graph 1) L).flags) :=
  C7_reset_links_clears_enabled echo_device { media := sensor_graph 1 }
    (enumeratedGraph_of_check _ (by decide)) (fun _ _ => ⟨Int.le_refl 0, rfl⟩)

/-! ## C9: `media_reset_links` stops at the first failure -/

theorem append_singleton_eq_split {α : Type} (cs pre post : List α) (u x : α)
    (h : cs ++ [u] = pre ++ x :: post) :
    (pre = cs ∧ x = u ∧ post = []) ∨ ∃ post', post = post' ++ [u] ∧ cs = pre ++ x :: post' := by
  induction cs generalizing pre with
  | nil =>
    cases pre with
    | nil =>
      simp only [List.nil_append, List.cons.injEq] at h
      exact Or.inl ⟨rfl, h.1.symm, h.2.symm⟩
    | cons a t =>
      simp only [List.nil_append, List.cons_append, List.cons.injEq] at h
      have := congrArg List.length h.2
      simp at this
      omega
  | cons c cs ih =>
    cases pre with
    | nil =>
      simp only [List.cons_append, List.nil_append, List.cons.injEq] at h
      right
      exact ⟨cs, h.2.symm, by rw [h.1]; rfl⟩
    | cons a t =>
      simp only [List.cons_append, List.cons.injEq] at h
      rcases ih t h.2 with ⟨h1, h2, h3⟩ | ⟨post', h1, h2⟩
      · left
        exact ⟨by rw [h.1, h1], h2, h3⟩
      · right
        exact ⟨post', h1, by rw [h.1, h2]; rfl⟩

theorem resetAccepted_refl (dev : Device) (w : World) : ResetAccepted dev w w [] := by
  refine ⟨by simp, sameShape_refl _, ?_, fun _ => Or.inl rfl⟩
  intro pre u post h
  cases pre <;> simp at h

theorem find_link_index_of_stored (m : media_device) (i j : Nat)
    (hj : j < (entityAt m i).links.length)
    (hside : (padAt m (linkAt m (linkRef m i j)).source).entity = i) :
    find_link_index m (linkAt m (linkRef m i j)).source (linkAt m (linkRef m i j)).sink <
      (entityAt m (padAt m (linkAt m (linkRef m i j)).source).entity).links.length := by
  unfold find_link_index
  rw [List.findIdx_lt_length, hside]
  exact ⟨_, linkAt_linkRef_mem m i j hj, link_matches_self m _⟩

theorem request_names_found (m : media_device) (source sink : PadRef) (flags : Nat)
    (h : find_link_index m source sink < (entityAt m (padAt m source).entity).links.length) :
    request_names m (setup_link_request m source sink flags) (found_link m source sink) := by
  have hm := found_link_matches m source sink h
  rw [link_matches_iff] at hm
  obtain ⟨h1, h2, h3, h4⟩ := hm
  unfold request_names setup_link_request
  simp only
  rw [h1, h2, h3, h4]
  exact ⟨rfl, rfl, rfl, rfl⟩

theorem SameShape.request_names_iff {m m' : media_device} (h : SameShape m m')
    (u : media_link_desc) (L : LinkRef) : request_names m' u L ↔ request_names m u L := by
  unfold request_names
  rw [(h.2.2.2 L).1, (h.2.2.2 L).2.1, h.padAt_eq, h.padAt_eq, (h.2.2.1 _).1, (h.2.2.1 _).1]

/-- One more accepted call of `media_setup_link`. -/
theorem resetAccepted_setup (dev : Device) (w0 w : World) (cs : List media_link_desc)
    (hA : ResetAccepted dev w0 w cs) (source sink : PadRef) (flags : Nat)
    (hlt : find_link_index w.media source sink <
      (entityAt w.media (padAt w.media source).entity).links.length)
    (hd : ¬ (dev w.trace (setup_link_request w.media source sink flags)).ret < 0) :
    ResetAccepted dev w0 (media_setup_link dev w source sink flags).2
      (cs ++ [setup_link_request w.media source sink flags]) := by
  obtain ⟨ht, hS, hacc, hfr⟩ := hA
  have hf := Nat.ne_of_lt hlt
  have hv := found_link_valid w.media source sink hf
  rw [media_setup_link_success dev w source sink flags hf hd]
  refine ⟨by simp [ht], sameShape_trans hS (sameShape_trans (sameShape_setLinkFlags _ _ _)
    (sameShape_setLinkFlags _ _ _)), ?_, fun X => ?_⟩
  · intro pre u post hsplit
    rcases append_singleton_eq_split _ _ _ _ _ hsplit with ⟨h1, h2, _⟩ | ⟨post', _, h2⟩
    · rw [h1, h2, ← ht]
      exact Int.not_lt.1 hd
    · exact hacc pre u post' h2
  · simp only
    rw [flags_after_setup _ _ _ _ _ hv]
    by_cases hx : X = found_link w.media source sink ∨
        (X = (linkAt w.media (found_link w.media source sink)).twin ∧
          ValidLink w.media (linkAt w.media (found_link w.media source sink)).twin)
    · rw [if_pos hx]
      right
      refine ⟨cs, _, [], found_link w.media source sink, rfl, ?_, ?_, by rw [← ht]⟩
      · exact (hS.request_names_iff _ _).1 (request_names_found w.media source sink flags hlt)
      · rcases hx with hx | hx
        · exact Or.inl hx
        · right
          rw [hx.1, hS.twin_eq]
    · rw [if_neg hx]
      rcases hfr X with h | ⟨pre, u, post, L, h1, h2, h3, h4⟩
      · exact Or.inl h
      · right
        exact ⟨pre, u, post ++ [setup_link_request w.media source sink flags], L,
          by rw [h1]; simp, h2, h3, h4⟩

theorem reset_visit_outcome (dev : Device) (w0 w : World) (cs : List media_link_desc)
    (hA : ResetAccepted dev w0 w cs) (i j : Nat)
    (hj : j < (entityAt w0.media i).links.length) :
    ResetOutcome dev w0 (reset_visit dev i j w) := by
  rw [reset_visit_eq]
  by_cases hg : (linkAt w.media (linkRef w.media i j)).flags &&& MEDIA_LNK_FL_IMMUTABLE ≠ 0 ∨
      (padAt w.media (linkAt w.media (linkRef w.media i j)).source).entity ≠ i
  · rw [if_pos hg]
    exact Or.inl ⟨rfl, cs, hA⟩
  · rw [if_neg hg]
    have hside : (padAt w.media (linkAt w.media (linkRef w.media i j)).source).entity = i := by
      by_contra hc; exact hg (Or.inr hc)
    have hjw : j < (entityAt w.media i).links.length := by
      rw [(hA.2.1.2.2.1 i).2.2.2.2.2]; exact hj
    have hlt := find_link_index_of_stored w.media i j hjw hside
    by_cases hd : (dev w.trace (setup_link_request w.media
        (linkAt w.media (linkRef w.media i j)).source
        (linkAt w.media (linkRef w.media i j)).sink
        ((linkAt w.media (linkRef w.media i j)).flags &&& NOT_MEDIA_LNK_FL_ENABLED))).ret < 0
    · right
      rw [media_setup_link_failure dev w _ _ _ (Nat.ne_of_lt hlt) hd]
      exact ⟨hd, w, cs, _, hA, rfl, rfl, rfl⟩
    · left
      refine ⟨?_, _, resetAccepted_setup dev w0 w cs hA _ _ _ hlt hd⟩
      rw [media_setup_link_success dev w _ _ _ (Nat.ne_of_lt hlt) hd]

theorem reset_links_inner_outcome (dev : Device) (w0 : World) (i : Nat) :
    ∀ (js : List Nat) (w : World) (cs : List media_link_desc),
      ResetAccepted dev w0 w cs → (∀ j ∈ js, j < (entityAt w0.media i).links.length) →
      ResetOutcome dev w0 (reset_links_inner dev i js w) := by
  intro js
  induction js with
  | nil =>
    intro w cs hA _
    exact Or.inl ⟨rfl, cs, hA⟩
  | cons j js ih =>
    intro w cs hA hjs
    have hv := reset_visit_outcome dev w0 w cs hA i j (hjs j (List.mem_cons_self j js))
    by_cases hneg : (reset_visit dev i j w).1 < 0
    · have hstep : reset_links_inner dev i (j :: js) w = reset_visit dev i j w := by
        simp only [reset_links_inner, hneg, if_true]
      rw [hstep]
      exact hv
    · have hstep : reset_links_inner dev i (j :: js) w =
          reset_links_inner dev i js (reset_visit dev i j w).2 := by
        simp only [reset_links_inner, hneg, if_false]
      rw [hstep]
      rcases hv with ⟨_, cs', hA'⟩ | ⟨h, _⟩
      · exact ih _ cs' hA' (fun j' hj' => hjs j' (List.mem_cons_of_mem j hj'))
      · exact absurd h hneg

theorem reset_links_outer_outcome (dev : Device) (w0 : World) :
    ∀ (es : List Nat) (w : World) (cs : List media_link_desc),
      ResetAccepted dev w0 w cs → ResetOutcome dev w0 (reset_links_outer dev es w) := by
  intro es
  induction es with
  | nil =>
    intro w cs hA
    exact Or.inl ⟨rfl, cs, hA⟩
  | cons i es ih =>
    intro w cs hA
    have hrange : ∀ j ∈ List.range (entityAt w.media i).num_links,
        j < (entityAt w0.media i).links.length := by
      intro j hj
      rw [hA.2.1.num_links_eq] at hj
      exact List.mem_range.1 hj
    have hv := reset_links_inner_outcome dev w0 i _ w cs hA hrange
    by_cases hneg :
        (reset_links_inner dev i (List.range (entityAt w.media i).num_links) w).1 < 0
    · have hstep : reset_links_outer dev (i :: es) w =
          reset_links_inner dev i (List.range (entityAt w.media i).num_links) w := by
        simp only [reset_links_outer, hneg, if_true]
      rw [hstep]
      exact hv
    · have hstep : reset_links_outer dev (i :: es) w =
          reset_links_outer dev es
            (reset_links_inner dev i (List.range (entityAt w.media i).num_links) w).2 := by
        simp only [reset_links_outer, hneg, if_false]
      rw [hstep]
      rcases hv with ⟨_, cs', hA'⟩ | ⟨h, _⟩
      · exact ih _ cs' hA'
      · exact absurd h hneg

/-- The requests `cs` that a run of `media_reset_links` issues are such that a
request the device refuses is the last one issued and its negative answer is
the value returned; the graph keeps its shape; and every link has either the
flags it had before the run or the flags the device confirmed for an accepted
request of the run that names this link or its twin. -/
theorem reset_links_trace_outcome (dev : Device) (w : World) :
    ∃ cs, (media_reset_links dev w).2.trace = w.trace ++ cs ∧
      SameShape w.media (media_reset_links dev w).2.media ∧
      (∀ pre u post, cs = pre ++ u :: post → (dev (w.trace ++ pre) u).ret < 0 →
        post = [] ∧ (media_reset_links dev w).1 = (dev (w.trace ++ pre) u).ret) ∧
      ∀ X, (linkAt (media_reset_links dev w).2.media X).flags = (linkAt w.media X).flags ∨
        ∃ pre u post L, cs = pre ++ u :: post ∧ 0 ≤ (dev (w.trace ++ pre) u).ret ∧
          request_names w.media u L ∧ (X = L ∨ X = (linkAt w.media L).twin) ∧
          (linkAt (media_reset_links dev w).2.media X).flags =
            (dev (w.trace ++ pre) u).flags := by
  have h := reset_links_outer_outcome dev w (List.range w.media.entities_count) w []
    (resetAccepted_refl dev w)
  change ResetOutcome dev w (media_reset_links dev w) at h
  rcases h with ⟨_, cs, ht, hS, hacc, hfr⟩ | ⟨_, w1, cs, u, ⟨ht, hS, hacc, hfr⟩, hm, htr, hret⟩
  · refine ⟨cs, ht, hS, fun pre u post hsplit hneg => ?_, fun X => ?_⟩
    · exact absurd (hacc pre u post hsplit) (Int.not_le.2 hneg)
    · rcases hfr X with h | ⟨pre, u, post, L, h1, h2, h3, h4⟩
      · exact Or.inl h
      · exact Or.inr ⟨pre, u, post, L, h1, hacc pre u post h1, h2, h3, h4⟩
  · refine ⟨cs ++ [u], by rw [htr, ht, List.append_assoc], by rw [hm]; exact hS,
      fun pre x post hsplit hneg => ?_, fun X => ?_⟩
    · rcases append_singleton_eq_split _ _ _ _ _ hsplit with ⟨h1, h2, h3⟩ | ⟨post', _, h2⟩
      · refine ⟨h3, ?_⟩
        rw [h1, h2, ← ht, hret]
      · exact absurd (hacc pre x post' h2) (Int.not_le.2 hneg)
    · rw [hm]
      rcases hfr X with h | ⟨pre, x, post, L, h1, h2, h3, h4⟩
      · exact Or.inl h
      · right
        exact ⟨pre, x, post ++ [u], L, by rw [h1]; simp, hacc pre x post h1, h2, h3, h4⟩

theorem reset_steps_append (dev : Device) :
    ∀ (a b : List (Nat × Nat)) (w : World),
      reset_steps dev (a ++ b) w =
        if (reset_steps dev a w).1 < 0 then reset_steps dev a w
        else reset_steps dev b (reset_steps dev a w).2 := by
  intro a
  induction a with
  | nil =>
    intro b w
    show reset_steps dev b w = if (0 : Int) < 0 then _ else reset_steps dev b w
    rw [if_neg (by decide : ¬ (0 : Int) < 0)]
  | cons v a ih =>
    intro b w
    show (if (reset_visit dev v.1 v.2 w).1 < 0 then reset_visit dev v.1 v.2 w
        else reset_steps dev (a ++ b) (reset_visit dev v.1 v.2 w).2) =
      if (if (reset_visit dev v.1 v.2 w).1 < 0 then reset_visit dev v.1 v.2 w
          else reset_steps dev a (reset_visit dev v.1 v.2 w).2).1 < 0 then
        (if (reset_visit dev v.1 v.2 w).1 < 0 then reset_visit dev v.1 v.2 w
          else reset_steps dev a (reset_visit dev v.1 v.2 w).2)
      else reset_steps dev b
        (if (reset_visit dev v.1 v.2 w).1 < 0 then reset_visit dev v.1 v.2 w
          else reset_steps dev a (reset_visit dev v.1 v.2 w).2).2
    by_cases h : (reset_visit dev v.1 v.2 w).1 < 0
    · simp only [if_pos h]
    · simp only [if_neg h]
      exact ih b _

theorem reset_links_inner_eq_steps (dev : Device) (i : Nat) :
    ∀ (js : List Nat) (w : World),
      reset_links_inner dev i js w = reset_steps dev (js.map (fun j => (i, j))) w := by
  intro js
  induction js with
  | nil => intro w; rfl
  | cons j js ih =>
    intro w
    show (if (reset_visit dev i j w).1 < 0 then reset_visit dev i j w
        else reset_links_inner dev i js (reset_visit dev i j w).2) =
      if (reset_visit dev i j w).1 < 0 then reset_visit dev i j w
        else reset_steps dev (js.map (fun j => (i, j))) (reset_visit dev i j w).2
    rw [ih]

theorem reset_visit_sameShape (dev : Device) (i j : Nat) (w : World) :
    SameShape w.media (reset_visit dev i j w).2.media := by
  rw [reset_visit_eq]
  split
  · exact sameShape_refl _
  · exact media_setup_link_sameShape dev w _ _ _

theorem reset_steps_sameShape (dev : Device) :
    ∀ (vs : List (Nat × Nat)) (w : World), SameShape w.media (reset_steps dev vs w).2.media := by
  intro vs
  induction vs with
  | nil => intro w; exact sameShape_refl _
  | cons v vs ih =>
    intro w
    show SameShape w.media (if (reset_visit dev v.1 v.2 w).1 < 0 then reset_visit dev v.1 v.2 w
        else reset_steps dev vs (reset_visit dev v.1 v.2 w).2).2.media
    by_cases h : (reset_visit dev v.1 v.2 w).1 < 0
    · rw [if_pos h]
      exact reset_visit_sameShape dev v.1 v.2 w
    · rw [if_neg h]
      exact sameShape_trans (reset_visit_sameShape dev v.1 v.2 w) (ih _)

theorem reset_links_outer_eq_steps (dev : Device) :
    ∀ (is : List Nat) (w : World),
      reset_links_outer dev is w =
        reset_steps dev (is.flatMap
          (fun i => (List.range (entityAt w.media i).num_links).map (fun j => (i, j)))) w := by
  intro is
  induction is with
  | nil => intro w; rfl
  | cons i is ih =>
    intro w
    rw [List.flatMap_cons, reset_steps_append, ← reset_links_inner_eq_steps]
    show (if (reset_links_inner dev i (List.range (entityAt w.media i).num_links) w).1 < 0 then
        reset_links_inner dev i (List.range (entityAt w.media i).num_links) w
      else reset_links_outer dev is
        (reset_links_inner dev i (List.range (entityAt w.media i).num_links) w).2) = _
    by_cases h : (reset_links_inner dev i (List.range (entityAt w.media i).num_links) w).1 < 0
    · rw [if_pos h, if_pos h]
    · rw [if_neg h, if_neg h, ih]
      have hS : SameShape w.media
          (reset_links_inner dev i (List.range (entityAt w.media i).num_links) w).2.media := by
        rw [reset_links_inner_eq_steps]
        exact reset_steps_sameShape dev _ w
      have hn : (fun i' => (List.range (entityAt
          (reset_links_inner dev i (List.range (entityAt w.media i).num_links) w).2.media
            i').num_links).map (fun j => (i', j))) =
          (fun i' => (List.range (entityAt w.media i').num_links).map (fun j => (i', j))) := by
        funext i'
        rw [hS.num_links_eq]
      rw [hn]

theorem media_reset_links_eq_steps (dev : Device) (w : World) :
    media_reset_links dev w = reset_steps dev (reset_visits w.media) w :=
  reset_links_outer_eq_steps dev _ w

theorem mem_reset_visits (m : media_device) (v : Nat × Nat) (h : v ∈ reset_visits m) :
    v.2 < (entityAt m v.1).links.length := by
  unfold reset_visits at h
  rw [List.mem_flatMap] at h
  obtain ⟨i, _, hv⟩ := h
  rw [List.mem_map] at hv
  obtain ⟨j, hj, rfl⟩ := hv
  exact List.mem_range.1 hj

theorem SameShape.reset_link_eq {m m' : media_device} (h : SameShape m m') (v : Nat × Nat) :
    reset_link m' v = reset_link m v := by
  unfold reset_link
  rw [h.linkRef_eq, (h.2.2.2 _).1, (h.2.2.2 _).2.1, h.found_link_eq]

theorem neg_EINVAL_lt : -EINVAL < 0 := by decide

/-- A link that the loop body skips: nothing is done. -/
theorem reset_visit_skip (dev : Device) (v : Nat × Nat) (w : World)
    (h : ¬ reset_calls w.media v) : reset_visit dev v.1 v.2 w = (0, w) := by
  rw [reset_visit_eq, if_pos]
  by_contra hc
  apply h
  constructor
  · by_contra h1; exact hc (Or.inl h1)
  · by_contra h1; exact hc (Or.inr h1)

theorem reset_visit_call (dev : Device) (v : Nat × Nat) (w : World)
    (h : reset_calls w.media v) :
    reset_visit dev v.1 v.2 w =
      media_setup_link dev w (linkAt w.media (linkRef w.media v.1 v.2)).source
        (linkAt w.media (linkRef w.media v.1 v.2)).sink
        ((linkAt w.media (linkRef w.media v.1 v.2)).flags &&& NOT_MEDIA_LNK_FL_ENABLED) := by
  rw [reset_visit_eq, if_neg]
  rintro (h1 | h1)
  · exact h1 h.1
  · exact h1 h.2

/-- A call that the device refuses: the value of the device is returned, the
request is added to the trace and the graph is left as it is. -/
theorem reset_visit_refused (dev : Device) (v : Nat × Nat) (w : World)
    (hv : v.2 < (entityAt w.media v.1).links.length)
    (h : reset_calls w.media v)
    (hd : (dev w.trace (reset_request w.media v)).ret < 0) :
    reset_visit dev v.1 v.2 w =
      ((dev w.trace (reset_request w.media v)).ret,
       { w with trace := w.trace ++ [reset_request w.media v] }) := by
  rw [reset_visit_call dev v w h]
  exact media_setup_link_failure dev w _ _ _
    (Nat.ne_of_lt (find_link_index_of_stored w.media v.1 v.2 hv h.2)) hd

/-- A call made by a step that has not failed: the link that was looked up and
its twin are given the flags that the device has confirmed. -/
theorem reset_visit_accepted (dev : Device) (v : Nat × Nat) (w : World)
    (h : reset_calls w.media v) (hr : ¬ (reset_visit dev v.1 v.2 w).1 < 0) :
    ValidLink w.media (reset_link w.media v) ∧
    reset_visit dev v.1 v.2 w =
      (0, { media :=
              setLinkFlags
                (setLinkFlags w.media (reset_link w.media v)
                  (dev w.trace (reset_request w.media v)).flags)
                (linkAt w.media (reset_link w.media v)).twin
                (dev w.trace (reset_request w.media v)).flags,
            trace := w.trace ++ [reset_request w.media v] }) := by
  rw [reset_visit_call dev v w h] at hr ⊢
  by_cases hf : find_link_index w.media (linkAt w.media (linkRef w.media v.1 v.2)).source
      (linkAt w.media (linkRef w.media v.1 v.2)).sink =
      (entityAt w.media (padAt w.media (linkAt w.media (linkRef w.media v.1 v.2)).source).entity).num_links
  · rw [media_setup_link_not_found dev w _ _ _ hf] at hr
    exact absurd neg_EINVAL_lt hr
  · by_cases hd : (dev w.trace (setup_link_request w.media
        (linkAt w.media (linkRef w.media v.1 v.2)).source
        (linkAt w.media (linkRef w.media v.1 v.2)).sink
        ((linkAt w.media (linkRef w.media v.1 v.2)).flags &&& NOT_MEDIA_LNK_FL_ENABLED))).ret < 0
    · rw [media_setup_link_failure dev w _ _ _ hf hd] at hr
      exact absurd hd hr
    · exact ⟨found_link_valid w.media _ _ hf, media_setup_link_success dev w _ _ _ hf hd⟩

/-- A step that has not failed leaves the flags of every link that its call does
not store to. -/
theorem reset_visit_frame (dev : Device) (m0 : media_device) (v : Nat × Nat) (w : World)
    (hS : SameShape m0 w.media) (hr : ¬ (reset_visit dev v.1 v.2 w).1 < 0) (X : LinkRef)
    (hX : ¬ ResetWrites m0 v X) :
    (linkAt (reset_visit dev v.1 v.2 w).2.media X).flags = (linkAt w.media X).flags := by
  by_cases h : reset_calls w.media v
  · obtain ⟨hv, he⟩ := reset_visit_accepted dev v w h hr
    rw [he]
    simp only
    rw [flags_after_setup _ _ _ _ _ hv, if_neg]
    rintro (h1 | h1)
    · exact hX (Or.inl (by rw [h1, hS.reset_link_eq]))
    · exact hX (Or.inr (by rw [h1.1, hS.reset_link_eq, hS.twin_eq]))
  · rw [reset_visit_skip dev v w h]

theorem reset_steps_prefix_ok (dev : Device) (a b : List (Nat × Nat)) (w : World)
    (h : ¬ (reset_steps dev (a ++ b) w).1 < 0) :
    ¬ (reset_steps dev a w).1 < 0 ∧
    reset_steps dev (a ++ b) w = reset_steps dev b (reset_steps dev a w).2 := by
  rw [reset_steps_append] at h ⊢
  by_cases ha : (reset_steps dev a w).1 < 0
  · rw [if_pos ha] at h
    exact absurd ha h
  · rw [if_neg ha]
    exact ⟨ha, rfl⟩

theorem reset_steps_cons_ok (dev : Device) (v : Nat × Nat) (vs : List (Nat × Nat)) (w : World)
    (h : ¬ (reset_steps dev (v :: vs) w).1 < 0) :
    ¬ (reset_visit dev v.1 v.2 w).1 < 0 ∧
    reset_steps dev (v :: vs) w = reset_steps dev vs (reset_visit dev v.1 v.2 w).2 := by
  have hstep : reset_steps dev (v :: vs) w =
      if (reset_visit dev v.1 v.2 w).1 < 0 then reset_visit dev v.1 v.2 w
      else reset_steps dev vs (reset_visit dev v.1 v.2 w).2 := rfl
  rw [hstep] at h ⊢
  by_cases ha : (reset_visit dev v.1 v.2 w).1 < 0
  · rw [if_pos ha] at h
    exact absurd ha h
  · rw [if_neg ha]
    exact ⟨ha, rfl⟩

/-- The steps that have not failed leave the flags of every link that none of
the calls they make stores to. -/
theorem reset_steps_keep (dev : Device) (X : LinkRef) :
    ∀ (vs : List (Nat × Nat)) (w : World),
      ¬ (reset_steps dev vs w).1 < 0 → reset_stores dev vs w X = false →
      (linkAt (reset_steps dev vs w).2.media X).flags = (linkAt w.media X).flags := by
  intro vs
  induction vs with
  | nil => intro w _ _; rfl
  | cons v vs ih =>
    intro w hr hX
    obtain ⟨h1, e1⟩ := reset_steps_cons_ok dev v vs w hr
    rw [e1] at hr ⊢
    have hX2 : (decide (reset_calls w.media v) && decide (ResetWrites w.media v X)) = false ∧
        reset_stores dev vs (reset_visit dev v.1 v.2 w).2 X = false := by
      have : ((decide (reset_calls w.media v) && decide (ResetWrites w.media v X)) ||
          reset_stores dev vs (reset_visit dev v.1 v.2 w).2 X) = false := hX
      rw [Bool.or_eq_false_iff] at this
      exact this
    rw [ih _ hr hX2.2]
    by_cases hc : reset_calls w.media v
    · apply reset_visit_frame dev w.media v w (sameShape_refl _) h1 X
      intro hw
      have := hX2.1
      rw [decide_eq_true hc, decide_eq_true hw] at this
      exact Bool.noConfusion this
    · rw [reset_visit_skip dev v w hc]

/-- C9: `media_reset_links` is the loop body run for the links of
`reset_visits`, in order, until a step fails. When the steps for the links
`done` have not failed and the device refuses the request made for the next
link `v`, `media_reset_links` returns the value of the device for that request,
the request is the last of the trace, and the graph is the one that the steps
for `done` have left: no flags are stored by or after the refused call. In the
graph that steps without a failure leave, a link that no call of these steps
has stored to has the flags it had before, and a link that the call of a step
has stored to, and no call of a later step, has the flags that the device
confirmed for that call. The requests of a run are such that a refused one is
the last, and its negative answer is the value returned. -/
theorem C9_reset_links_fail_fast (dev : Device) (w : World) :
    media_reset_links dev w = reset_steps dev (reset_visits w.media) w ∧
    (∀ done v rest, reset_visits w.media = done ++ v :: rest →
      ¬ (reset_steps dev done w).1 < 0 →
      reset_calls (reset_steps dev done w).2.media v →
      (dev (reset_steps dev done w).2.trace
        (reset_request (reset_steps dev done w).2.media v)).ret < 0 →
      (media_reset_links dev w).1 =
        (dev (reset_steps dev done w).2.trace
          (reset_request (reset_steps dev done w).2.media v)).ret ∧
      (media_reset_links dev w).2.trace =
        (reset_steps dev done w).2.trace ++
          [reset_request (reset_steps dev done w).2.media v] ∧
      (media_reset_links dev w).2.media = (reset_steps dev done w).2.media) ∧
    (∀ done X, ¬ (reset_steps dev done w).1 < 0 → reset_stores dev done w X = false →
      (linkAt (reset_steps dev done w).2.media X).flags = (linkAt w.media X).flags) ∧
    (∀ done v later X, ¬ (reset_steps dev (done ++ v :: later) w).1 < 0 →
      reset_calls (reset_steps dev done w).2.media v →
      (X = reset_link w.media v ∨
        (X = (linkAt w.media (reset_link w.media v)).twin ∧ ValidLink w.media X)) →
      reset_stores dev later (reset_steps dev (done ++ [v]) w).2 X = false →
      (linkAt (reset_steps dev (done ++ v :: later) w).2.media X).flags =
        (dev (reset_steps dev done w).2.trace
          (reset_request (reset_steps dev done w).2.media v)).flags) ∧
    ∃ cs, (media_reset_links dev w).2.trace = w.trace ++ cs ∧
      SameShape w.media (media_reset_links dev w).2.media ∧
      (∀ pre u post, cs = pre ++ u :: post → (dev (w.trace ++ pre) u).ret < 0 →
        post = [] ∧ (media_reset_links dev w).1 = (dev (w.trace ++ pre) u).ret) ∧
      ∀ X, (linkAt (media_reset_links dev w).2.media X).flags = (linkAt w.media X).flags ∨
        ∃ pre u post L, cs = pre ++ u :: post ∧ 0 ≤ (dev (w.trace ++ pre) u).ret ∧
          request_names w.media u L ∧ (X = L ∨ X = (linkAt w.media L).twin) ∧
          (linkAt (media_reset_links dev w).2.media X).flags =
            (dev (w.trace ++ pre) u).flags := by
  refine ⟨media_reset_links_eq_steps dev w, ?_, ?_, ?_, reset_links_trace_outcome dev w⟩
  · intro done v rest hsplit hok hcalls hd
    have hS := reset_steps_sameShape dev done w
    have hv : v.2 < (entityAt (reset_steps dev done w).2.media v.1).links.length := by
      rw [(hS.2.2.1 v.1).2.2.2.2.2]
      apply mem_reset_visits
      rw [hsplit]
      exact List.mem_append_right _ (List.mem_cons_self v rest)
    have hvis := reset_visit_refused dev v (reset_steps dev done w).2 hv hcalls hd
    have hrun : media_reset_links dev w =
        reset_visit dev v.1 v.2 (reset_steps dev done w).2 := by
      rw [media_reset_links_eq_steps, hsplit, reset_steps_append, if_neg hok]
      have hstep : reset_steps dev (v :: rest) (reset_steps dev done w).2 =
          if (reset_visit dev v.1 v.2 (reset_steps dev done w).2).1 < 0 then
            reset_visit dev v.1 v.2 (reset_steps dev done w).2
          else reset_steps dev rest (reset_visit dev v.1 v.2 (reset_steps dev done w).2).2 := rfl
      rw [hstep, if_pos]
      rw [hvis]
      exact hd
    rw [hrun, hvis]
    exact ⟨rfl, rfl, rfl⟩
  · intro done X hok hX
    exact reset_steps_keep dev X done w hok hX
  · intro done v later X hok hcalls hX hlater
    obtain ⟨h1, e1⟩ := reset_steps_prefix_ok dev done (v :: later) w hok
    rw [e1] at hok ⊢
    obtain ⟨h2, e2⟩ := reset_steps_cons_ok dev v later _ hok
    rw [e2] at hok ⊢
    have e3 : reset_steps dev (done ++ [v]) w =
        reset_visit dev v.1 v.2 (reset_steps dev done w).2 := by
      rw [reset_steps_append, if_neg h1]
      show (if (reset_visit dev v.1 v.2 (reset_steps dev done w).2).1 < 0 then
          reset_visit dev v.1 v.2 (reset_steps dev done w).2
        else (0, (reset_visit dev v.1 v.2 (reset_steps dev done w).2).2)) = _
      rw [if_neg h2]
      obtain ⟨-, he⟩ := reset_visit_accepted dev v (reset_steps dev done w).2 hcalls h2
      rw [he]
    rw [e3] at hlater
    have hS := reset_steps_sameShape dev done w
    rw [reset_steps_keep dev X later _ hok hlater]
    obtain ⟨hv, he⟩ := reset_visit_accepted dev v (reset_steps dev done w).2 hcalls h2
    rw [he]
    simp only
    rw [flags_after_setup _ _ _ _ _ hv, if_pos]
    rcases hX with hX | hX
    · exact Or.inl (by rw [hX, hS.reset_link_eq])
    · exact Or.inr ⟨by rw [hX.1, hS.reset_link_eq, hS.twin_eq], by
        rw [hS.reset_link_eq, hS.twin_eq, ← hX.1]
        exact (hS.validLink_iff X).2 hX.2⟩

/-- Witness of C9: in the graph with two resizers, whose links from "Sensor" are
both enabled, with a device that accepts the first request and refuses the
second, `media_reset_links` returns -1 after two requests; the link to
"Resizer A" and its twin have lost the ENABLED flag and stay so, and the link to
"Resizer B" and its twin, to which no call has stored, have the flags 1 they
had. -/
theorem C9_reset_links_fail_fast_witness :
    ((media_reset_links once_device { media := fanout_graph }).1 =
        (once_device (reset_steps once_device [(0, 0)] { media := fanout_graph }).2.trace
          (reset_request (reset_steps once_device [(0, 0)]
            { media := fanout_graph }).2.media (0, 1))).ret ∧
      (media_reset_links once_device { media := fanout_graph }).2.trace =
        (reset_steps once_device [(0, 0)] { media := fanout_graph }).2.trace ++
          [reset_request (reset_steps once_device [(0, 0)]
            { media := fanout_graph }).2.media (0, 1)] ∧
      (media_reset_links once_device { media := fanout_graph }).2.media =
        (reset_steps once_device [(0, 0)] { media := fanout_graph }).2.media) ∧
    reset_visits fanout_graph = [(0, 0), (0, 1), (1, 0), (2, 0)] ∧
    (media_reset_links once_device { media := fanout_graph }).1 = -1 ∧
    (media_reset_links once_device { media := fanout_graph }).2.trace =
      [{ source := { entity := 1, index := 0, flags := MEDIA_PAD_FL_SOURCE },
         sink := { entity := 2, index := 0, flags := MEDIA_PAD_FL_SINK }, flags := 0 },
       { source := { entity := 1, index := 0, flags := MEDIA_PAD_FL_SOURCE },
         sink := { entity := 3, index := 0, flags := MEDIA_PAD_FL_SINK }, flags := 0 }] ∧
    (linkAt fanout_graph ⟨0, 0, 0⟩).flags = 1 ∧
    (linkAt (media_reset_links once_device { media := fanout_graph }).2.media ⟨0, 0, 0⟩).flags
      = 0 ∧
    (linkAt (media_reset_links once_device { media := fanout_graph }).2.media ⟨1, 0, 0⟩).flags
      = 0 ∧
    reset_stores once_device [(0, 0)] { media := fanout_graph } ⟨0, 0, 1⟩ = false ∧
    (linkAt (media_reset_links once_device { media := fanout_graph }).2.media ⟨0, 0, 1⟩).flags
      = 1 ∧
    reset_stores once_device [(0, 0)] { media := fanout_graph } ⟨2, 0, 0⟩ = false ∧
    (linkAt (media_reset_links once_device { media := fanout_graph }).2.media ⟨2, 0, 0⟩).flags
      = 1 :=
  ⟨(C9_reset_links_fail_fast once_device { media := fanout_graph }).2.1 [(0, 0)] (0, 1)
      [(1, 0), (2, 0)] (by decide) (by decide) (by decide) (by decide),
   by decide, by decide, by decide, by decide, by decide, by decide, by decide, by decide,
   by decide, by decide⟩

/-! ## C10: a link to an entity that was not enumerated -/

theorem map_set_same {α β : Type} (f : α → β) (d : α) (l : List α) (e : Nat) (x : α)
    (h : f x = f ((l[e]?).getD d)) : (l.set e x).map f = l.map f := by
  apply List.ext_getElem?
  intro i
  rw [List.getElem?_map, List.getElem?_map, List.getElem?_set]
  by_cases hi : e = i
  · subst hi
    rw [if_pos rfl]
    by_cases hl : e < l.length
    · have hx : l[e]? = some l[e] := List.getElem?_eq_getElem hl
      rw [if_pos hl, hx]
      rw [hx] at h
      simpa using h
    · rw [if_neg hl, List.getElem?_eq_none (Nat.le_of_not_lt hl)]
  · rw [if_neg hi]

/-- C11: for the enumeration data `growing_env` (all link ends resolve, all pad
indices in range) and a `realloc` that moves the grown list, `media_open` builds
`growing_graph`, in which the two copies of the link inside entity 1 have twin
pointers into the released block: the twin of the stored link at position 0 of
entity 1 is no stored link, and twin symmetry does not hold. -/
theorem C11_grown_list_breaks_twins :
    media_open growing_env 4 = some (some growing_graph) ∧
    ValidLink growing_graph ⟨0, 1, 0⟩ ∧
    (linkAt growing_graph ⟨0, 1, 0⟩).twin = ⟨0, 0, 1⟩ ∧
    ¬ ValidLink growing_graph (linkAt growing_graph ⟨0, 1, 0⟩).twin ∧
    ¬ TwinSymmetric growing_graph := by
  refine ⟨by decide, by decide, by decide, by decide, fun h => ?_⟩
  exact absurd (h ⟨0, 1, 0⟩ (by decide)).1 (by decide)

/-! ## C12, C13: the lookups by name and by id -/

/-- C12: in the graph with the entities "Sensor" and "Processor", the query
"Sens" of length 4 returns the entity "Sensor", whose name is not the query. -/
theorem C12_name_lookup_matches_beginning :
    media_get_entity_by_name (named_graph 0) "Sens".toList 4 = some 0 ∧
    (entityAt (named_graph 0) 0).info.name = "Sensor".toList ∧
    (entityAt (named_graph 0) 0).info.name ≠ "Sens".toList := by
  decide

/-- C13: over the ids 0, 2 and 5, the query 2 ORed with `MEDIA_ENT_ID_FLAG_NEXT`
returns no entity (it is compared with the ids as it is), the query 2 returns the
entity with id 2 and the query 5 ORed with the flag returns no entity. -/
theorem C13_next_flag_is_not_interpreted :
    media_get_entity_by_id ids_graph (2 ||| MEDIA_ENT_ID_FLAG_NEXT) = none ∧
    media_get_entity_by_id ids_graph 2 = some 1 ∧
    (entityAt ids_graph 1).info.id = 2 ∧
    (entityAt ids_graph 2).info.id = 5 ∧
    media_get_entity_by_id ids_graph (5 ||| MEDIA_ENT_ID_FLAG_NEXT) = none := by
  decide

theorem findIdx_spec_id (es : List media_entity) (id : Nat) :
    ∀ i, es.findIdx (fun e => decide (e.info.id = id)) = i → i < es.length →
      ((es[i]?).getD default).info.id = id ∧
      ∀ k, k < i → ((es[k]?).getD default).info.id ≠ id := by
  induction es with
  | nil => intro i _ h; exact absurd h (Nat.not_lt_zero _)
  | cons x xs ih =>
    intro i hi hlt
    rw [List.findIdx_cons] at hi
    by_cases hx : x.info.id = id
    · rw [decide_eq_true hx] at hi
      simp only [cond_true] at hi
      subst hi
      exact ⟨by simpa using hx, fun k hk => absurd hk (Nat.not_lt_zero _)⟩
    · rw [decide_eq_false hx] at hi
      simp only [cond_false] at hi
      subst hi
      obtain ⟨a, b⟩ := ih _ rfl (Nat.lt_of_succ_lt_succ hlt)
      refine ⟨by simpa using a, ?_⟩
      intro k hk
      cases k with
      | zero => simpa using hx
      | succ k => simpa using b k (Nat.lt_of_succ_lt_succ hk)

/-- C13 as the code has it: `media_get_entity_by_id` compares the id it is given
with the ids of the entities as it is. It returns the first entity whose id is
`id`, and none exactly when no entity has the id `id`; in a graph whose ids are
all below `MEDIA_ENT_ID_FLAG_NEXT` it returns none for every query `N` ORed with
the flag. -/
theorem C13_lookup_by_id_is_exact (m : media_device) (id : Nat) :
    (∀ i, media_get_entity_by_id m id = some i →
      i < m.entities_count ∧ (entityAt m i).info.id = id ∧
      ∀ k, k < i → (entityAt m k).info.id ≠ id) ∧
    (media_get_entity_by_id m id = none ↔ ∀ e ∈ m.entities, e.info.id ≠ id) ∧
    ((∀ e ∈ m.entities, e.info.id < MEDIA_ENT_ID_FLAG_NEXT) →
      ∀ N, media_get_entity_by_id m (N ||| MEDIA_ENT_ID_FLAG_NEXT) = none) := by
  have hnone : ∀ q, media_get_entity_by_id m q = none ↔ ∀ e ∈ m.entities, e.info.id ≠ q := by
    intro q
    unfold media_get_entity_by_id
    simp only
    constructor
    · intro h e he heq
      by_cases hlt : m.entities.findIdx (fun e => decide (e.info.id = q)) < m.entities_count
      · rw [if_pos hlt] at h
        exact Option.noConfusion h
      · apply hlt
        exact List.findIdx_lt_length_of_exists ⟨e, he, decide_eq_true heq⟩
    · intro h
      rw [if_neg]
      intro hlt
      obtain ⟨a, _⟩ := findIdx_spec_id m.entities q _ rfl hlt
      have hmem : ((m.entities[m.entities.findIdx (fun e => decide (e.info.id = q))]?).getD
          default) ∈ m.entities := by
        rw [List.getElem?_eq_getElem hlt]
        exact List.getElem_mem hlt
      exact h _ hmem a
  refine ⟨?_, hnone id, ?_⟩
  · intro i hi
    unfold media_get_entity_by_id at hi
    simp only at hi
    by_cases hlt : m.entities.findIdx (fun e => decide (e.info.id = id)) < m.entities_count
    · rw [if_pos hlt] at hi
      have hi2 := Option.some.inj hi
      obtain ⟨a, b⟩ := findIdx_spec_id m.entities id i hi2 (by rw [← hi2]; exact hlt)
      exact ⟨by rw [← hi2]; exact hlt, a, b⟩
    · rw [if_neg hlt] at hi
      exact Option.noConfusion hi
  · intro hid N
    rw [hnone]
    intro e he heq
    have h1 := hid e he
    rw [heq] at h1
    have h2 : (N ||| MEDIA_ENT_ID_FLAG_NEXT).testBit 31 = false :=
      Nat.testBit_lt_two_pow (by
        have : MEDIA_ENT_ID_FLAG_NEXT = 2 ^ 31 := by decide
        rw [← this]
        exact h1)
    have h3 : (N ||| MEDIA_ENT_ID_FLAG_NEXT).testBit 31 = true := by
      rw [Nat.testBit_or]
      have : MEDIA_ENT_ID_FLAG_NEXT = 2 ^ 31 := by decide
      rw [this, Nat.testBit_two_pow_self, Bool.or_true]
    rw [h3] at h2
    exact Bool.noConfusion h2

/-- An instance of C13 over the ids 0, 2 and 5: the query 2 returns the entity at
position 1, whose id is 2, and every query ORed with the flag returns none. -/
theorem C13_lookup_by_id_is_exact_witness :
    (1 < ids_graph.entities_count ∧ (entityAt ids_graph 1).info.id = 2 ∧
      ∀ k, k < 1 → (entityAt ids_graph k).info.id ≠ 2) ∧
    ∀ N, media_get_entity_by_id ids_graph (N ||| MEDIA_ENT_ID_FLAG_NEXT) = none :=
  ⟨(C13_lookup_by_id_is_exact ids_graph 2).1 1 (by decide),
   (C13_lookup_by_id_is_exact ids_graph 2).2.2 (by decide)⟩

/-! ## C15: the pixel code names -/

/-- C15: the tokens "Y" and "SBGGR1", which are no names of the table, are given
the codes of "Y8" and "SBGGR10", and `parse_format` accepts the format
"Y 640x480". -/
theorem C15_pixelcode_matches_beginning :
    string_to_pixelcode "Y".toList 1 = 0x2001 ∧
    string_to_pixelcode "SBGGR1".toList 6 = 0x3007 ∧
    mbus_formats.all (fun e => decide (e.1 ≠ "Y".toList ∧ e.1 ≠ "SBGGR1".toList)) = true ∧
    parse_format "Y 640x480".toList =
      some ({ width := 640, height := 480, code := 0x2001 }, []) := by
  decide

/-! ## C14: the remote source of a sink pad -/

theorem atMostOneEnabled_of_check (m : media_device) (h : atMostOneEnabledB m = true) :
    AtMostOneEnabled m := by
  intro e l1 h1 l2 h2 e1 e2 hs
  by_cases he : e < m.entities.length
  · have hmem : entityAt m e ∈ m.entities := by
      unfold entityAt
      rw [List.getElem?_eq_getElem he]
      exact List.getElem_mem he
    unfold atMostOneEnabledB at h
    rw [List.all_eq_true] at h
    have h3 := h _ hmem
    rw [List.all_eq_true] at h3
    have h4 := h3 l1 h1
    rw [List.all_eq_true] at h4
    have h5 := h4 l2 h2
    simpa [e1, e2, hs] using h5
  · rw [entityAt_default_of_le m e (Nat.le_of_not_lt he)] at h1
    exact absurd h1 (List.not_mem_nil l1)

theorem remote_source_eq (m : media_device) (pad : PadRef)
    (h : (padAt m pad).flags &&& MEDIA_PAD_FL_SINK ≠ 0) :
    media_entity_remote_source m pad =
      ((entityAt m (padAt m pad).entity).links.find?
        (fun link => decide (link.flags &&& MEDIA_LNK_FL_ENABLED ≠ 0) &&
          decide (link.sink = pad))).map (fun link => link.source) := by
  unfold media_entity_remote_source
  rw [if_neg h]

/-- C14: in a graph in which at most one enabled link ends at a pad, for every
pad `P`: `media_entity_remote_source` returns the pad `S` if and only if `P` has
the SINK flag and the link list of the entity of `P` holds an enabled link with
source `S` and sink `P`; and it returns no pad when `P` has no SINK flag or
every link of that list whose sink is `P` is disabled. -/
theorem C14_remote_source (m : media_device) (P S : PadRef) (huniq : AtMostOneEnabled m) :
    (media_entity_remote_source m P = some S ↔
      ((padAt m P).flags &&& MEDIA_PAD_FL_SINK ≠ 0 ∧
        ∃ l ∈ (entityAt m (padAt m P).entity).links,
          l.flags &&& MEDIA_LNK_FL_ENABLED ≠ 0 ∧ l.source = S ∧ l.sink = P)) ∧
    (((padAt m P).flags &&& MEDIA_PAD_FL_SINK = 0 ∨
        ∀ l ∈ (entityAt m (padAt m P).entity).links,
          l.sink = P → l.flags &&& MEDIA_LNK_FL_ENABLED = 0) →
      media_entity_remote_source m P = none) := by
  constructor
  · constructor
    · intro h
      by_cases hs : (padAt m P).flags &&& MEDIA_PAD_FL_SINK = 0
      · simp [media_entity_remote_source, hs] at h
      · rw [remote_source_eq m P hs] at h
        refine ⟨hs, ?_⟩
        cases hf : (entityAt m (padAt m P).entity).links.find?
            (fun link => decide (link.flags &&& MEDIA_LNK_FL_ENABLED ≠ 0) &&
              decide (link.sink = P)) with
        | none => rw [hf] at h; simp at h
        | some l =>
          rw [hf] at h
          simp only [Option.map_some', Option.some.injEq] at h
          have hp := List.find?_some hf
          simp only [Bool.and_eq_true, decide_eq_true_eq] at hp
          exact ⟨l, List.mem_of_find?_eq_some hf, hp.1, h, hp.2⟩
    · rintro ⟨hs, l, hl, hen, hsrc, hsnk⟩
      rw [remote_source_eq m P hs]
      cases hf : (entityAt m (padAt m P).entity).links.find?
          (fun link => decide (link.flags &&& MEDIA_LNK_FL_ENABLED ≠ 0) &&
            decide (link.sink = P)) with
      | none =>
        rw [List.find?_eq_none] at hf
        exact absurd (by simp [hen, hsnk]) (hf l hl)
      | some l' =>
        have hp := List.find?_some hf
        simp only [Bool.and_eq_true, decide_eq_true_eq] at hp
        have := huniq _ l' (List.mem_of_find?_eq_some hf) l hl hp.1 hen (by rw [hp.2, hsnk])
        simp only [Option.map_some', Option.some.injEq]
        rw [this, hsrc]
  · rintro (hs | hall)
    · simp [media_entity_remote_source, hs]
    · by_cases hs : (padAt m P).flags &&& MEDIA_PAD_FL_SINK = 0
      · simp [media_entity_remote_source, hs]
      · rw [remote_source_eq m P hs]
        have : (entityAt m (padAt m P).entity).links.find?
            (fun link => decide (link.flags &&& MEDIA_LNK_FL_ENABLED ≠ 0) &&
              decide (link.sink = P)) = none := by
          rw [List.find?_eq_none]
          intro l hl hp
          simp only [Bool.and_eq_true, decide_eq_true_eq] at hp
          exact hp.1 (hall l hl hp.2)
        rw [this]
        rfl

/-- Witness of C14: the sink pad 0 of "Processor" in the sensor graph with an
enabled link, whose remote source is the pad of "Sensor". -/
theorem C14_remote_source_witness :
    (media_entity_remote_source (named_graph 1) ⟨1, 0⟩ = some ⟨0, 0⟩ ↔
      ((padAt (named_graph 1) ⟨1, 0⟩).flags &&& MEDIA_PAD_FL_SINK ≠ 0 ∧
        ∃ l ∈ (entityAt (named_graph 1) (padAt (named_graph 1) ⟨1, 0⟩).entity).links,
          l.flags &&& MEDIA_LNK_FL_ENABLED ≠ 0 ∧ l.source = ⟨0, 0⟩ ∧ l.sink = ⟨1, 0⟩)) ∧
    (((padAt (named_graph 1) ⟨1, 0⟩).flags &&& MEDIA_PAD_FL_SINK = 0 ∨
        ∀ l ∈ (entityAt (named_graph 1) (padAt (named_graph 1) ⟨1, 0⟩).entity).links,
          l.sink = ⟨1, 0⟩ → l.flags &&& MEDIA_LNK_FL_ENABLED = 0) →
      media_entity_remote_source (named_graph 1) ⟨1, 0⟩ = none) :=
  C14_remote_source (named_graph 1) ⟨1, 0⟩ ⟨0, 0⟩ (atMostOneEnabled_of_check _ (by decide))

/-- The remote source found in the witness graph. -/
theorem remote_source_example :
    media_entity_remote_source (named_graph 1) ⟨1, 0⟩ = some ⟨0, 0⟩ ∧
    media_entity_remote_source (named_graph 0) ⟨1, 0⟩ = none ∧
    media_entity_remote_source (named_graph 1) ⟨0, 0⟩ = none := by
  decide

/-! ## Texts, white space and digits -/

theorem cur_cons (c : Char) (t : List Char) : cur (c :: t) = c := rfl

theorem cur_append (a t : List Char) (h : a ≠ []) : cur (a ++ t) = cur a := by
  cases a with
  | nil => exact absurd rfl h
  | cons c a => rfl

theorem skip_spaces_blank (g t : List Char) (hg : Blank g) :
    skip_spaces (g ++ t) = skip_spaces t := by
  induction g with
  | nil => rfl
  | cons c g ih =>
    have hc : isspace c = true := hg c (List.mem_cons_self c g)
    have : skip_spaces (c :: g ++ t) = skip_spaces (g ++ t) := by
      simp [skip_spaces, List.dropWhile, hc]
    rw [this]
    exact ih (fun x hx => hg x (List.mem_cons_of_mem c hx))

theorem skip_spaces_of_not_space (t : List Char) (h : isspace (cur t) = false) :
    skip_spaces t = t := by
  cases t with
  | nil => rfl
  | cons c t =>
    have hc : isspace c = false := h
    simp [skip_spaces, List.dropWhile, hc]

theorem skip_spaces_blank_of_not_space (g t : List Char) (hg : Blank g)
    (h : isspace (cur t) = false) : skip_spaces (g ++ t) = t := by
  rw [skip_spaces_blank g t hg, skip_spaces_of_not_space t h]

theorem isspace_of_isdigit (c : Char) (h : isdigit c = true) : isspace c = false := by
  simp only [isdigit, isspace, Bool.and_eq_true, decide_eq_true_eq, Bool.or_eq_false_iff,
    beq_eq_false_iff_ne, ne_eq, Bool.and_eq_false_iff, decide_eq_false_iff_not] at *
  omega

theorem isdigit_of_isspace (c : Char) (h : isspace c = true) : isdigit c = false := by
  cases hd : isdigit c with
  | false => rfl
  | true => rw [isspace_of_isdigit c hd] at h; exact absurd h (by decide)

theorem ne_of_isdigit (c d : Char) (h : isdigit c = true) (hd : isdigit d = false) : c ≠ d := by
  intro e
  rw [e, hd] at h
  exact absurd h (by decide)

theorem takeWhile_digits (ds t : List Char) (hds : ∀ c ∈ ds, isdigit c = true)
    (ht : isdigit (cur t) = false) : (ds ++ t).takeWhile isdigit = ds := by
  induction ds with
  | nil =>
    cases t with
    | nil => rfl
    | cons c t =>
      have hc : isdigit c = false := ht
      simp [List.takeWhile, hc]
  | cons c ds ih =>
    have hc : isdigit c = true := hds c (List.mem_cons_self c ds)
    rw [List.cons_append, List.takeWhile_cons_of_pos hc,
      ih (fun x hx => hds x (List.mem_cons_of_mem c hx))]

theorem dropWhile_digits (ds t : List Char) (hds : ∀ c ∈ ds, isdigit c = true)
    (ht : isdigit (cur t) = false) : (ds ++ t).dropWhile isdigit = t := by
  induction ds with
  | nil =>
    cases t with
    | nil => rfl
    | cons c t =>
      have hc : isdigit c = false := ht
      simp [List.dropWhile, hc]
  | cons c ds ih =>
    have hc : isdigit c = true := hds c (List.mem_cons_self c ds)
    rw [List.cons_append, List.dropWhile_cons_of_pos hc,
      ih (fun x hx => hds x (List.mem_cons_of_mem c hx))]

theorem cur_digits (ds t : List Char) (h : Digits ds) : isdigit (cur (ds ++ t)) = true := by
  obtain ⟨hne, hd⟩ := h
  cases ds with
  | nil => exact absurd rfl hne
  | cons c ds => exact hd c (List.mem_cons_self c ds)

theorem isdigit_cur_blank (g t : List Char) (hg : Blank g) (ht : isdigit (cur t) = false) :
    isdigit (cur (g ++ t)) = false := by
  cases g with
  | nil => exact ht
  | cons c g => exact isdigit_of_isspace c (hg c (List.mem_cons_self c g))

theorem strtoul_digits (g ds t : List Char) (hg : Blank g) (h : Digits ds)
    (ht : isdigit (cur t) = false) :
    strtoul (g ++ (ds ++ t)) = (strtoul_value ds, t) := by
  have hcur := cur_digits ds t h
  have hsp : skip_spaces (g ++ (ds ++ t)) = ds ++ t :=
    skip_spaces_blank_of_not_space g _ hg (isspace_of_isdigit _ hcur)
  have hm : cur (ds ++ t) ≠ '-' := ne_of_isdigit _ _ hcur (by decide)
  have hp : cur (ds ++ t) ≠ '+' := ne_of_isdigit _ _ hcur (by decide)
  unfold strtoul
  simp only [hsp, hm, hp, or_self, if_false, decide_False, takeWhile_digits ds t h.2 ht,
    dropWhile_digits ds t h.2 ht, h.1, Bool.false_eq_true]
  rfl

/-! ## What `parse_pad`, `parse_link` and `setup_link` do with the tokens -/

theorem strncmp_append (a x y : List Char) :
    strncmp a (x ++ y) x.length = strncmp a x x.length := by
  induction x generalizing a with
  | nil => rfl
  | cons c x ih =>
    simp only [List.cons_append, List.length_cons, strncmp, cur_cons, List.tail_cons]
    rw [ih]

theorem get_entity_by_name_append (m : media_device) (x y : List Char) :
    media_get_entity_by_name m (x ++ y) x.length = media_get_entity_by_name m x x.length := by
  unfold media_get_entity_by_name
  simp only [strncmp_append]

theorem dropWhile_name (name t : List Char) (h : ∀ c ∈ name, c ≠ DQUOTE ∧ c ≠ NUL) :
    (name ++ DQUOTE :: t).dropWhile (fun c => decide (c ≠ NUL) && decide (c ≠ DQUOTE)) =
      DQUOTE :: t := by
  induction name with
  | nil => simp [List.dropWhile]
  | cons c name ih =>
    have hc := h c (List.mem_cons_self c name)
    rw [List.cons_append, List.dropWhile_cons_of_pos (by simp [hc.1, hc.2]),
      ih (fun x hx => h x (List.mem_cons_of_mem c hx))]

theorem parse_pad_text (m : media_device) (g0 g1 g2 g3 : List Char) (r : entity_ref)
    (ds t : List Char) (h0 : Blank g0) (h1 : Blank g1) (h2 : Blank g2) (h3 : Blank g3)
    (hr : WellFormedRef r) (hds : Digits ds)
    (hts : isspace (cur t) = false) (htd : isdigit (cur t) = false) :
    parse_pad m (pad_text g0 g1 g2 g3 r ds t) = (pad_sem m r ds).map (fun pad => (pad, t)) := by
  have hpad : strtoul (ds ++ (g3 ++ t)) = (strtoul_value ds, g3 ++ t) :=
    strtoul_digits [] ds (g3 ++ t) (fun _ h => absurd h (List.not_mem_nil _)) hds
      (isdigit_cur_blank g3 t h3 htd)
  have hsk2 : skip_spaces (g2 ++ (ds ++ (g3 ++ t))) = ds ++ (g3 ++ t) :=
    skip_spaces_blank_of_not_space g2 _ h2 (isspace_of_isdigit _ (cur_digits ds _ hds))
  have hsk3 : skip_spaces (g3 ++ t) = t := skip_spaces_blank_of_not_space g3 t h3 hts
  have hsk1 : skip_spaces (g1 ++ ':' :: (g2 ++ (ds ++ (g3 ++ t)))) =
      ':' :: (g2 ++ (ds ++ (g3 ++ t))) :=
    skip_spaces_blank_of_not_space g1 _ h1 (by decide : isspace ':' = false)
  cases r with
  | by_name name =>
    have hsk0 : skip_spaces (g0 ++ DQUOTE :: (name ++ DQUOTE :: (g1 ++ ':' :: (g2 ++ (ds ++ (g3 ++ t)))))) =
        DQUOTE :: (name ++ DQUOTE :: (g1 ++ ':' :: (g2 ++ (ds ++ (g3 ++ t))))) :=
      skip_spaces_blank_of_not_space g0 _ h0 (by decide : isspace DQUOTE = false)
    unfold parse_pad pad_text entity_text pad_sem entity_sem
    simp only [hsk0, cur_cons, List.tail_cons, dropWhile_name name _ hr, if_true]
    have hlen : (name ++ DQUOTE :: (g1 ++ ':' :: (g2 ++ (ds ++ (g3 ++ t))))).length -
        (DQUOTE :: (g1 ++ ':' :: (g2 ++ (ds ++ (g3 ++ t))))).length = name.length := by
      rw [List.length_append]
      omega
    rw [hlen, get_entity_by_name_append]
    cases media_get_entity_by_name m name name.length with
    | none => simp
    | some e =>
      simp only [ne_eq, not_true_eq_false, if_false, Option.map_some', hsk1, cur_cons,
        List.tail_cons, hsk2, hpad, hsk3]
      split <;> rfl
  | by_id digits =>
    have hd : Digits digits := hr
    have hcur := cur_digits digits (g1 ++ ':' :: (g2 ++ (ds ++ (g3 ++ t)))) hd
    have hsk0 : skip_spaces (g0 ++ (digits ++ (g1 ++ ':' :: (g2 ++ (ds ++ (g3 ++ t)))))) =
        digits ++ (g1 ++ ':' :: (g2 ++ (ds ++ (g3 ++ t)))) :=
      skip_spaces_blank_of_not_space g0 _ h0 (isspace_of_isdigit _ hcur)
    have hq : cur (digits ++ (g1 ++ ':' :: (g2 ++ (ds ++ (g3 ++ t))))) ≠ DQUOTE :=
      ne_of_isdigit _ _ hcur (by decide)
    have hid : strtoul (digits ++ (g1 ++ ':' :: (g2 ++ (ds ++ (g3 ++ t))))) =
        (strtoul_value digits, g1 ++ ':' :: (g2 ++ (ds ++ (g3 ++ t)))) :=
      strtoul_digits [] digits _ (fun _ h => absurd h (List.not_mem_nil _)) hd
        (isdigit_cur_blank g1 _ h1 (by decide : isdigit ':' = false))
    unfold parse_pad pad_text entity_text pad_sem entity_sem
    simp only [hsk0, hq, if_false, hid]
    cases media_get_entity_by_id m (to_u32 (strtoul_value digits)) with
    | none => simp
    | some e =>
      simp only [ne_eq, Option.map_some', hsk1, cur_cons, not_true_eq_false, if_false,
        List.tail_cons, hsk2, hpad, hsk3]
      split <;> rfl

theorem parse_link_text (m : media_device) (g : link_gaps) (d : link_cfg) (t : List Char)
    (hg : BlankGaps g) (hd : WellFormedCfg d)
    (hts : isspace (cur t) = false) (htd : isdigit (cur t) = false) :
    parse_link m (pad_text g.g0 g.g1 g.g2 g.g3 d.source d.source_pad
        ('-' :: '>' :: pad_text g.g4 g.g5 g.g6 g.g7 d.sink d.sink_pad t)) =
      (link_sem m d).map (fun link => (link, t)) := by
  obtain ⟨h0, h1, h2, h3, h4, h5, h6, h7, -, -, -⟩ := hg
  obtain ⟨w1, w2, w3, w4, -⟩ := hd
  unfold parse_link link_sem
  rw [parse_pad_text m g.g0 g.g1 g.g2 g.g3 d.source d.source_pad
    ('-' :: '>' :: pad_text g.g4 g.g5 g.g6 g.g7 d.sink d.sink_pad t) h0 h1 h2 h3 w1 w2
    (by decide : isspace '-' = false) (by decide : isdigit '-' = false)]
  cases pad_sem m d.source d.source_pad with
  | none => rfl
  | some source =>
    simp only [Option.map_some', cur_cons, List.tail_cons, ne_eq, not_true_eq_false, or_self,
      if_false]
    rw [parse_pad_text m g.g4 g.g5 g.g6 g.g7 d.sink d.sink_pad t h4 h5 h6 h7 w3 w4 hts htd]
    cases pad_sem m d.sink d.sink_pad with
    | none => rfl
    | some sink =>
      simp only [Option.map_some']
      split <;> rfl

theorem setup_link_text (dev : Device) (w : World) (g : link_gaps) (d : link_cfg)
    (t : List Char) (hg : BlankGaps g) (hd : WellFormedCfg d)
    (hts : isspace (cur t) = false) :
    setup_link dev w (link_cfg_text g d t) =
      match link_sem w.media d with
      | none => (-EINVAL, w, link_cfg_text g d t)
      | some _ => ((setup_link_sem dev w d).1, (setup_link_sem dev w d).2, t) := by
  have hpl := parse_link_text w.media g d
    ('[' :: (g.g8 ++ (d.flags ++ (g.g9 ++ ']' :: (g.g10 ++ t))))) hg hd
    (by decide : isspace '[' = false) (by decide : isdigit '[' = false)
  obtain ⟨-, -, -, -, -, -, -, -, h8, h9, h10⟩ := hg
  obtain ⟨-, -, -, -, w5⟩ := hd
  have hfl : strtoul (g.g8 ++ (d.flags ++ (g.g9 ++ ']' :: (g.g10 ++ t)))) =
      (strtoul_value d.flags, g.g9 ++ ']' :: (g.g10 ++ t)) :=
    strtoul_digits g.g8 d.flags _ h8 w5
      (isdigit_cur_blank g.g9 _ h9 (by decide : isdigit ']' = false))
  have hsk9 : skip_spaces (g.g9 ++ ']' :: (g.g10 ++ t)) = ']' :: (g.g10 ++ t) :=
    skip_spaces_blank_of_not_space g.g9 _ h9 (by decide : isspace ']' = false)
  have hsk10 : skip_spaces (g.g10 ++ t) = t := skip_spaces_blank_of_not_space g.g10 t h10 hts
  unfold setup_link setup_link_sem
  rw [show link_cfg_text g d t = pad_text g.g0 g.g1 g.g2 g.g3 d.source d.source_pad
    ('-' :: '>' :: pad_text g.g4 g.g5 g.g6 g.g7 d.sink d.sink_pad
      ('[' :: (g.g8 ++ (d.flags ++ (g.g9 ++ ']' :: (g.g10 ++ t)))))) from rfl, hpl]
  cases link_sem w.media d with
  | none => rfl
  | some link =>
    simp only [Option.map_some', cur_cons, ne_eq, not_true_eq_false, if_false, List.tail_cons,
      hfl, hsk9, hsk10]

/-! ## C18: white space between the tokens of a list of links -/

theorem setup_links_loop_succ (dev : Device) (fuel : Nat) (w : World) (p : List Char) :
    setup_links_loop dev (fuel + 1) w p =
      (if (setup_link dev w p).1 < 0 then some ((setup_link dev w p).1, (setup_link dev w p).2.1)
       else if cur (setup_link dev w p).2.2 = ','
         then setup_links_loop dev fuel (setup_link dev w p).2.1 (setup_link dev w p).2.2.tail
       else some ((if cur (setup_link dev w p).2.2 ≠ NUL then -EINVAL else 0),
         (setup_link dev w p).2.1)) := rfl

theorem setup_links_sem_cons (dev : Device) (w : World) (d : link_cfg) (ds : List link_cfg) :
    setup_links_sem dev w (d :: ds) =
      (if (setup_link_sem dev w d).1 < 0 then setup_link_sem dev w d
       else setup_links_sem dev (setup_link_sem dev w d).2 ds) := rfl

theorem setup_link_sem_none (dev : Device) (w : World) (d : link_cfg)
    (h : link_sem w.media d = none) : setup_link_sem dev w d = (-EINVAL, w) := by
  unfold setup_link_sem
  rw [h]

theorem setup_links_loop_text (dev : Device) (xs : List (link_gaps × link_cfg)) :
    ∀ (fuel : Nat) (w : World), xs ≠ [] → xs.length ≤ fuel →
      (∀ x ∈ xs, BlankGaps x.1) → (∀ x ∈ xs, WellFormedCfg x.2) →
      setup_links_loop dev fuel w (link_list_text xs) =
        some (setup_links_sem dev w (xs.map Prod.snd)) := by
  induction xs with
  | nil => intro fuel w h; exact absurd rfl h
  | cons x xs ih =>
    intro fuel w _ hfuel hg hd
    cases fuel with
    | zero => simp at hfuel
    | succ fuel =>
      have hgx := hg x (List.mem_cons_self x xs)
      have hdx := hd x (List.mem_cons_self x xs)
      cases xs with
      | nil =>
        have hs := setup_link_text dev w x.1 x.2 [] hgx hdx
          (by decide : isspace NUL = false)
        rw [show link_list_text [x] = link_cfg_text x.1 x.2 [] from rfl,
          setup_links_loop_succ, hs, List.map_cons, List.map_nil, setup_links_sem_cons]
        cases hl : link_sem w.media x.2 with
        | none =>
          rw [setup_link_sem_none dev w x.2 hl]
          simp [EINVAL]
        | some link =>
          simp only []
          split
          · rfl
          · simp [cur, NUL, setup_links_sem]
      | cons y ys =>
        have hs := setup_link_text dev w x.1 x.2 (',' :: link_list_text (y :: ys)) hgx hdx
          (by decide : isspace ',' = false)
        have ih' := fun w' => ih fuel w' (List.cons_ne_nil y ys)
          (Nat.le_of_succ_le_succ hfuel)
          (fun z hz => hg z (List.mem_cons_of_mem x hz))
          (fun z hz => hd z (List.mem_cons_of_mem x hz))
        rw [show link_list_text (x :: y :: ys) =
          link_cfg_text x.1 x.2 (',' :: link_list_text (y :: ys)) from rfl,
          setup_links_loop_succ, hs, List.map_cons, setup_links_sem_cons]
        cases hl : link_sem w.media x.2 with
        | none =>
          rw [setup_link_sem_none dev w x.2 hl]
          simp [EINVAL]
        | some link =>
          simp only [cur_cons, List.tail_cons, if_true]
          split
          · rfl
          · exact ih' _

theorem length_pad_text (g0 g1 g2 g3 : List Char) (r : entity_ref) (ds t : List Char) :
    t.length < (pad_text g0 g1 g2 g3 r ds t).length := by
  cases r <;> simp [pad_text, entity_text] <;> omega

theorem length_link_cfg_text (g : link_gaps) (d : link_cfg) (t : List Char) :
    t.length < (link_cfg_text g d t).length := by
  unfold link_cfg_text
  refine Nat.lt_trans ?_ (length_pad_text _ _ _ _ _ _ _)
  simp only [List.length_cons]
  refine Nat.lt_trans ?_ (Nat.lt_succ_of_lt (Nat.lt_succ_of_lt (length_pad_text _ _ _ _ _ _ _)))
  simp
  omega

theorem length_le_link_list_text (xs : List (link_gaps × link_cfg)) :
    xs.length ≤ (link_list_text xs).length := by
  induction xs with
  | nil => exact Nat.le_refl 0
  | cons x xs ih =>
    cases xs with
    | nil =>
      have := length_link_cfg_text x.1 x.2 []
      simp only [link_list_text, List.length_singleton]
      omega
    | cons y ys =>
      have := length_link_cfg_text x.1 x.2 (',' :: link_list_text (y :: ys))
      simp only [link_list_text, List.length_cons] at *
      omega

theorem setup_links_text (dev : Device) (w : World) (xs : List (link_gaps × link_cfg))
    (hne : xs ≠ []) (hg : ∀ x ∈ xs, BlankGaps x.1) (hd : ∀ x ∈ xs, WellFormedCfg x.2) :
    setup_links dev w (link_list_text xs) = some (setup_links_sem dev w (xs.map Prod.snd)) :=
  setup_links_loop_text dev xs _ w hne
    (Nat.le_succ_of_le (length_le_link_list_text xs)) hg hd

/-- C18: for every list of link descriptors made of well-formed tokens (entity
references by quoted name or by decimal id, pad indices and flags in decimal
digits), two texts that hold the same tokens and differ only in the white space
(space, tab, newline; any character of `isspace`) between adjacent tokens, before
the first and after the last token, make `setup_links` return the same value,
leave the same graph and send the same requests to the device in the same
order; `setup_links` returns on both. -/
theorem C18_link_list_white_space (dev : Device) (w : World)
    (xs ys : List (link_gaps × link_cfg)) (hne : xs ≠ [])
    (htokens : xs.map Prod.snd = ys.map Prod.snd)
    (hxs : ∀ x ∈ xs, BlankGaps x.1) (hys : ∀ y ∈ ys, BlankGaps y.1)
    (hwf : ∀ x ∈ xs, WellFormedCfg x.2) :
    ∃ r, setup_links dev w (link_list_text xs) = some r ∧
      setup_links dev w (link_list_text ys) = some r := by
  refine ⟨setup_links_sem dev w (xs.map Prod.snd), setup_links_text dev w xs hne hxs hwf, ?_⟩
  have hne' : ys ≠ [] := by
    intro h
    rw [h, List.map_nil, List.map_eq_nil_iff] at htokens
    exact hne htokens
  have hwf' : ∀ y ∈ ys, WellFormedCfg y.2 := by
    intro y hy
    have : y.2 ∈ xs.map Prod.snd := by
      rw [htokens]
      exact List.mem_map_of_mem Prod.snd hy
    obtain ⟨x, hx, hxy⟩ := List.mem_map.mp this
    rw [← hxy]
    exact hwf x hx
  rw [htokens]
  exact setup_links_text dev w ys hne' hys hwf'

/-- Witness of C18: two descriptors with spaces, tabs and newlines in every gap,
and the same descriptors without white space, in the sensor graph. -/
theorem C18_link_list_white_space_witness :
    ∃ r, setup_links echo_device { media := named_graph 0 }
        (link_list_text [(wide_gaps, sensor_link_cfg "1"), (wide_gaps, sensor_link_cfg "0")]) =
          some r ∧
      setup_links echo_device { media := named_graph 0 }
        (link_list_text [({}, sensor_link_cfg "1"), ({}, sensor_link_cfg "0")]) = some r :=
  C18_link_list_white_space echo_device { media := named_graph 0 }
    [(wide_gaps, sensor_link_cfg "1"), (wide_gaps, sensor_link_cfg "0")]
    [({}, sensor_link_cfg "1"), ({}, sensor_link_cfg "0")]
    (by decide) (by decide) (by decide) (by decide) (by decide)

/-- The two texts of the witness of C18 and what `setup_links` does with the one
that has white space everywhere. -/
theorem link_list_text_example :
    link_list_text [({}, sensor_link_cfg "1"), ({}, sensor_link_cfg "0")] =
      quoted "Sensor" ++ ":0->2:0[1],".toList ++ quoted "Sensor" ++ ":0->2:0[0]".toList ∧
    setup_links echo_device { media := named_graph 0 }
      (link_list_text [(wide_gaps, sensor_link_cfg "1"), (wide_gaps, sensor_link_cfg "0")]) =
        some (0, { media := named_graph 0,
                   trace := [{ source := { entity := 1, index := 0, flags := 2 },
                               sink := { entity := 2, index := 0, flags := 1 }, flags := 1 },
                             { source := { entity := 1, index := 0, flags := 2 },
                               sink := { entity := 2, index := 0, flags := 1 }, flags := 0 }] }) := by
  decide

/-! ## The lookup of a name -/

theorem toNat_ne_of_ne (a b : Char) (h : a ≠ b) : (a.toNat : Int) - (b.toNat : Int) ≠ 0 := by
  intro e
  apply h
  have : a.toNat = b.toNat := by omega
  exact Char.ext (UInt32.ext (by simpa [Char.toNat, UInt32.toNat] using this))

theorem strncmp_eq_zero_iff (name : List Char) (hn : ∀ c ∈ name, c ≠ NUL) (a : List Char) :
    strncmp a name name.length = 0 ↔ name <+: a := by
  induction name generalizing a with
  | nil => simp [strncmp]
  | cons c name ih =>
    have hc : c ≠ NUL := hn c (List.mem_cons_self c name)
    have ih' := ih (fun x hx => hn x (List.mem_cons_of_mem c hx))
    cases a with
    | nil =>
      simp only [List.length_cons, strncmp, cur_cons]
      rw [if_pos (show cur [] ≠ c from fun h => hc h.symm)]
      simp only [List.prefix_nil, reduceCtorEq, iff_false]
      exact toNat_ne_of_ne _ _ (fun h => hc h.symm)
    | cons b a =>
      simp only [List.length_cons, strncmp, cur_cons, List.tail_cons]
      by_cases hbc : b = c
      · subst hbc
        simp only [ne_eq, not_true_eq_false, if_false, if_neg hc]
        rw [ih' a, List.cons_prefix_cons]
        simp
      · rw [if_pos hbc, List.cons_prefix_cons]
        constructor
        · intro h; exact absurd h (toNat_ne_of_ne _ _ hbc)
        · intro h; exact absurd h.1.symm hbc

theorem get_entity_by_name_of_finds (m : media_device) (name : List Char) (e : Nat)
    (hn : ∀ c ∈ name, c ≠ NUL) (h : NameFinds m name e) :
    media_get_entity_by_name m name name.length = some e := by
  obtain ⟨he, hname, hfirst⟩ := h
  have hidx : m.entities.findIdx
      (fun x => decide (strncmp x.info.name name name.length = 0)) = e := by
    rw [List.findIdx_eq he]
    constructor
    · have : (entityAt m e).info.name = name := hname
      unfold entityAt at this
      rw [List.getElem?_eq_getElem he] at this
      simp only [Option.getD_some] at this
      rw [this]
      simp [strncmp_eq_zero_iff name hn]
    · intro j hj
      have := hfirst j hj
      unfold entityAt at this
      rw [List.getElem?_eq_getElem (Nat.lt_trans hj he)] at this
      simp only [Option.getD_some] at this
      simp [strncmp_eq_zero_iff name hn, this]
  unfold media_get_entity_by_name
  simp only [hidx, media_device.entities_count, he, if_true]

theorem get_entity_by_name_of_none (m : media_device) (name : List Char)
    (hn : ∀ c ∈ name, c ≠ NUL) (h : NoNameBegins m name) :
    media_get_entity_by_name m name name.length = none := by
  have hidx : m.entities.findIdx
      (fun x => decide (strncmp x.info.name name name.length = 0)) = m.entities.length := by
    rw [List.findIdx_eq_length]
    intro x hx
    simp [strncmp_eq_zero_iff name hn, h x hx]
  unfold media_get_entity_by_name
  simp only [hidx, media_device.entities_count, Nat.lt_irrefl, if_false]

/-! ## C17: the link descriptor -/

theorem strtoul_value_of_lt (ds : List Char) (h : decimal_value ds < 4294967296) :
    to_u32 (strtoul_value ds) = decimal_value ds := by
  unfold strtoul_value to_u32 ULONG_MAX
  rw [if_neg (by omega)]
  exact Nat.mod_eq_of_lt h

theorem pad_sem_of_finds (m : media_device) (name ds : List Char) (e : Nat)
    (hn : PlainName name) (hf : NameFinds m name e)
    (h32 : decimal_value ds < 4294967296)
    (hp : decimal_value ds < (entityAt m e).info.pads) :
    pad_sem m (entity_ref.by_name name) ds = some { ent := e, pos := decimal_value ds } := by
  unfold pad_sem
  rw [show entity_sem m (entity_ref.by_name name) =
    media_get_entity_by_name m name name.length from rfl,
    get_entity_by_name_of_finds m name e (fun c hc => (hn c hc).2) hf]
  simp only [strtoul_value_of_lt ds h32]
  rw [if_neg (by omega)]

theorem blankGaps_default : BlankGaps {} := by decide

theorem link_sem_of_finds (m : media_device) (A B : List Char) (a b i j : Nat)
    (is js fs : List Char)
    (hA : PlainName A) (hB : PlainName B) (ha : NameFinds m A a) (hb : NameFinds m B b)
    (hi : decimal_value is = i) (hj : decimal_value js = j)
    (hi32 : i < 4294967296) (hj32 : j < 4294967296)
    (hip : i < (entityAt m a).info.pads) (hjp : j < (entityAt m b).info.pads)
    (hL : ∃ l ∈ (entityAt m (padAt m ⟨a, i⟩).entity).links,
      l.source = ⟨a, i⟩ ∧ l.sink = ⟨b, j⟩) :
    link_sem m (named_link_cfg A is B js fs) =
      some (linkRef m (padAt m ⟨a, i⟩).entity
        ((entityAt m (padAt m ⟨a, i⟩).entity).links.findIdx
          (fun link => decide (link.source = ⟨a, i⟩ ∧ link.sink = ⟨b, j⟩)))) := by
  subst hi hj
  unfold link_sem named_link_cfg
  simp only [pad_sem_of_finds m A is a hA ha hi32 hip, pad_sem_of_finds m B js b hB hb hj32 hjp]
  rw [if_pos]
  apply List.findIdx_lt_length_of_exists
  obtain ⟨l, hl, h1, h2⟩ := hL
  exact ⟨l, hl, by simp [h1, h2]⟩

/-- C17: in a graph in which the names `A` and `B` (free of double quotes) are
the names of the entities `a` and `b` and no entity enumerated before `a` or `b`
has a name that begins with `A` or `B`, with a link from pad `(a,i)` to pad
`(b,j)` in the list of the entity of pad `(a,i)`, for pad indices and flags below
2^32 written in decimal digits: `parse_link` on the descriptor `"A":i->"B":j[F]`
gives the first link `L` of that list whose source is `(a,i)` and whose sink is
`(b,j)`, and `setup_link` returns what `media_setup_link(L.source, L.sink, F)`
returns, leaves the world that call leaves, and consumes the whole descriptor. -/
theorem C17_link_descriptor_resolves_link (dev : Device) (w : World) (A B : List Char)
    (a b i j F : Nat) (is js fs : List Char)
    (hA : PlainName A) (hB : PlainName B)
    (ha : NameFinds w.media A a) (hb : NameFinds w.media B b)
    (his : Digits is) (hjs : Digits js) (hfs : Digits fs)
    (hi : decimal_value is = i) (hj : decimal_value js = j) (hF : decimal_value fs = F)
    (hi32 : i < 4294967296) (hj32 : j < 4294967296) (hF32 : F < 4294967296)
    (hip : i < (entityAt w.media a).info.pads) (hjp : j < (entityAt w.media b).info.pads)
    (hL : ∃ l ∈ (entityAt w.media (padAt w.media ⟨a, i⟩).entity).links,
      l.source = ⟨a, i⟩ ∧ l.sink = ⟨b, j⟩) :
    ∃ L, parse_link w.media (link_descriptor A is B js fs) = some (L, '[' :: (fs ++ [']'])) ∧
      L = linkRef w.media (padAt w.media ⟨a, i⟩).entity
        ((entityAt w.media (padAt w.media ⟨a, i⟩).entity).links.findIdx
          (fun link => decide (link.source = ⟨a, i⟩ ∧ link.sink = ⟨b, j⟩))) ∧
      ValidLink w.media L ∧
      (linkAt w.media L).source = ⟨a, i⟩ ∧ (linkAt w.media L).sink = ⟨b, j⟩ ∧
      setup_link dev w (link_descriptor A is B js fs) =
        ((media_setup_link dev w ⟨a, i⟩ ⟨b, j⟩ F).1,
         (media_setup_link dev w ⟨a, i⟩ ⟨b, j⟩ F).2, []) := by
  have hwf : WellFormedCfg (named_link_cfg A is B js fs) := ⟨hA, his, hB, hjs, hfs⟩
  have hsem := link_sem_of_finds w.media A B a b i j is js fs hA hB ha hb hi hj hi32 hj32
    hip hjp hL
  have hidx : (entityAt w.media (padAt w.media ⟨a, i⟩).entity).links.findIdx
      (fun link => decide (link.source = ⟨a, i⟩ ∧ link.sink = ⟨b, j⟩)) <
        (entityAt w.media (padAt w.media ⟨a, i⟩).entity).links.length := by
    apply List.findIdx_lt_length_of_exists
    obtain ⟨l, hl, h1, h2⟩ := hL
    exact ⟨l, hl, by simp [h1, h2]⟩
  have hprop := List.findIdx_getElem (w := hidx)
  simp only [decide_eq_true_eq] at hprop
  have hlink : linkAt w.media (linkRef w.media (padAt w.media ⟨a, i⟩).entity
      ((entityAt w.media (padAt w.media ⟨a, i⟩).entity).links.findIdx
        (fun link => decide (link.source = ⟨a, i⟩ ∧ link.sink = ⟨b, j⟩)))) =
      (entityAt w.media (padAt w.media ⟨a, i⟩).entity).links[
        (entityAt w.media (padAt w.media ⟨a, i⟩).entity).links.findIdx
          (fun link => decide (link.source = ⟨a, i⟩ ∧ link.sink = ⟨b, j⟩))] := by
    rw [linkAt_linkRef, List.getElem?_eq_getElem hidx]
    rfl
  have hpl := parse_link_text w.media {} _ ('[' :: (fs ++ [']'])) blankGaps_default hwf
    (by decide : isspace '[' = false) (by decide : isdigit '[' = false)
  have hsl := setup_link_text dev w {} _ [] blankGaps_default hwf
    (by decide : isspace NUL = false)
  rw [hsem] at hpl hsl
  refine ⟨_, hpl, rfl, validLink_linkRef _ _ _ hidx, ?_, ?_, ?_⟩
  · rw [hlink]; exact hprop.1
  · rw [hlink]; exact hprop.2
  · refine Eq.trans hsl ?_
    simp only [setup_link_sem, hsem, hlink, hprop.1, hprop.2]
    rw [show (named_link_cfg A is B js fs).flags = fs from rfl,
      strtoul_value_of_lt fs (hF ▸ hF32), hF]

/-- Witness of C17: the descriptor "Sensor":0->"Processor":0[1] in the sensor
graph. -/
theorem C17_link_descriptor_resolves_link_witness :
    ∃ L, parse_link (named_graph 0)
        (link_descriptor "Sensor".toList "0".toList "Processor".toList "0".toList "1".toList) =
          some (L, '[' :: ("1".toList ++ [']'])) ∧
      L = linkRef (named_graph 0) (padAt (named_graph 0) ⟨0, 0⟩).entity
        ((entityAt (named_graph 0) (padAt (named_graph 0) ⟨0, 0⟩).entity).links.findIdx
          (fun link => decide (link.source = ⟨0, 0⟩ ∧ link.sink = ⟨1, 0⟩))) ∧
      ValidLink (named_graph 0) L ∧
      (linkAt (named_graph 0) L).source = ⟨0, 0⟩ ∧ (linkAt (named_graph 0) L).sink = ⟨1, 0⟩ ∧
      setup_link echo_device { media := named_graph 0 }
        (link_descriptor "Sensor".toList "0".toList "Processor".toList "0".toList "1".toList) =
        ((media_setup_link echo_device { media := named_graph 0 } ⟨0, 0⟩ ⟨1, 0⟩ 1).1,
         (media_setup_link echo_device { media := named_graph 0 } ⟨0, 0⟩ ⟨1, 0⟩ 1).2, []) :=
  C17_link_descriptor_resolves_link echo_device { media := named_graph 0 }
    "Sensor".toList "Processor".toList 0 1 0 0 1 "0".toList "0".toList "1".toList
    (by decide) (by decide) (by decide) (by decide) (by decide) (by decide) (by decide)
    (by decide) (by decide) (by decide) (by decide) (by decide) (by decide) (by decide)
    (by decide) (by decide)

/-- C17, counterexample: the entities of the panel graph have different names
and a link joins "Sensor":0 to pad 0 of the entity named by the seven characters
of Panel 7 and a double quote; `media_setup_link` on the two pads succeeds, but
the descriptor with the two names between double quotes is not parsed:
`setup_link` returns `-EINVAL` and sends nothing. -/
theorem C17_quote_in_name_is_not_parsed :
    (entityAt panel_graph 0).info.name = "Sensor".toList ∧
    (entityAt panel_graph 1).info.name = panel_name ∧
    (linkAt panel_graph ⟨0, 0, 0⟩).source = ⟨0, 0⟩ ∧
    (linkAt panel_graph ⟨0, 0, 0⟩).sink = ⟨1, 0⟩ ∧
    (media_setup_link echo_device { media := panel_graph } ⟨0, 0⟩ ⟨1, 0⟩ 1).1 = 0 ∧
    setup_link echo_device { media := panel_graph }
        (link_descriptor "Sensor".toList "0".toList panel_name "0".toList "1".toList) =
      (-EINVAL, { media := panel_graph },
        link_descriptor "Sensor".toList "0".toList panel_name "0".toList "1".toList) := by
  decide

/-! ## C16: the pad format descriptors -/

theorem to_s32_of_lt (ds : List Char) (h : decimal_value ds < 2147483648) :
    to_s32 (strtoul_value ds) = (decimal_value ds : Int) := by
  have hv : strtoul_value ds = decimal_value ds := by
    unfold strtoul_value ULONG_MAX
    rw [if_neg (by omega)]
  unfold to_s32
  rw [hv, Nat.mod_eq_of_lt (by omega), if_pos h]

theorem blank_nil : Blank [] := fun _ h => absurd h (List.not_mem_nil _)

theorem strtoul_plain (ds t : List Char) (h : Digits ds) (ht : isdigit (cur t) = false) :
    strtoul (ds ++ t) = (strtoul_value ds, t) :=
  strtoul_digits [] ds t blank_nil h ht

theorem skip_spaces_digits (ds t : List Char) (h : Digits ds) :
    skip_spaces (ds ++ t) = ds ++ t :=
  skip_spaces_of_not_space _ (isspace_of_isdigit _ (cur_digits ds t h))

theorem dropWhile_token (xs t : List Char)
    (h : ∀ x ∈ xs, (!isspace x && decide (x ≠ NUL)) = true) :
    (xs ++ ' ' :: t).dropWhile (fun c => !isspace c && decide (c ≠ NUL)) = ' ' :: t := by
  induction xs with
  | nil => rfl
  | cons c xs ih =>
    have hc := h c (List.mem_cons_self c xs)
    rw [List.cons_append, List.dropWhile_cons_of_pos (by simpa using hc),
      ih (fun x hx => h x (List.mem_cons_of_mem c hx))]

theorem string_to_pixelcode_append (x y : List Char) :
    string_to_pixelcode (x ++ y) x.length = string_to_pixelcode x x.length := by
  unfold string_to_pixelcode
  simp only [strncmp_append]

set_option maxRecDepth 100000 in
theorem mbus_formats_names :
    ∀ c ∈ mbus_formats, isalnum (cur c.1) = true ∧ isspace (cur c.1) = false ∧ c.1 ≠ [] ∧
      (∀ x ∈ c.1, (!isspace x && decide (x ≠ NUL)) = true) ∧
      string_to_pixelcode c.1 c.1.length = c.2 ∧ c.2 ≠ -1 := by
  decide

theorem parse_format_text (C W H t : List Char) (code : Int)
    (hsp : isspace (cur C) = false) (hne : C ≠ [])
    (htok : ∀ x ∈ C, (!isspace x && decide (x ≠ NUL)) = true)
    (hcode : string_to_pixelcode C C.length = code) (hc1 : code ≠ -1)
    (hW : Digits W) (hH : Digits H) (ht : isdigit (cur t) = false) :
    parse_format (C ++ ' ' :: (W ++ 'x' :: (H ++ t))) =
      some ({ width := to_u32 (strtoul_value W), height := to_u32 (strtoul_value H),
              code := code }, t) := by
  have h1 : skip_spaces (C ++ ' ' :: (W ++ 'x' :: (H ++ t))) =
      C ++ ' ' :: (W ++ 'x' :: (H ++ t)) :=
    skip_spaces_of_not_space _ (by rw [cur_append C _ hne]; exact hsp)
  have h2 := dropWhile_token C (W ++ 'x' :: (H ++ t)) htok
  have h3 : (C ++ ' ' :: (W ++ 'x' :: (H ++ t))).length -
      (' ' :: (W ++ 'x' :: (H ++ t))).length = C.length := by
    rw [List.length_append]
    omega
  have h4 : skip_spaces (' ' :: (W ++ 'x' :: (H ++ t))) = W ++ 'x' :: (H ++ t) := by
    have := skip_spaces_blank [' '] (W ++ 'x' :: (H ++ t)) (by decide)
    rw [show [' '] ++ (W ++ 'x' :: (H ++ t)) = ' ' :: (W ++ 'x' :: (H ++ t)) from rfl] at this
    rw [this, skip_spaces_digits W _ hW]
  have h5 := strtoul_plain W ('x' :: (H ++ t)) hW (by decide : isdigit 'x' = false)
  have h6 := strtoul_plain H t hH ht
  unfold parse_format
  simp only [h1, h2, h3, string_to_pixelcode_append, hcode, hc1, if_false, h4, h5, cur_cons,
    ne_eq, not_true_eq_false, List.tail_cons, h6]

theorem parse_crop_text (L T W H t : List Char) (hL : Digits L) (hT : Digits T) (hW : Digits W)
    (hH : Digits H) (ht : isdigit (cur t) = false) :
    parse_crop ('(' :: (L ++ ',' :: (T ++ ')' :: '/' :: (W ++ 'x' :: (H ++ t))))) =
      some ({ left := to_s32 (strtoul_value L), top := to_s32 (strtoul_value T),
              width := to_s32 (strtoul_value W), height := to_s32 (strtoul_value H) }, t) := by
  have h1 := strtoul_plain L (',' :: (T ++ ')' :: '/' :: (W ++ 'x' :: (H ++ t)))) hL
    (by decide : isdigit ',' = false)
  have h2 := strtoul_plain T (')' :: '/' :: (W ++ 'x' :: (H ++ t))) hT
    (by decide : isdigit ')' = false)
  have h3 := strtoul_plain W ('x' :: (H ++ t)) hW (by decide : isdigit 'x' = false)
  have h4 := strtoul_plain H t hH ht
  unfold parse_crop
  simp only [cur_cons, ne_eq, not_true_eq_false, if_false, List.tail_cons, h1, h2, h3, h4]

theorem parse_frame_interval_text (N D t : List Char) (hN : Digits N) (hD : Digits D)
    (ht : isdigit (cur t) = false) :
    parse_frame_interval (N ++ '/' :: (D ++ t)) =
      some ({ numerator := to_u32 (strtoul_value N), denominator := to_u32 (strtoul_value D) },
        t) := by
  have h1 := strtoul_plain N ('/' :: (D ++ t)) hN (by decide : isdigit '/' = false)
  have h2 := strtoul_plain D t hD ht
  have h3 : skip_spaces ('/' :: (D ++ t)) = '/' :: (D ++ t) :=
    skip_spaces_of_not_space _ (by decide : isspace '/' = false)
  unfold parse_frame_interval
  simp only [skip_spaces_digits N _ hN, h1, h3, cur_cons, ne_eq, not_true_eq_false, if_false,
    List.tail_cons, skip_spaces_digits D _ hD, h2]

theorem to_u32_of_lt (ds : List Char) (h : decimal_value ds < 2147483648) :
    to_u32 (strtoul_value ds) = decimal_value ds :=
  strtoul_value_of_lt ds (by omega)

theorem parse_pad_named (m : media_device) (E is t : List Char) (e i : Nat)
    (hE : PlainName E) (he : NameFinds m E e) (his : Digits is) (hi : decimal_value is = i)
    (hi32 : i < 4294967296) (hip : i < (entityAt m e).info.pads)
    (hts : isspace (cur t) = false) (htd : isdigit (cur t) = false) :
    parse_pad m (DQUOTE :: (E ++ DQUOTE :: ':' :: (is ++ t))) = some (⟨e, i⟩, t) := by
  have h := parse_pad_text m [] [] [] [] (entity_ref.by_name E) is t blank_nil blank_nil
    blank_nil blank_nil hE his hts htd
  subst hi
  rw [pad_sem_of_finds m E is e hE he hi32 hip] at h
  exact h

/-- C16: in a graph in which the name `E` (free of double quotes) is the name
of entity `e`, no entity enumerated before `e` has a name that begins with `E`,
and `e` has more than `i` pads, for every name `C` of the table of pixel codes
and all numbers below 2^31 written in decimal digits: `parse_pad_format`, called
as `setup_format` calls it, parses `"E":i[C WxH]` to the pad `(e,i)`, the format
with the code of `C`, width `W` and height `H`, the crop left at -1 and the
interval left at 0; and it parses `"E":i[(l,t)/wxh@n/d]` to the pad `(e,i)`, the
format left at zero width and height, the crop `l,t,w,h` and the interval `n/d`;
both descriptors are consumed to their end. -/
theorem C16_pad_format_descriptors (m : media_device) (E : List Char) (e i : Nat)
    (is : List Char) (c : List Char × Int) (W H L T N D : List Char)
    (hE : PlainName E) (he : NameFinds m E e)
    (his : Digits is) (hi : decimal_value is = i) (hi31 : i < 2147483648)
    (hip : i < (entityAt m e).info.pads) (hc : c ∈ mbus_formats)
    (hW : Digits W) (hH : Digits H) (hL : Digits L) (hT : Digits T) (hN : Digits N)
    (hD : Digits D)
    (hW31 : decimal_value W < 2147483648) (hH31 : decimal_value H < 2147483648)
    (hL31 : decimal_value L < 2147483648) (hT31 : decimal_value T < 2147483648)
    (hN31 : decimal_value N < 2147483648) (hD31 : decimal_value D < 2147483648) :
    parse_pad_format m { width := 0, height := 0, code := 0 }
        { left := -1, top := -1, width := -1, height := -1 }
        { numerator := 0, denominator := 0 } (format_descriptor E is c.1 W H) =
      some { pad := ⟨e, i⟩,
             format := { width := decimal_value W, height := decimal_value H, code := c.2 },
             crop := { left := -1, top := -1, width := -1, height := -1 },
             interval := { numerator := 0, denominator := 0 },
             endp := [] } ∧
    parse_pad_format m { width := 0, height := 0, code := 0 }
        { left := -1, top := -1, width := -1, height := -1 }
        { numerator := 0, denominator := 0 } (crop_descriptor E is L T W H N D) =
      some { pad := ⟨e, i⟩,
             format := { width := 0, height := 0, code := 0 },
             crop := { left := decimal_value L, top := decimal_value T,
                       width := decimal_value W, height := decimal_value H },
             interval := { numerator := decimal_value N, denominator := decimal_value D },
             endp := [] } := by
  obtain ⟨hal, hsp, hne, htok, hcode, hc1⟩ := mbus_formats_names c hc
  have hq : ∀ t, skip_spaces (DQUOTE :: t) = DQUOTE :: t := fun t =>
    skip_spaces_of_not_space _ (by decide : isspace DQUOTE = false)
  have hb : ∀ t, skip_spaces ('[' :: t) = '[' :: t := fun t =>
    skip_spaces_of_not_space _ (by decide : isspace '[' = false)
  constructor
  · have hp := parse_pad_named m E is ('[' :: (c.1 ++ ' ' :: (W ++ 'x' :: (H ++ [']'])))) e i
      hE he his hi (by omega) hip (by decide : isspace '[' = false)
      (by decide : isdigit '[' = false)
    have hf := parse_format_text c.1 W H [']'] c.2 hsp hne htok hcode hc1 hW hH
      (by decide : isdigit ']' = false)
    have hs : skip_spaces (c.1 ++ ' ' :: (W ++ 'x' :: (H ++ [']']))) =
        c.1 ++ ' ' :: (W ++ 'x' :: (H ++ [']'])) :=
      skip_spaces_of_not_space _ (by rw [cur_append c.1 _ hne]; exact hsp)
    have ha : isalnum (cur (c.1 ++ ' ' :: (W ++ 'x' :: (H ++ [']'])))) = true := by
      rw [cur_append c.1 _ hne]; exact hal
    unfold parse_pad_format format_descriptor
    simp only [hq, hp, hb, cur_cons, ne_eq, not_true_eq_false, if_false, List.tail_cons, hs,
      ha, if_true, hf, Option.map_some', to_u32_of_lt W hW31, to_u32_of_lt H hH31,
      (by decide : skip_spaces [']'] = [']']), (by decide : ¬ (']' = '(')),
      (by decide : ¬ (']' = '@'))]
  · have hp := parse_pad_named m E is
      ('[' :: '(' :: (L ++ ',' :: (T ++ ')' :: '/' :: (W ++ 'x' :: (H ++ '@' ::
        (N ++ '/' :: (D ++ [']']))))))) e i
      hE he his hi (by omega) hip (by decide : isspace '[' = false)
      (by decide : isdigit '[' = false)
    have hcr := parse_crop_text L T W H ('@' :: (N ++ '/' :: (D ++ [']']))) hL hT hW hH
      (by decide : isdigit '@' = false)
    have hiv := parse_frame_interval_text N D [']'] hN hD (by decide : isdigit ']' = false)
    have hs : ∀ t, skip_spaces ('(' :: t) = '(' :: t := fun t =>
      skip_spaces_of_not_space _ (by decide : isspace '(' = false)
    have hs2 : ∀ t, skip_spaces ('@' :: t) = '@' :: t := fun t =>
      skip_spaces_of_not_space _ (by decide : isspace '@' = false)
    unfold parse_pad_format crop_descriptor
    simp only [hq, hp, hb, cur_cons, ne_eq, not_true_eq_false, if_false, List.tail_cons, hs,
      (by decide : isalnum '(' = false), Bool.false_eq_true, if_true, hcr, Option.map_some',
      hs2, hiv, to_u32_of_lt N hN31, to_u32_of_lt D hD31, to_s32_of_lt L hL31,
      to_s32_of_lt T hT31, to_s32_of_lt W hW31, to_s32_of_lt H hH31,
      (by decide : skip_spaces [']'] = [']'])]

/-- Witness of C16: the descriptors "Sensor":0[UYVY 1920x1080] and
"Sensor":0[(0,0)/1920x1080@30/1] in the sensor graph. -/
theorem C16_pad_format_descriptors_witness :
    parse_pad_format (named_graph 0) { width := 0, height := 0, code := 0 }
        { left := -1, top := -1, width := -1, height := -1 }
        { numerator := 0, denominator := 0 }
        (format_descriptor "Sensor".toList "0".toList "UYVY".toList "1920".toList
          "1080".toList) =
      some { pad := ⟨0, 0⟩,
             format := { width := 1920, height := 1080, code := 0x200f },
             crop := { left := -1, top := -1, width := -1, height := -1 },
             interval := { numerator := 0, denominator := 0 },
             endp := [] } ∧
    parse_pad_format (named_graph 0) { width := 0, height := 0, code := 0 }
        { left := -1, top := -1, width := -1, height := -1 }
        { numerator := 0, denominator := 0 }
        (crop_descriptor "Sensor".toList "0".toList "0".toList "0".toList "1920".toList
          "1080".toList "30".toList "1".toList) =
      some { pad := ⟨0, 0⟩,
             format := { width := 0, height := 0, code := 0 },
             crop := { left := 0, top := 0, width := 1920, height := 1080 },
             interval := { numerator := 30, denominator := 1 },
             endp := [] } :=
  C16_pad_format_descriptors (named_graph 0) "Sensor".toList 0 0 "0".toList
    ("UYVY".toList, 0x200f) "1920".toList "1080".toList "0".toList "0".toList "30".toList
    "1".toList (by decide) (by decide) (by decide) (by decide) (by decide) (by decide)
    (by decide) (by decide) (by decide) (by decide) (by decide) (by decide) (by decide)
    (by decide) (by decide) (by decide) (by decide) (by decide) (by decide)

/-- C16, counterexample: the second entity of the graph is named "Sensor" and
has two pads, so that the graph has an entity named "Sensor" with more than 1
pad; the lookup by name stops at the first entity, "Sensor" too, with one pad,
and "Sensor":1[UYVY 1920x1080] is not parsed. -/
theorem C16_first_of_two_names_wins :
    (entityAt twin_name_graph 1).info.name = "Sensor".toList ∧
    1 < (entityAt twin_name_graph 1).info.pads ∧
    media_get_entity_by_name twin_name_graph "Sensor".toList 6 = some 0 ∧
    parse_pad_format twin_name_graph { width := 0, height := 0, code := 0 }
        { left := -1, top := -1, width := -1, height := -1 }
        { numerator := 0, denominator := 0 }
        (format_descriptor "Sensor".toList "1".toList "UYVY".toList "1920".toList
          "1080".toList) = none := by
  decide

/-! ## C19: white space in the format descriptors -/

/-- C19: `setup_formats` accepts "Sensor":0[UYVY 1920x1080] and returns
`-EINVAL` when a space stands between the width and the `x`; it accepts
"Sensor":0[(0,0)/1920x1080] and returns `-EINVAL` when a space stands between
the crop number and the comma; it accepts a list of two descriptors and returns
`-EINVAL`, after the requests of the first descriptor, when a space stands
between the `]` and the separating comma, where `setup_links` skips it. -/
theorem C19_format_white_space_is_rejected :
    (setup_formats accepting_subdev { media := named_graph 1 }
      (quoted "Sensor" ++ ":0[UYVY 1920x1080]".toList)).map Prod.fst = some 0 ∧
    (setup_formats accepting_subdev { media := named_graph 1 }
      (quoted "Sensor" ++ ":0[UYVY 1920 x1080]".toList)) =
        some (-EINVAL, { media := named_graph 1 }) ∧
    (setup_formats accepting_subdev { media := named_graph 1 }
      (quoted "Sensor" ++ ":0[(0,0)/1920x1080]".toList)).map Prod.fst = some 0 ∧
    (setup_formats accepting_subdev { media := named_graph 1 }
      (quoted "Sensor" ++ ":0[(0 ,0)/1920x1080]".toList)) =
        some (-EINVAL, { media := named_graph 1 }) ∧
    (setup_formats accepting_subdev { media := named_graph 1 }
      (quoted "Sensor" ++ ":0[UYVY 1920x1080],".toList ++
        quoted "Processor" ++ ":1[Y8 1x1]".toList)).map Prod.fst = some 0 ∧
    (setup_formats accepting_subdev { media := named_graph 1 }
      (quoted "Sensor" ++ ":0[UYVY 1920x1080] ,".toList ++
        quoted "Processor" ++ ":1[Y8 1x1]".toList)).map (fun r => (r.1, r.2.calls)) =
      some (-EINVAL,
        [subdev_request.open_node 0,
         subdev_request.s_fmt 0 0 { width := 1920, height := 1080, code := 0x200f },
         subdev_request.open_node 1,
         subdev_request.s_fmt 1 0 { width := 1920, height := 1080, code := 0x200f }]) ∧
    (setup_links echo_device { media := named_graph 0 }
      (quoted "Sensor" ++ ":0->".toList ++ quoted "Processor" ++ ":0[1] ,".toList ++
        quoted "Sensor" ++ ":0->".toList ++ quoted "Processor" ++ ":0[0]".toList)).map
      Prod.fst = some 0 := by
  decide

/-! ## C20: the unknown entity name -/

theorem pad_sem_of_none (m : media_device) (name ds : List Char) (hn : PlainName name)
    (h : NoNameBegins m name) : pad_sem m (entity_ref.by_name name) ds = none := by
  unfold pad_sem
  rw [show entity_sem m (entity_ref.by_name name) =
    media_get_entity_by_name m name name.length from rfl,
    get_entity_by_name_of_none m name (fun c hc => (hn c hc).2) h]

theorem setup_format_of_none (sd : SubDevice) (w : FWorld) (p : List Char)
    (h : parse_pad_format w.media { width := 0, height := 0, code := 0 }
      { left := -1, top := -1, width := -1, height := -1 }
      { numerator := 0, denominator := 0 } p = none) :
    setup_format sd w p = (-EINVAL, w, p) := by
  unfold setup_format
  rw [h]

theorem setup_link_of_none (dev : Device) (w : World) (p : List Char)
    (h : parse_link w.media p = none) : setup_link dev w p = (-EINVAL, w, p) := by
  unfold setup_link
  rw [h]

theorem parse_pad_format_of_none (m : media_device) (format : v4l2_mbus_framefmt)
    (crop : v4l2_rect) (interval : v4l2_fract) (p : List Char)
    (h : parse_pad m (skip_spaces p) = none) :
    parse_pad_format m format crop interval p = none := by
  unfold parse_pad_format
  rw [h]

/-- C20: for a descriptor of well-formed tokens in which a quoted entity name
is not the beginning of the name of any entity, `setup_link` (the name as source
or as sink of the link) and `setup_format` return `-EINVAL`, leave the world as
it was and store no end position; this is the result that they give for every
text that `parse_link` or `parse_pad_format` does not parse. -/
theorem C20_unknown_name_reports_einval (dev : Device) (sd : SubDevice) (w : World)
    (fw : FWorld) (g : link_gaps) (d : link_cfg) (E ds rest : List Char)
    (hg : BlankGaps g) (hd : WellFormedCfg d) (hds : Digits ds) (hE : PlainName E)
    (hname : d.source = entity_ref.by_name E ∨ d.sink = entity_ref.by_name E)
    (hw : NoNameBegins w.media E) (hfw : NoNameBegins fw.media E) :
    setup_link dev w (link_cfg_text g d []) = (-EINVAL, w, link_cfg_text g d []) ∧
    setup_format sd fw
        (pad_text g.g0 g.g1 g.g2 g.g3 (entity_ref.by_name E) ds ('[' :: rest)) =
      (-EINVAL, fw, pad_text g.g0 g.g1 g.g2 g.g3 (entity_ref.by_name E) ds ('[' :: rest)) ∧
    (∀ p, parse_link w.media p = none → setup_link dev w p = (-EINVAL, w, p)) ∧
    (∀ p, parse_pad_format fw.media { width := 0, height := 0, code := 0 }
        { left := -1, top := -1, width := -1, height := -1 }
        { numerator := 0, denominator := 0 } p = none →
      setup_format sd fw p = (-EINVAL, fw, p)) := by
  refine ⟨?_, ?_, fun p h => setup_link_of_none dev w p h,
    fun p h => setup_format_of_none sd fw p h⟩
  · have hsem : link_sem w.media d = none := by
      unfold link_sem
      rcases hname with h | h
      · rw [h, pad_sem_of_none w.media E d.source_pad hE hw]
      · rw [h, pad_sem_of_none w.media E d.sink_pad hE hw]
        cases pad_sem w.media d.source d.source_pad <;> rfl
    rw [setup_link_text dev w g d [] hg hd (by decide : isspace NUL = false), hsem]
  · apply setup_format_of_none
    apply parse_pad_format_of_none
    obtain ⟨h0, h1, h2, h3, -⟩ := hg
    have hsk : skip_spaces (pad_text g.g0 g.g1 g.g2 g.g3 (entity_ref.by_name E) ds
        ('[' :: rest)) =
        pad_text [] g.g1 g.g2 g.g3 (entity_ref.by_name E) ds ('[' :: rest) :=
      skip_spaces_blank_of_not_space g.g0 _ h0 (by decide : isspace DQUOTE = false)
    rw [hsk, parse_pad_text fw.media [] g.g1 g.g2 g.g3 (entity_ref.by_name E) ds
      ('[' :: rest) blank_nil h1 h2 h3 hE hds (by decide : isspace '[' = false)
      (by decide : isdigit '[' = false), pad_sem_of_none fw.media E ds hE hfw]
    rfl

/-- Witness of C20: the name "Nope" in the sensor graph. -/
theorem C20_unknown_name_reports_einval_witness :
    setup_link echo_device { media := named_graph 0 }
        (link_cfg_text {} (named_link_cfg "Nope".toList "0".toList "Processor".toList
          "0".toList "1".toList) []) =
      (-EINVAL, { media := named_graph 0 },
        link_cfg_text {} (named_link_cfg "Nope".toList "0".toList "Processor".toList
          "0".toList "1".toList) []) ∧
    setup_format accepting_subdev { media := named_graph 0 }
        (pad_text [] [] [] [] (entity_ref.by_name "Nope".toList) "0".toList
          ('[' :: "UYVY 1920x1080]".toList)) =
      (-EINVAL, { media := named_graph 0 },
        pad_text [] [] [] [] (entity_ref.by_name "Nope".toList) "0".toList
          ('[' :: "UYVY 1920x1080]".toList)) ∧
    (∀ p, parse_link (named_graph 0) p = none →
      setup_link echo_device { media := named_graph 0 } p =
        (-EINVAL, { media := named_graph 0 }, p)) ∧
    (∀ p, parse_pad_format (named_graph 0) { width := 0, height := 0, code := 0 }
        { left := -1, top := -1, width := -1, height := -1 }
        { numerator := 0, denominator := 0 } p = none →
      setup_format accepting_subdev { media := named_graph 0 } p =
        (-EINVAL, { media := named_graph 0 }, p)) :=
  C20_unknown_name_reports_einval echo_device accepting_subdev { media := named_graph 0 }
    { media := named_graph 0 } {}
    (named_link_cfg "Nope".toList "0".toList "Processor".toList "0".toList "1".toList)
    "Nope".toList "0".toList "UYVY 1920x1080]".toList
    (by decide) (by decide) (by decide) (by decide) (Or.inl rfl) (by decide) (by decide)

/-- C20, counterexample: in the sensor graph `setup_link` returns the same
`-EINVAL` for a descriptor with the unknown name "Nope" and for a descriptor in
which `=>` stands for `->`, and `setup_format` returns the same `-EINVAL` for the
unknown name and for a descriptor without its closing bracket. -/
theorem C20_not_found_equals_malformed :
    (setup_link echo_device { media := named_graph 0 }
      (quoted "Nope" ++ ":0->".toList ++ quoted "Processor" ++ ":0[1]".toList)).1 = -EINVAL ∧
    (setup_link echo_device { media := named_graph 0 }
      (quoted "Sensor" ++ ":0=>".toList ++ quoted "Processor" ++ ":0[1]".toList)).1 = -EINVAL ∧
    (setup_format accepting_subdev { media := named_graph 0 }
      (quoted "Nope" ++ ":0[UYVY 1920x1080]".toList)).1 = -EINVAL ∧
    (setup_format accepting_subdev { media := named_graph 0 }
      (quoted "Sensor" ++ ":0[UYVY 1920x1080".toList)).1 = -EINVAL := by
  decide

/-! ## The texts that the parsers leave -/

theorem skip_spaces_length_le (p : List Char) : (skip_spaces p).length ≤ p.length :=
  (List.dropWhile_suffix isspace).length_le

theorem strtoul_length_le (p : List Char) : (strtoul p).2.length ≤ p.length := by
  have h1 := skip_spaces_length_le p
  have h2 : ∀ u : List Char, (u.dropWhile isdigit).length ≤ u.length :=
    fun u => (List.dropWhile_suffix isdigit).length_le
  have ht := h2 (skip_spaces p).tail
  have hn := h2 (skip_spaces p)
  simp only [List.length_tail] at ht
  unfold strtoul
  simp only []
  split_ifs <;> dsimp only <;> omega

theorem parse_pad_length_le (m : media_device) (p : List Char) (pad : PadRef)
    (e : List Char) (h : parse_pad m p = some (pad, e)) : e.length ≤ p.length := by
  unfold parse_pad at h
  simp only [] at h
  split at h
  · exact absurd h (by simp)
  · rename_i entity end_ hfound
    have hend : end_.length ≤ p.length := by
      split at hfound
      · split at hfound
        · exact absurd hfound (by simp)
        · simp only [Option.map_eq_some'] at hfound
          obtain ⟨a, -, ha⟩ := hfound
          have h1 : ((skip_spaces p).tail.dropWhile
              (fun c => decide (c ≠ NUL) && decide (c ≠ DQUOTE))).length ≤
              (skip_spaces p).tail.length := (List.dropWhile_suffix _).length_le
          have h2 := skip_spaces_length_le p
          have h3 := congrArg (fun x => x.2.length) ha
          simp only [List.length_tail] at h1 h3
          omega
      · simp only [Option.map_eq_some'] at hfound
        obtain ⟨a, -, ha⟩ := hfound
        have h1 := strtoul_length_le (skip_spaces p)
        have h2 := skip_spaces_length_le p
        have h3 := congrArg (fun x => x.2.length) ha
        simp only at h3
        omega
    split at h
    · exact absurd h (by simp)
    · split at h
      · exact absurd h (by simp)
      · simp only [Option.some.injEq, Prod.mk.injEq] at h
        have h1 := skip_spaces_length_le end_
        have h2 := skip_spaces_length_le (skip_spaces end_).tail
        have h3 := strtoul_length_le (skip_spaces (skip_spaces end_).tail)
        have h4 := skip_spaces_length_le (strtoul (skip_spaces (skip_spaces end_).tail)).2
        rw [← h.2]
        simp only [List.length_tail] at h2
        omega

theorem parse_link_length_le (m : media_device) (p : List Char) (link : LinkRef)
    (e : List Char) (h : parse_link m p = some (link, e)) : e.length ≤ p.length := by
  unfold parse_link at h
  split at h
  · exact absurd h (by simp)
  · rename_i source end_ hs
    split at h
    · exact absurd h (by simp)
    · split at h
      · exact absurd h (by simp)
      · rename_i sink end2 hk
        have h1 := parse_pad_length_le m p source end_ hs
        have h2 := parse_pad_length_le m end_.tail.tail sink end2 hk
        simp only [] at h
        split at h
        · simp only [Option.some.injEq, Prod.mk.injEq] at h
          rw [← h.2]
          simp only [List.length_tail] at h2
          omega
        · exact absurd h (by simp)

theorem setup_link_length_le (dev : Device) (w : World) (p : List Char) :
    (setup_link dev w p).2.2.length ≤ p.length := by
  unfold setup_link
  split
  · exact Nat.le_refl _
  · rename_i link end_ hl
    have h1 := parse_link_length_le w.media p link end_ hl
    split
    · exact Nat.le_refl _
    · simp only []
      split
      · exact Nat.le_refl _
      · have h2 := strtoul_length_le end_.tail
        have h3 := skip_spaces_length_le (strtoul end_.tail).2
        have h4 := skip_spaces_length_le (skip_spaces (strtoul end_.tail).2).tail
        simp only [List.length_tail] at h2 h4
        show (skip_spaces (skip_spaces (strtoul end_.tail).2).tail).length ≤ p.length
        omega

theorem parse_format_length_le (p : List Char) (f : v4l2_mbus_framefmt) (e : List Char)
    (h : parse_format p = some (f, e)) : e.length ≤ p.length := by
  unfold parse_format at h
  simp only [] at h
  have h1 := skip_spaces_length_le p
  have h2 : ((skip_spaces p).dropWhile (fun c => !isspace c && decide (c ≠ NUL))).length ≤
      (skip_spaces p).length := (List.dropWhile_suffix _).length_le
  have h3 := skip_spaces_length_le
    ((skip_spaces p).dropWhile (fun c => !isspace c && decide (c ≠ NUL)))
  have h4 := strtoul_length_le
    (skip_spaces ((skip_spaces p).dropWhile (fun c => !isspace c && decide (c ≠ NUL))))
  have h5 := strtoul_length_le (strtoul
    (skip_spaces ((skip_spaces p).dropWhile (fun c => !isspace c && decide (c ≠ NUL))))).2.tail
  simp only [List.length_tail] at h5
  split_ifs at h
  simp only [Option.some.injEq, Prod.mk.injEq] at h
  rw [← h.2]
  omega

theorem parse_crop_length_le (p : List Char) (r : v4l2_rect) (e : List Char)
    (h : parse_crop p = some (r, e)) : e.length ≤ p.length := by
  unfold parse_crop at h
  simp only [] at h
  have h1 := strtoul_length_le p.tail
  have h2 := strtoul_length_le (strtoul p.tail).2.tail
  have h3 := strtoul_length_le (strtoul (strtoul p.tail).2.tail).2.tail.tail
  have h4 := strtoul_length_le (strtoul (strtoul (strtoul p.tail).2.tail).2.tail.tail).2.tail
  simp only [List.length_tail] at h1 h2 h3 h4
  split_ifs at h
  simp only [Option.some.injEq, Prod.mk.injEq] at h
  rw [← h.2]
  omega

theorem parse_frame_interval_length_le (p : List Char) (i : v4l2_fract) (e : List Char)
    (h : parse_frame_interval p = some (i, e)) : e.length ≤ p.length := by
  unfold parse_frame_interval at h
  simp only [] at h
  have h1 := skip_spaces_length_le p
  have h2 := strtoul_length_le (skip_spaces p)
  have h3 := skip_spaces_length_le (strtoul (skip_spaces p)).2
  have h4 := skip_spaces_length_le (skip_spaces (strtoul (skip_spaces p)).2).tail
  have h5 := strtoul_length_le (skip_spaces (skip_spaces (strtoul (skip_spaces p)).2).tail)
  simp only [List.length_tail] at h4 h5
  split_ifs at h
  simp only [Option.some.injEq, Prod.mk.injEq] at h
  rw [← h.2]
  omega

theorem parse_pad_format_length_le (m : media_device) (format : v4l2_mbus_framefmt)
    (crop : v4l2_rect) (interval : v4l2_fract) (p : List Char) (pf : pad_format)
    (h : parse_pad_format m format crop interval p = some pf) :
    pf.endp.length ≤ p.length := by
  unfold parse_pad_format at h
  split at h
  · exact absurd h (by simp)
  · rename_i pad end_ hp
    have h0 := skip_spaces_length_le p
    have h1 := parse_pad_length_le m (skip_spaces p) pad end_ hp
    have h2 := skip_spaces_length_le end_
    have h3 := skip_spaces_length_le (skip_spaces end_).tail
    simp only [List.length_tail] at h3
    simp only [] at h
    split at h
    · exact absurd h (by simp)
    · split at h
      · exact absurd h (by simp)
      · rename_i f1 p1 hf
        have hp1 : p1.length ≤ (skip_spaces (skip_spaces end_).tail).length := by
          split at hf
          · simp only [Option.map_eq_some'] at hf
            obtain ⟨a, ha, ha2⟩ := hf
            have := parse_format_length_le _ a.1 a.2 ha
            have h4 := skip_spaces_length_le a.2
            have h5 := congrArg (fun x => x.2.length) ha2
            simp only at h5
            omega
          · simp only [Option.some.injEq, Prod.mk.injEq] at hf
            rw [← hf.2]
        split at h
        · exact absurd h (by simp)
        · rename_i c2 p2 hc
          have hp2 : p2.length ≤ p1.length := by
            split at hc
            · simp only [Option.map_eq_some'] at hc
              obtain ⟨a, ha, ha2⟩ := hc
              have := parse_crop_length_le _ a.1 a.2 ha
              have h4 := skip_spaces_length_le a.2
              have h5 := congrArg (fun x => x.2.length) ha2
              simp only at h5
              omega
            · simp only [Option.some.injEq, Prod.mk.injEq] at hc
              rw [← hc.2]
          split at h
          · exact absurd h (by simp)
          · rename_i i3 p3 hi
            have hp3 : p3.length ≤ p2.length := by
              split at hi
              · simp only [Option.map_eq_some'] at hi
                obtain ⟨a, ha, ha2⟩ := hi
                have := parse_frame_interval_length_le _ a.1 a.2 ha
                have h4 := skip_spaces_length_le a.2
                have h5 := congrArg (fun x => x.2.length) ha2
                simp only [List.length_tail] at h5 this
                omega
              · simp only [Option.some.injEq, Prod.mk.injEq] at hi
                rw [← hi.2]
            split at h
            · exact absurd h (by simp)
            · simp only [Option.some.injEq] at h
              rw [← h]
              simp only [List.length_tail]
              omega

theorem setup_format_length_le (sd : SubDevice) (w : FWorld) (p : List Char) :
    (setup_format sd w p).2.2.length ≤ p.length := by
  unfold setup_format
  split
  · exact Nat.le_refl _
  · rename_i pf hp
    have := parse_pad_format_length_le _ _ _ _ p pf hp
    simp only []
    split_ifs <;> first | exact Nat.le_refl _ | exact this

/-! ## The loop of `setup_links` and `setup_formats` -/

theorem list_loop_succ {W : Type} (step : W → List Char → Int × W × List Char)
    (fuel : Nat) (w : W) (p : List Char) :
    list_loop step (fuel + 1) w p =
      (if (step w p).1 < 0 then some ((step w p).1, (step w p).2.1)
       else if cur (step w p).2.2 = ','
         then list_loop step fuel (step w p).2.1 (step w p).2.2.tail
       else some ((if cur (step w p).2.2 ≠ NUL then -EINVAL else 0), (step w p).2.1)) := rfl

theorem setup_links_loop_eq (dev : Device) (fuel : Nat) (w : World) (p : List Char) :
    setup_links_loop dev fuel w p = list_loop (setup_link dev) fuel w p := by
  induction fuel generalizing w p with
  | zero => rfl
  | succ fuel ih => rw [setup_links_loop_succ, list_loop_succ, ih]

theorem setup_formats_loop_eq (sd : SubDevice) (fuel : Nat) (w : FWorld) (p : List Char) :
    setup_formats_loop sd fuel w p = list_loop (setup_format sd) fuel w p := by
  induction fuel generalizing w p with
  | zero => rfl
  | succ fuel ih =>
    rw [list_loop_succ, ← ih]
    rfl

theorem length_tail_lt_of_cur (q p : List Char) (h : cur q = ',') (hq : q.length ≤ p.length) :
    q.tail.length < p.length := by
  cases q with
  | nil => exact absurd h (by decide)
  | cons c q =>
    simp only [List.tail_cons, List.length_cons] at *
    omega

theorem list_loop_fuel {W : Type} (step : W → List Char → Int × W × List Char)
    (hlen : ∀ w p, (step w p).2.2.length ≤ p.length) :
    ∀ (fuel : Nat) (w : W) (p : List Char), p.length < fuel →
      list_loop step fuel w p = list_loop step (p.length + 1) w p := by
  intro fuel
  induction fuel using Nat.strong_induction_on with
  | _ fuel ih =>
    intro w p hp
    cases fuel with
    | zero => omega
    | succ fuel =>
      rw [list_loop_succ, list_loop_succ]
      split
      · rfl
      · split
        · rename_i _ hc
          have ht := length_tail_lt_of_cur _ p hc (hlen w p)
          rw [ih fuel (Nat.lt_succ_self fuel) _ _ (by omega),
            ih p.length (by omega) _ _ ht]
        · rfl

/-- The loop of `setup_links` and `setup_formats` run on the bound that these
functions give it. -/
theorem list_loop_some {W : Type} (step : W → List Char → Int × W × List Char)
    (hlen : ∀ w p, (step w p).2.2.length ≤ p.length) :
    ∀ (fuel : Nat) (w : W) (p : List Char), p.length < fuel →
      ∃ r, list_loop step fuel w p = some r := by
  intro fuel
  induction fuel with
  | zero => intro w p hp; omega
  | succ fuel ih =>
    intro w p hp
    rw [list_loop_succ]
    split
    · exact ⟨_, rfl⟩
    · split
      · rename_i _ hc
        exact ih _ _ (by have := length_tail_lt_of_cur _ p hc (hlen w p); omega)
      · exact ⟨_, rfl⟩

theorem list_loop_run {W : Type} (step : W → List Char → Int × W × List Char)
    (hlen : ∀ w p, (step w p).2.2.length ≤ p.length) (w : W) (p : List Char) :
    list_loop step (p.length + 1) w p =
      (if (step w p).1 < 0 then some ((step w p).1, (step w p).2.1)
       else if cur (step w p).2.2 = ','
         then list_loop step ((step w p).2.2.tail.length + 1) (step w p).2.1
           (step w p).2.2.tail
       else some ((if cur (step w p).2.2 ≠ NUL then -EINVAL else 0), (step w p).2.1)) := by
  rw [list_loop_succ]
  split
  · rfl
  · split
    · rename_i _ hc
      exact list_loop_fuel step hlen _ _ _ (length_tail_lt_of_cur _ p hc (hlen w p))
    · rfl

theorem list_loop_applied {W : Type} (step : W → List Char → Int × W × List Char)
    (hlen : ∀ w p, (step w p).2.2.length ≤ p.length) (w : W) (p : List Char) (w1 : W)
    (p1 : List Char) (h : Applied step w p w1 p1) :
    list_loop step (p.length + 1) w p = list_loop step (p1.length + 1) w1 p1 := by
  induction h with
  | none w p => rfl
  | next w p w1 p1 h0 hc _ ih =>
    rw [list_loop_run step hlen w p, if_neg (by omega), if_pos hc, ih]

theorem list_loop_zero_of_applied {W : Type} (step : W → List Char → Int × W × List Char)
    (hlen : ∀ w p, (step w p).2.2.length ≤ p.length) (w : W) (p : List Char) (w1 : W)
    (p1 : List Char) (h : Applied step w p w1 p1) (h0 : (step w1 p1).1 = 0)
    (hc : cur (step w1 p1).2.2 = NUL) :
    list_loop step (p.length + 1) w p = some (0, (step w1 p1).2.1) := by
  rw [list_loop_applied step hlen w p w1 p1 h, list_loop_run step hlen w1 p1,
    if_neg (by omega), if_neg (by rw [hc]; decide), if_neg (by simp [hc])]

theorem applied_of_list_loop_zero {W : Type} (step : W → List Char → Int × W × List Char)
    (hlen : ∀ w p, (step w p).2.2.length ≤ p.length) (hle : ∀ w p, (step w p).1 ≤ 0) :
    ∀ (n : Nat) (w : W) (p : List Char) (w' : W), p.length = n →
      list_loop step (p.length + 1) w p = some (0, w') →
        ∃ w1 p1, Applied step w p w1 p1 ∧ (step w1 p1).1 = 0 ∧
          cur (step w1 p1).2.2 = NUL ∧ (step w1 p1).2.1 = w' := by
  intro n
  induction n using Nat.strong_induction_on with
  | _ n ih =>
    intro w p w' hn h
    rw [list_loop_run step hlen w p] at h
    split at h
    · rename_i hneg
      simp only [Option.some.injEq, Prod.mk.injEq] at h
      omega
    · rename_i hneg
      have h0 : (step w p).1 = 0 := by have := hle w p; omega
      split at h
      · rename_i hc
        have ht := length_tail_lt_of_cur _ p hc (hlen w p)
        obtain ⟨w1, p1, ha, h1, h2, h3⟩ :=
          ih (step w p).2.2.tail.length (by omega) _ _ w' rfl h
        exact ⟨w1, p1, Applied.next w p w1 p1 h0 hc ha, h1, h2, h3⟩
      · simp only [Option.some.injEq, Prod.mk.injEq] at h
        refine ⟨w, p, Applied.none w p, h0, ?_, h.2⟩
        by_contra hnul
        rw [if_pos hnul] at h
        exact absurd h.1 (by decide)

theorem list_loop_zero_iff {W : Type} (step : W → List Char → Int × W × List Char)
    (hlen : ∀ w p, (step w p).2.2.length ≤ p.length) (hle : ∀ w p, (step w p).1 ≤ 0)
    (w : W) (p : List Char) (w' : W) :
    list_loop step (p.length + 1) w p = some (0, w') ↔
      ∃ w1 p1, Applied step w p w1 p1 ∧ (step w1 p1).1 = 0 ∧
        cur (step w1 p1).2.2 = NUL ∧ (step w1 p1).2.1 = w' := by
  constructor
  · exact applied_of_list_loop_zero step hlen hle p.length w p w' rfl
  · rintro ⟨w1, p1, ha, h0, hc, hw⟩
    rw [← hw]
    exact list_loop_zero_of_applied step hlen w p w1 p1 ha h0 hc

theorem list_loop_failure {W : Type} (step : W → List Char → Int × W × List Char)
    (hlen : ∀ w p, (step w p).2.2.length ≤ p.length) (w : W) (p : List Char) (w1 : W)
    (p1 : List Char) (h : Applied step w p w1 p1) (hneg : (step w1 p1).1 < 0) :
    list_loop step (p.length + 1) w p = some ((step w1 p1).1, (step w1 p1).2.1) := by
  rw [list_loop_applied step hlen w p w1 p1 h, list_loop_run step hlen w1 p1, if_pos hneg]

theorem list_loop_trailing {W : Type} (step : W → List Char → Int × W × List Char)
    (hlen : ∀ w p, (step w p).2.2.length ≤ p.length) (w : W) (p : List Char) (w1 : W)
    (p1 : List Char) (h : Applied step w p w1 p1) (h0 : (step w1 p1).1 = 0)
    (hc : cur (step w1 p1).2.2 ≠ ',') (hn : cur (step w1 p1).2.2 ≠ NUL) :
    list_loop step (p.length + 1) w p = some (-EINVAL, (step w1 p1).2.1) := by
  rw [list_loop_applied step hlen w p w1 p1 h, list_loop_run step hlen w1 p1,
    if_neg (by omega), if_neg hc, if_pos hn]

/-! ## The steps of `setup_format` -/

theorem setup_format_eq (sd : SubDevice) (w : FWorld) (p : List Char) :
    setup_format sd w p =
      match parse_pad_format w.media { width := 0, height := 0, code := 0 }
          { left := -1, top := -1, width := -1, height := -1 }
          { numerator := 0, denominator := 0 } p with
      | none => (-EINVAL, w, p)
      | some pf =>
        if (format_steps sd w pf).1 < 0 then
          ((format_steps sd w pf).1, (format_steps sd w pf).2.1, p)
        else
          (0, propagate_formats sd w pf.pad (format_steps sd w pf).2.2
            (format_steps sd w pf).2.1, pf.endp) := by
  unfold setup_format
  cases parse_pad_format w.media { width := 0, height := 0, code := 0 }
      { left := -1, top := -1, width := -1, height := -1 }
      { numerator := 0, denominator := 0 } p with
  | none => rfl
  | some pf =>
    simp only [format_steps, propagate_formats]
    generalize (if (padAt w.media pf.pad).flags &&& MEDIA_PAD_FL_SOURCE ≠ 0 then
      set_crop sd w pf.pad pf.crop else (0, w, pf.crop)) = c1
    by_cases h1 : c1.1 < 0
    · simp only [h1, if_true]
    · simp only [h1, if_false]
      generalize set_format sd c1.2.1 pf.pad pf.format = f
      by_cases h2 : f.1 < 0
      · simp only [h2, if_true]
      · simp only [h2, if_false]
        generalize (if (padAt w.media pf.pad).flags &&& MEDIA_PAD_FL_SINK ≠ 0 then
          set_crop sd f.2.1 pf.pad c1.2.2 else (0, f.2.1, c1.2.2)) = c2
        by_cases h3 : c2.1 < 0
        · simp only [h3, if_true]
        · simp only [h3, if_false]
          generalize set_frame_interval sd c2.2.1 (padAt w.media pf.pad).entity
            pf.interval = i
          by_cases h4 : i.1 < 0
          · simp only [h4, if_true]
          · simp only [h4, if_false, lt_self_iff_false]

/-! ## The calls of the format setup -/

theorem callsExtend_refl (w : FWorld) (P : subdev_request → Prop) : CallsExtend w w P :=
  ⟨[], (List.append_nil _).symm, fun _ h => absurd h (List.not_mem_nil _)⟩

theorem callsExtend_trans {w w1 w2 : FWorld} {P : subdev_request → Prop}
    (h1 : CallsExtend w w1 P) (h2 : CallsExtend w1 w2 P) : CallsExtend w w2 P := by
  obtain ⟨cs1, e1, p1⟩ := h1
  obtain ⟨cs2, e2, p2⟩ := h2
  refine ⟨cs1 ++ cs2, by rw [e2, e1, List.append_assoc], ?_⟩
  intro c hc
  rcases List.mem_append.mp hc with h | h
  · exact p1 c h
  · exact p2 c h

theorem callsExtend_mono {w w1 : FWorld} {P Q : subdev_request → Prop}
    (h : CallsExtend w w1 P) (hpq : ∀ c, P c → Q c) : CallsExtend w w1 Q := by
  obtain ⟨cs, e, p⟩ := h
  exact ⟨cs, e, fun c hc => hpq c (p c hc)⟩

theorem sameButFd_refl (m : media_device) : SameButFd m m := rfl

theorem sameButFd_trans {m m1 m2 : media_device} (h1 : SameButFd m m1)
    (h2 : SameButFd m1 m2) : SameButFd m m2 := h2.trans h1

theorem sameButFd_set_fd (m : media_device) (e : Nat) (fd : Int) :
    SameButFd m (modifyEntity m e (fun x => { x with fd := fd })) :=
  map_set_same without_fd default m.entities e _ rfl

theorem SameButFd.entityAt_eq {m m1 : media_device} (h : SameButFd m m1) (e : Nat) :
    without_fd (entityAt m1 e) = without_fd (entityAt m e) := by
  have h1 := congrArg (fun l => l[e]?) h
  simp only [List.getElem?_map] at h1
  unfold entityAt
  cases h2 : m1.entities[e]? with
  | none =>
    cases h3 : m.entities[e]? with
    | none => rfl
    | some b => rw [h2, h3] at h1; simp at h1
  | some a =>
    cases h3 : m.entities[e]? with
    | none => rw [h2, h3] at h1; simp at h1
    | some b =>
      rw [h2, h3] at h1
      simpa using h1

theorem SameButFd.pads_eq {m m1 : media_device} (h : SameButFd m m1) (e : Nat) :
    (entityAt m1 e).pads = (entityAt m e).pads := by
  have h1 := congrArg media_entity.pads (h.entityAt_eq e)
  exact h1

theorem SameButFd.info_eq {m m1 : media_device} (h : SameButFd m m1) (e : Nat) :
    (entityAt m1 e).info = (entityAt m e).info := by
  have h1 := congrArg media_entity.info (h.entityAt_eq e)
  exact h1

theorem SameButFd.links_eq {m m1 : media_device} (h : SameButFd m m1) (e : Nat) :
    (entityAt m1 e).links = (entityAt m e).links := by
  have h1 := congrArg media_entity.links (h.entityAt_eq e)
  exact h1

theorem SameButFd.padAt_same {m m1 : media_device} (h : SameButFd m m1) (r : PadRef) :
    padAt m1 r = padAt m r := by
  unfold MediaCtl.padAt
  rw [h.pads_eq]

theorem v4l2_subdev_open_spec (sd : SubDevice) (w : FWorld) (entity : Nat) :
    (v4l2_subdev_open sd w entity).1 ≤ 0 ∧
    SameButFd w.media (v4l2_subdev_open sd w entity).2.media ∧
    CallsExtend w (v4l2_subdev_open sd w entity).2
      (fun c => c = subdev_request.open_node entity) := by
  unfold v4l2_subdev_open
  split
  · exact ⟨Int.le_refl 0, sameButFd_refl _, callsExtend_refl _ _⟩
  · split
    · refine ⟨by omega, sameButFd_refl _, ⟨[_], rfl, ?_⟩⟩
      intro c hc
      simpa using hc
    · refine ⟨Int.le_refl 0, sameButFd_set_fd _ _ _, ⟨[_], rfl, ?_⟩⟩
      intro c hc
      simpa using hc

theorem v4l2_subdev_set_format_spec (sd : SubDevice) (w : FWorld) (entity : Nat)
    (format : v4l2_mbus_framefmt) (pad : Nat) :
    (v4l2_subdev_set_format sd w entity format pad).1 ≤ 0 ∧
    SameButFd w.media (v4l2_subdev_set_format sd w entity format pad).2.1.media ∧
    CallsExtend w (v4l2_subdev_set_format sd w entity format pad).2.1
      (fun c => c = subdev_request.open_node entity ∨
        c = subdev_request.s_fmt entity pad format) := by
  obtain ⟨h1, h2, h3⟩ := v4l2_subdev_open_spec sd w entity
  unfold v4l2_subdev_set_format
  simp only []
  split
  · exact ⟨h1, h2, callsExtend_mono h3 (fun c h => Or.inl h)⟩
  · have hx : CallsExtend w
        { media := (v4l2_subdev_open sd w entity).2.media,
          calls := (v4l2_subdev_open sd w entity).2.calls ++
            [subdev_request.s_fmt entity pad format] }
        (fun c => c = subdev_request.open_node entity ∨
          c = subdev_request.s_fmt entity pad format) := by
      obtain ⟨cs, e, p⟩ := h3
      refine ⟨cs ++ [subdev_request.s_fmt entity pad format], by simp only [e, List.append_assoc], ?_⟩
      intro c hc
      rcases List.mem_append.mp hc with h | h
      · exact Or.inl (p c h)
      · exact Or.inr (by simpa using h)
    split
    · exact ⟨by omega, h2, hx⟩
    · exact ⟨Int.le_refl 0, h2, hx⟩

theorem v4l2_subdev_set_crop_spec (sd : SubDevice) (w : FWorld) (entity : Nat)
    (rect : v4l2_rect) (pad : Nat) :
    (v4l2_subdev_set_crop sd w entity rect pad).1 ≤ 0 ∧
    SameButFd w.media (v4l2_subdev_set_crop sd w entity rect pad).2.1.media ∧
    CallsExtend w (v4l2_subdev_set_crop sd w entity rect pad).2.1
      (fun c => c = subdev_request.open_node entity ∨
        c = subdev_request.s_crop entity pad rect) := by
  obtain ⟨h1, h2, h3⟩ := v4l2_subdev_open_spec sd w entity
  unfold v4l2_subdev_set_crop
  simp only []
  split
  · exact ⟨h1, h2, callsExtend_mono h3 (fun c h => Or.inl h)⟩
  · have hx : CallsExtend w
        { media := (v4l2_subdev_open sd w entity).2.media,
          calls := (v4l2_subdev_open sd w entity).2.calls ++
            [subdev_request.s_crop entity pad rect] }
        (fun c => c = subdev_request.open_node entity ∨
          c = subdev_request.s_crop entity pad rect) := by
      obtain ⟨cs, e, p⟩ := h3
      refine ⟨cs ++ [subdev_request.s_crop entity pad rect], by simp only [e, List.append_assoc], ?_⟩
      intro c hc
      rcases List.mem_append.mp hc with h | h
      · exact Or.inl (p c h)
      · exact Or.inr (by simpa using h)
    split
    · exact ⟨by omega, h2, hx⟩
    · exact ⟨Int.le_refl 0, h2, hx⟩

theorem v4l2_subdev_set_frame_interval_spec (sd : SubDevice) (w : FWorld) (entity : Nat)
    (interval : v4l2_fract) :
    (v4l2_subdev_set_frame_interval sd w entity interval).1 ≤ 0 ∧
    SameButFd w.media (v4l2_subdev_set_frame_interval sd w entity interval).2.1.media ∧
    CallsExtend w (v4l2_subdev_set_frame_interval sd w entity interval).2.1
      (fun c => c = subdev_request.open_node entity ∨
        c = subdev_request.s_frame_interval entity interval) := by
  obtain ⟨h1, h2, h3⟩ := v4l2_subdev_open_spec sd w entity
  unfold v4l2_subdev_set_frame_interval
  simp only []
  split
  · exact ⟨h1, h2, callsExtend_mono h3 (fun c h => Or.inl h)⟩
  · have hx : CallsExtend w
        { media := (v4l2_subdev_open sd w entity).2.media,
          calls := (v4l2_subdev_open sd w entity).2.calls ++
            [subdev_request.s_frame_interval entity interval] }
        (fun c => c = subdev_request.open_node entity ∨
          c = subdev_request.s_frame_interval entity interval) := by
      obtain ⟨cs, e, p⟩ := h3
      refine ⟨cs ++ [subdev_request.s_frame_interval entity interval], by simp only [e, List.append_assoc], ?_⟩
      intro c hc
      rcases List.mem_append.mp hc with h | h
      · exact Or.inl (p c h)
      · exact Or.inr (by simpa using h)
    split
    · exact ⟨by omega, h2, hx⟩
    · exact ⟨Int.le_refl 0, h2, hx⟩

theorem set_format_unset (sd : SubDevice) (w : FWorld) (pad : PadRef)
    (format : v4l2_mbus_framefmt) (h : format.width = 0 ∨ format.height = 0) :
    set_format sd w pad format = (0, w, format) := by
  unfold set_format
  rw [if_pos h]

theorem set_crop_unset (sd : SubDevice) (w : FWorld) (pad : PadRef) (crop : v4l2_rect)
    (h : crop.left = -1 ∨ crop.top = -1) : set_crop sd w pad crop = (0, w, crop) := by
  unfold set_crop
  rw [if_pos h]

theorem set_frame_interval_unset (sd : SubDevice) (w : FWorld) (entity : Nat)
    (interval : v4l2_fract) (h : interval.numerator = 0) :
    set_frame_interval sd w entity interval = (0, w, interval) := by
  unfold set_frame_interval
  rw [if_pos h]

theorem set_format_set (sd : SubDevice) (w : FWorld) (pad : PadRef)
    (format : v4l2_mbus_framefmt) (h : ¬ (format.width = 0 ∨ format.height = 0)) :
    set_format sd w pad format =
      ((v4l2_subdev_set_format sd w (padAt w.media pad).entity format
          (padAt w.media pad).index).1,
       (v4l2_subdev_set_format sd w (padAt w.media pad).entity format
          (padAt w.media pad).index).2) := by
  have hle := (v4l2_subdev_set_format_spec sd w (padAt w.media pad).entity format
    (padAt w.media pad).index).1
  unfold set_format
  rw [if_neg h]
  simp only []
  split
  · rfl
  · rename_i hneg
    have : (v4l2_subdev_set_format sd w (padAt w.media pad).entity format
      (padAt w.media pad).index).1 = 0 := by omega
    rw [this]

theorem set_crop_set (sd : SubDevice) (w : FWorld) (pad : PadRef) (crop : v4l2_rect)
    (h : ¬ (crop.left = -1 ∨ crop.top = -1)) :
    set_crop sd w pad crop =
      ((v4l2_subdev_set_crop sd w (padAt w.media pad).entity crop
          (padAt w.media pad).index).1,
       (v4l2_subdev_set_crop sd w (padAt w.media pad).entity crop
          (padAt w.media pad).index).2) := by
  have hle := (v4l2_subdev_set_crop_spec sd w (padAt w.media pad).entity crop
    (padAt w.media pad).index).1
  unfold set_crop
  rw [if_neg h]
  simp only []
  split
  · rfl
  · rename_i hneg
    have : (v4l2_subdev_set_crop sd w (padAt w.media pad).entity crop
      (padAt w.media pad).index).1 = 0 := by omega
    rw [this]

theorem set_frame_interval_set (sd : SubDevice) (w : FWorld) (entity : Nat)
    (interval : v4l2_fract) (h : ¬ interval.numerator = 0) :
    set_frame_interval sd w entity interval =
      ((v4l2_subdev_set_frame_interval sd w entity interval).1,
       (v4l2_subdev_set_frame_interval sd w entity interval).2) := by
  have hle := (v4l2_subdev_set_frame_interval_spec sd w entity interval).1
  unfold set_frame_interval
  rw [if_neg h]
  simp only []
  split
  · rfl
  · rename_i hneg
    have : (v4l2_subdev_set_frame_interval sd w entity interval).1 = 0 := by omega
    rw [this]

theorem set_format_spec (sd : SubDevice) (w : FWorld) (pad : PadRef)
    (format : v4l2_mbus_framefmt) :
    (set_format sd w pad format).1 ≤ 0 ∧
    SameButFd w.media (set_format sd w pad format).2.1.media ∧
    CallsExtend w (set_format sd w pad format).2.1
      (fun c => (format.width ≠ 0 ∧ format.height ≠ 0) ∧
        (c = subdev_request.open_node (padAt w.media pad).entity ∨
          c = subdev_request.s_fmt (padAt w.media pad).entity (padAt w.media pad).index
            format)) := by
  by_cases h : format.width = 0 ∨ format.height = 0
  · rw [set_format_unset sd w pad format h]
    exact ⟨Int.le_refl 0, sameButFd_refl _, callsExtend_refl _ _⟩
  · rw [set_format_set sd w pad format h]
    obtain ⟨h1, h2, h3⟩ := v4l2_subdev_set_format_spec sd w (padAt w.media pad).entity format
      (padAt w.media pad).index
    exact ⟨h1, h2, callsExtend_mono h3 (fun c hc => ⟨not_or.mp h, hc⟩)⟩

theorem set_crop_spec (sd : SubDevice) (w : FWorld) (pad : PadRef) (crop : v4l2_rect) :
    (set_crop sd w pad crop).1 ≤ 0 ∧
    SameButFd w.media (set_crop sd w pad crop).2.1.media ∧
    CallsExtend w (set_crop sd w pad crop).2.1
      (fun c => (crop.left ≠ -1 ∧ crop.top ≠ -1) ∧
        (c = subdev_request.open_node (padAt w.media pad).entity ∨
          c = subdev_request.s_crop (padAt w.media pad).entity (padAt w.media pad).index
            crop)) := by
  by_cases h : crop.left = -1 ∨ crop.top = -1
  · rw [set_crop_unset sd w pad crop h]
    exact ⟨Int.le_refl 0, sameButFd_refl _, callsExtend_refl _ _⟩
  · rw [set_crop_set sd w pad crop h]
    obtain ⟨h1, h2, h3⟩ := v4l2_subdev_set_crop_spec sd w (padAt w.media pad).entity crop
      (padAt w.media pad).index
    exact ⟨h1, h2, callsExtend_mono h3 (fun c hc => ⟨not_or.mp h, hc⟩)⟩

theorem set_frame_interval_spec (sd : SubDevice) (w : FWorld) (entity : Nat)
    (interval : v4l2_fract) :
    (set_frame_interval sd w entity interval).1 ≤ 0 ∧
    SameButFd w.media (set_frame_interval sd w entity interval).2.1.media ∧
    CallsExtend w (set_frame_interval sd w entity interval).2.1
      (fun c => interval.numerator ≠ 0 ∧
        (c = subdev_request.open_node entity ∨
          c = subdev_request.s_frame_interval entity interval)) := by
  by_cases h : interval.numerator = 0
  · rw [set_frame_interval_unset sd w entity interval h]
    exact ⟨Int.le_refl 0, sameButFd_refl _, callsExtend_refl _ _⟩
  · rw [set_frame_interval_set sd w entity interval h]
    obtain ⟨h1, h2, h3⟩ := v4l2_subdev_set_frame_interval_spec sd w entity interval
    exact ⟨h1, h2, callsExtend_mono h3 (fun c hc => ⟨h, hc⟩)⟩

/-- What `set_crop` leaves in `*crop` when the rectangle it was given is unset:
the same rectangle. -/
theorem set_crop_keeps_unset (sd : SubDevice) (w : FWorld) (pad : PadRef) (crop : v4l2_rect)
    (h : crop.left = -1 ∨ crop.top = -1) : (set_crop sd w pad crop).2.2 = crop := by
  rw [set_crop_unset sd w pad crop h]

theorem propagate_format_eq (sd : SubDevice) (w0 : FWorld) (pad : PadRef)
    (format : v4l2_mbus_framefmt) (w : FWorld) (link : media_link)
    (hs : SameButFd w0.media w.media) :
    propagate_format sd pad format w link =
      if Eligible w0 pad link then (set_format sd w link.sink format).2.1 else w := by
  unfold propagate_format Eligible
  rw [hs.padAt_same, hs.info_eq]
  by_cases h1 : link.flags &&& MEDIA_LNK_FL_ENABLED = 0
  · rw [if_pos h1, if_neg (fun h => h.1 h1)]
  · rw [if_neg h1]
    by_cases h2 : link.source = pad ∧
        (entityAt w0.media (padAt w0.media link.sink).entity).info.type =
          MEDIA_ENT_T_V4L2_SUBDEV
    · rw [if_pos h2, if_pos ⟨h1, h2⟩]
    · rw [if_neg h2, if_neg (fun h => h2 h.2)]

theorem propagate_fold_spec (sd : SubDevice) (w0 : FWorld) (pad : PadRef)
    (format : v4l2_mbus_framefmt) (links : List media_link)
    (hl : ∀ l ∈ links, l ∈ (entityAt w0.media (padAt w0.media pad).entity).links) :
    ∀ w, SameButFd w0.media w.media →
      SameButFd w0.media (links.foldl (propagate_format sd pad format) w).media ∧
      CallsExtend w (links.foldl (propagate_format sd pad format) w)
        (PropagatedCall w0 pad format) := by
  induction links with
  | nil => intro w hs; exact ⟨hs, callsExtend_refl _ _⟩
  | cons l links ih =>
    intro w hs
    rw [List.foldl_cons]
    have hstep : SameButFd w0.media (propagate_format sd pad format w l).media ∧
        CallsExtend w (propagate_format sd pad format w l) (PropagatedCall w0 pad format) := by
      rw [propagate_format_eq sd w0 pad format w l hs]
      by_cases he : Eligible w0 pad l
      · rw [if_pos he]
        obtain ⟨-, h2, h3⟩ := set_format_spec sd w l.sink format
        refine ⟨sameButFd_trans hs h2, callsExtend_mono h3 ?_⟩
        rintro c ⟨hset, hc⟩
        refine ⟨hset, ?_⟩
        rcases hc with hc | hc
        · exact Or.inl ⟨_, hc⟩
        · refine Or.inr ⟨l, hl l (List.mem_cons_self l links), he, ?_⟩
          rw [hc, hs.padAt_same]
      · rw [if_neg he]
        exact ⟨hs, callsExtend_refl _ _⟩
    obtain ⟨h1, h2⟩ := ih (fun x hx => hl x (List.mem_cons_of_mem l hx)) _ hstep.1
    exact ⟨h1, callsExtend_trans hstep.2 h2⟩

theorem propagate_formats_spec (sd : SubDevice) (w0 : FWorld) (pad : PadRef)
    (format : v4l2_mbus_framefmt) (w : FWorld) (hs : SameButFd w0.media w.media) :
    SameButFd w0.media (propagate_formats sd w0 pad format w).media ∧
    CallsExtend w (propagate_formats sd w0 pad format w) (PropagatedCall w0 pad format) := by
  unfold propagate_formats
  split
  · exact propagate_fold_spec sd w0 pad format _ (fun _ h => h) w hs
  · exact ⟨hs, callsExtend_refl _ _⟩

theorem propagate_formats_unset (sd : SubDevice) (w0 : FWorld) (pad : PadRef)
    (format : v4l2_mbus_framefmt) (w : FWorld) (hs : SameButFd w0.media w.media)
    (h : format.width = 0 ∨ format.height = 0) :
    (propagate_formats sd w0 pad format w).calls = w.calls := by
  obtain ⟨cs, e, p⟩ := (propagate_formats_spec sd w0 pad format w hs).2
  cases cs with
  | nil => rw [e, List.append_nil]
  | cons c cs =>
    have := (p c (List.mem_cons_self c cs)).1
    rcases h with h | h
    · exact absurd h this.1
    · exact absurd h this.2

theorem format_steps_spec (sd : SubDevice) (w : FWorld) (pf : pad_format) :
    (format_steps sd w pf).1 ≤ 0 ∧
    SameButFd w.media (format_steps sd w pf).2.1.media ∧
    CallsExtend w (format_steps sd w pf).2.1 (StepCall w pf) ∧
    (pf.format.width = 0 ∨ pf.format.height = 0 → (format_steps sd w pf).2.2 = pf.format) := by
  have hc1 : ∀ c1 : Int × FWorld × v4l2_rect,
      c1 = (if (padAt w.media pf.pad).flags &&& MEDIA_PAD_FL_SOURCE ≠ 0 then
        set_crop sd w pf.pad pf.crop else (0, w, pf.crop)) →
      c1.1 ≤ 0 ∧ SameButFd w.media c1.2.1.media ∧ CallsExtend w c1.2.1 (StepCall w pf) ∧
        (pf.crop.left = -1 ∨ pf.crop.top = -1 → c1.2.2 = pf.crop) := by
    intro c1 h
    subst h
    split
    · obtain ⟨h1, h2, h3⟩ := set_crop_spec sd w pf.pad pf.crop
      refine ⟨h1, h2, callsExtend_mono h3 ?_, set_crop_keeps_unset sd w pf.pad pf.crop⟩
      rintro c ⟨hset, hc | hc⟩
      · exact Or.inl ⟨_, hc⟩
      · exact Or.inr (Or.inl ⟨hset, _, hc⟩)
    · exact ⟨Int.le_refl 0, sameButFd_refl _, callsExtend_refl _ _, fun _ => rfl⟩
  unfold format_steps
  simp only []
  generalize hg1 : (if (padAt w.media pf.pad).flags &&& MEDIA_PAD_FL_SOURCE ≠ 0 then
    set_crop sd w pf.pad pf.crop else (0, w, pf.crop)) = c1
  obtain ⟨a1, a2, a3, a4⟩ := hc1 c1 hg1.symm
  by_cases h1 : c1.1 < 0
  · rw [if_pos h1]
    exact ⟨a1, a2, a3, fun _ => rfl⟩
  · rw [if_neg h1]
    obtain ⟨b1, b2, b3⟩ := set_format_spec sd c1.2.1 pf.pad pf.format
    have b3' : CallsExtend c1.2.1 (set_format sd c1.2.1 pf.pad pf.format).2.1
        (StepCall w pf) := by
      refine callsExtend_mono b3 ?_
      rintro c ⟨hset, hc | hc⟩
      · exact Or.inl ⟨_, hc⟩
      · rw [a2.padAt_same] at hc
        exact Or.inr (Or.inr (Or.inl ⟨hset, hc⟩))
    have b4 : pf.format.width = 0 ∨ pf.format.height = 0 →
        (set_format sd c1.2.1 pf.pad pf.format).2.2 = pf.format := by
      intro h
      rw [set_format_unset sd c1.2.1 pf.pad pf.format h]
    generalize set_format sd c1.2.1 pf.pad pf.format = f at b1 b2 b3 b3' b4 ⊢
    have a2f := sameButFd_trans a2 b2
    have a3f := callsExtend_trans a3 b3'
    by_cases h2 : f.1 < 0
    · rw [if_pos h2]
      exact ⟨b1, a2f, a3f, b4⟩
    · rw [if_neg h2]
      have hc2 : ∀ c2 : Int × FWorld × v4l2_rect,
          c2 = (if (padAt w.media pf.pad).flags &&& MEDIA_PAD_FL_SINK ≠ 0 then
            set_crop sd f.2.1 pf.pad c1.2.2 else (0, f.2.1, c1.2.2)) →
          c2.1 ≤ 0 ∧ SameButFd w.media c2.2.1.media ∧
            CallsExtend w c2.2.1 (StepCall w pf) := by
        intro c2 h
        subst h
        split
        · obtain ⟨d1, d2, d3⟩ := set_crop_spec sd f.2.1 pf.pad c1.2.2
          refine ⟨d1, sameButFd_trans a2f d2, callsExtend_trans a3f
            (callsExtend_mono d3 ?_)⟩
          rintro c ⟨hset, hc | hc⟩
          · exact Or.inl ⟨_, hc⟩
          · rw [a2f.padAt_same] at hc
            refine Or.inr (Or.inl ⟨?_, _, hc⟩)
            by_contra hn
            have hu : pf.crop.left = -1 ∨ pf.crop.top = -1 := by
              by_contra hn2
              exact hn ⟨fun h => hn2 (Or.inl h), fun h => hn2 (Or.inr h)⟩
            rw [a4 hu] at hset
            rcases hu with hu | hu
            · exact hset.1 hu
            · exact hset.2 hu
        · exact ⟨Int.le_refl 0, a2f, a3f⟩
      generalize hg2 : (if (padAt w.media pf.pad).flags &&& MEDIA_PAD_FL_SINK ≠ 0 then
        set_crop sd f.2.1 pf.pad c1.2.2 else (0, f.2.1, c1.2.2)) = c2
      obtain ⟨e1, e2, e3⟩ := hc2 c2 hg2.symm
      by_cases h3 : c2.1 < 0
      · rw [if_pos h3]
        exact ⟨e1, e2, e3, b4⟩
      · rw [if_neg h3]
        obtain ⟨i1, i2, i3⟩ := set_frame_interval_spec sd c2.2.1
          (padAt w.media pf.pad).entity pf.interval
        have i3' : CallsExtend w
            (set_frame_interval sd c2.2.1 (padAt w.media pf.pad).entity pf.interval).2.1
            (StepCall w pf) := by
          refine callsExtend_trans e3 (callsExtend_mono i3 ?_)
          rintro c ⟨hset, hc | hc⟩
          · exact Or.inl ⟨_, hc⟩
          · exact Or.inr (Or.inr (Or.inr ⟨hset, hc⟩))
        have i2' := sameButFd_trans e2 i2
        generalize set_frame_interval sd c2.2.1 (padAt w.media pf.pad).entity
          pf.interval = i at i1 i2 i3 i3' i2' ⊢
        by_cases h4 : i.1 < 0
        · rw [if_pos h4]
          exact ⟨i1, i2', i3', b4⟩
        · rw [if_neg h4]
          exact ⟨Int.le_refl 0, i2', i3', b4⟩

/-! ## C21, C22: the lists of links and of formats -/

theorem media_setup_link_spec (dev : Device) (w : World) (source sink : PadRef)
    (flags : Nat) :
    (media_setup_link dev w source sink flags).1 ≤ 0 ∧
    (∃ cs, cs.length ≤ 1 ∧ (media_setup_link dev w source sink flags).2.trace = w.trace ++ cs) ∧
    ((media_setup_link dev w source sink flags).1 < 0 →
      (media_setup_link dev w source sink flags).2.media = w.media) := by
  by_cases h : find_link_index w.media source sink =
      (entityAt w.media (padAt w.media source).entity).num_links
  · rw [media_setup_link_not_found dev w source sink flags h]
    exact ⟨(by decide : (-EINVAL : Int) ≤ 0), ⟨[], by simp, by simp⟩, fun _ => rfl⟩
  · by_cases hd : (dev w.trace (setup_link_request w.media source sink flags)).ret < 0
    · rw [media_setup_link_failure dev w source sink flags h hd]
      exact ⟨by omega, ⟨[_], by simp, rfl⟩, fun _ => rfl⟩
    · rw [media_setup_link_success dev w source sink flags h hd]
      exact ⟨Int.le_refl 0, ⟨[_], by simp, rfl⟩, fun h0 => absurd h0 (by decide : ¬ ((0 : Int) < 0))⟩

theorem setup_link_spec (dev : Device) (w : World) (p : List Char) :
    (setup_link dev w p).1 ≤ 0 ∧
    (∃ cs, cs.length ≤ 1 ∧ (setup_link dev w p).2.1.trace = w.trace ++ cs) ∧
    ((setup_link dev w p).1 < 0 → (setup_link dev w p).2.1.media = w.media) := by
  have hnone : ((-EINVAL : Int) ≤ 0) ∧ (∃ cs : List media_link_desc, cs.length ≤ 1 ∧
      w.trace = w.trace ++ cs) ∧ ((-EINVAL : Int) < 0 → w.media = w.media) :=
    ⟨by decide, ⟨[], by simp, by simp⟩, fun _ => rfl⟩
  unfold setup_link
  split
  · exact hnone
  · split
    · exact hnone
    · simp only []
      split
      · exact hnone
      · exact media_setup_link_spec dev w _ _ _

theorem applied_links_trace (dev : Device) (w : World) (p : List Char) (w1 : World)
    (p1 : List Char) (h : Applied (setup_link dev) w p w1 p1) :
    ∃ cs, w1.trace = w.trace ++ cs := by
  induction h with
  | none w p => exact ⟨[], by simp⟩
  | next w p w1 p1 _ _ _ ih =>
    obtain ⟨cs, -, e⟩ := (setup_link_spec dev w p).2.1
    obtain ⟨cs2, e2⟩ := ih
    exact ⟨cs ++ cs2, by rw [e2, e, List.append_assoc]⟩

theorem setup_format_spec (sd : SubDevice) (w : FWorld) (p : List Char) :
    (setup_format sd w p).1 ≤ 0 ∧
    SameButFd w.media (setup_format sd w p).2.1.media ∧
    ∃ cs, (setup_format sd w p).2.1.calls = w.calls ++ cs := by
  rw [setup_format_eq]
  split
  · exact ⟨(by decide : (-EINVAL : Int) ≤ 0), sameButFd_refl _, [], by simp⟩
  · rename_i pf _
    obtain ⟨h1, h2, ⟨cs, e, -⟩, -⟩ := format_steps_spec sd w pf
    split
    · exact ⟨h1, h2, cs, e⟩
    · obtain ⟨g1, ⟨cs2, e2, -⟩⟩ := propagate_formats_spec sd w pf.pad
        (format_steps sd w pf).2.2 (format_steps sd w pf).2.1 h2
      exact ⟨Int.le_refl 0, g1, cs ++ cs2, by rw [e2, e, List.append_assoc]⟩

theorem applied_formats_calls (sd : SubDevice) (w : FWorld) (p : List Char) (w1 : FWorld)
    (p1 : List Char) (h : Applied (setup_format sd) w p w1 p1) :
    SameButFd w.media w1.media ∧ ∃ cs, w1.calls = w.calls ++ cs := by
  induction h with
  | none w p => exact ⟨sameButFd_refl _, [], by simp⟩
  | next w p w1 p1 _ _ _ ih =>
    obtain ⟨-, hs, cs, e⟩ := setup_format_spec sd w p
    obtain ⟨hs2, cs2, e2⟩ := ih
    exact ⟨sameButFd_trans hs hs2, cs ++ cs2, by rw [e2, e, List.append_assoc]⟩

theorem setup_links_eq_list_loop (dev : Device) (w : World) (p : List Char) :
    setup_links dev w p = list_loop (setup_link dev) (p.length + 1) w p :=
  setup_links_loop_eq dev _ w p

theorem setup_formats_eq_list_loop (sd : SubDevice) (w : FWorld) (p : List Char) :
    setup_formats sd w p = list_loop (setup_format sd) (p.length + 1) w p :=
  setup_formats_loop_eq sd _ w p

/-- C21: `setup_links` and `setup_formats` return on every text. `setup_links`
returns 0 if and only if the text is a sequence of descriptors on each of which
`setup_link` returns 0, each but the last ending on a comma after which the next
begins, and the last ending at the end of the text; likewise `setup_formats`
with `setup_format`. When `setup_link` (`setup_format`) returns 0 on the last
descriptor and stops on a character that is neither a comma nor the end of the
text, the call returns `-EINVAL`. -/
theorem C21_list_returns_zero_iff (dev : Device) (sd : SubDevice) (w : World) (fw : FWorld)
    (p : List Char) :
    (∃ r, setup_links dev w p = some r) ∧
    (∃ r, setup_formats sd fw p = some r) ∧
    (∀ w2, setup_links dev w p = some (0, w2) ↔
      ∃ w1 p1, Applied (setup_link dev) w p w1 p1 ∧ (setup_link dev w1 p1).1 = 0 ∧
        cur (setup_link dev w1 p1).2.2 = NUL ∧ (setup_link dev w1 p1).2.1 = w2) ∧
    (∀ fw2, setup_formats sd fw p = some (0, fw2) ↔
      ∃ fw1 p1, Applied (setup_format sd) fw p fw1 p1 ∧ (setup_format sd fw1 p1).1 = 0 ∧
        cur (setup_format sd fw1 p1).2.2 = NUL ∧ (setup_format sd fw1 p1).2.1 = fw2) ∧
    (∀ w1 p1, Applied (setup_link dev) w p w1 p1 → (setup_link dev w1 p1).1 = 0 →
      cur (setup_link dev w1 p1).2.2 ≠ ',' → cur (setup_link dev w1 p1).2.2 ≠ NUL →
      setup_links dev w p = some (-EINVAL, (setup_link dev w1 p1).2.1)) ∧
    (∀ fw1 p1, Applied (setup_format sd) fw p fw1 p1 → (setup_format sd fw1 p1).1 = 0 →
      cur (setup_format sd fw1 p1).2.2 ≠ ',' → cur (setup_format sd fw1 p1).2.2 ≠ NUL →
      setup_formats sd fw p = some (-EINVAL, (setup_format sd fw1 p1).2.1)) := by
  have hl := setup_link_length_le dev
  have hf := setup_format_length_le sd
  refine ⟨?_, ?_, ?_, ?_, ?_, ?_⟩
  · rw [setup_links_eq_list_loop]
    exact list_loop_some _ hl _ w p (Nat.lt_succ_self _)
  · rw [setup_formats_eq_list_loop]
    exact list_loop_some _ hf _ fw p (Nat.lt_succ_self _)
  · intro w2
    rw [setup_links_eq_list_loop]
    exact list_loop_zero_iff _ hl (fun a b => (setup_link_spec dev a b).1) w p w2
  · intro fw2
    rw [setup_formats_eq_list_loop]
    exact list_loop_zero_iff _ hf (fun a b => (setup_format_spec sd a b).1) fw p fw2
  · intro w1 p1 ha h0 hc hn
    rw [setup_links_eq_list_loop]
    exact list_loop_trailing _ hl w p w1 p1 ha h0 hc hn
  · intro fw1 p1 ha h0 hc hn
    rw [setup_formats_eq_list_loop]
    exact list_loop_trailing _ hf fw p fw1 p1 ha h0 hc hn

/-- C22: when `setup_link` has returned 0 on the elements of a list before the
text `p1`, leaving the world `w1`, and returns an error on `p1`, `setup_links`
returns that error with the world that this last call leaves: the requests of
the elements before are in its trace, followed by at most the one request of the
failing element, and the graph is the graph of `w1`. Likewise for
`setup_formats` and `setup_format`: the calls of the elements before are
followed by the calls of the failing element only. -/
theorem C22_first_failure_stops_list (dev : Device) (sd : SubDevice) (w : World)
    (fw : FWorld) (p : List Char) :
    (∀ w1 p1, Applied (setup_link dev) w p w1 p1 → (setup_link dev w1 p1).1 < 0 →
      setup_links dev w p = some ((setup_link dev w1 p1).1, (setup_link dev w1 p1).2.1) ∧
      (∃ cs, w1.trace = w.trace ++ cs) ∧
      (setup_link dev w1 p1).2.1.media = w1.media ∧
      (∃ cs, cs.length ≤ 1 ∧ (setup_link dev w1 p1).2.1.trace = w1.trace ++ cs)) ∧
    (∀ fw1 p1, Applied (setup_format sd) fw p fw1 p1 → (setup_format sd fw1 p1).1 < 0 →
      setup_formats sd fw p =
        some ((setup_format sd fw1 p1).1, (setup_format sd fw1 p1).2.1) ∧
      (∃ cs, fw1.calls = fw.calls ++ cs) ∧
      SameButFd fw1.media (setup_format sd fw1 p1).2.1.media ∧
      (∃ cs, (setup_format sd fw1 p1).2.1.calls = fw1.calls ++ cs)) := by
  constructor
  · intro w1 p1 ha hneg
    obtain ⟨-, ht, hm⟩ := setup_link_spec dev w1 p1
    refine ⟨?_, applied_links_trace dev w p w1 p1 ha, hm hneg, ht⟩
    rw [setup_links_eq_list_loop]
    exact list_loop_failure _ (setup_link_length_le dev) w p w1 p1 ha hneg
  · intro fw1 p1 ha hneg
    obtain ⟨-, hs, hc⟩ := setup_format_spec sd fw1 p1
    refine ⟨?_, (applied_formats_calls sd fw p fw1 p1 ha).2, hs, hc⟩
    rw [setup_formats_eq_list_loop]
    exact list_loop_failure _ (setup_format_length_le sd) fw p fw1 p1 ha hneg

/-! ## C25: the fields that a descriptor omits -/

theorem ioctl_calls_append (a b : List subdev_request) :
    ioctl_calls (a ++ b) = ioctl_calls a ++ ioctl_calls b :=
  List.filter_append a b

theorem propagate_fold_unset (sd : SubDevice) (pad : PadRef) (format : v4l2_mbus_framefmt)
    (h : format.width = 0 ∨ format.height = 0) (links : List media_link) (w : FWorld) :
    links.foldl (propagate_format sd pad format) w = w := by
  induction links with
  | nil => rfl
  | cons l links ih =>
    rw [List.foldl_cons]
    have : propagate_format sd pad format w l = w := by
      unfold propagate_format
      split
      · rfl
      · split
        · rw [set_format_unset sd w l.sink format h]
        · rfl
    rw [this, ih]

theorem propagate_formats_unset_eq (sd : SubDevice) (w0 : FWorld) (pad : PadRef)
    (format : v4l2_mbus_framefmt) (w : FWorld) (h : format.width = 0 ∨ format.height = 0) :
    propagate_formats sd w0 pad format w = w := by
  unfold propagate_formats
  split
  · exact propagate_fold_unset sd pad format h _ w
  · rfl

theorem format_steps_unset (sd : SubDevice) (w : FWorld) (pf : pad_format)
    (hf : pf.format.width = 0 ∨ pf.format.height = 0)
    (hc : pf.crop.left = -1 ∨ pf.crop.top = -1) (hi : pf.interval.numerator = 0) :
    format_steps sd w pf = (0, w, pf.format) := by
  unfold format_steps
  simp only [set_crop_unset sd w pf.pad pf.crop hc, ite_self, lt_self_iff_false, if_false,
    set_format_unset sd w pf.pad pf.format hf, set_frame_interval_unset sd w _ pf.interval hi]

theorem setup_format_of_parse (sd : SubDevice) (w : FWorld) (p : List Char) (pf : pad_format)
    (h : parse_pad_format w.media { width := 0, height := 0, code := 0 }
      { left := -1, top := -1, width := -1, height := -1 }
      { numerator := 0, denominator := 0 } p = some pf) :
    setup_format sd w p =
      if (format_steps sd w pf).1 < 0 then
        ((format_steps sd w pf).1, (format_steps sd w pf).2.1, p)
      else
        (0, propagate_formats sd w pf.pad (format_steps sd w pf).2.2
          (format_steps sd w pf).2.1, pf.endp) := by
  rw [setup_format_eq, h]

theorem setup_format_calls (sd : SubDevice) (w : FWorld) (p : List Char) (pf : pad_format)
    (h : parse_pad_format w.media { width := 0, height := 0, code := 0 }
      { left := -1, top := -1, width := -1, height := -1 }
      { numerator := 0, denominator := 0 } p = some pf) :
    CallsExtend w (setup_format sd w p).2.1
      (fun c => StepCall w pf c ∨
        ((pf.format.width ≠ 0 ∧ pf.format.height ≠ 0) ∧
          PropagatedCall w pf.pad (format_steps sd w pf).2.2 c)) := by
  rw [setup_format_of_parse sd w p pf h]
  obtain ⟨-, h2, h3, h4⟩ := format_steps_spec sd w pf
  split
  · exact callsExtend_mono h3 (fun c hc => Or.inl hc)
  · obtain ⟨-, g2⟩ := propagate_formats_spec sd w pf.pad (format_steps sd w pf).2.2
      (format_steps sd w pf).2.1 h2
    refine callsExtend_trans (callsExtend_mono h3 (fun c hc => Or.inl hc))
      (callsExtend_mono g2 ?_)
    intro c hc
    refine Or.inr ⟨?_, hc⟩
    by_contra hn
    have hu : pf.format.width = 0 ∨ pf.format.height = 0 := by
      by_contra hn2
      exact hn ⟨fun h => hn2 (Or.inl h), fun h => hn2 (Or.inr h)⟩
    have := hc.1
    rw [h4 hu] at this
    rcases hu with hu | hu
    · exact this.1 hu
    · exact this.2 hu

/-- C25: for the result `pf` of `parse_pad_format` on a descriptor, the calls
that `setup_format` adds hold no set-format call (on the pad or on a downstream
pad) when the format of `pf` has a zero width or height, no set-crop call when
its crop has left or top -1, and no set-frame-interval call when its interval
has a zero numerator; when all three are so, `setup_format` returns 0 and leaves
the world as it was, without any call. A descriptor that holds nothing between
its brackets is of that kind. -/
theorem C25_omitted_fields_make_no_call (sd : SubDevice) (w : FWorld) (p : List Char)
    (pf : pad_format)
    (hparse : parse_pad_format w.media { width := 0, height := 0, code := 0 }
      { left := -1, top := -1, width := -1, height := -1 }
      { numerator := 0, denominator := 0 } p = some pf) :
    (∃ cs, (setup_format sd w p).2.1.calls = w.calls ++ cs ∧
      (pf.format.width = 0 ∨ pf.format.height = 0 →
        ∀ c ∈ cs, ∀ e i f, c ≠ subdev_request.s_fmt e i f) ∧
      (pf.crop.left = -1 ∨ pf.crop.top = -1 →
        ∀ c ∈ cs, ∀ e i r, c ≠ subdev_request.s_crop e i r) ∧
      (pf.interval.numerator = 0 →
        ∀ c ∈ cs, ∀ e i, c ≠ subdev_request.s_frame_interval e i)) ∧
    (pf.format.width = 0 ∨ pf.format.height = 0 → pf.crop.left = -1 ∨ pf.crop.top = -1 →
      pf.interval.numerator = 0 → setup_format sd w p = (0, w, pf.endp)) ∧
    (∀ pad e r t, parse_pad w.media (skip_spaces p) = some (pad, e) →
      skip_spaces e = '[' :: r → skip_spaces r = ']' :: t →
      pf.format = { width := 0, height := 0, code := 0 } ∧
      pf.crop = { left := -1, top := -1, width := -1, height := -1 } ∧
      pf.interval = { numerator := 0, denominator := 0 } ∧
      setup_format sd w p = (0, w, t)) := by
  have hall : pf.format.width = 0 ∨ pf.format.height = 0 → pf.crop.left = -1 ∨ pf.crop.top = -1 →
      pf.interval.numerator = 0 → setup_format sd w p = (0, w, pf.endp) := by
    intro hf hc hi
    rw [setup_format_of_parse sd w p pf hparse, format_steps_unset sd w pf hf hc hi]
    simp only [lt_self_iff_false, if_false]
    rw [propagate_formats_unset_eq sd w pf.pad pf.format w hf]
  refine ⟨?_, hall, ?_⟩
  · obtain ⟨cs, e, hp⟩ := setup_format_calls sd w p pf hparse
    refine ⟨cs, e, ?_, ?_, ?_⟩
    · intro hu c hc e1 i1 f1 heq
      have hset : ¬ (pf.format.width ≠ 0 ∧ pf.format.height ≠ 0) := by
        rintro ⟨h1, h2⟩
        rcases hu with hu | hu
        · exact h1 hu
        · exact h2 hu
      rcases hp c hc with (⟨e2, h⟩ | ⟨-, r, h⟩ | ⟨hs, -⟩ | ⟨-, h⟩) | ⟨hs, -⟩
      · rw [heq] at h; exact absurd h (by simp)
      · rw [heq] at h; exact absurd h (by simp)
      · exact hset hs
      · rw [heq] at h; exact absurd h (by simp)
      · exact hset hs
    · intro hu c hc e1 i1 r1 heq
      have hset : ¬ (pf.crop.left ≠ -1 ∧ pf.crop.top ≠ -1) := by
        rintro ⟨h1, h2⟩
        rcases hu with hu | hu
        · exact h1 hu
        · exact h2 hu
      rcases hp c hc with (⟨e2, h⟩ | ⟨hs, -⟩ | ⟨-, h⟩ | ⟨-, h⟩) | ⟨-, -, h⟩
      · rw [heq] at h; exact absurd h (by simp)
      · exact hset hs
      · rw [heq] at h; exact absurd h (by simp)
      · rw [heq] at h; exact absurd h (by simp)
      · rcases h with ⟨e2, h⟩ | ⟨l, -, -, h⟩
        · rw [heq] at h; exact absurd h (by simp)
        · rw [heq] at h; exact absurd h (by simp)
    · intro hu c hc e1 i1 heq
      rcases hp c hc with (⟨e2, h⟩ | ⟨-, r, h⟩ | ⟨-, h⟩ | ⟨hs, -⟩) | ⟨-, -, h⟩
      · rw [heq] at h; exact absurd h (by simp)
      · rw [heq] at h; exact absurd h (by simp)
      · rw [heq] at h; exact absurd h (by simp)
      · exact hs hu
      · rcases h with ⟨e2, h⟩ | ⟨l, -, -, h⟩
        · rw [heq] at h; exact absurd h (by simp)
        · rw [heq] at h; exact absurd h (by simp)
  · intro pad e r t hpad he hr
    have hpf : parse_pad_format w.media { width := 0, height := 0, code := 0 }
        { left := -1, top := -1, width := -1, height := -1 }
        { numerator := 0, denominator := 0 } p =
        some { pad := pad, format := { width := 0, height := 0, code := 0 },
               crop := { left := -1, top := -1, width := -1, height := -1 },
               interval := { numerator := 0, denominator := 0 }, endp := t } := by
      unfold parse_pad_format
      simp only [hpad, he, cur_cons, List.tail_cons, hr, ne_eq, not_true_eq_false, if_false,
        (by decide : isalnum ']' = false), (by decide : ¬ (']' = '(')),
        (by decide : ¬ (']' = '@')), Bool.false_eq_true]
    rw [hparse] at hpf
    have hpf' := Option.some.inj hpf
    subst hpf'
    exact ⟨rfl, rfl, rfl, hall (Or.inl rfl) (Or.inl rfl) rfl⟩

/-! ## C24: the unset crop rectangle -/

theorem v4l2_subdev_open_ioctl_calls (sd : SubDevice) (w : FWorld) (entity : Nat) :
    ioctl_calls (v4l2_subdev_open sd w entity).2.calls = ioctl_calls w.calls := by
  unfold v4l2_subdev_open
  split
  · rfl
  · split
    · simp only [ioctl_calls_append]
      exact List.append_nil _
    · simp only [ioctl_calls_append]
      exact List.append_nil _

theorem v4l2_subdev_open_ok (sd : SubDevice) (w : FWorld) (entity : Nat)
    (h : ∀ cs, ∃ fd, sd.open_node cs entity = Except.ok fd) :
    (v4l2_subdev_open sd w entity).1 = 0 := by
  unfold v4l2_subdev_open
  split
  · rfl
  · obtain ⟨fd, hfd⟩ := h w.calls
    rw [hfd]

theorem v4l2_subdev_set_crop_calls (sd : SubDevice) (w : FWorld) (entity : Nat)
    (rect : v4l2_rect) (pad : Nat) :
    ((v4l2_subdev_open sd w entity).1 = 0 →
      ioctl_calls (v4l2_subdev_set_crop sd w entity rect pad).2.1.calls =
        ioctl_calls w.calls ++ [subdev_request.s_crop entity pad rect] ∧
      (∀ r, sd.s_crop (v4l2_subdev_open sd w entity).2.calls entity pad rect = Except.ok r →
        (v4l2_subdev_set_crop sd w entity rect pad).1 = 0 ∧
        (v4l2_subdev_set_crop sd w entity rect pad).2.2 = r)) ∧
    ((v4l2_subdev_open sd w entity).1 < 0 →
      (v4l2_subdev_set_crop sd w entity rect pad).1 < 0 ∧
      ioctl_calls (v4l2_subdev_set_crop sd w entity rect pad).2.1.calls =
        ioctl_calls w.calls) := by
  have ho := v4l2_subdev_open_ioctl_calls sd w entity
  unfold v4l2_subdev_set_crop
  simp only []
  constructor
  · intro h0
    rw [if_neg (by omega)]
    constructor
    · split <;> simp only [ioctl_calls_append, ho] <;> rfl
    · intro r hr
      rw [hr]
      exact ⟨rfl, rfl⟩
  · intro hneg
    rw [if_pos hneg]
    exact ⟨hneg, ho⟩

theorem v4l2_subdev_set_format_calls (sd : SubDevice) (w : FWorld) (entity : Nat)
    (format : v4l2_mbus_framefmt) (pad : Nat) :
    ((v4l2_subdev_open sd w entity).1 = 0 →
      ioctl_calls (v4l2_subdev_set_format sd w entity format pad).2.1.calls =
        ioctl_calls w.calls ++ [subdev_request.s_fmt entity pad format] ∧
      (v4l2_subdev_set_format sd w entity format pad).2.1.calls =
        (v4l2_subdev_open sd w entity).2.calls ++ [subdev_request.s_fmt entity pad format] ∧
      (∀ f, sd.s_fmt (v4l2_subdev_open sd w entity).2.calls entity pad format = Except.ok f →
        (v4l2_subdev_set_format sd w entity format pad).1 = 0 ∧
        (v4l2_subdev_set_format sd w entity format pad).2.2 = f)) ∧
    ((v4l2_subdev_open sd w entity).1 < 0 →
      (v4l2_subdev_set_format sd w entity format pad).1 < 0 ∧
      ioctl_calls (v4l2_subdev_set_format sd w entity format pad).2.1.calls =
        ioctl_calls w.calls) := by
  have ho := v4l2_subdev_open_ioctl_calls sd w entity
  unfold v4l2_subdev_set_format
  simp only []
  constructor
  · intro h0
    rw [if_neg (by omega)]
    refine ⟨?_, ?_, ?_⟩
    · split <;> simp only [ioctl_calls_append, ho] <;> rfl
    · split <;> rfl
    · intro r hr
      rw [hr]
      exact ⟨rfl, rfl⟩
  · intro hneg
    rw [if_pos hneg]
    exact ⟨hneg, ho⟩

/-- C24: `set_crop` makes no call and returns 0 for every rectangle whose left or
top is -1; for every other rectangle (also one with a negative left or top other
than -1) it makes exactly one set-crop call, with that rectangle, when the
device node of the entity is open or opens, and returns the error of `open`
without a set-crop call when the node does not open. -/
theorem C24_set_crop_calls (sd : SubDevice) (w : FWorld) (pad : PadRef) (crop : v4l2_rect) :
    (crop.left = -1 ∨ crop.top = -1 → set_crop sd w pad crop = (0, w, crop)) ∧
    (crop.left ≠ -1 ∧ crop.top ≠ -1 →
      ((v4l2_subdev_open sd w (padAt w.media pad).entity).1 = 0 →
        ioctl_calls (set_crop sd w pad crop).2.1.calls =
          ioctl_calls w.calls ++
            [subdev_request.s_crop (padAt w.media pad).entity (padAt w.media pad).index crop]) ∧
      ((v4l2_subdev_open sd w (padAt w.media pad).entity).1 < 0 →
        (set_crop sd w pad crop).1 < 0 ∧
        ioctl_calls (set_crop sd w pad crop).2.1.calls = ioctl_calls w.calls)) := by
  constructor
  · exact set_crop_unset sd w pad crop
  · rintro ⟨h1, h2⟩
    have hset : ¬ (crop.left = -1 ∨ crop.top = -1) := by
      rintro (h | h)
      · exact h1 h
      · exact h2 h
    rw [set_crop_set sd w pad crop hset]
    obtain ⟨a, b⟩ := v4l2_subdev_set_crop_calls sd w (padAt w.media pad).entity crop
      (padAt w.media pad).index
    exact ⟨fun h => (a h).1, b⟩

/-- Witness of C24: the unset rectangle and the rectangle (0,0)/1920x1080 on the
pad of "Sensor". -/
theorem C24_set_crop_calls_witness :
    (set_crop accepting_subdev { media := named_graph 0 } ⟨0, 0⟩
        { left := -1, top := -1, width := -1, height := -1 } =
      (0, { media := named_graph 0 }, { left := -1, top := -1, width := -1, height := -1 })) ∧
    ioctl_calls (set_crop accepting_subdev { media := named_graph 0 } ⟨0, 0⟩
        { left := 0, top := 0, width := 1920, height := 1080 }).2.1.calls =
      ioctl_calls [] ++
        [subdev_request.s_crop 0 0 { left := 0, top := 0, width := 1920, height := 1080 }] :=
  ⟨(C24_set_crop_calls accepting_subdev { media := named_graph 0 } ⟨0, 0⟩
      { left := -1, top := -1, width := -1, height := -1 }).1 (Or.inl rfl),
   ((C24_set_crop_calls accepting_subdev { media := named_graph 0 } ⟨0, 0⟩
      { left := 0, top := 0, width := 1920, height := 1080 }).2
        ⟨by decide, by decide⟩).1 (by decide)⟩

/-- C24, counterexample: for the rectangle with left -2, which is negative,
`set_crop` makes a set-crop call; the descriptor "Sensor":0[(-2,0)/10x10] gives
that rectangle, and "Sensor":0[(-1,5)/10x10] gives one that is taken as unset. -/
theorem C24_negative_left_is_sent :
    (set_crop accepting_subdev { media := named_graph 0 } ⟨0, 0⟩
        { left := -2, top := 0, width := 10, height := 10 }).2.1.calls =
      [subdev_request.open_node 0,
       subdev_request.s_crop 0 0 { left := -2, top := 0, width := 10, height := 10 }] ∧
    (setup_format accepting_subdev { media := named_graph 0 }
        (quoted "Sensor" ++ ":0[(-2,0)/10x10]".toList)).2.1.calls =
      [subdev_request.open_node 0,
       subdev_request.s_crop 0 0 { left := -2, top := 0, width := 10, height := 10 }] ∧
    (setup_format accepting_subdev { media := named_graph 0 }
        (quoted "Sensor" ++ ":0[(-1,5)/10x10]".toList)) =
      (0, { media := named_graph 0 }, []) := by
  decide

/-! ## C23: the order of the calls of `setup_format` -/

theorem propagate_step_spec (sd : SubDevice) (w0 : FWorld) (pad : PadRef)
    (format : v4l2_mbus_framefmt) (l : media_link) (w : FWorld)
    (hs : SameButFd w0.media w.media) :
    SameButFd w0.media (propagate_format sd pad format w l).media ∧
    ∃ cs, (propagate_format sd pad format w l).calls = w.calls ++ cs := by
  rw [propagate_format_eq sd w0 pad format w l hs]
  split
  · obtain ⟨-, h2, cs, e, -⟩ := set_format_spec sd w l.sink format
    exact ⟨sameButFd_trans hs h2, cs, e⟩
  · exact ⟨hs, [], by simp⟩

theorem propagate_fold_calls (sd : SubDevice) (w0 : FWorld) (pad : PadRef)
    (format : v4l2_mbus_framefmt) (links : List media_link) :
    ∀ w, SameButFd w0.media w.media →
      ∃ cs, (links.foldl (propagate_format sd pad format) w).calls = w.calls ++ cs := by
  induction links with
  | nil => intro w _; exact ⟨[], by simp⟩
  | cons l links ih =>
    intro w hs
    obtain ⟨h1, cs, e⟩ := propagate_step_spec sd w0 pad format l w hs
    obtain ⟨cs2, e2⟩ := ih _ h1
    exact ⟨cs ++ cs2, by rw [List.foldl_cons, e2, e, List.append_assoc]⟩

theorem propagate_fold_mem (sd : SubDevice) (w0 : FWorld) (pad : PadRef)
    (format : v4l2_mbus_framefmt) (hF : format.width ≠ 0 ∧ format.height ≠ 0)
    (l : media_link) (hel : Eligible w0 pad l)
    (hopen : ∀ cs, ∃ fd, sd.open_node cs (padAt w0.media l.sink).entity = Except.ok fd)
    (links : List media_link) (hl : l ∈ links) :
    ∀ w, SameButFd w0.media w.media →
      subdev_request.s_fmt (padAt w0.media l.sink).entity (padAt w0.media l.sink).index
        format ∈ (links.foldl (propagate_format sd pad format) w).calls := by
  induction links with
  | nil => exact absurd hl (List.not_mem_nil l)
  | cons a links ih =>
    intro w hs
    rw [List.foldl_cons]
    obtain ⟨h1, -⟩ := propagate_step_spec sd w0 pad format a w hs
    rcases List.mem_cons.mp hl with h | h
    · subst h
      obtain ⟨cs, e⟩ := propagate_fold_calls sd w0 pad format links _ h1
      rw [e]
      apply List.mem_append_left
      rw [propagate_format_eq sd w0 pad format w l hs, if_pos hel]
      have hset : ¬ (format.width = 0 ∨ format.height = 0) := by
        rintro (h | h)
        · exact hF.1 h
        · exact hF.2 h
      rw [set_format_set sd w l.sink format hset, hs.padAt_same]
      have ho := v4l2_subdev_open_ok sd w (padAt w0.media l.sink).entity hopen
      obtain ⟨-, hc, -⟩ := (v4l2_subdev_set_format_calls sd w (padAt w0.media l.sink).entity
        format (padAt w0.media l.sink).index).1 ho
      show _ ∈ (v4l2_subdev_set_format sd w (padAt w0.media l.sink).entity format
        (padAt w0.media l.sink).index).2.1.calls
      rw [hc]
      exact List.mem_append_right _ (List.mem_singleton_self _)
    · exact ih h _ h1

/-- C28: when the four steps of `setup_format` on a pad with the SOURCE flag
have succeeded and have left a format with a width and a height, `setup_format`
returns 0 and, for every eligible link of the entity of the pad whose sink
entity has a device node that opens, its calls hold the set-format call on the
sink pad of that link, whatever the device nodes answer to the set-format calls
of the propagation. -/
theorem C28_propagation_goes_on_after_failure (sd : SubDevice) (w : FWorld) (p : List Char)
    (pf : pad_format)
    (hparse : parse_pad_format w.media { width := 0, height := 0, code := 0 }
      { left := -1, top := -1, width := -1, height := -1 }
      { numerator := 0, denominator := 0 } p = some pf)
    (hsrc : (padAt w.media pf.pad).flags &&& MEDIA_PAD_FL_SOURCE ≠ 0)
    (hsteps : (format_steps sd w pf).1 = 0)
    (hF : (format_steps sd w pf).2.2.width ≠ 0 ∧ (format_steps sd w pf).2.2.height ≠ 0) :
    (setup_format sd w p).1 = 0 ∧
    ∀ l ∈ (entityAt w.media (padAt w.media pf.pad).entity).links, Eligible w pf.pad l →
      (∀ cs, ∃ fd, sd.open_node cs (padAt w.media l.sink).entity = Except.ok fd) →
      subdev_request.s_fmt (padAt w.media l.sink).entity (padAt w.media l.sink).index
        (format_steps sd w pf).2.2 ∈ (setup_format sd w p).2.1.calls := by
  rw [setup_format_of_parse sd w p pf hparse, if_neg (by omega)]
  refine ⟨rfl, ?_⟩
  intro l hl hel hopen
  show _ ∈ (propagate_formats sd w pf.pad (format_steps sd w pf).2.2
    (format_steps sd w pf).2.1).calls
  unfold propagate_formats
  rw [if_pos hsrc]
  exact propagate_fold_mem sd w pf.pad _ hF l hel hopen _ hl _ (format_steps_spec sd w pf).2.1

/-! ## C26: the format that is propagated -/

theorem v4l2_subdev_set_format_answer (sd : SubDevice) (w : FWorld) (entity : Nat)
    (format : v4l2_mbus_framefmt) (pad : Nat) (fa : v4l2_mbus_framefmt)
    (hans : ∀ cs, sd.s_fmt cs entity pad format = Except.ok fa)
    (h : ¬ (v4l2_subdev_set_format sd w entity format pad).1 < 0) :
    (v4l2_subdev_set_format sd w entity format pad).2.2 = fa := by
  unfold v4l2_subdev_set_format at h ⊢
  simp only [] at h ⊢
  split
  · rename_i hneg
    rw [if_pos hneg] at h
    exact absurd hneg h
  · rw [hans]

theorem format_steps_answer (sd : SubDevice) (w : FWorld) (pf : pad_format)
    (fa : v4l2_mbus_framefmt)
    (hfmt : pf.format.width ≠ 0 ∧ pf.format.height ≠ 0)
    (hans : ∀ cs, sd.s_fmt cs (padAt w.media pf.pad).entity (padAt w.media pf.pad).index
      pf.format = Except.ok fa)
    (h : ¬ (format_steps sd w pf).1 < 0) : (format_steps sd w pf).2.2 = fa := by
  have hset : ¬ (pf.format.width = 0 ∨ pf.format.height = 0) := by
    rintro (h1 | h1)
    · exact hfmt.1 h1
    · exact hfmt.2 h1
  have hc1 : ∀ c1 : Int × FWorld × v4l2_rect,
      c1 = (if (padAt w.media pf.pad).flags &&& MEDIA_PAD_FL_SOURCE ≠ 0 then
        set_crop sd w pf.pad pf.crop else (0, w, pf.crop)) →
      SameButFd w.media c1.2.1.media := by
    intro c1 hc
    subst hc
    split
    · exact (set_crop_spec sd w pf.pad pf.crop).2.1
    · exact sameButFd_refl _
  unfold format_steps at h ⊢
  simp only [] at h ⊢
  generalize hg1 : (if (padAt w.media pf.pad).flags &&& MEDIA_PAD_FL_SOURCE ≠ 0 then
    set_crop sd w pf.pad pf.crop else (0, w, pf.crop)) = c1 at h ⊢
  have a2 := hc1 c1 hg1.symm
  by_cases h1 : c1.1 < 0
  · rw [if_pos h1] at h
    exact absurd h1 h
  · rw [if_neg h1] at h ⊢
    have hf : ¬ (set_format sd c1.2.1 pf.pad pf.format).1 < 0 →
        (set_format sd c1.2.1 pf.pad pf.format).2.2 = fa := by
      intro hn
      rw [set_format_set sd c1.2.1 pf.pad pf.format hset] at hn ⊢
      rw [a2.padAt_same] at hn ⊢
      exact v4l2_subdev_set_format_answer sd c1.2.1 _ pf.format _ fa hans hn
    generalize set_format sd c1.2.1 pf.pad pf.format = f at h hf ⊢
    by_cases h2 : f.1 < 0
    · rw [if_pos h2] at h
      exact absurd h2 h
    · rw [if_neg h2] at h ⊢
      generalize (if (padAt w.media pf.pad).flags &&& MEDIA_PAD_FL_SINK ≠ 0 then
        set_crop sd f.2.1 pf.pad c1.2.2 else (0, f.2.1, c1.2.2)) = c2 at h ⊢
      by_cases h3 : c2.1 < 0
      · rw [if_pos h3] at h
        exact absurd h3 h
      · rw [if_neg h3] at h ⊢
        generalize set_frame_interval sd c2.2.1 (padAt w.media pf.pad).entity
          pf.interval = i at h ⊢
        by_cases h4 : i.1 < 0
        · rw [if_pos h4] at h
          exact absurd h4 h
        · rw [if_neg h4]
          exact hf h2

/-- C26: for a descriptor with a format, when the device node answers the
set-format call on the pad with the format `fa` and `setup_format` returns 0,
every set-format call that `setup_format` makes is either the call on the pad
with the format of the descriptor or a call on the sink pad of an eligible link
with `fa`, the answer of the device; and on a pad with the SOURCE flag, when
`fa` has a width and a height, the call with `fa` is made on the sink pad of
every eligible link whose sink entity has a device node that opens. -/
theorem C26_propagated_format_is_device_answer (sd : SubDevice) (w : FWorld)
    (p : List Char) (pf : pad_format) (fa : v4l2_mbus_framefmt)
    (hparse : parse_pad_format w.media { width := 0, height := 0, code := 0 }
      { left := -1, top := -1, width := -1, height := -1 }
      { numerator := 0, denominator := 0 } p = some pf)
    (hfmt : pf.format.width ≠ 0 ∧ pf.format.height ≠ 0)
    (hans : ∀ cs, sd.s_fmt cs (padAt w.media pf.pad).entity (padAt w.media pf.pad).index
      pf.format = Except.ok fa)
    (hret : (setup_format sd w p).1 = 0) :
    (∃ cs, (setup_format sd w p).2.1.calls = w.calls ++ cs ∧
      ∀ c ∈ cs, ∀ e i f, c = subdev_request.s_fmt e i f →
        (e = (padAt w.media pf.pad).entity ∧ i = (padAt w.media pf.pad).index ∧
          f = pf.format) ∨
        ∃ l ∈ (entityAt w.media (padAt w.media pf.pad).entity).links, Eligible w pf.pad l ∧
          e = (padAt w.media l.sink).entity ∧ i = (padAt w.media l.sink).index ∧ f = fa) ∧
    ((padAt w.media pf.pad).flags &&& MEDIA_PAD_FL_SOURCE ≠ 0 →
      fa.width ≠ 0 ∧ fa.height ≠ 0 →
      ∀ l ∈ (entityAt w.media (padAt w.media pf.pad).entity).links, Eligible w pf.pad l →
        (∀ cs, ∃ fd, sd.open_node cs (padAt w.media l.sink).entity = Except.ok fd) →
        subdev_request.s_fmt (padAt w.media l.sink).entity (padAt w.media l.sink).index fa ∈
          (setup_format sd w p).2.1.calls) := by
  have hsteps : ¬ (format_steps sd w pf).1 < 0 := by
    intro hneg
    rw [setup_format_of_parse sd w p pf hparse, if_pos hneg] at hret
    rw [show ((format_steps sd w pf).1, (format_steps sd w pf).2.1, p).1 =
      (format_steps sd w pf).1 from rfl] at hret
    omega
  have hF := format_steps_answer sd w pf fa hfmt hans hsteps
  constructor
  · obtain ⟨cs, e, hp⟩ := setup_format_calls sd w p pf hparse
    refine ⟨cs, e, ?_⟩
    intro c hc e1 i1 f1 heq
    rcases hp c hc with (⟨e2, h⟩ | ⟨-, r, h⟩ | ⟨-, h⟩ | ⟨-, h⟩) | ⟨-, -, h⟩
    · rw [heq] at h; exact absurd h (by simp)
    · rw [heq] at h; exact absurd h (by simp)
    · rw [heq] at h
      simp only [subdev_request.s_fmt.injEq] at h
      exact Or.inl h
    · rw [heq] at h; exact absurd h (by simp)
    · rcases h with ⟨e2, h⟩ | ⟨l, hl, hel, h⟩
      · rw [heq] at h; exact absurd h (by simp)
      · rw [heq, hF] at h
        simp only [subdev_request.s_fmt.injEq] at h
        exact Or.inr ⟨l, hl, hel, h⟩
  · intro hsrc hfa l hl hel hopen
    rw [setup_format_of_parse sd w p pf hparse, if_neg hsteps]
    show _ ∈ (propagate_formats sd w pf.pad (format_steps sd w pf).2.2
      (format_steps sd w pf).2.1).calls
    unfold propagate_formats
    rw [if_pos hsrc, hF]
    exact propagate_fold_mem sd w pf.pad fa hfa l hel hopen _ hl _
      (format_steps_spec sd w pf).2.1

/-! ## Witnesses of C23, C25, C26 and C28, and the propagation scenario of C27 -/

/-- Witness of C25: the descriptor "Sensor":0[], with nothing between its
brackets. -/
theorem C25_omitted_fields_make_no_call_witness :
    setup_format accepting_subdev isp_world (quoted "Sensor" ++ ":0[]".toList) =
      (0, isp_world, []) :=
  ((C25_omitted_fields_make_no_call accepting_subdev isp_world
    (quoted "Sensor" ++ ":0[]".toList)
    { pad := { ent := 0, pos := 0 }, format := { width := 0, height := 0, code := 0 },
      crop := { left := -1, top := -1, width := -1, height := -1 },
      interval := { numerator := 0, denominator := 0 }, endp := [] }
    (by decide)).2.2 ⟨0, 0⟩ ('[' :: ']' :: []) (']' :: []) [] (by decide) (by decide)
      (by decide)).2.2.2

/-- C26, counterexample: the device node of "Sensor" answers the set-format
call with UYVY 1920x1080 by the size 640x480; the set-format call that
`setup_format` makes on the sink pad of "ISP" carries 640x480, the answer of
the device, not the 1920x1080 of the descriptor. -/
theorem C26_sink_gets_adjusted_format :
    (setup_format adjusting_subdev isp_world
      (quoted "Sensor" ++ ":0[UYVY 1920x1080]".toList)).2.1.calls =
      [subdev_request.open_node 0,
       subdev_request.s_fmt 0 0 { width := 1920, height := 1080, code := 0x200f },
       subdev_request.open_node 1,
       subdev_request.s_fmt 1 0 { width := 640, height := 480, code := 0x200f }] := by
  decide

/-- Witness of C26: the descriptor "Sensor":0[UYVY 1920x1080] with device nodes
that answer 640x480. -/
theorem C26_propagated_format_is_device_answer_witness :
    subdev_request.s_fmt 1 0 { width := 640, height := 480, code := 0x200f } ∈
      (setup_format adjusting_subdev isp_world
        (quoted "Sensor" ++ ":0[UYVY 1920x1080]".toList)).2.1.calls :=
  (C26_propagated_format_is_device_answer adjusting_subdev isp_world
    (quoted "Sensor" ++ ":0[UYVY 1920x1080]".toList) (uyvy_pad_format 1920 1080)
    { width := 640, height := 480, code := 0x200f }
    (by decide) (by decide) (fun _ => rfl) (by decide)).2 (by decide) (by decide)
    { source := { ent := 0, pos := 0 }, sink := { ent := 1, pos := 0 },
      twin := { ent := 1, block := 0, pos := 0 }, flags := 1 }
    (by decide) (by decide) (fun _ => ⟨_, rfl⟩)

/-- C27: the propagation scenario. With the type `MEDIA_ENT_T_V4L2_SUBDEV` for
"ISP", the format UYVY 640x480 on "Sensor":0 is also set on "ISP":0 over the
enabled link, and not over the disabled link. With a type of "ISP" that has a
subtype (3, a lens), whose masked value is `MEDIA_ENT_T_V4L2_SUBDEV`, no call is
made on "ISP":0 although the link is enabled. -/
theorem C27_subtype_stops_propagation :
    (setup_format accepting_subdev { media := isp_graph 1 MEDIA_ENT_T_V4L2_SUBDEV }
      (quoted "Sensor" ++ ":0[UYVY 640x480]".toList)).2.1.calls =
      [subdev_request.open_node 0,
       subdev_request.s_fmt 0 0 { width := 640, height := 480, code := 0x200f },
       subdev_request.open_node 1,
       subdev_request.s_fmt 1 0 { width := 640, height := 480, code := 0x200f }] ∧
    (setup_format accepting_subdev { media := isp_graph 0 MEDIA_ENT_T_V4L2_SUBDEV }
      (quoted "Sensor" ++ ":0[UYVY 640x480]".toList)).2.1.calls =
      [subdev_request.open_node 0,
       subdev_request.s_fmt 0 0 { width := 640, height := 480, code := 0x200f }] ∧
    media_entity_type (isp_graph 1 (MEDIA_ENT_T_V4L2_SUBDEV + 3)) 1 = MEDIA_ENT_T_V4L2_SUBDEV ∧
    (setup_format accepting_subdev { media := isp_graph 1 (MEDIA_ENT_T_V4L2_SUBDEV + 3) }
      (quoted "Sensor" ++ ":0[UYVY 640x480]".toList)).2.1.calls =
      [subdev_request.open_node 0,
       subdev_request.s_fmt 0 0 { width := 640, height := 480, code := 0x200f }] := by
  decide

/-- Witness of C28: the set-format call on "Resizer A" fails, and the call on
"Resizer B", the sink of the next enabled link of "Sensor", is made. -/
theorem C28_propagation_goes_on_after_failure_witness :
    ((setup_format (refusing_subdev 1) { media := fanout_graph }
      (quoted "Sensor" ++ ":0[UYVY 640x480]".toList)).1 = 0 ∧
    ∀ l ∈ (entityAt fanout_graph (padAt fanout_graph ⟨0, 0⟩).entity).links,
      Eligible { media := fanout_graph } ⟨0, 0⟩ l →
      (∀ cs, ∃ fd, (refusing_subdev 1).open_node cs (padAt fanout_graph l.sink).entity =
        Except.ok fd) →
      subdev_request.s_fmt (padAt fanout_graph l.sink).entity (padAt fanout_graph l.sink).index
        (format_steps (refusing_subdev 1) { media := fanout_graph }
          (uyvy_pad_format 640 480)).2.2 ∈
        (setup_format (refusing_subdev 1) { media := fanout_graph }
          (quoted "Sensor" ++ ":0[UYVY 640x480]".toList)).2.1.calls) ∧
    (refusing_subdev 1).s_fmt [] 1 0 { width := 640, height := 480, code := 0x200f } =
      Except.error 22 ∧
    (setup_format (refusing_subdev 1) { media := fanout_graph }
      (quoted "Sensor" ++ ":0[UYVY 640x480]".toList)).2.1.calls =
      [subdev_request.open_node 0,
       subdev_request.s_fmt 0 0 { width := 640, height := 480, code := 0x200f },
       subdev_request.open_node 1,
       subdev_request.s_fmt 1 0 { width := 640, height := 480, code := 0x200f },
       subdev_request.open_node 2,
       subdev_request.s_fmt 2 0 { width := 640, height := 480, code := 0x200f }] :=
  ⟨C28_propagation_goes_on_after_failure (refusing_subdev 1) { media := fanout_graph }
    (quoted "Sensor" ++ ":0[UYVY 640x480]".toList) (uyvy_pad_format 640 480)
    (by decide) (by decide) (by decide) (by decide), rfl, by decide⟩

/-! ## C29, C30: the completion status of `main` and the bits of the flags -/

/-- C29: with the enumeration data of the sensor graph `main` returns
`EXIT_SUCCESS` when the list of links is malformed (`setup_links` returns
`-EINVAL`), when the device refuses the link of the list (`setup_links` returns
the error of the device), when the device refuses the reset of the enabled link
and when the list of formats is malformed; it returns `EXIT_FAILURE` when the
entity of `--entity` is not found. -/
theorem C29_main_ignores_failures :
    setup_links echo_device { media := sensor_graph 0 } "1:0->2:0[1".toList =
      some (-EINVAL, { media := sensor_graph 0 }) ∧
    (main 0 { links := some "1:0->2:0[1".toList } (sensor_env 0) 3 echo_device
      accepting_subdev []).map Prod.fst = some EXIT_SUCCESS ∧
    (setup_links failing_device { media := sensor_graph 0 } "1:0->2:0[1]".toList).map
      Prod.fst = some (-1) ∧
    (main 0 { links := some "1:0->2:0[1]".toList } (sensor_env 0) 3 failing_device
      accepting_subdev []).map Prod.fst = some EXIT_SUCCESS ∧
    (media_reset_links failing_device { media := sensor_graph 1 }).1 = -1 ∧
    (main 0 { reset := true } (sensor_env 1) 3 failing_device accepting_subdev []).map
      Prod.fst = some EXIT_SUCCESS ∧
    (setup_formats accepting_subdev { media := sensor_graph 0 } "1:0[UYVY".toList).map
      Prod.fst = some (-EINVAL) ∧
    (main 0 { formats := some "1:0[UYVY".toList } (sensor_env 0) 3 echo_device
      accepting_subdev []).map Prod.fst = some EXIT_SUCCESS ∧
    (main 0 { entity := some "Nope".toList } (sensor_env 0) 3 echo_device
      accepting_subdev []).map Prod.fst = some EXIT_FAILURE := by
  decide

/-- C30: on a link with the flags 0, a request with the flags 6 that the device
confirms leaves the flags 6 in the link and in its twin, with the IMMUTABLE bit
and bit 2 changed; on a link with the flags 4, a confirmed request with the
flags 1 leaves the flags 1, with bit 2 changed. -/
theorem C30_other_bits_are_written :
    media_setup_link echo_device { media := sensor_graph 0 } ⟨0, 0⟩ ⟨1, 0⟩ 6 =
      (0, { media := sensor_graph 6,
            trace := [{ source := { entity := 1, index := 0, flags := MEDIA_PAD_FL_SOURCE },
                        sink := { entity := 2, index := 0, flags := MEDIA_PAD_FL_SINK },
                        flags := 6 }] }) ∧
    (0 ^^^ 6) &&& NOT_MEDIA_LNK_FL_ENABLED = 6 ∧
    media_setup_link echo_device { media := sensor_graph 4 } ⟨0, 0⟩ ⟨1, 0⟩ 1 =
      (0, { media := sensor_graph 1,
            trace := [{ source := { entity := 1, index := 0, flags := MEDIA_PAD_FL_SOURCE },
                        sink := { entity := 2, index := 0, flags := MEDIA_PAD_FL_SINK },
                        flags := 1 }] }) ∧
    (4 ^^^ 1) &&& NOT_MEDIA_LNK_FL_ENABLED = 4 := by
  decide

/-! ## Witnesses of C21 and C22 -/

/-- Witness of C21: after the descriptor "Sensor":0->"Processor":0[1], which
`setup_link` applies, the text goes on with an `x`: `setup_links` returns
`-EINVAL`, after the request of the descriptor. -/
theorem C21_list_returns_zero_iff_witness :
    setup_links echo_device { media := named_graph 0 }
        (quoted "Sensor" ++ ":0->".toList ++ quoted "Processor" ++ ":0[1]x".toList) =
      some (-EINVAL, (setup_link echo_device { media := named_graph 0 }
        (quoted "Sensor" ++ ":0->".toList ++ quoted "Processor" ++ ":0[1]x".toList)).2.1) ∧
    (setup_link echo_device { media := named_graph 0 }
        (quoted "Sensor" ++ ":0->".toList ++ quoted "Processor" ++ ":0[1]x".toList)).2.1 =
      { media := named_graph 1,
        trace := [{ source := { entity := 1, index := 0, flags := MEDIA_PAD_FL_SOURCE },
                    sink := { entity := 2, index := 0, flags := MEDIA_PAD_FL_SINK },
                    flags := 1 }] } :=
  ⟨(C21_list_returns_zero_iff echo_device accepting_subdev { media := named_graph 0 }
      { media := named_graph 0 }
      (quoted "Sensor" ++ ":0->".toList ++ quoted "Processor" ++ ":0[1]x".toList)).2.2.2.2.1
      _ _ (Applied.none _ _) (by decide) (by decide) (by decide), by decide⟩

/-- Witness of C22: the second descriptor of the list names an unknown entity;
`setup_links` returns `-EINVAL` and the request of the first descriptor has been
sent, with its effect on the graph. The second descriptor of the list of formats
is malformed; `setup_formats` returns `-EINVAL` after the calls of the first. -/
theorem C22_first_failure_stops_list_witness :
    setup_links echo_device { media := named_graph 0 }
        (quoted "Sensor" ++ ":0->".toList ++ quoted "Processor" ++ ":0[1],".toList ++
          quoted "Nope" ++ ":0->".toList ++ quoted "Processor" ++ ":0[0]".toList) =
      some (-EINVAL,
        { media := named_graph 1,
          trace := [{ source := { entity := 1, index := 0, flags := MEDIA_PAD_FL_SOURCE },
                      sink := { entity := 2, index := 0, flags := MEDIA_PAD_FL_SINK },
                      flags := 1 }] }) ∧
    (setup_formats accepting_subdev { media := named_graph 0 }
        (quoted "Sensor" ++ ":0[UYVY 640x480],".toList ++
          quoted "Processor" ++ ":1[Y8 1x".toList)).map (fun r => (r.1, r.2.calls)) =
      some (-EINVAL,
        [subdev_request.open_node 0,
         subdev_request.s_fmt 0 0 { width := 640, height := 480, code := 0x200f }]) :=
  ⟨((C22_first_failure_stops_list echo_device accepting_subdev { media := named_graph 0 }
      { media := named_graph 0 }
      (quoted "Sensor" ++ ":0->".toList ++ quoted "Processor" ++ ":0[1],".toList ++
        quoted "Nope" ++ ":0->".toList ++ quoted "Processor" ++ ":0[0]".toList)).1
      { media := named_graph 1,
        trace := [{ source := { entity := 1, index := 0, flags := MEDIA_PAD_FL_SOURCE },
                    sink := { entity := 2, index := 0, flags := MEDIA_PAD_FL_SINK },
                    flags := 1 }] }
      (quoted "Nope" ++ ":0->".toList ++ quoted "Processor" ++ ":0[0]".toList)
      (Applied.next _ _ _ _ (by decide) (by decide) (Applied.none _ _)) (by decide)).1,
   by decide⟩

/-! ## C31, C32: the numbers of a pad reference -/

theorem takeWhile_digits_nil (u : List Char) (h : isdigit (cur u) = false) :
    u.takeWhile isdigit = [] :=
  takeWhile_digits [] u (fun _ hc => absurd hc (List.not_mem_nil _)) h

/-- Where the text does not begin with a number, `strtoul` returns 0 and stores
the start of the text as the end position. -/
theorem strtoul_no_number (t : List Char) (h : NoNumber t) : strtoul t = (0, t) := by
  obtain ⟨hs, hd, hsign⟩ := h
  have hsp : skip_spaces t = t := skip_spaces_of_not_space t hs
  unfold strtoul
  by_cases hsg : cur t = '-' ∨ cur t = '+'
  · simp only [hsp, if_pos hsg, takeWhile_digits_nil t.tail (hsign hsg), if_true]
  · simp only [hsp, if_neg hsg, takeWhile_digits_nil t hd, if_true]

theorem strtoul_zero_digit (t : List Char) (hd : isdigit (cur t) = false) :
    strtoul ('0' :: t) = (0, t) :=
  strtoul_digits [] ['0'] t (fun _ hc => absurd hc (List.not_mem_nil _)) (by decide) hd

/-- What `parse_pad` does with a well-formed entity reference followed by a
colon: it looks the entity up and reads the pad index with `strtoul` from the
text after the colon. -/
theorem parse_pad_after_colon (m : media_device) (g0 g1 : List Char) (r : entity_ref)
    (q : List Char) (h0 : Blank g0) (h1 : Blank g1) (hr : WellFormedRef r) :
    parse_pad m (g0 ++ entity_text r (g1 ++ ':' :: q)) =
      match entity_sem m r with
      | none => none
      | some e =>
        if to_u32 (strtoul (skip_spaces q)).1 ≥ (entityAt m e).info.pads then none
        else some ({ ent := e, pos := to_u32 (strtoul (skip_spaces q)).1 },
          skip_spaces (strtoul (skip_spaces q)).2) := by
  have hsk1 : skip_spaces (g1 ++ ':' :: q) = ':' :: q :=
    skip_spaces_blank_of_not_space g1 _ h1 (by decide : isspace ':' = false)
  cases r with
  | by_name name =>
    have hsk0 : skip_spaces (g0 ++ DQUOTE :: (name ++ DQUOTE :: (g1 ++ ':' :: q))) =
        DQUOTE :: (name ++ DQUOTE :: (g1 ++ ':' :: q)) :=
      skip_spaces_blank_of_not_space g0 _ h0 (by decide : isspace DQUOTE = false)
    unfold parse_pad entity_text entity_sem
    simp only [hsk0, cur_cons, List.tail_cons, dropWhile_name name _ hr, if_true]
    have hlen : (name ++ DQUOTE :: (g1 ++ ':' :: q)).length -
        (DQUOTE :: (g1 ++ ':' :: q)).length = name.length := by
      rw [List.length_append]
      omega
    rw [hlen, get_entity_by_name_append]
    cases media_get_entity_by_name m name name.length with
    | none => simp
    | some e =>
      simp only [ne_eq, not_true_eq_false, if_false, Option.map_some', hsk1, cur_cons,
        List.tail_cons]
  | by_id digits =>
    have hd : Digits digits := hr
    have hcur := cur_digits digits (g1 ++ ':' :: q) hd
    have hsk0 : skip_spaces (g0 ++ (digits ++ (g1 ++ ':' :: q))) =
        digits ++ (g1 ++ ':' :: q) :=
      skip_spaces_blank_of_not_space g0 _ h0 (isspace_of_isdigit _ hcur)
    have hq : cur (digits ++ (g1 ++ ':' :: q)) ≠ DQUOTE :=
      ne_of_isdigit _ _ hcur (by decide)
    have hid : strtoul (digits ++ (g1 ++ ':' :: q)) =
        (strtoul_value digits, g1 ++ ':' :: q) :=
      strtoul_digits [] digits _ (fun _ h => absurd h (List.not_mem_nil _)) hd
        (isdigit_cur_blank g1 _ h1 (by decide : isdigit ':' = false))
    unfold parse_pad entity_text entity_sem
    simp only [hsk0, hq, if_false, hid]
    cases media_get_entity_by_id m (to_u32 (strtoul_value digits)) with
    | none => simp
    | some e =>
      simp only [ne_eq, Option.map_some', hsk1, cur_cons, not_true_eq_false, if_false,
        List.tail_cons]

/-- C31 (amended): `parse_pad` reads a number that the text leaves out as 0.
After a well-formed entity reference and a colon, a text that does not begin
with a number gives pad 0 of the entity, and the call fails only when the
entity is not found or has no pad. An entity reference that is no quoted name
and does not begin with a number gives the result that the digit 0 written
there gives, and so the call fails when no entity has the id 0. -/
theorem C31_missing_number_reads_as_zero (m : media_device) (g0 g1 g2 : List Char)
    (r : entity_ref) (t : List Char) (h0 : Blank g0) (h1 : Blank g1) (h2 : Blank g2)
    (hr : WellFormedRef r) (ht : NoNumber t) :
    parse_pad m (g0 ++ entity_text r (g1 ++ ':' :: (g2 ++ t))) =
      (match entity_sem m r with
       | none => none
       | some e =>
         if (entityAt m e).info.pads = 0 then none else some ({ ent := e, pos := 0 }, t)) ∧
    (cur t ≠ DQUOTE → parse_pad m (g0 ++ t) = parse_pad m (g0 ++ '0' :: t)) ∧
    (cur t ≠ DQUOTE → media_get_entity_by_id m 0 = none → parse_pad m (g0 ++ t) = none) := by
  have hst : strtoul t = (0, t) := strtoul_no_number t ht
  have hsk : skip_spaces t = t := skip_spaces_of_not_space t ht.1
  have hsk0 : skip_spaces (g0 ++ t) = t := skip_spaces_blank_of_not_space g0 t h0 ht.1
  refine ⟨?_, ?_, ?_⟩
  · rw [parse_pad_after_colon m g0 g1 r (g2 ++ t) h0 h1 hr,
      skip_spaces_blank_of_not_space g2 t h2 ht.1, hst]
    cases entity_sem m r with
    | none => rfl
    | some e =>
      have h00 : to_u32 0 = 0 := rfl
      simp only [h00, hsk, ge_iff_le, Nat.le_zero_eq]
  · intro hq
    have hz : skip_spaces (g0 ++ '0' :: t) = '0' :: t :=
      skip_spaces_blank_of_not_space g0 _ h0 (by decide : isspace '0' = false)
    have hq0 : cur ('0' :: t) ≠ DQUOTE := (by decide : '0' ≠ DQUOTE)
    unfold parse_pad
    simp only [hsk0, hz, if_neg hq, if_neg hq0, hst, strtoul_zero_digit t ht.2.1]
  · intro hq hnone
    have h00 : to_u32 0 = 0 := rfl
    unfold parse_pad
    simp only [hsk0, if_neg hq, hst, h00, hnone, Option.map_none']

/-- Witness of C31 (amended): the text "Sensor": on the named sensor graph, and
the text :1 on a graph without the id 0. -/
theorem C31_missing_number_reads_as_zero_witness :
    parse_pad (named_graph 0) ([] ++ entity_text (entity_ref.by_name "Sensor".toList)
        ([] ++ ':' :: ([] ++ []))) = some ({ ent := 0, pos := 0 }, []) ∧
    parse_pad (named_graph 0) ([] ++ ":1".toList) = none :=
  ⟨(C31_missing_number_reads_as_zero (named_graph 0) [] [] []
      (entity_ref.by_name "Sensor".toList) [] (by decide) (by decide) (by decide) (by decide)
      (by decide)).1,
   (C31_missing_number_reads_as_zero (named_graph 0) [] [] []
      (entity_ref.by_name "Sensor".toList) ":1".toList (by decide) (by decide) (by decide)
      (by decide) (by decide)).2.2 (by decide) (by decide)⟩

/-- C31, counterexample: the pad reference "Sensor": without a pad index is
read as pad 0 of "Sensor"; the entity reference +1, which begins with no digit,
is read as the id 1; and the link descriptor "Sensor":->"Processor":[1], with
both pad indices left out, is accepted and enables the link. -/
theorem C31_missing_index_is_pad_zero :
    parse_pad (named_graph 0) (quoted "Sensor" ++ ":".toList) =
      some ({ ent := 0, pos := 0 }, []) ∧
    parse_pad (named_graph 0) "+1:0".toList = some ({ ent := 0, pos := 0 }, []) ∧
    (setup_link echo_device { media := named_graph 0 }
      (quoted "Sensor" ++ ":->".toList ++ quoted "Processor" ++ ":[1]".toList)).1 = 0 ∧
    (setup_link echo_device { media := named_graph 0 }
      (quoted "Sensor" ++ ":->".toList ++ quoted "Processor" ++ ":[1]".toList)).2.1.media =
      named_graph 1 := by
  decide

/-- C32: on the named sensor graph, where "Sensor" has one pad and "Processor"
two, the pad index 4294967296 written after "Sensor" gives pad 0 and the index
4294967297 written after "Processor" gives pad 1: the value of `strtoul` is
stored in an `unsigned int` before it is compared with the number of pads. The
index 1 after "Sensor" is refused. A list of links written with such indices is
set up on the pads 0. -/
theorem C32_pad_index_is_truncated :
    (entityAt (named_graph 0) 0).info.pads = 1 ∧
    parse_pad (named_graph 0) (quoted "Sensor" ++ ":4294967296".toList) =
      some ({ ent := 0, pos := 0 }, []) ∧
    parse_pad (named_graph 0) (quoted "Processor" ++ ":4294967297".toList) =
      some ({ ent := 1, pos := 1 }, []) ∧
    parse_pad (named_graph 0) (quoted "Sensor" ++ ":1".toList) = none ∧
    setup_links echo_device { media := named_graph 0 }
      (quoted "Sensor" ++ ":4294967296->".toList ++ quoted "Processor" ++
        ":8589934592[1]".toList) =
      some (0, { media := named_graph 1,
                 trace := [{ source := { entity := 1, index := 0, flags := MEDIA_PAD_FL_SOURCE },
                             sink := { entity := 2, index := 0, flags := MEDIA_PAD_FL_SINK },
                             flags := 1 }] }) := by
  decide

/-! ## C33: the value that `media_setup_link` returns for a refused update -/

/-- C33: the device refuses the link update with `EBUSY`, so that `ioctl`
returns -1 with `errno` set to 16; `media_setup_link` returns the -1 of `ioctl`,
which is not `-EBUSY`, and `media_reset_links` forwards the same -1. -/
theorem C33_setup_link_returns_ioctl_value :
    (busy_device [] (setup_link_request (sensor_graph 1) ⟨0, 0⟩ ⟨1, 0⟩ 0)).ret = -1 ∧
    (busy_device [] (setup_link_request (sensor_graph 1) ⟨0, 0⟩ ⟨1, 0⟩ 0)).errno = EBUSY ∧
    (media_setup_link busy_device { media := sensor_graph 1 } ⟨0, 0⟩ ⟨1, 0⟩ 0).1 = -1 ∧
    (media_setup_link busy_device { media := sensor_graph 1 } ⟨0, 0⟩ ⟨1, 0⟩ 0).1 ≠
      -(EBUSY : Int) ∧
    (media_reset_links busy_device { media := sensor_graph 1 }).1 = -1 := by
  decide

/-! ## C34: a step of `setup_format` that fails -/

theorem failedOn_of_calls (sd : SubDevice) (w w0 w1 : FWorld) (e : Int)
    (hpre : ∃ pre, w0.calls = w.calls ++ pre) (h : FailedOn sd w0 w1 e) :
    FailedOn sd w w1 e := by
  obtain ⟨pre, hpre⟩ := hpre
  obtain ⟨cs, c, hc, hr⟩ := h
  refine ⟨pre ++ cs, c, ?_, ?_⟩
  · rw [hc, hpre, List.append_assoc w.calls pre cs]
  · rw [← List.append_assoc, ← hpre]
    exact hr

theorem calls_after_trans {a b c : List subdev_request} (h1 : ∃ pre, b = a ++ pre)
    (h2 : ∃ pre, c = b ++ pre) : ∃ pre, c = a ++ pre := by
  obtain ⟨x, hx⟩ := h1
  obtain ⟨y, hy⟩ := h2
  exact ⟨x ++ y, by rw [hy, hx, List.append_assoc]⟩

theorem calls_after_of_extend {w w1 : FWorld} {P : subdev_request → Prop}
    (h : CallsExtend w w1 P) : ∃ pre, w1.calls = w.calls ++ pre := by
  obtain ⟨cs, hcs, -⟩ := h
  exact ⟨cs, hcs⟩

theorem v4l2_subdev_open_failed (sd : SubDevice) (w : FWorld) (e : Nat)
    (h : (v4l2_subdev_open sd w e).1 < 0) :
    FailedOn sd w (v4l2_subdev_open sd w e).2 (v4l2_subdev_open sd w e).1 := by
  unfold v4l2_subdev_open at h ⊢
  by_cases hfd : (entityAt w.media e).fd ≠ -1
  · rw [if_pos hfd] at h
    exact absurd h (by decide : ¬ (0 : Int) < 0)
  · rw [if_neg hfd] at h ⊢
    cases ho : sd.open_node w.calls e with
    | error errno =>
      simp only [ho]
      refine ⟨[], subdev_request.open_node e, ?_, errno, ?_, rfl⟩
      · rw [List.append_nil]
      · rw [List.append_nil]
        exact ho
    | ok fd =>
      simp only [ho] at h
      exact absurd h (by decide)

theorem v4l2_subdev_set_format_failed (sd : SubDevice) (w : FWorld) (e : Nat)
    (format : v4l2_mbus_framefmt) (pad : Nat)
    (h : (v4l2_subdev_set_format sd w e format pad).1 < 0) :
    FailedOn sd w (v4l2_subdev_set_format sd w e format pad).2.1
      (v4l2_subdev_set_format sd w e format pad).1 := by
  by_cases ho : (v4l2_subdev_open sd w e).1 < 0
  · have heq : v4l2_subdev_set_format sd w e format pad =
        ((v4l2_subdev_open sd w e).1, (v4l2_subdev_open sd w e).2, format) := by
      unfold v4l2_subdev_set_format
      simp only [if_pos ho]
    rw [heq]
    exact v4l2_subdev_open_failed sd w e ho
  · obtain ⟨os, hos, -⟩ := (v4l2_subdev_open_spec sd w e).2.2
    cases hs : sd.s_fmt (v4l2_subdev_open sd w e).2.calls e pad format with
    | error errno =>
      have heq : v4l2_subdev_set_format sd w e format pad =
          (-(errno : Int),
           { media := (v4l2_subdev_open sd w e).2.media,
             calls := (v4l2_subdev_open sd w e).2.calls ++
               [subdev_request.s_fmt e pad format] }, format) := by
        unfold v4l2_subdev_set_format
        simp only [if_neg ho, hs]
      rw [heq]
      refine ⟨os, subdev_request.s_fmt e pad format, ?_, errno, ?_, rfl⟩
      · show (v4l2_subdev_open sd w e).2.calls ++ [subdev_request.s_fmt e pad format] = _
        rw [hos]
      · rw [← hos]
        exact hs
    | ok f =>
      have heq : (v4l2_subdev_set_format sd w e format pad).1 = 0 := by
        unfold v4l2_subdev_set_format
        simp only [if_neg ho, hs]
      rw [heq] at h
      exact absurd h (by decide)

theorem v4l2_subdev_set_crop_failed (sd : SubDevice) (w : FWorld) (e : Nat)
    (rect : v4l2_rect) (pad : Nat)
    (h : (v4l2_subdev_set_crop sd w e rect pad).1 < 0) :
    FailedOn sd w (v4l2_subdev_set_crop sd w e rect pad).2.1
      (v4l2_subdev_set_crop sd w e rect pad).1 := by
  by_cases ho : (v4l2_subdev_open sd w e).1 < 0
  · have heq : v4l2_subdev_set_crop sd w e rect pad =
        ((v4l2_subdev_open sd w e).1, (v4l2_subdev_open sd w e).2, rect) := by
      unfold v4l2_subdev_set_crop
      simp only [if_pos ho]
    rw [heq]
    exact v4l2_subdev_open_failed sd w e ho
  · obtain ⟨os, hos, -⟩ := (v4l2_subdev_open_spec sd w e).2.2
    cases hs : sd.s_crop (v4l2_subdev_open sd w e).2.calls e pad rect with
    | error errno =>
      have heq : v4l2_subdev_set_crop sd w e rect pad =
          (-(errno : Int),
           { media := (v4l2_subdev_open sd w e).2.media,
             calls := (v4l2_subdev_open sd w e).2.calls ++
               [subdev_request.s_crop e pad rect] }, rect) := by
        unfold v4l2_subdev_set_crop
        simp only [if_neg ho, hs]
      rw [heq]
      refine ⟨os, subdev_request.s_crop e pad rect, ?_, errno, ?_, rfl⟩
      · show (v4l2_subdev_open sd w e).2.calls ++ [subdev_request.s_crop e pad rect] = _
        rw [hos]
      · rw [← hos]
        exact hs
    | ok f =>
      have heq : (v4l2_subdev_set_crop sd w e rect pad).1 = 0 := by
        unfold v4l2_subdev_set_crop
        simp only [if_neg ho, hs]
      rw [heq] at h
      exact absurd h (by decide)

theorem v4l2_subdev_set_frame_interval_failed (sd : SubDevice) (w : FWorld) (e : Nat)
    (interval : v4l2_fract)
    (h : (v4l2_subdev_set_frame_interval sd w e interval).1 < 0) :
    FailedOn sd w (v4l2_subdev_set_frame_interval sd w e interval).2.1
      (v4l2_subdev_set_frame_interval sd w e interval).1 := by
  by_cases ho : (v4l2_subdev_open sd w e).1 < 0
  · have heq : v4l2_subdev_set_frame_interval sd w e interval =
        ((v4l2_subdev_open sd w e).1, (v4l2_subdev_open sd w e).2, interval) := by
      unfold v4l2_subdev_set_frame_interval
      simp only [if_pos ho]
    rw [heq]
    exact v4l2_subdev_open_failed sd w e ho
  · obtain ⟨os, hos, -⟩ := (v4l2_subdev_open_spec sd w e).2.2
    cases hs : sd.s_frame_interval (v4l2_subdev_open sd w e).2.calls e interval with
    | error errno =>
      have heq : v4l2_subdev_set_frame_interval sd w e interval =
          (-(errno : Int),
           { media := (v4l2_subdev_open sd w e).2.media,
             calls := (v4l2_subdev_open sd w e).2.calls ++
               [subdev_request.s_frame_interval e interval] }, interval) := by
        unfold v4l2_subdev_set_frame_interval
        simp only [if_neg ho, hs]
      rw [heq]
      refine ⟨os, subdev_request.s_frame_interval e interval, ?_, errno, ?_, rfl⟩
      · show (v4l2_subdev_open sd w e).2.calls ++
          [subdev_request.s_frame_interval e interval] = _
        rw [hos]
      · rw [← hos]
        exact hs
    | ok f =>
      have heq : (v4l2_subdev_set_frame_interval sd w e interval).1 = 0 := by
        unfold v4l2_subdev_set_frame_interval
        simp only [if_neg ho, hs]
      rw [heq] at h
      exact absurd h (by decide)

theorem set_format_failed (sd : SubDevice) (w : FWorld) (pad : PadRef)
    (format : v4l2_mbus_framefmt) (h : (set_format sd w pad format).1 < 0) :
    FailedOn sd w (set_format sd w pad format).2.1 (set_format sd w pad format).1 := by
  by_cases hu : format.width = 0 ∨ format.height = 0
  · rw [set_format_unset sd w pad format hu] at h
    exact absurd h (by decide : ¬ (0 : Int) < 0)
  · rw [set_format_set sd w pad format hu] at h ⊢
    exact v4l2_subdev_set_format_failed sd w _ format _ h

theorem set_crop_failed (sd : SubDevice) (w : FWorld) (pad : PadRef) (crop : v4l2_rect)
    (h : (set_crop sd w pad crop).1 < 0) :
    FailedOn sd w (set_crop sd w pad crop).2.1 (set_crop sd w pad crop).1 := by
  by_cases hu : crop.left = -1 ∨ crop.top = -1
  · rw [set_crop_unset sd w pad crop hu] at h
    exact absurd h (by decide : ¬ (0 : Int) < 0)
  · rw [set_crop_set sd w pad crop hu] at h ⊢
    exact v4l2_subdev_set_crop_failed sd w _ crop _ h

theorem set_frame_interval_failed (sd : SubDevice) (w : FWorld) (entity : Nat)
    (interval : v4l2_fract) (h : (set_frame_interval sd w entity interval).1 < 0) :
    FailedOn sd w (set_frame_interval sd w entity interval).2.1
      (set_frame_interval sd w entity interval).1 := by
  by_cases hu : interval.numerator = 0
  · rw [set_frame_interval_unset sd w entity interval hu] at h
    exact absurd h (by decide : ¬ (0 : Int) < 0)
  · rw [set_frame_interval_set sd w entity interval hu] at h ⊢
    exact v4l2_subdev_set_frame_interval_failed sd w entity interval h

theorem crop_on_source_calls (sd : SubDevice) (w : FWorld) (pf : pad_format) :
    ∃ pre, (crop_on_source sd w pf).2.1.calls = w.calls ++ pre := by
  unfold crop_on_source
  split
  · exact calls_after_of_extend (set_crop_spec sd w pf.pad pf.crop).2.2
  · exact ⟨[], (List.append_nil _).symm⟩

theorem format_on_pad_calls (sd : SubDevice) (w : FWorld) (pf : pad_format) :
    ∃ pre, (format_on_pad sd w pf).2.1.calls = w.calls ++ pre :=
  calls_after_trans (crop_on_source_calls sd w pf)
    (calls_after_of_extend (set_format_spec sd _ pf.pad pf.format).2.2)

theorem crop_on_sink_calls (sd : SubDevice) (w : FWorld) (pf : pad_format) :
    ∃ pre, (crop_on_sink sd w pf).2.1.calls = w.calls ++ pre := by
  unfold crop_on_sink
  split
  · exact calls_after_trans (format_on_pad_calls sd w pf)
      (calls_after_of_extend (set_crop_spec sd _ pf.pad _).2.2)
  · exact format_on_pad_calls sd w pf

/-- The statements of `setup_format` after `parse_pad_format` has returned
`pf`, as a chain of its four steps. -/
theorem setup_format_steps_eq (sd : SubDevice) (w : FWorld) (p : List Char) (pf : pad_format)
    (hparse : parse_pad_format w.media { width := 0, height := 0, code := 0 }
      { left := -1, top := -1, width := -1, height := -1 }
      { numerator := 0, denominator := 0 } p = some pf) :
    setup_format sd w p =
      if (crop_on_source sd w pf).1 < 0 then
        ((crop_on_source sd w pf).1, (crop_on_source sd w pf).2.1, p)
      else if (format_on_pad sd w pf).1 < 0 then
        ((format_on_pad sd w pf).1, (format_on_pad sd w pf).2.1, p)
      else if (crop_on_sink sd w pf).1 < 0 then
        ((crop_on_sink sd w pf).1, (crop_on_sink sd w pf).2.1, p)
      else if (interval_on_entity sd w pf).1 < 0 then
        ((interval_on_entity sd w pf).1, (interval_on_entity sd w pf).2.1, p)
      else
        (0, propagate_formats sd w pf.pad (format_on_pad sd w pf).2.2
          (interval_on_entity sd w pf).2.1, pf.endp) := by
  unfold setup_format
  rw [hparse]
  simp only [crop_on_source, format_on_pad, crop_on_sink, interval_on_entity,
    propagate_formats]

/-- C34: after `parse_pad_format` has returned `pf`, when one of the four steps
of `setup_format` (crop on a source pad, format, crop on a sink pad, frame
interval) is the first to return a negative value, `setup_format` returns that
value with the world that the step leaves, in which the last call is the call
that the device node has refused and the value is its negated `errno`. Every
call that a failing `setup_format` has made is a call of these steps, and
`setup_formats` returns the value with that same world, whatever follows in the
list. -/
theorem C34_step_failure_stops_setup (sd : SubDevice) (w : FWorld) (p : List Char)
    (pf : pad_format)
    (hparse : parse_pad_format w.media { width := 0, height := 0, code := 0 }
      { left := -1, top := -1, width := -1, height := -1 }
      { numerator := 0, denominator := 0 } p = some pf) :
    ((crop_on_source sd w pf).1 < 0 →
      setup_format sd w p = ((crop_on_source sd w pf).1, (crop_on_source sd w pf).2.1, p) ∧
      FailedOn sd w (crop_on_source sd w pf).2.1 (crop_on_source sd w pf).1) ∧
    (¬ (crop_on_source sd w pf).1 < 0 → (format_on_pad sd w pf).1 < 0 →
      setup_format sd w p = ((format_on_pad sd w pf).1, (format_on_pad sd w pf).2.1, p) ∧
      FailedOn sd w (format_on_pad sd w pf).2.1 (format_on_pad sd w pf).1) ∧
    (¬ (crop_on_source sd w pf).1 < 0 → ¬ (format_on_pad sd w pf).1 < 0 →
      (crop_on_sink sd w pf).1 < 0 →
      setup_format sd w p = ((crop_on_sink sd w pf).1, (crop_on_sink sd w pf).2.1, p) ∧
      FailedOn sd w (crop_on_sink sd w pf).2.1 (crop_on_sink sd w pf).1) ∧
    (¬ (crop_on_source sd w pf).1 < 0 → ¬ (format_on_pad sd w pf).1 < 0 →
      ¬ (crop_on_sink sd w pf).1 < 0 → (interval_on_entity sd w pf).1 < 0 →
      setup_format sd w p =
        ((interval_on_entity sd w pf).1, (interval_on_entity sd w pf).2.1, p) ∧
      FailedOn sd w (interval_on_entity sd w pf).2.1 (interval_on_entity sd w pf).1) ∧
    ((setup_format sd w p).1 < 0 →
      CallsExtend w (setup_format sd w p).2.1 (StepCall w pf) ∧
      ∀ fw0 p0, Applied (setup_format sd) fw0 p0 w p →
        setup_formats sd fw0 p0 =
          some ((setup_format sd w p).1, (setup_format sd w p).2.1)) := by
  have key := setup_format_steps_eq sd w p pf hparse
  refine ⟨?_, ?_, ?_, ?_, ?_⟩
  · intro h1
    refine ⟨by rw [key, if_pos h1], ?_⟩
    unfold crop_on_source at h1 ⊢
    by_cases hs : (padAt w.media pf.pad).flags &&& MEDIA_PAD_FL_SOURCE ≠ 0
    · rw [if_pos hs] at h1 ⊢
      exact set_crop_failed sd w pf.pad pf.crop h1
    · rw [if_neg hs] at h1
      exact absurd h1 (by decide : ¬ (0 : Int) < 0)
  · intro h1 h2
    refine ⟨by rw [key, if_neg h1, if_pos h2], ?_⟩
    exact failedOn_of_calls sd w _ _ _ (crop_on_source_calls sd w pf)
      (set_format_failed sd _ pf.pad pf.format h2)
  · intro h1 h2 h3
    refine ⟨by rw [key, if_neg h1, if_neg h2, if_pos h3], ?_⟩
    unfold crop_on_sink at h3 ⊢
    by_cases hs : (padAt w.media pf.pad).flags &&& MEDIA_PAD_FL_SINK ≠ 0
    · rw [if_pos hs] at h3 ⊢
      exact failedOn_of_calls sd w _ _ _ (format_on_pad_calls sd w pf)
        (set_crop_failed sd _ pf.pad _ h3)
    · rw [if_neg hs] at h3
      exact absurd h3 (by decide : ¬ (0 : Int) < 0)
  · intro h1 h2 h3 h4
    refine ⟨by rw [key, if_neg h1, if_neg h2, if_neg h3, if_pos h4], ?_⟩
    exact failedOn_of_calls sd w _ _ _ (crop_on_sink_calls sd w pf)
      (set_frame_interval_failed sd _ _ pf.interval h4)
  · intro hneg
    constructor
    · have he := setup_format_eq sd w p
      rw [hparse] at he
      simp only at he
      by_cases hf : (format_steps sd w pf).1 < 0
      · rw [if_pos hf] at he
        rw [he]
        exact (format_steps_spec sd w pf).2.2.1
      · rw [if_neg hf] at he
        rw [he] at hneg
        exact absurd hneg (by decide : ¬ (0 : Int) < 0)
    · intro fw0 p0 hA
      rw [setup_formats_eq_list_loop]
      exact list_loop_failure (setup_format sd) (setup_format_length_le sd) fw0 p0 w p hA hneg

/-- Witness of C34: the device node of "Sensor" refuses the set-format call;
the descriptor of pad 0 of "Sensor" with a format, a crop rectangle and a frame
interval ends with that call, after the set-crop call of the first step. -/
theorem C34_step_failure_stops_setup_witness :
    setup_format (refusing_subdev 0) isp_world
        (quoted "Sensor" ++ ":0[UYVY 640x480 (0,0)/640x480@30/1]".toList) =
      ((format_on_pad (refusing_subdev 0) isp_world vga_pad_format).1,
       (format_on_pad (refusing_subdev 0) isp_world vga_pad_format).2.1,
       quoted "Sensor" ++ ":0[UYVY 640x480 (0,0)/640x480@30/1]".toList) ∧
    FailedOn (refusing_subdev 0) isp_world
      (format_on_pad (refusing_subdev 0) isp_world vga_pad_format).2.1
      (format_on_pad (refusing_subdev 0) isp_world vga_pad_format).1 :=
  (C34_step_failure_stops_setup (refusing_subdev 0) isp_world
    (quoted "Sensor" ++ ":0[UYVY 640x480 (0,0)/640x480@30/1]".toList) vga_pad_format
    (by decide)).2.1 (by decide) (by decide)

/-- An example for C34: with the refused set-format call on "Sensor",
`setup_formats` on a list of two descriptors returns `-EINVAL`, the errno of
the refusal, after the calls `open`, set-crop and set-format on "Sensor": no
frame interval is set, nothing is propagated to "ISP" and the second descriptor
is not processed. -/
theorem step_failure_example :
    setup_formats (refusing_subdev 0) isp_world
        (quoted "Sensor" ++ ":0[UYVY 640x480 (0,0)/640x480@30/1],".toList ++
          quoted "ISP" ++ ":1[UYVY 640x480]".toList) =
      some (-22,
        { media := modifyEntity (isp_graph 1 MEDIA_ENT_T_V4L2_SUBDEV) 0
            (fun x => { x with fd := 10 }),
          calls := [subdev_request.open_node 0,
            subdev_request.s_crop 0 0 { left := 0, top := 0, width := 640, height := 480 },
            subdev_request.s_fmt 0 0 { width := 640, height := 480, code := 0x200f }] }) := by
  decide

/-! ## C35: the link that `parse_link` finds and the link that `media_setup_link` finds -/

theorem findIdx_congr_mem {α : Type} (p q : α → Bool) :
    ∀ l : List α, (∀ x ∈ l, p x = q x) → l.findIdx p = l.findIdx q := by
  intro l
  induction l with
  | nil => intro _; rfl
  | cons a l ih =>
    intro h
    rw [List.findIdx_cons, List.findIdx_cons, h a (List.mem_cons_self a l),
      ih (fun x hx => h x (List.mem_cons_of_mem a hx))]

theorem padsIdentified_of_inPlace (m : media_device) (h : PadsInPlace m) :
    PadsIdentified m := by
  intro p q hp hq he hi
  have a := h p ((mem_allPadRefs m p).2 hp)
  have b := h q ((mem_allPadRefs m q).2 hq)
  have h1 : p.ent = q.ent := a.1.symm.trans (he.trans b.1)
  have h2 : p.pos = q.pos := a.2.symm.trans (hi.trans b.2)
  cases p
  cases q
  simp only at h1 h2
  rw [h1, h2]

theorem entityAt_mem (m : media_device) (e : Nat) (h : e < m.entities.length) :
    entityAt m e ∈ m.entities := by
  unfold entityAt
  rw [List.getElem?_eq_getElem h]
  exact List.getElem_mem h

theorem mem_links_stored (m : media_device) (hends : LinkEndsStored m) (e : Nat)
    (l : media_link) (hl : l ∈ (entityAt m e).links) :
    ValidPad m l.source ∧ ValidPad m l.sink := by
  by_cases he : e < m.entities.length
  · exact hends _ (entityAt_mem m e he) l hl
  · rw [entityAt_default_of_le m e (Nat.le_of_not_lt he)] at hl
    exact absurd hl (List.not_mem_nil _)

/-- What `parse_link` returns: the first link of the list of the entity of the
source pad whose source and sink are the two pads that `parse_pad` has
returned. -/
theorem parse_link_some (m : media_device) (p : List Char) (L : LinkRef) (endp : List Char)
    (h : parse_link m p = some (L, endp)) :
    ∃ source sink,
      (entityAt m (padAt m source).entity).links.findIdx
          (fun link => decide (link.source = source ∧ link.sink = sink)) <
        (entityAt m (padAt m source).entity).links.length ∧
      L = linkRef m (padAt m source).entity
        ((entityAt m (padAt m source).entity).links.findIdx
          (fun link => decide (link.source = source ∧ link.sink = sink))) := by
  unfold parse_link at h
  cases hs : parse_pad m p with
  | none => rw [hs] at h; exact absurd h (by simp)
  | some r1 =>
    obtain ⟨source, e1⟩ := r1
    rw [hs] at h
    simp only at h
    by_cases hc : cur e1 ≠ '-' ∨ cur e1.tail ≠ '>'
    · rw [if_pos hc] at h; exact absurd h (by simp)
    · rw [if_neg hc] at h
      cases hk : parse_pad m e1.tail.tail with
      | none => rw [hk] at h; exact absurd h (by simp)
      | some r2 =>
        obtain ⟨sink, e2⟩ := r2
        rw [hk] at h
        simp only at h
        refine ⟨source, sink, ?_⟩
        by_cases hi : (entityAt m (padAt m source).entity).links.findIdx
            (fun link => decide (link.source = source ∧ link.sink = sink)) <
            (entityAt m (padAt m source).entity).links.length
        · rw [if_pos hi] at h
          refine ⟨hi, ?_⟩
          have h1 := Option.some.inj h
          exact (congrArg Prod.fst h1).symm
        · rw [if_neg hi] at h; exact absurd h (by simp)

/-- In a graph whose pads are in place and whose links end at stored pads, the
search of `media_setup_link`, on the entity and index fields, ends on the link
that `parse_link` has found by comparing the pad pointers. -/
theorem found_link_of_parse_link (m : media_device) (p : List Char) (L : LinkRef)
    (endp : List Char) (hplace : PadsInPlace m) (hends : LinkEndsStored m)
    (hparse : parse_link m p = some (L, endp)) :
    ValidLink m L ∧ found_link m (linkAt m L).source (linkAt m L).sink = L := by
  obtain ⟨source, sink, hi, hL⟩ := parse_link_some m p L endp hparse
  have hget := List.findIdx_getElem (w := hi)
  have hmem := List.getElem_mem hi
  have hat : linkAt m L = (entityAt m (padAt m source).entity).links[
      (entityAt m (padAt m source).entity).links.findIdx
        (fun link => decide (link.source = source ∧ link.sink = sink))] := by
    rw [hL, linkAt_linkRef, List.getElem?_eq_getElem hi]
    rfl
  have hsame : (linkAt m L).source = source ∧ (linkAt m L).sink = sink := by
    rw [hat]
    simpa using hget
  have hv : ValidLink m L := by
    rw [hL]
    exact validLink_linkRef m _ _ hi
  refine ⟨hv, ?_⟩
  rw [hsame.1, hsame.2]
  have hvs := mem_links_stored m hends _ _ hmem
  rw [← hat, hsame.1, hsame.2] at hvs
  have hid := padsIdentified_of_inPlace m hplace
  have hidx : find_link_index m source sink =
      (entityAt m (padAt m source).entity).links.findIdx
        (fun link => decide (link.source = source ∧ link.sink = sink)) := by
    unfold find_link_index
    apply findIdx_congr_mem
    intro l hl
    have hvl := mem_links_stored m hends _ l hl
    have hiff := link_matches_iff_same_pads m source sink l hid hvs.1 hvs.2 hvl.1 hvl.2
    cases hm : link_matches m source sink l with
    | true => exact (decide_eq_true (hiff.1 hm)).symm
    | false =>
      symm
      apply decide_eq_false
      intro hc
      rw [hiff.2 hc] at hm
      exact Bool.noConfusion hm
  unfold found_link
  rw [hidx, hL]

/-- C35: in a graph in which every stored pad has its position as index and its
entity as back pointer, and every link ends at stored pads, when `parse_link`
returns the link `L`, `media_setup_link` called on the source and sink of `L`
finds `L`: it sends the request to the device, returns the negative value of
the device or 0, and on 0 stores the confirmed flags in `L` and in the twin of
`L`. -/
theorem C35_parse_link_agrees_with_setup (dev : Device) (w : World) (p : List Char)
    (L : LinkRef) (endp : List Char) (flags : Nat) (hplace : PadsInPlace w.media)
    (hends : LinkEndsStored w.media) (hparse : parse_link w.media p = some (L, endp)) :
    ValidLink w.media L ∧
    found_link w.media (linkAt w.media L).source (linkAt w.media L).sink = L ∧
    (media_setup_link dev w (linkAt w.media L).source (linkAt w.media L).sink flags).2.trace =
      w.trace ++
        [setup_link_request w.media (linkAt w.media L).source (linkAt w.media L).sink flags] ∧
    ((media_setup_link dev w (linkAt w.media L).source (linkAt w.media L).sink flags).1 = 0 →
      (media_setup_link dev w (linkAt w.media L).source (linkAt w.media L).sink
          flags).2.media =
        setLinkFlags
          (setLinkFlags w.media L
            (dev w.trace (setup_link_request w.media (linkAt w.media L).source
              (linkAt w.media L).sink flags)).flags)
          (linkAt w.media L).twin
          (dev w.trace (setup_link_request w.media (linkAt w.media L).source
            (linkAt w.media L).sink flags)).flags) := by
  obtain ⟨hv, hf⟩ := found_link_of_parse_link w.media p L endp hplace hends hparse
  have hne : find_link_index w.media (linkAt w.media L).source (linkAt w.media L).sink ≠
      (entityAt w.media (padAt w.media (linkAt w.media L).source).entity).num_links :=
    found_link_index_ne w.media _ _ (by rw [hf]; exact hv)
  refine ⟨hv, hf, ?_, ?_⟩
  · by_cases hd : (dev w.trace (setup_link_request w.media (linkAt w.media L).source
        (linkAt w.media L).sink flags)).ret < 0
    · rw [media_setup_link_failure dev w _ _ flags hne hd]
    · rw [media_setup_link_success dev w _ _ flags hne hd]
  · intro h0
    by_cases hd : (dev w.trace (setup_link_request w.media (linkAt w.media L).source
        (linkAt w.media L).sink flags)).ret < 0
    · rw [media_setup_link_failure dev w _ _ flags hne hd] at h0
      simp only at h0
      rw [h0] at hd
      exact absurd hd (by decide)
    · rw [media_setup_link_success dev w _ _ flags hne hd, hf]

/-- Witness of C35: the descriptor "Sensor":0->"Processor":0 on the named
sensor graph. -/
theorem C35_parse_link_agrees_with_setup_witness :
    found_link (named_graph 0) (linkAt (named_graph 0) ⟨0, 0, 0⟩).source
      (linkAt (named_graph 0) ⟨0, 0, 0⟩).sink = ⟨0, 0, 0⟩ :=
  (C35_parse_link_agrees_with_setup echo_device { media := named_graph 0 }
    (quoted "Sensor" ++ ":0->".toList ++ quoted "Processor" ++ ":0".toList) ⟨0, 0, 0⟩ [] 1
    (by decide) (by decide) (by decide)).2.1

/-! ## C36: what `media_setup_link` leaves unchanged -/

/-- C36: a call of `media_setup_link` changes at most flags of links: the
graph after the call has the entities, the descriptors, the pads, the link
lists and the source, sink and twin of every link of the graph before; and the
flags of every link other than the matched link and its twin are those before
the call. -/
theorem C36_setup_link_frame (dev : Device) (w : World) (source sink : PadRef)
    (flags : Nat) :
    SameShape w.media (media_setup_link dev w source sink flags).2.media ∧
    ∀ X, X ≠ found_link w.media source sink →
      X ≠ (linkAt w.media (found_link w.media source sink)).twin →
      (linkAt (media_setup_link dev w source sink flags).2.media X).flags =
        (linkAt w.media X).flags := by
  refine ⟨media_setup_link_sameShape dev w source sink flags, ?_⟩
  intro X hX hT
  by_cases h : find_link_index w.media source sink =
      (entityAt w.media (padAt w.media source).entity).num_links
  · rw [media_setup_link_not_found dev w source sink flags h]
  · by_cases hd : (dev w.trace (setup_link_request w.media source sink flags)).ret < 0
    · rw [media_setup_link_failure dev w source sink flags h hd]
    · rw [media_setup_link_success dev w source sink flags h hd]
      simp only
      rw [flags_after_setup w.media _ _ X _ (found_link_valid w.media source sink h)]
      apply if_neg
      rintro (hc | hc)
      · exact hX hc
      · exact hT hc.1

/-- An example for C36 on the graph with a link inside one entity and a link
from a second entity: the request on the link of the second entity leaves the
flags of the link inside the first. -/
theorem setup_link_frame_example :
    (linkAt (media_setup_link echo_device { media := growing_graph } ⟨1, 0⟩ ⟨0, 0⟩ 1).2.media
      ⟨0, 1, 0⟩).flags = 0 ∧
    (linkAt (media_setup_link echo_device { media := growing_graph } ⟨1, 0⟩ ⟨0, 0⟩ 1).2.media
      ⟨1, 0, 0⟩).flags = 1 := by
  decide

/-! ## C37: a second run of `media_reset_links` -/

theorem reset_target_idem (f : Nat) : reset_target (reset_target f) = reset_target f := by
  unfold reset_target
  by_cases h : f &&& MEDIA_LNK_FL_IMMUTABLE = 0
  · rw [if_pos h, if_pos (by rw [not_enabled_and_immutable]; exact h), not_enabled_idem]
  · rw [if_neg h, if_neg h]

theorem reset_target_lt (f : Nat) (h : f < 4294967296) : reset_target f < 4294967296 := by
  unfold reset_target
  split
  · exact lt_of_le_of_lt Nat.and_le_left h
  · exact h

/-- The graph that a run of `media_reset_links` leaves for an enumerated graph
has the properties of an enumerated graph. -/
theorem enumeratedGraph_after_reset (m m1 : media_device) (hG : EnumeratedGraph m)
    (hS : SameShape m m1)
    (hf : ∀ L, ValidLink m L → (linkAt m1 L).flags = reset_target (linkAt m L).flags) :
    EnumeratedGraph m1 := by
  have hv : ∀ L, ValidLink m1 L → ValidLink m L := fun L h => (hS.validLink_iff L).1 h
  have hsrc : ∀ L, (linkAt m1 L).source = (linkAt m L).source := fun L => (hS.2.2.2 L).1
  have hsnk : ∀ L, (linkAt m1 L).sink = (linkAt m L).sink := fun L => (hS.2.2.2 L).2.1
  have htw : ∀ L, (linkAt m1 L).twin = (linkAt m L).twin := fun L => (hS.2.2.2 L).2.2
  constructor
  · intro L hL1
    have hL := hv L hL1
    obtain ⟨tv, tt, tf⟩ := hG.twins L hL
    rw [htw L]
    refine ⟨(hS.validLink_iff _).2 tv, ?_, ?_⟩
    · rw [htw]; exact tt
    · rw [hf L hL, hf _ tv, tf]
  · intro L hL1
    have hL := hv L hL1
    rw [htw L, hsrc, hsrc, hsnk, hsnk]
    exact hG.twin_ends L hL
  · intro L hL1
    have hL := hv L hL1
    rw [hsrc, hsnk]
    exact ⟨(hS.validPad_iff _).2 (hG.pads_valid L hL).1,
      (hS.validPad_iff _).2 (hG.pads_valid L hL).2⟩
  · intro p q hp hq he hi
    rw [hS.padAt_eq, hS.padAt_eq] at he hi
    exact hG.pads_identified p q ((hS.validPad_iff p).1 hp) ((hS.validPad_iff q).1 hq) he hi
  · intro L1 L2 h1 h2 hs hk
    rw [hsrc, hsrc] at hs
    rw [hsnk, hsnk] at hk
    rw [htw]
    exact hG.unique L1 L2 (hv L1 h1) (hv L2 h2) hs hk
  · intro L hL1
    rw [hS.padAt_eq, hsrc, htw]
    exact hG.source_side L (hv L hL1)
  · intro L hL1
    rw [hf L (hv L hL1)]
    exact reset_target_lt _ (hG.u32 L (hv L hL1))

/-- C37: for a graph built by enumeration and a device that accepts every
request and confirms the flags it was sent, a second run of `media_reset_links`
right after the first returns 0 and leaves in every link the flags that the
first run has left. -/
theorem C37_reset_links_idempotent (dev : Device) (w : World)
    (hG : EnumeratedGraph w.media)
    (hdev : ∀ hist req, 0 ≤ (dev hist req).ret ∧ (dev hist req).flags = req.flags) :
    (media_reset_links dev w).1 = 0 ∧
    (media_reset_links dev (media_reset_links dev w).2).1 = 0 ∧
    ∀ L, (linkAt (media_reset_links dev (media_reset_links dev w).2).2.media L).flags =
      (linkAt (media_reset_links dev w).2.media L).flags := by
  obtain ⟨h0, hS, hf⟩ := media_reset_links_target dev w hG hdev
  have hG1 := enumeratedGraph_after_reset w.media _ hG hS hf
  obtain ⟨h1, hS1, hf1⟩ := media_reset_links_target dev (media_reset_links dev w).2 hG1 hdev
  refine ⟨h0, h1, ?_⟩
  intro L
  by_cases hL : ValidLink w.media L
  · have hL1 : ValidLink (media_reset_links dev w).2.media L := (hS.validLink_iff L).2 hL
    rw [hf1 L hL1, hf L hL, reset_target_idem]
  · have hL1 : ¬ ValidLink (media_reset_links dev w).2.media L :=
      fun h => hL ((hS.validLink_iff L).1 h)
    have hL2 : ¬ ValidLink (media_reset_links dev (media_reset_links dev w).2).2.media L :=
      fun h => hL1 ((hS1.validLink_iff L).1 h)
    rw [linkAt_default_of_not_valid _ L hL1, linkAt_default_of_not_valid _ L hL2]

/-- Witness of C37: two runs on the sensor graph with an enabled link and the
echoing device. -/
theorem C37_reset_links_idempotent_witness :
    (media_reset_links echo_device { media := sensor_graph 1 }).1 = 0 ∧
    (media_reset_links echo_device
      (media_reset_links echo_device { media := sensor_graph 1 }).2).1 = 0 ∧
    ∀ L, (linkAt (media_reset_links echo_device
        (media_reset_links echo_device { media := sensor_graph 1 }).2).2.media L).flags =
      (linkAt (media_reset_links echo_device { media := sensor_graph 1 }).2.media L).flags :=
  C37_reset_links_idempotent echo_device { media := sensor_graph 1 }
    (enumeratedGraph_of_check _ (by decide)) (fun _ _ => ⟨Int.le_refl 0, rfl⟩)

/-! ## C38: the table of pixel codes -/

/-- C38: the table has 21 entries; every name of the table is found again from
the code that `string_to_pixelcode` gives for it, and every code of the table
from the name that `pixelcode_to_string` gives for it; no name of the table
matches an earlier entry, on the length of the name; and the name "unknown",
which `pixelcode_to_string` gives for a code that is not in the table, has no
code. -/
theorem C38_pixelcode_table_round_trip :
    mbus_formats.length = 21 ∧
    (∀ e ∈ mbus_formats, pixelcode_to_string (string_to_pixelcode e.1 e.1.length) = e.1) ∧
    (∀ e ∈ mbus_formats,
      string_to_pixelcode (pixelcode_to_string e.2) (pixelcode_to_string e.2).length = e.2) ∧
    mbus_formats.Pairwise (fun a b => strncmp a.1 b.1 b.1.length ≠ 0) ∧
    pixelcode_to_string 0 = "unknown".toList ∧
    string_to_pixelcode "unknown".toList "unknown".toList.length = -1 := by
  decide

/-! ## C39: the pads of the links that enumeration stores -/

/-- C39: the sensor reports a link to pad 7 of the processor, which has two
pads; `media_open` succeeds and both copies of the link are stored with the
sink `&sink->pads[7]`, which is no stored pad. -/
theorem C39_out_of_range_pad_is_stored :
    media_open stray_pad_env 3 = some (some stray_pad_graph) ∧
    (entityAt stray_pad_graph 1).info.pads = 2 ∧
    (entityAt stray_pad_graph 1).pads.length = 2 ∧
    (linkAt stray_pad_graph ⟨0, 0, 0⟩).sink = ⟨1, 7⟩ ∧
    (linkAt stray_pad_graph ⟨1, 0, 0⟩).sink = ⟨1, 7⟩ ∧
    ¬ ValidPad stray_pad_graph ⟨1, 7⟩ := by
  decide

/-! ## C40: the capacity of a list of links -/

/-- An example for C40: for the entity that has reported 0 pads and 0 links,
`num_links` and `max_links` are 0, the list is grown to 0 slots, for which
`realloc` returns NULL, and `media_entity_add_link` returns NULL and leaves the
graph as it is. -/
theorem add_link_zero_capacity_example :
    (entityAt padless_graph 0).num_links = 0 ∧
    (entityAt padless_graph 0).max_links = 0 ∧
    media_entity_add_link (sensor_env 0) padless_graph 0 = (padless_graph, none) := by
  decide

end MediaCtl
